import Mathlib

/-!
# DX12Lib command recorder: a shallow embedding

The definitions below follow `DX12Lib/src/CommandList.cpp`,
`DX12Lib/src/Resource.cpp` and the frame pacing of
`Samples/05-afr/src/main.cpp`.  A recorder is a record of the fields of
`CommandList`; every call the recorder makes on one of its collaborators (the
underlying D3D12 command list, the resource state tracker, the dynamic
descriptor heaps, the device) is appended, in program order, to the
recorder's `log`.  A `Resource` is the record of its fields, the sample the
record of the globals its `Present` reads and writes.  Machine integers are
natural numbers, reduced modulo `2^32` or `2^64` where the C++ arithmetic can
wrap.
-/

namespace DX12Lib

/-! ## D3D12 constants (values of `d3d12.h`) -/

def D3D12_RESOURCE_STATE_COMMON : Nat := 0x0
def D3D12_RESOURCE_STATE_VERTEX_AND_CONSTANT_BUFFER : Nat := 0x1
def D3D12_RESOURCE_STATE_INDEX_BUFFER : Nat := 0x2
def D3D12_RESOURCE_STATE_RENDER_TARGET : Nat := 0x4
def D3D12_RESOURCE_STATE_UNORDERED_ACCESS : Nat := 0x8
def D3D12_RESOURCE_STATE_DEPTH_WRITE : Nat := 0x10
def D3D12_RESOURCE_STATE_NON_PIXEL_SHADER_RESOURCE : Nat := 0x40
def D3D12_RESOURCE_STATE_COPY_DEST : Nat := 0x400
def D3D12_RESOURCE_STATE_COPY_SOURCE : Nat := 0x800
def D3D12_RESOURCE_STATE_RESOLVE_DEST : Nat := 0x1000
def D3D12_RESOURCE_STATE_RESOLVE_SOURCE : Nat := 0x2000
def D3D12_RESOURCE_STATE_GENERIC_READ : Nat := 0xAC3

def D3D12_RESOURCE_BARRIER_ALL_SUBRESOURCES : Nat := 0xffffffff

def D3D12_DESCRIPTOR_HEAP_TYPE_CBV_SRV_UAV : Nat := 0
def D3D12_DESCRIPTOR_HEAP_TYPE_NUM_TYPES : Nat := 4

def D3D12_RESOURCE_DIMENSION_TEXTURE2D : Nat := 3

def D3D12_RESOURCE_FLAG_ALLOW_RENDER_TARGET : Nat := 0x1
def D3D12_RESOURCE_FLAG_ALLOW_DEPTH_STENCIL : Nat := 0x2
def D3D12_RESOURCE_FLAG_ALLOW_UNORDERED_ACCESS : Nat := 0x4

def D3D12_HEAP_TYPE_DEFAULT : Nat := 1
def D3D12_HEAP_TYPE_UPLOAD : Nat := 2

/-- Truncation to a 32-bit unsigned integer (`UINT`, `uint32_t`, `DWORD`). -/
def u32 (x : Nat) : Nat := x % 4294967296

/-- Truncation to a 64-bit unsigned integer (`UINT64`, `size_t`). -/
def u64 (x : Nat) : Nat := x % 18446744073709551616

/-- Values of `D3D12_COMMAND_LIST_TYPE`. -/
inductive D3D12_COMMAND_LIST_TYPE where
  | DIRECT
  | BUNDLE
  | COMPUTE
  | COPY
deriving DecidableEq, Repr

/-! ## Resources -/

/-- The fields of `D3D12_RESOURCE_DESC` the recorder reads.  `Width` is a
`UINT64`, `Height` a `UINT`, `DepthOrArraySize` and `MipLevels` are `UINT16`,
`SampleCount` is `SampleDesc.Count`. -/
structure D3D12_RESOURCE_DESC where
  Dimension : Nat
  Width : Nat
  Height : Nat
  DepthOrArraySize : Nat
  MipLevels : Nat
  Format : Nat
  SampleCount : Nat
  Flags : Nat
deriving DecidableEq, Repr

/-- A `CD3DX12AffinityResource` object: its identity and what `GetDesc()`
returns.  A `ComPtr` to one is an `Option`: `none` is the null pointer. -/
structure D3D12Resource where
  id : Nat
  desc : D3D12_RESOURCE_DESC
deriving DecidableEq, Repr

/-- What a `ComPtr<CD3DX12AffinityObject>` handed to `TrackResource` points to. -/
inductive D3D12Object where
  | resource (r : D3D12Resource)
  | heap (id : Nat)
  | pipelineState (id : Nat)
  | rootSignature (id : Nat)
deriving DecidableEq, Repr

/-- The part of a `Texture` (a `Resource`) the recorder reads: the underlying
resource, the answer of `CheckUAVSupport()` on the queried format
capabilities, and the texture usage. -/
structure Texture where
  m_d3d12Resource : Option D3D12Resource
  uavSupport : Bool
  m_TextureUsage : Nat
deriving DecidableEq, Repr

def Texture.GetD3D12Resource (t : Texture) : Option D3D12Resource := t.m_d3d12Resource

def Texture.CheckUAVSupport (t : Texture) : Bool := t.uavSupport

/-- Implementation of `Texture::IsValid` is the null test on the resource. -/
def Texture.IsValid (t : Texture) : Bool := t.m_d3d12Resource.isSome

/-! ## Barriers, descriptors, commands and the log -/

/-- A `CD3DX12_AFFINITY_RESOURCE_BARRIER`. -/
inductive Barrier where
  | Transition (resource : D3D12Resource) (stateBefore stateAfter subresource : Nat)
  | UAV (resource : Option D3D12Resource)
  | Aliasing (resourceBefore resourceAfter : Option D3D12Resource)
deriving DecidableEq, Repr

/-- The constant buffer `GenerateMipsCB`.  `TexelSize` is `1.0f / dst`; the
record keeps the two denominators. -/
structure GenerateMipsCB where
  SrcMipLevel : Nat
  NumMipLevels : Nat
  SrcDimension : Nat
  IsSRGB : Bool
  TexelSizeDenomX : Nat
  TexelSizeDenomY : Nat
deriving DecidableEq, Repr

/-- The constant buffer `PanoToCubemapCB`. -/
structure PanoToCubemapCB where
  CubemapSize : Nat
  FirstMip : Nat
  NumMips : Nat
deriving DecidableEq, Repr

/-- A CPU descriptor handle staged into a descriptor table: the view of a
resource (with the fields of the view description the recorder sets), or the
block of default UAVs of a pipeline state object. -/
inductive Descriptor where
  | SRV (resource : Option D3D12Resource) (format mipLevels : Option Nat)
  | UAV (resource : Option D3D12Resource) (format mipSlice : Option Nat)
  | DefaultUAV (pso : Option Nat)
  | RTV (resource : Option D3D12Resource)
  | DSV (resource : Option D3D12Resource)
deriving DecidableEq, Repr

/-- A call on the underlying `m_d3d12CommandList`. -/
inductive Command where
  | ResourceBarrier (barrier : Barrier)
  | CopyResource (dst src : Option D3D12Resource)
  | ResolveSubresource (dst : Option D3D12Resource) (dstSubresource : Nat)
      (src : Option D3D12Resource) (srcSubresource : Nat) (format : Nat)
  | UpdateSubresources (dst intermediate : Option D3D12Resource)
      (firstSubresource numSubresources : Nat)
  | SetPipelineState (pso : Option Nat)
  | SetGraphicsRootSignature (rootSignature : Option Nat)
  | SetComputeRootSignature (rootSignature : Option Nat)
  | SetComputeRoot32BitConstantsMips (rootParameterIndex : Nat) (cb : GenerateMipsCB)
  | SetComputeRoot32BitConstantsPano (rootParameterIndex : Nat) (cb : PanoToCubemapCB)
  | ClearRenderTargetView (rtv : Descriptor)
  | ClearDepthStencilView (dsv : Descriptor) (clearFlags : Nat)
  | IASetVertexBuffers (slot : Nat) (buffer : Option D3D12Resource)
  | IASetIndexBuffer (buffer : Option D3D12Resource)
  | OMSetRenderTargets (rtvs : List Descriptor) (dsv : Option Descriptor)
  | DrawInstanced (vertexCount instanceCount startVertex startInstance : Nat)
  | DrawIndexedInstanced (indexCount instanceCount startIndex : Nat) (baseVertex : Int)
      (startInstance : Nat)
  | Dispatch (numGroupsX numGroupsY numGroupsZ : Nat)
  | Close
  | Reset
  | IASetPrimitiveTopology (primitiveTopology : Nat)
  | SetGraphicsRootConstantBufferView (rootParameterIndex bufferLocation : Nat)
  | SetGraphicsRoot32BitConstants (rootParameterIndex numConstants constants : Nat)
  | SetComputeRoot32BitConstants (rootParameterIndex numConstants constants : Nat)
  | IASetVertexBuffersView (slot bufferLocation sizeInBytes strideInBytes : Nat)
  | IASetIndexBufferView (bufferLocation sizeInBytes format : Nat)
  | SetGraphicsRootShaderResourceView (slot bufferLocation : Nat)
  | RSSetViewports (numViewports : Nat)
  | RSSetScissorRects (numRects : Nat)
  | SetDescriptorHeaps (descriptorHeaps : List Nat)
deriving DecidableEq, Repr

/-- One entry of a recorder's log: a call made on a collaborator. -/
inductive Event where
  /-- Call `m_d3d12CommandList->...` -/
  | Command (c : Command)
  /-- Call `m_ResourceStateTracker->ResourceBarrier(barrier)` -/
  | ResourceBarrier (barrier : Barrier)
  /-- Call `m_ResourceStateTracker->TransitionResource(resource, stateAfter)` -/
  | TransitionResource (resource : Option D3D12Resource) (stateAfter : Nat)
  /-- Call `m_ResourceStateTracker->FlushResourceBarriers(*this)` -/
  | FlushResourceBarriers
  /-- Call `ResourceStateTracker::AddGlobalResourceState(resource, state)` -/
  | AddGlobalResourceState (resource : Option D3D12Resource) (state : Nat)
  /-- Call `m_DynamicDescriptorHeap[heapType]->ParseRootSignature(rootSignature)` -/
  | ParseRootSignature (heapType : Nat) (rootSignature : Option Nat)
  /-- Call `m_DynamicDescriptorHeap[heapType]->StageDescriptors(rootParameterIndex, offset, numDescriptors, src)` -/
  | StageDescriptors (heapType rootParameterIndex offset numDescriptors : Nat) (src : Descriptor)
  /-- Call `m_DynamicDescriptorHeap[heapType]->CommitStagedDescriptorsForDraw(*this)` -/
  | CommitStagedDescriptorsForDraw (heapType : Nat)
  /-- Call `m_DynamicDescriptorHeap[heapType]->CommitStagedDescriptorsForDispatch(*this)` -/
  | CommitStagedDescriptorsForDispatch (heapType : Nat)
  /-- Call `m_TrackedObjects.push_back(object)` -/
  | TrackResource (object : Option D3D12Object)
  /-- Call `device->CreateCommittedResource(heapType, desc, initialState)` and its result -/
  | CreateCommittedResource (heapType : Nat) (desc : D3D12_RESOURCE_DESC) (initialState : Nat)
      (result : Option D3D12Resource)
  /-- Call `device->CreateHeap` and its result -/
  | CreateHeap (result : Option Nat)
  /-- Call `device->CreatePlacedResource(heap, 0, desc, initialState)` and its result -/
  | CreatePlacedResource (heap : Nat) (desc : D3D12_RESOURCE_DESC) (initialState : Nat)
      (result : Option D3D12Resource)
  /-- Call `d3d12Device->CheckFeatureSupport(D3D12_FEATURE_FORMAT_SUPPORT, ...)` of
  `Resource::CheckFeatureSupport` and whether it succeeded -/
  | CheckFeatureSupport (format : Nat) (ok : Bool)
  /-- Call `std::make_unique<GenerateMipsPSOCtor>(m_Device)` -/
  | CreateGenerateMipsPSO
  /-- Call `std::make_unique<PanoToCubemapPSOCtor>(m_Device)` -/
  | CreatePanoToCubemapPSO
  /-- Call `m_UploadBuffer->Allocate(sizeInBytes, alignment)` -/
  | UploadBufferAllocate (sizeInBytes alignment : Nat)
  /-- Call `m_ResourceStateTracker->FlushPendingResourceBarriers(pendingCommandList)` and
  the number it returns -/
  | FlushPendingResourceBarriers (numPendingBarriers : Nat)
  /-- Call `m_ResourceStateTracker->CommitFinalResourceStates()` -/
  | CommitFinalResourceStates
  /-- Call `m_d3d12CommandAllocator->Reset()` and whether it succeeded -/
  | CommandAllocatorReset (ok : Bool)
  /-- Call `m_ResourceStateTracker->Reset()` -/
  | ResourceStateTrackerReset
  /-- Call `m_UploadBuffer->Reset()` -/
  | UploadBufferReset
  /-- Call `m_TrackedObjects.clear()` -/
  | ReleaseTrackedObjects
  /-- Call `m_DynamicDescriptorHeap[heapType]->Reset()` -/
  | DynamicDescriptorHeapReset (heapType : Nat)
deriving DecidableEq, Repr

/-! ## The resource state tracker -/

/-- Modelled from the spec: the state of a `ResourceStateTracker`
(`ResourceStateTracker.cpp` is not part of the sources).  Per recorder: the
pending list of `(resource, subresource, stateAfter)`, the current barrier
list, and the final map from `(resource, subresource)` to a state, where the
subresource `D3D12_RESOURCE_BARRIER_ALL_SUBRESOURCES` is the wildcard entry. -/
structure ResourceStateTracker where
  m_PendingResourceBarriers : List (D3D12Resource × Nat × Nat)
  m_ResourceBarriers : List Barrier
  m_FinalResourceState : List ((D3D12Resource × Nat) × Nat)
deriving DecidableEq, Repr

namespace ResourceStateTracker

/-- The entry of the final map for a subresource: its own entry, else the
wildcard entry of its resource. -/
def finalState (t : ResourceStateTracker) (res : D3D12Resource) (sub : Nat) : Option Nat :=
  match t.m_FinalResourceState.lookup (res, sub) with
  | some s => some s
  | none => t.m_FinalResourceState.lookup (res, D3D12_RESOURCE_BARRIER_ALL_SUBRESOURCES)

/-- The per-subresource entries of a resource in the final map. -/
def subresourceEntries (t : ResourceStateTracker) (res : D3D12Resource) :
    List ((D3D12Resource × Nat) × Nat) :=
  t.m_FinalResourceState.filter
    (fun e => e.1.1 = res ∧ e.1.2 ≠ D3D12_RESOURCE_BARRIER_ALL_SUBRESOURCES)

/-- Write one entry of the final map. -/
def setFinal (t : ResourceStateTracker) (res : D3D12Resource) (sub state : Nat) :
    ResourceStateTracker :=
  { t with m_FinalResourceState :=
      ((res, sub), state) :: t.m_FinalResourceState.filter (fun e => e.1 ≠ (res, sub)) }

/-- Collapse the entries of a resource into a single wildcard entry. -/
def collapse (t : ResourceStateTracker) (res : D3D12Resource) (state : Nat) :
    ResourceStateTracker :=
  { t with m_FinalResourceState :=
      ((res, D3D12_RESOURCE_BARRIER_ALL_SUBRESOURCES), state) ::
        t.m_FinalResourceState.filter (fun e => e.1.1 ≠ res) }

/-- Modelled from the spec: `transition(resource, subresource, stateAfter)`
(section 4.3).  A known subresource gets a barrier `finalState → stateAfter`
unless the two are equal; an unknown one gets a pending entry; the final map
is then written.  The wildcard against a mixed per-subresource map first
emits the per-subresource transitions that differ, then collapses the map. -/
def transition (t : ResourceStateTracker) (res : D3D12Resource) (sub stateAfter : Nat) :
    ResourceStateTracker :=
  if sub = D3D12_RESOURCE_BARRIER_ALL_SUBRESOURCES ∧ t.subresourceEntries res ≠ [] then
    let emitted := ((t.subresourceEntries res).filter (fun e => e.2 ≠ stateAfter)).map
      (fun e => Barrier.Transition res e.2 stateAfter e.1.2)
    ({ t with m_ResourceBarriers := t.m_ResourceBarriers ++ emitted }).collapse res stateAfter
  else
    match t.finalState res sub with
    | some finalState =>
      let t1 := if finalState = stateAfter then t else
        { t with m_ResourceBarriers :=
            t.m_ResourceBarriers ++ [Barrier.Transition res finalState stateAfter sub] }
      t1.setFinal res sub stateAfter
    | none =>
      ({ t with m_PendingResourceBarriers :=
          t.m_PendingResourceBarriers ++ [(res, sub, stateAfter)] }).setFinal res sub stateAfter

/-- Modelled from the spec: `ResourceBarrier(barrier)`.  A transition barrier
goes through `transition`; UAV and aliasing barriers are "emitted directly
into the current barrier list". -/
def ResourceBarrier (t : ResourceStateTracker) (b : Barrier) : ResourceStateTracker :=
  match b with
  | Barrier.Transition res _ stateAfter sub => t.transition res sub stateAfter
  | b => { t with m_ResourceBarriers := t.m_ResourceBarriers ++ [b] }

/-- Modelled from the spec: `flushBarriers()` "drains the current barrier list
into the underlying command list"; the result is the drained list and the
tracker left behind. -/
def FlushResourceBarriers (t : ResourceStateTracker) : List Barrier × ResourceStateTracker :=
  (t.m_ResourceBarriers, { t with m_ResourceBarriers := [] })

/-- Modelled from the spec: `Reset()` of the tracker forgets the recording. -/
def Reset (_t : ResourceStateTracker) : ResourceStateTracker :=
  { m_PendingResourceBarriers := [], m_ResourceBarriers := [], m_FinalResourceState := [] }

end ResourceStateTracker

/-! ## The recorder -/

/-- What the recorder reads of a `GenerateMipsPSO` or `PanoToCubemapPSO`
(`GetRootSignature()`, `GetPipelineState()`; `GetDefaultUAV()` is
`Descriptor.DefaultUAV` of the pipeline state). -/
structure PSO where
  m_RootSignature : Option Nat
  m_PipelineState : Option Nat
deriving DecidableEq, Repr

def PSO.GetDefaultUAV (p : PSO) : Descriptor := Descriptor.DefaultUAV p.m_PipelineState

/-- The fields of a `CommandList` other than its kind and its cached compute
command list, and the log of the calls it has made. -/
structure Recorder where
  log : List Event
  m_TrackedObjects : List (Option D3D12Object)
  m_RootSignature : Option Nat
  m_ResourceStateTracker : ResourceStateTracker
  m_GenerateMipsPSO : Option PSO
  m_PanoToCubemapPSO : Option PSO
  m_DescriptorHeaps : List (Option Nat)
deriving DecidableEq, Repr

/-- Declarations the recorder uses that are not part of the sources, taken as
parameters: default arguments of `CommandList.h` and `ResourceStateTracker.h`,
the root parameter indices of `GenerateMipsPSO.h` and `PanoToCubemapPSO.h`,
the pipeline state objects their constructors build, the static format
helpers of `Texture`, `Math::DivideByMultiple`, the device's answer to the
UAV format-support query, the outcome of the device's
creation calls (by ordinal of the call) and the recorder handed out by the
compute queue (by ordinal of the request). -/
structure Env where
  CopyBuffer_flags : Nat
  TransitionBarrier_subresource : Nat
  TransitionBarrier_flushBarriers : Bool
  UAVBarrier_flushBarriers : Bool
  AliasingBarrier_flushBarriers : Bool
  Dispatch_numGroupsZ : Nat
  TransitionResource_subResource : Nat
  SetShaderResourceView_firstSubresource : Nat
  SetShaderResourceView_numSubresources : Nat
  GenerateMips_GenerateMipsCB : Nat
  GenerateMips_SrcMip : Nat
  GenerateMips_OutMip : Nat
  PanoToCubemapRS_PanoToCubemapCB : Nat
  PanoToCubemapRS_SrcTexture : Nat
  PanoToCubemapRS_DstMips : Nat
  generateMipsPSO : PSO
  panoToCubemapPSO : PSO
  GetUAVCompatableFormat : Nat → Nat
  IsSRGBFormat : Nat → Bool
  GetSRGBFormat : Nat → Nat
  DivideByMultiple : Nat → Nat → Nat
  deviceFormatUAVSupport : Nat → Bool
  succeeded : Nat → Bool
  computeQueue_GetCommandList : Nat → Recorder

namespace Recorder

/-- Append one call to the log. -/
def emit (e : Event) (r : Recorder) : Recorder := { r with log := r.log ++ [e] }

/-- Record a call on `m_d3d12CommandList`. -/
def record (c : Command) (r : Recorder) : Recorder := r.emit (Event.Command c)

/-- Call `m_ResourceStateTracker->ResourceBarrier(barrier)`. -/
def tracker_ResourceBarrier (b : Barrier) (r : Recorder) : Recorder :=
  { r with
    log := r.log ++ [Event.ResourceBarrier b]
    m_ResourceStateTracker := r.m_ResourceStateTracker.ResourceBarrier b }

/-- Call `m_ResourceStateTracker->TransitionResource(resource, stateAfter)`, the
tracker's `transition` at its default subresource. -/
def tracker_TransitionResource (env : Env) (resource : Option D3D12Resource) (stateAfter : Nat)
    (r : Recorder) : Recorder :=
  { r with
    log := r.log ++ [Event.TransitionResource resource stateAfter]
    m_ResourceStateTracker :=
      match resource with
      | some res =>
        r.m_ResourceStateTracker.transition res env.TransitionResource_subResource stateAfter
      | none => r.m_ResourceStateTracker }

/-- Source `CommandList::FlushResourceBarriers`: the tracker drains its barrier
list into this command list. -/
def FlushResourceBarriers (r : Recorder) : Recorder :=
  let (barriers, t) := r.m_ResourceStateTracker.FlushResourceBarriers
  { r with
    log := r.log ++ [Event.FlushResourceBarriers] ++
      barriers.map (fun b => Event.Command (Command.ResourceBarrier b))
    m_ResourceStateTracker := t }

/-- Source `CommandList::TransitionBarrier`. -/
def TransitionBarrier (resource : Option D3D12Resource) (stateAfter subresource : Nat)
    (flushBarriers : Bool) (r : Recorder) : Recorder :=
  let r := match resource with
    | some res =>
      r.tracker_ResourceBarrier
        (Barrier.Transition res D3D12_RESOURCE_STATE_COMMON stateAfter subresource)
    | none => r
  if flushBarriers then r.FlushResourceBarriers else r

/-- Source `CommandList::UAVBarrier`. -/
def UAVBarrier (resource : Option D3D12Resource) (flushBarriers : Bool) (r : Recorder) :
    Recorder :=
  let r := r.tracker_ResourceBarrier (Barrier.UAV resource)
  if flushBarriers then r.FlushResourceBarriers else r

/-- Source `CommandList::AliasingBarrier`. -/
def AliasingBarrier (beforeResource afterResource : Option D3D12Resource)
    (flushBarriers : Bool) (r : Recorder) : Recorder :=
  let r := r.tracker_ResourceBarrier (Barrier.Aliasing beforeResource afterResource)
  if flushBarriers then r.FlushResourceBarriers else r

/-- Source `CommandList::TrackResource`. -/
def TrackResource (object : Option D3D12Object) (r : Recorder) : Recorder :=
  { r with
    log := r.log ++ [Event.TrackResource object]
    m_TrackedObjects := r.m_TrackedObjects ++ [object] }

/-- Source `CommandList::TrackResource(const Resource&)`. -/
def TrackResource_res (resource : Option D3D12Resource) (r : Recorder) : Recorder :=
  r.TrackResource (resource.map D3D12Object.resource)

/-- Source `CommandList::CopyResource`. -/
def CopyResource (env : Env) (dstRes srcRes : Option D3D12Resource) (r : Recorder) : Recorder :=
  let r := r.TransitionBarrier dstRes D3D12_RESOURCE_STATE_COPY_DEST
    env.TransitionBarrier_subresource env.TransitionBarrier_flushBarriers
  let r := r.TransitionBarrier srcRes D3D12_RESOURCE_STATE_COPY_SOURCE
    env.TransitionBarrier_subresource env.TransitionBarrier_flushBarriers
  let r := r.FlushResourceBarriers
  let r := r.record (Command.CopyResource dstRes srcRes)
  let r := r.TrackResource_res dstRes
  r.TrackResource_res srcRes

/-- Source `CommandList::ResolveSubresource`. -/
def ResolveSubresource (env : Env) (dstRes srcRes : Texture) (dstSubresource srcSubresource : Nat)
    (dstFormat : Nat) (r : Recorder) : Recorder :=
  let r := r.TransitionBarrier dstRes.GetD3D12Resource D3D12_RESOURCE_STATE_RESOLVE_DEST
    dstSubresource env.TransitionBarrier_flushBarriers
  let r := r.TransitionBarrier srcRes.GetD3D12Resource D3D12_RESOURCE_STATE_RESOLVE_SOURCE
    srcSubresource env.TransitionBarrier_flushBarriers
  let r := r.FlushResourceBarriers
  let r := r.record (Command.ResolveSubresource dstRes.GetD3D12Resource dstSubresource
    srcRes.GetD3D12Resource srcSubresource dstFormat)
  let r := r.TrackResource_res srcRes.GetD3D12Resource
  r.TrackResource_res dstRes.GetD3D12Resource

/-- Source `CommandList::ClearTexture`. -/
def ClearTexture (env : Env) (texture : Texture) (r : Recorder) : Recorder :=
  let r := r.TransitionBarrier texture.GetD3D12Resource D3D12_RESOURCE_STATE_RENDER_TARGET
    env.TransitionBarrier_subresource env.TransitionBarrier_flushBarriers
  let r := r.record (Command.ClearRenderTargetView (Descriptor.RTV texture.GetD3D12Resource))
  r.TrackResource_res texture.GetD3D12Resource

/-- Source `CommandList::ClearDepthStencilTexture`. -/
def ClearDepthStencilTexture (env : Env) (texture : Texture) (clearFlags : Nat) (r : Recorder) :
    Recorder :=
  let r := r.TransitionBarrier texture.GetD3D12Resource D3D12_RESOURCE_STATE_DEPTH_WRITE
    env.TransitionBarrier_subresource env.TransitionBarrier_flushBarriers
  let r := r.record
    (Command.ClearDepthStencilView (Descriptor.DSV texture.GetD3D12Resource) clearFlags)
  r.TrackResource_res texture.GetD3D12Resource

/-- Source `CommandList::SetCompute32BitConstants` at `GenerateMipsCB`. -/
def SetCompute32BitConstants_Mips (rootParameterIndex : Nat) (cb : GenerateMipsCB)
    (r : Recorder) : Recorder :=
  r.record (Command.SetComputeRoot32BitConstantsMips rootParameterIndex cb)

/-- Source `CommandList::SetCompute32BitConstants` at `PanoToCubemapCB`. -/
def SetCompute32BitConstants_Pano (rootParameterIndex : Nat) (cb : PanoToCubemapCB)
    (r : Recorder) : Recorder :=
  r.record (Command.SetComputeRoot32BitConstantsPano rootParameterIndex cb)

/-- Source `CommandList::SetVertexBuffer`; `vertexBuffer` is the buffer's
`GetD3D12Resource()`. -/
def SetVertexBuffer (env : Env) (slot : Nat) (vertexBuffer : Option D3D12Resource)
    (r : Recorder) : Recorder :=
  let r := r.TransitionBarrier vertexBuffer D3D12_RESOURCE_STATE_VERTEX_AND_CONSTANT_BUFFER
    env.TransitionBarrier_subresource env.TransitionBarrier_flushBarriers
  let r := r.record (Command.IASetVertexBuffers slot vertexBuffer)
  r.TrackResource_res vertexBuffer

/-- Source `CommandList::SetIndexBuffer`; `indexBuffer` is the buffer's
`GetD3D12Resource()`. -/
def SetIndexBuffer (env : Env) (indexBuffer : Option D3D12Resource) (r : Recorder) : Recorder :=
  let r := r.TransitionBarrier indexBuffer D3D12_RESOURCE_STATE_INDEX_BUFFER
    env.TransitionBarrier_subresource env.TransitionBarrier_flushBarriers
  let r := r.record (Command.IASetIndexBuffer indexBuffer)
  r.TrackResource_res indexBuffer

/-- Source `CommandList::SetPipelineState`. -/
def SetPipelineState (pipelineState : Option Nat) (r : Recorder) : Recorder :=
  let r := r.record (Command.SetPipelineState pipelineState)
  r.TrackResource (pipelineState.map D3D12Object.pipelineState)

/-- The loop `for i < D3D12_DESCRIPTOR_HEAP_TYPE_NUM_TYPES` calling
`m_DynamicDescriptorHeap[i]->ParseRootSignature(rootSignature)`. -/
def parseRootSignatures (rootSignature : Option Nat) (r : Recorder) : Recorder :=
  (List.range D3D12_DESCRIPTOR_HEAP_TYPE_NUM_TYPES).foldl
    (fun r i => r.emit (Event.ParseRootSignature i rootSignature)) r

/-- Source `CommandList::SetGraphicsRootSignature`; `rootSignature` is
`rootSignature.GetRootSignature().Get()`. -/
def SetGraphicsRootSignature (rootSignature : Option Nat) (r : Recorder) : Recorder :=
  if r.m_RootSignature ≠ rootSignature then
    let r := { r with m_RootSignature := rootSignature }
    let r := r.parseRootSignatures rootSignature
    let r := r.record (Command.SetGraphicsRootSignature r.m_RootSignature)
    r.TrackResource (r.m_RootSignature.map D3D12Object.rootSignature)
  else r

/-- Source `CommandList::SetComputeRootSignature`. -/
def SetComputeRootSignature (rootSignature : Option Nat) (r : Recorder) : Recorder :=
  if r.m_RootSignature ≠ rootSignature then
    let r := { r with m_RootSignature := rootSignature }
    let r := r.parseRootSignatures rootSignature
    let r := r.record (Command.SetComputeRootSignature r.m_RootSignature)
    r.TrackResource (r.m_RootSignature.map D3D12Object.rootSignature)
  else r

/-- The transitions at the head of `SetShaderResourceView` and
`SetUnorderedAccessView`: one per subresource of the range, or one for the
whole resource. -/
def transitionSubresources (env : Env) (resource : Option D3D12Resource)
    (stateAfter firstSubresource numSubresources : Nat) (r : Recorder) : Recorder :=
  if numSubresources < D3D12_RESOURCE_BARRIER_ALL_SUBRESOURCES then
    (List.range numSubresources).foldl
      (fun r i => r.TransitionBarrier resource stateAfter (u32 (firstSubresource + i))
        env.TransitionBarrier_flushBarriers) r
  else
    r.TransitionBarrier resource stateAfter env.TransitionBarrier_subresource
      env.TransitionBarrier_flushBarriers

/-- Source `CommandList::SetShaderResourceView`; `srv` is
`resource.GetShaderResourceView(srv)`. -/
def SetShaderResourceView (env : Env) (rootParameterIndex descriptorOffset : Nat)
    (resource : Option D3D12Resource) (stateAfter firstSubresource numSubresources : Nat)
    (srv : Descriptor) (r : Recorder) : Recorder :=
  let r := r.transitionSubresources env resource stateAfter firstSubresource numSubresources
  let r := r.emit (Event.StageDescriptors D3D12_DESCRIPTOR_HEAP_TYPE_CBV_SRV_UAV
    rootParameterIndex descriptorOffset 1 srv)
  r.TrackResource_res resource

/-- Source `CommandList::SetUnorderedAccessView`; `uav` is
`resource.GetUnorderedAccessView(uav)`. -/
def SetUnorderedAccessView (env : Env) (rootParameterIndex descrptorOffset : Nat)
    (resource : Option D3D12Resource) (stateAfter firstSubresource numSubresources : Nat)
    (uav : Descriptor) (r : Recorder) : Recorder :=
  let r := r.transitionSubresources env resource stateAfter firstSubresource numSubresources
  let r := r.emit (Event.StageDescriptors D3D12_DESCRIPTOR_HEAP_TYPE_CBV_SRV_UAV
    rootParameterIndex descrptorOffset 1 uav)
  r.TrackResource_res resource

/-- The colour and depth-stencil attachments of a `RenderTarget`:
`textures[0..7]` and `GetTexture(AttachmentPoint::DepthStencil)`. -/
structure RenderTarget where
  color : List Texture
  depthStencil : Texture
deriving DecidableEq, Repr

/-- The body of the loop of `SetRenderTarget` over the colour attachments. -/
def bindColorTarget (env : Env) (acc : Recorder × List Descriptor) (texture : Texture) :
    Recorder × List Descriptor :=
  if texture.IsValid then
    let r := acc.1.TransitionBarrier texture.GetD3D12Resource D3D12_RESOURCE_STATE_RENDER_TARGET
      env.TransitionBarrier_subresource env.TransitionBarrier_flushBarriers
    (r.TrackResource_res texture.GetD3D12Resource,
      acc.2 ++ [Descriptor.RTV texture.GetD3D12Resource])
  else acc

/-- Source `CommandList::SetRenderTarget`. -/
def SetRenderTarget (env : Env) (renderTarget : RenderTarget) (r : Recorder) : Recorder :=
  let (r, renderTargetDescriptors) :=
    (renderTarget.color.take 8).foldl (bindColorTarget env) (r, [])
  let depthTexture := renderTarget.depthStencil
  let (r, pDSV) :=
    if depthTexture.GetD3D12Resource.isSome then
      let r := r.TransitionBarrier depthTexture.GetD3D12Resource D3D12_RESOURCE_STATE_DEPTH_WRITE
        env.TransitionBarrier_subresource env.TransitionBarrier_flushBarriers
      (r.TrackResource_res depthTexture.GetD3D12Resource,
        some (Descriptor.DSV depthTexture.GetD3D12Resource))
    else (r, none)
  r.record (Command.OMSetRenderTargets renderTargetDescriptors pDSV)

/-- The loop `for i < D3D12_DESCRIPTOR_HEAP_TYPE_NUM_TYPES` calling
`CommitStagedDescriptorsForDraw(*this)`.  The heap binds its tables on the
underlying list (spec 4.4); it requests no barrier. -/
def commitStagedDescriptorsForDraw (r : Recorder) : Recorder :=
  (List.range D3D12_DESCRIPTOR_HEAP_TYPE_NUM_TYPES).foldl
    (fun r i => r.emit (Event.CommitStagedDescriptorsForDraw i)) r

/-- The loop `for i < D3D12_DESCRIPTOR_HEAP_TYPE_NUM_TYPES` calling
`CommitStagedDescriptorsForDispatch(*this)`. -/
def commitStagedDescriptorsForDispatch (r : Recorder) : Recorder :=
  (List.range D3D12_DESCRIPTOR_HEAP_TYPE_NUM_TYPES).foldl
    (fun r i => r.emit (Event.CommitStagedDescriptorsForDispatch i)) r

/-- Source `CommandList::Draw`. -/
def Draw (vertexCount instanceCount startVertex startInstance : Nat) (r : Recorder) : Recorder :=
  let r := r.FlushResourceBarriers
  let r := r.commitStagedDescriptorsForDraw
  r.record (Command.DrawInstanced vertexCount instanceCount startVertex startInstance)

/-- Source `CommandList::DrawIndexed`. -/
def DrawIndexed (indexCount instanceCount startIndex : Nat) (baseVertex : Int)
    (startInstance : Nat) (r : Recorder) : Recorder :=
  let r := r.FlushResourceBarriers
  let r := r.commitStagedDescriptorsForDraw
  r.record
    (Command.DrawIndexedInstanced indexCount instanceCount startIndex baseVertex startInstance)

/-- Source `CommandList::Dispatch`. -/
def Dispatch (numGroupsX numGroupsY numGroupsZ : Nat) (r : Recorder) : Recorder :=
  let r := r.FlushResourceBarriers
  let r := r.commitStagedDescriptorsForDispatch
  r.record (Command.Dispatch numGroupsX numGroupsY numGroupsZ)

end Recorder

/-! ## Process-wide state, exceptions -/

/-- What a recorder operation can end with, apart from returning. -/
inductive Err where
  /-- Exception thrown by `ThrowIfFailed` on a failed `HRESULT`. -/
  | ThrowIfFailed
  /-- Statement `throw std::exception(what)`. -/
  | exception (what : String)
  /-- Read of `mipCount` after `_BitScanForward` on a zero mask left it unset. -/
  | undefinedBitScan
  /-- Dereference of a null `ComPtr`. -/
  | nullDereference
  /-- The loop bound of the model was exhausted (never with the bounds used). -/
  | outOfFuel
deriving DecidableEq, Repr

/-- Process-wide state: the ordinal of the next device creation call, the
ordinal of the next request to the compute queue, and the global resource
state map (`ResourceStateTracker::ms_GlobalResourceState`), from
`(resource, subresource)` to the committed state, the subresource
`D3D12_RESOURCE_BARRIER_ALL_SUBRESOURCES` being the entry of a whole resource. -/
structure World where
  deviceCalls : Nat
  computeQueueRequests : Nat
  ms_GlobalResourceState : List ((D3D12Resource × Nat) × Nat)
deriving DecidableEq, Repr

/-- Modelled from the spec: `ResourceStateTracker::AddGlobalResourceState`
"adds the resource to the global state map" in the given state, as the entry
of the whole resource; a null resource adds nothing. -/
def World.AddGlobalResourceState (w : World) (resource : Option D3D12Resource) (state : Nat) :
    World :=
  match resource with
  | some res =>
    { w with ms_GlobalResourceState :=
        ((res, D3D12_RESOURCE_BARRIER_ALL_SUBRESOURCES), state) ::
          w.ms_GlobalResourceState.filter (fun e => e.1.1 ≠ res) }
  | none => w

/-- The committed state of a subresource in the global map: its own entry, else
the entry of its whole resource. -/
def World.globalState (w : World) (res : D3D12Resource) (sub : Nat) : Option Nat :=
  match w.ms_GlobalResourceState.lookup (res, sub) with
  | some s => some s
  | none => w.ms_GlobalResourceState.lookup (res, D3D12_RESOURCE_BARRIER_ALL_SUBRESOURCES)

/-- The state an operation of one recorder runs on. -/
structure St where
  world : World
  cl : Recorder
deriving DecidableEq, Repr

/-- An operation that returns a value or throws; the state it leaves behind is
kept in both cases, as a C++ exception leaves the objects modified so far. -/
def Op (α : Type) : Type := St → Except Err α × St

namespace Op

def pure {α : Type} (a : α) : Op α := fun s => (Except.ok a, s)

def bind {α β : Type} (x : Op α) (f : α → Op β) : Op β := fun s =>
  match x s with
  | (Except.ok a, s1) => f a s1
  | (Except.error e, s1) => (Except.error e, s1)

instance : Monad Op where
  pure := Op.pure
  bind := Op.bind

/-- Throw an exception. -/
def raise {α : Type} (e : Err) : Op α := fun s => (Except.error e, s)

/-- Run a non-throwing operation of the recorder. -/
def onCl (f : Recorder → Recorder) : Op Unit := fun s => (Except.ok (), { s with cl := f s.cl })

/-- Read the recorder. -/
def getCl : Op Recorder := fun s => (Except.ok s.cl, s)

/-- Call `ResourceStateTracker::AddGlobalResourceState(resource, state)`. -/
def AddGlobalResourceState (resource : Option D3D12Resource) (state : Nat) : Op Unit := fun s =>
  (Except.ok (),
    { world := s.world.AddGlobalResourceState resource state
      cl := s.cl.emit (Event.AddGlobalResourceState resource state) })

/-- Call `ThrowIfFailed(device->CreateCommittedResource(heapType, desc, initialState, &res))`. -/
def CreateCommittedResource (env : Env) (heapType : Nat) (desc : D3D12_RESOURCE_DESC)
    (initialState : Nat) : Op D3D12Resource := fun s =>
  let n := s.world.deviceCalls
  let w := { s.world with deviceCalls := n + 1 }
  if env.succeeded n then
    let res : D3D12Resource := { id := n, desc := desc }
    let e := Event.CreateCommittedResource heapType desc initialState (some res)
    (Except.ok res, { world := w, cl := s.cl.emit e })
  else
    let e := Event.CreateCommittedResource heapType desc initialState none
    (Except.error Err.ThrowIfFailed, { world := w, cl := s.cl.emit e })

/-- Call `ThrowIfFailed(device->CreateCommittedResource(heapType, desc, initialState, &res))`
with a description `desc` that leaves the mip count to the device
(`MipLevels = 0`): the call is made with `desc`, and the resource created has
the description `created`, which its `GetDesc()` answers. -/
def CreateCommittedResource_GetDesc (env : Env) (heapType : Nat)
    (desc created : D3D12_RESOURCE_DESC) (initialState : Nat) : Op D3D12Resource := fun s =>
  let n := s.world.deviceCalls
  let w := { s.world with deviceCalls := n + 1 }
  if env.succeeded n then
    let res : D3D12Resource := { id := n, desc := created }
    let e := Event.CreateCommittedResource heapType desc initialState (some res)
    (Except.ok res, { world := w, cl := s.cl.emit e })
  else
    let e := Event.CreateCommittedResource heapType desc initialState none
    (Except.error Err.ThrowIfFailed, { world := w, cl := s.cl.emit e })

/-- Call `ThrowIfFailed(device->CreateHeap(&heapDesc, &heap))`. -/
def CreateHeap (env : Env) : Op Nat := fun s =>
  let n := s.world.deviceCalls
  let w := { s.world with deviceCalls := n + 1 }
  if env.succeeded n then
    (Except.ok n, { world := w, cl := s.cl.emit (Event.CreateHeap (some n)) })
  else
    (Except.error Err.ThrowIfFailed, { world := w, cl := s.cl.emit (Event.CreateHeap none) })

/-- Call `ThrowIfFailed(device->CreatePlacedResource(heap, 0, desc, initialState, &res))`. -/
def CreatePlacedResource (env : Env) (heap : Nat) (desc : D3D12_RESOURCE_DESC)
    (initialState : Nat) : Op D3D12Resource := fun s =>
  let n := s.world.deviceCalls
  let w := { s.world with deviceCalls := n + 1 }
  if env.succeeded n then
    let res : D3D12Resource := { id := n, desc := desc }
    let e := Event.CreatePlacedResource heap desc initialState (some res)
    (Except.ok res, { world := w, cl := s.cl.emit e })
  else
    let e := Event.CreatePlacedResource heap desc initialState none
    (Except.error Err.ThrowIfFailed, { world := w, cl := s.cl.emit e })

/-- Source `Resource::CheckFeatureSupport`, reached from the constructor of a
`Resource` on an existing resource and from `Resource::SetD3D12Resource`: with
a non-null resource the device is queried under `ThrowIfFailed`. -/
def CheckFeatureSupport (env : Env) (resource : Option D3D12Resource) : Op Unit := fun s =>
  match resource with
  | none => (Except.ok (), s)
  | some res =>
    let n := s.world.deviceCalls
    let w := { s.world with deviceCalls := n + 1 }
    let e := Event.CheckFeatureSupport res.desc.Format (env.succeeded n)
    if env.succeeded n then (Except.ok (), { world := w, cl := s.cl.emit e })
    else (Except.error Err.ThrowIfFailed, { world := w, cl := s.cl.emit e })

/-- Call `m_Device->CreateTexture(resource, textureUsage)`: a `Texture` on an
existing resource, whose construction queries the format support. -/
def CreateTexture (env : Env) (resource : Option D3D12Resource) (textureUsage : Nat) :
    Op Texture := fun s =>
  match CheckFeatureSupport env resource s with
  | (Except.ok _, s1) =>
    (Except.ok
      { m_d3d12Resource := resource
        uavSupport := match resource with
          | some res => env.deviceFormatUAVSupport res.desc.Format
          | none => false
        m_TextureUsage := textureUsage }, s1)
  | (Except.error e, s1) => (Except.error e, s1)

end Op

/-! ## Mip generation -/

/-- The index of the lowest set bit of `mask`, searched in the low `width` bits. -/
def lowestSetBit : Nat → Nat → Nat
  | 0, _ => 0
  | width + 1, mask => if mask % 2 = 1 then 0 else lowestSetBit width (mask / 2) + 1

/-- Intrinsic `_BitScanForward(&index, mask)` on a 32-bit mask: the index of
the lowest set bit, and `none` for a zero mask, which leaves `index` unset. -/
def BitScanForward (mask : Nat) : Option Nat :=
  if u32 mask = 0 then none else some (lowestSetBit 32 (u32 mask))

/-- Subtraction of `uint32_t` values. -/
def sub32 (a b : Nat) : Nat := u32 (u32 a + 4294967296 - u32 b)

/-- Source `uint64_t srcWidth = resourceDesc.Width >> srcMip`. -/
def srcWidth (resourceDesc : D3D12_RESOURCE_DESC) (srcMip : Nat) : Nat :=
  resourceDesc.Width >>> srcMip

/-- Source `uint32_t srcHeight = resourceDesc.Height >> srcMip`. -/
def srcHeight (resourceDesc : D3D12_RESOURCE_DESC) (srcMip : Nat) : Nat :=
  resourceDesc.Height >>> srcMip

/-- Source `dstWidth = static_cast<uint32_t>( srcWidth >> 1 )`. -/
def dstWidth (resourceDesc : D3D12_RESOURCE_DESC) (srcMip : Nat) : Nat :=
  u32 (srcWidth resourceDesc srcMip >>> 1)

/-- Source `dstHeight = srcHeight >> 1`. -/
def dstHeight (resourceDesc : D3D12_RESOURCE_DESC) (srcMip : Nat) : Nat :=
  srcHeight resourceDesc srcMip >>> 1

/-- Source `( srcHeight & 1 ) << 1 | ( srcWidth & 1 )`. -/
def SrcDimension (resourceDesc : D3D12_RESOURCE_DESC) (srcMip : Nat) : Nat :=
  ((srcHeight resourceDesc srcMip &&& 1) <<< 1) ||| (srcWidth resourceDesc srcMip &&& 1)

/-- The mask handed to `_BitScanForward`:
`( dstWidth == 1 ? dstHeight : dstWidth ) | ( dstHeight == 1 ? dstWidth : dstHeight )`. -/
def bitScanMask (resourceDesc : D3D12_RESOURCE_DESC) (srcMip : Nat) : Nat :=
  let dstWidth := dstWidth resourceDesc srcMip
  let dstHeight := dstHeight resourceDesc srcMip
  (if dstWidth = 1 then dstHeight else dstWidth) |||
    (if dstHeight = 1 then dstWidth else dstHeight)

/-- The value of `mipCount` after the bit scan, the cap at four and the clamp
to the mips left over; `none` when the scanned mask is zero. -/
def mipCount (resourceDesc : D3D12_RESOURCE_DESC) (srcMip : Nat) : Option Nat :=
  match BitScanForward (bitScanMask resourceDesc srcMip) with
  | none => none
  | some index =>
    let mipCount := min 4 (index + 1)
    some (if u32 (srcMip + mipCount) ≥ resourceDesc.MipLevels then
        sub32 (sub32 resourceDesc.MipLevels srcMip) 1
      else mipCount)

namespace Recorder

/-- The body of the pass loop of `GenerateMips_UAV` from the point where
`mipCount` is known: constants, source view, target views, padding, dispatch
and UAV barrier. -/
def GenerateMips_UAV_pass (env : Env) (pso : PSO) (texture : Texture)
    (resourceDesc : D3D12_RESOURCE_DESC) (isSRGB : Bool) (srcMip mipCount : Nat)
    (r : Recorder) : Recorder :=
  let dstWidth := max 1 (dstWidth resourceDesc srcMip)
  let dstHeight := max 1 (dstHeight resourceDesc srcMip)
  let generateMipsCB : GenerateMipsCB :=
    { SrcMipLevel := srcMip
      NumMipLevels := mipCount
      SrcDimension := SrcDimension resourceDesc srcMip
      IsSRGB := isSRGB
      TexelSizeDenomX := dstWidth
      TexelSizeDenomY := dstHeight }
  let r := r.SetCompute32BitConstants_Mips env.GenerateMips_GenerateMipsCB generateMipsCB
  let srvFormat := if isSRGB then env.GetSRGBFormat resourceDesc.Format else resourceDesc.Format
  let r := r.SetShaderResourceView env env.GenerateMips_SrcMip 0 texture.GetD3D12Resource
    D3D12_RESOURCE_STATE_NON_PIXEL_SHADER_RESOURCE srcMip 1
    (Descriptor.SRV texture.GetD3D12Resource (some srvFormat) (some resourceDesc.MipLevels))
  let r := (List.range mipCount).foldl
    (fun r mip => r.SetUnorderedAccessView env env.GenerateMips_OutMip mip
      texture.GetD3D12Resource D3D12_RESOURCE_STATE_UNORDERED_ACCESS
      (u32 (srcMip + mip + 1)) 1
      (Descriptor.UAV texture.GetD3D12Resource (some resourceDesc.Format)
        (some (u32 (srcMip + mip + 1))))) r
  let r := if mipCount < 4 then
      r.emit (Event.StageDescriptors D3D12_DESCRIPTOR_HEAP_TYPE_CBV_SRV_UAV
        env.GenerateMips_OutMip mipCount (4 - mipCount) pso.GetDefaultUAV)
    else r
  let r := r.Dispatch (env.DivideByMultiple dstWidth 8) (env.DivideByMultiple dstHeight 8)
    env.Dispatch_numGroupsZ
  r.UAVBarrier texture.GetD3D12Resource env.UAVBarrier_flushBarriers

end Recorder

/-- The pass loop of `GenerateMips_UAV`,
`for ( srcMip = 0; srcMip < resourceDesc.MipLevels - 1u; ) { ...; srcMip += mipCount; }`,
run for at most `fuel` passes.  At a zero scan mask `_BitScanForward` leaves
`mipCount` unassigned, and the source, which does not test the result of the
scan, goes on to record the pass with that indeterminate value.  The model
has no value to give it and ends the call there with `Err.undefinedBitScan`:
from that pass on the log of the model says nothing of what the source
records. -/
def GenerateMips_UAV_loop (env : Env) (pso : PSO) (texture : Texture)
    (resourceDesc : D3D12_RESOURCE_DESC) (isSRGB : Bool) : Nat → Nat → Op Unit
  | 0, srcMip =>
    if srcMip < sub32 resourceDesc.MipLevels 1 then Op.raise Err.outOfFuel else Op.pure ()
  | fuel + 1, srcMip =>
    if srcMip < sub32 resourceDesc.MipLevels 1 then
      match mipCount resourceDesc srcMip with
      | none => Op.raise Err.undefinedBitScan
      | some mipCount =>
        Op.bind
          (Op.onCl
            (Recorder.GenerateMips_UAV_pass env pso texture resourceDesc isSRGB srcMip mipCount))
          (fun _ => GenerateMips_UAV_loop env pso texture resourceDesc isSRGB fuel
            (u32 (srcMip + mipCount)))
    else Op.pure ()

/-- The lazy construction `if ( !m_GenerateMipsPSO ) m_GenerateMipsPSO = std::make_unique<...>`. -/
def ensureGenerateMipsPSO (env : Env) : Op PSO := fun s =>
  match s.cl.m_GenerateMipsPSO with
  | some pso => (Except.ok pso, s)
  | none =>
    (Except.ok env.generateMipsPSO,
      { s with cl := { s.cl.emit Event.CreateGenerateMipsPSO with
          m_GenerateMipsPSO := some env.generateMipsPSO } })

/-- Source `CommandList::GenerateMips_UAV`. -/
def GenerateMips_UAV (env : Env) (texture : Texture) (isSRGB : Bool) : Op Unit := do
  let pso ← ensureGenerateMipsPSO env
  Op.onCl (Recorder.record (Command.SetPipelineState pso.m_PipelineState))
  Op.onCl (Recorder.SetComputeRootSignature pso.m_RootSignature)
  match texture.GetD3D12Resource with
  | none => Op.raise Err.nullDereference
  | some resource =>
    let resourceDesc := resource.desc
    GenerateMips_UAV_loop env pso texture resourceDesc isSRGB (resourceDesc.MipLevels + 1) 0

/-- Source `aliasDesc.Flags |= ALLOW_UNORDERED_ACCESS; aliasDesc.Flags &= ~(ALLOW_RENDER_TARGET | ALLOW_DEPTH_STENCIL)`
on the 32-bit flags. -/
def aliasFlags (flags : Nat) : Nat :=
  (flags ||| D3D12_RESOURCE_FLAG_ALLOW_UNORDERED_ACCESS) &&&
    (0xffffffff ^^^ (D3D12_RESOURCE_FLAG_ALLOW_RENDER_TARGET |||
      D3D12_RESOURCE_FLAG_ALLOW_DEPTH_STENCIL))

/-- The test guarding the staging path of `GenerateMips`:
`!texture.CheckUAVSupport() || ( resourceDesc.Flags & ALLOW_UNORDERED_ACCESS ) == 0`. -/
def needsStaging (texture : Texture) (resourceDesc : D3D12_RESOURCE_DESC) : Bool :=
  !texture.CheckUAVSupport ||
    (resourceDesc.Flags &&& D3D12_RESOURCE_FLAG_ALLOW_UNORDERED_ACCESS) == 0

/-- The test guarding the `throw` of `GenerateMips`. -/
def unsupportedShape (resourceDesc : D3D12_RESOURCE_DESC) : Bool :=
  resourceDesc.Dimension != D3D12_RESOURCE_DIMENSION_TEXTURE2D ||
    resourceDesc.DepthOrArraySize != 1 ||
    decide (resourceDesc.SampleCount > 1)

/-- The staging block of `GenerateMips`: heap, the two placed resources, the
first aliasing barrier, the copy into the alias and the second aliasing
barrier.  Returns `(aliasResource, uavResource)`. -/
def GenerateMips_stage (env : Env) (resource : D3D12Resource) :
    Op (D3D12Resource × D3D12Resource) := do
  let resourceDesc := resource.desc
  let aliasDesc := { resourceDesc with Flags := aliasFlags resourceDesc.Flags }
  let uavDesc := { aliasDesc with Format := env.GetUAVCompatableFormat resourceDesc.Format }
  let heap ← Op.CreateHeap env
  Op.onCl (Recorder.TrackResource (some (D3D12Object.heap heap)))
  let aliasResource ← Op.CreatePlacedResource env heap aliasDesc D3D12_RESOURCE_STATE_COMMON
  Op.AddGlobalResourceState (some aliasResource) D3D12_RESOURCE_STATE_COMMON
  Op.onCl (Recorder.TrackResource_res (some aliasResource))
  let uavResource ← Op.CreatePlacedResource env heap uavDesc D3D12_RESOURCE_STATE_COMMON
  Op.AddGlobalResourceState (some uavResource) D3D12_RESOURCE_STATE_COMMON
  Op.onCl (Recorder.TrackResource_res (some uavResource))
  Op.onCl (Recorder.AliasingBarrier none (some aliasResource) env.AliasingBarrier_flushBarriers)
  Op.onCl (Recorder.CopyResource env (some aliasResource) (some resource))
  Op.onCl (Recorder.AliasingBarrier (some aliasResource) (some uavResource)
    env.AliasingBarrier_flushBarriers)
  return (aliasResource, uavResource)

/-- Source `CommandList::GenerateMips` below its copy-kind branch. -/
def GenerateMips_body (env : Env) (texture : Texture) : Op Unit :=
  match texture.GetD3D12Resource with
  | none => Op.pure ()
  | some resource =>
    let resourceDesc := resource.desc
    if resourceDesc.MipLevels = 1 then Op.pure ()
    else if unsupportedShape resourceDesc then
      Op.raise
        (Err.exception "GenerateMips is only supported for non-multi-sampled 2D Textures.")
    else do
      let (uavResource, aliasResource) ←
        (if needsStaging texture resourceDesc then do
          let (aliasResource, uavResource) ← GenerateMips_stage env resource
          return (uavResource, some aliasResource)
        else return (resource, none))
      let uavTexture ← Op.CreateTexture env (some uavResource) texture.m_TextureUsage
      GenerateMips_UAV env uavTexture (env.IsSRGBFormat resourceDesc.Format)
      match aliasResource with
      | some aliasRes => do
        Op.onCl (Recorder.AliasingBarrier (some uavResource) (some aliasRes)
          env.AliasingBarrier_flushBarriers)
        Op.onCl (Recorder.CopyResource env (some resource) (some aliasRes))
      | none => return ()

/-! ## Buffer upload -/

/-- Source `size_t bufferSize = numElements * elementSize` (64-bit `size_t`). -/
def bufferSize (numElements elementSize : Nat) : Nat := u64 (numElements * elementSize)

/-- Helper `CD3DX12_RESOURCE_DESC::Buffer(width, flags)` of `d3dx12.h`. -/
def CD3DX12_RESOURCE_DESC_Buffer (width flags : Nat) : D3D12_RESOURCE_DESC :=
  { Dimension := 1, Width := width, Height := 1, DepthOrArraySize := 1, MipLevels := 1,
    Format := 0, SampleCount := 1, Flags := flags }

/-- Source `CommandList::CopyBuffer`.  `bufferData` is the pointer (`none` is
`nullptr`); the result is the resource handed to `buffer.SetD3D12Resource`,
whose `CheckFeatureSupport` is the last fallible step (`buffer.CreateViews`
is outside the sources). -/
def CopyBuffer (env : Env) (numElements elementSize : Nat) (bufferData : Option Nat)
    (flags : Nat) : Op (Option D3D12Resource) := do
  let bufferSize := bufferSize numElements elementSize
  if bufferSize = 0 then
    Op.CheckFeatureSupport env none
    return none
  else
    let d3d12Resource ← Op.CreateCommittedResource env D3D12_HEAP_TYPE_DEFAULT
      (CD3DX12_RESOURCE_DESC_Buffer bufferSize flags) D3D12_RESOURCE_STATE_COMMON
    Op.AddGlobalResourceState (some d3d12Resource) D3D12_RESOURCE_STATE_COMMON
    if bufferData.isSome then
      let uploadResource ← Op.CreateCommittedResource env D3D12_HEAP_TYPE_UPLOAD
        (CD3DX12_RESOURCE_DESC_Buffer bufferSize 0) D3D12_RESOURCE_STATE_GENERIC_READ
      Op.onCl (Recorder.tracker_TransitionResource env (some d3d12Resource)
        D3D12_RESOURCE_STATE_COPY_DEST)
      Op.onCl Recorder.FlushResourceBarriers
      Op.onCl (Recorder.record
        (Command.UpdateSubresources (some d3d12Resource) (some uploadResource) 0 1))
      Op.onCl (Recorder.TrackResource_res (some uploadResource))
    Op.onCl (Recorder.TrackResource_res (some d3d12Resource))
    Op.CheckFeatureSupport env (some d3d12Resource)
    return some d3d12Resource

/-! ## Panorama to cubemap -/

namespace Recorder

/-- The body of the pass loop of `PanoToCubemap`. -/
def PanoToCubemap_pass (env : Env) (pso : PSO) (cubemapDesc : D3D12_RESOURCE_DESC)
    (stagingTexture panoTexture : Texture) (mipSlice numMips : Nat) (r : Recorder) : Recorder :=
  let panoToCubemapCB : PanoToCubemapCB :=
    { FirstMip := mipSlice
      CubemapSize := (max (u32 cubemapDesc.Width) cubemapDesc.Height) >>> mipSlice
      NumMips := numMips }
  let r := r.SetCompute32BitConstants_Pano env.PanoToCubemapRS_PanoToCubemapCB panoToCubemapCB
  let r := r.SetShaderResourceView env env.PanoToCubemapRS_SrcTexture 0
    panoTexture.GetD3D12Resource D3D12_RESOURCE_STATE_NON_PIXEL_SHADER_RESOURCE
    env.SetShaderResourceView_firstSubresource env.SetShaderResourceView_numSubresources
    (Descriptor.SRV panoTexture.GetD3D12Resource none none)
  let r := (List.range numMips).foldl
    (fun r mip => r.SetUnorderedAccessView env env.PanoToCubemapRS_DstMips mip
      stagingTexture.GetD3D12Resource D3D12_RESOURCE_STATE_UNORDERED_ACCESS 0 0
      (Descriptor.UAV stagingTexture.GetD3D12Resource
        (some (env.GetUAVCompatableFormat cubemapDesc.Format))
        (some (u32 (mipSlice + mip))))) r
  let r := if numMips < 5 then
      r.emit (Event.StageDescriptors D3D12_DESCRIPTOR_HEAP_TYPE_CBV_SRV_UAV
        env.PanoToCubemapRS_DstMips panoToCubemapCB.NumMips (5 - numMips) pso.GetDefaultUAV)
    else r
  r.Dispatch (env.DivideByMultiple panoToCubemapCB.CubemapSize 16)
    (env.DivideByMultiple panoToCubemapCB.CubemapSize 16) 6

/-- The pass loop of `PanoToCubemap`,
`for ( mipSlice = 0; mipSlice < cubemapDesc.MipLevels; ) { ...; mipSlice += numMips; }`,
run for at most `fuel` passes. -/
def PanoToCubemap_loop (env : Env) (pso : PSO) (cubemapDesc : D3D12_RESOURCE_DESC)
    (stagingTexture panoTexture : Texture) : Nat → Nat → Recorder → Recorder
  | 0, _, r => r
  | fuel + 1, mipSlice, r =>
    if mipSlice < cubemapDesc.MipLevels then
      let numMips := min 5 (sub32 cubemapDesc.MipLevels mipSlice)
      PanoToCubemap_loop env pso cubemapDesc stagingTexture panoTexture fuel
        (u32 (mipSlice + numMips))
        (r.PanoToCubemap_pass env pso cubemapDesc stagingTexture panoTexture mipSlice numMips)
    else r

end Recorder

/-- The lazy construction `if ( !m_PanoToCubemapPSO ) m_PanoToCubemapPSO = std::make_unique<...>`. -/
def ensurePanoToCubemapPSO (env : Env) : Op PSO := fun s =>
  match s.cl.m_PanoToCubemapPSO with
  | some pso => (Except.ok pso, s)
  | none =>
    (Except.ok env.panoToCubemapPSO,
      { s with cl := { s.cl.emit Event.CreatePanoToCubemapPSO with
          m_PanoToCubemapPSO := some env.panoToCubemapPSO } })

/-- The staging block of `PanoToCubemap`: a committed UAV-compatible resource
in the copy-dest state, bound to the staging texture, and the copy of the
cubemap into it. -/
def PanoToCubemap_stage (env : Env) (cubemapResource : D3D12Resource) : Op D3D12Resource := do
  let cubemapDesc := cubemapResource.desc
  let stagingDesc := { cubemapDesc with
    Format := env.GetUAVCompatableFormat cubemapDesc.Format
    Flags := cubemapDesc.Flags ||| D3D12_RESOURCE_FLAG_ALLOW_UNORDERED_ACCESS }
  let stagingResource ← Op.CreateCommittedResource env D3D12_HEAP_TYPE_DEFAULT stagingDesc
    D3D12_RESOURCE_STATE_COPY_DEST
  Op.AddGlobalResourceState (some stagingResource) D3D12_RESOURCE_STATE_COPY_DEST
  Op.CheckFeatureSupport env (some stagingResource)
  Op.onCl (Recorder.CopyResource env (some stagingResource) (some cubemapResource))
  return stagingResource

/-- Source `CommandList::PanoToCubemap` below its copy-kind branch. -/
def PanoToCubemap_body (env : Env) (cubemapTexture panoTexture : Texture) : Op Unit := do
  let pso ← ensurePanoToCubemapPSO env
  match cubemapTexture.GetD3D12Resource with
  | none => return ()
  | some cubemapResource =>
    let cubemapDesc := cubemapResource.desc
    let stagingTexture0 ← Op.CreateTexture env (some cubemapResource) 0
    let stagingResource ←
      (if (cubemapDesc.Flags &&& D3D12_RESOURCE_FLAG_ALLOW_UNORDERED_ACCESS) = 0 then
        PanoToCubemap_stage env cubemapResource
      else return cubemapResource)
    let stagingTexture := { stagingTexture0 with m_d3d12Resource := some stagingResource }
    Op.onCl (Recorder.TransitionBarrier (some stagingResource)
      D3D12_RESOURCE_STATE_UNORDERED_ACCESS env.TransitionBarrier_subresource
      env.TransitionBarrier_flushBarriers)
    Op.onCl (Recorder.record (Command.SetPipelineState pso.m_PipelineState))
    Op.onCl (Recorder.SetComputeRootSignature pso.m_RootSignature)
    Op.onCl (Recorder.PanoToCubemap_loop env pso cubemapDesc stagingTexture panoTexture
      cubemapDesc.MipLevels 0)
    if stagingResource ≠ cubemapResource then
      Op.onCl (Recorder.CopyResource env (some cubemapResource) (some stagingResource))
    else return ()

/-! ## The command list -/

/-- A `CommandList`: its kind, its own recorder, and the compute command list
it caches.  The cached list comes from the compute queue, whose recorders are
of the compute kind (spec 4.6), so it is kept as a recorder. -/
structure CommandList where
  m_d3d12CommandListType : D3D12_COMMAND_LIST_TYPE
  recorder : Recorder
  m_ComputeCommandList : Option Recorder
deriving DecidableEq, Repr

namespace CommandList

/-- Source `if ( !m_ComputeCommandList ) m_ComputeCommandList = m_Device->GetCommandQueue( COMPUTE )->GetCommandList();`
returning the cached list. -/
def ensureComputeCommandList (env : Env) (w : World) (c : CommandList) :
    World × CommandList × Recorder :=
  match c.m_ComputeCommandList with
  | some compute => (w, c, compute)
  | none =>
    let compute := env.computeQueue_GetCommandList w.computeQueueRequests
    ({ w with computeQueueRequests := w.computeQueueRequests + 1 },
      { c with m_ComputeCommandList := some compute }, compute)

/-- Run an operation of a recorder on this command list's own recorder. -/
def onOwn (op : Op Unit) (w : World) (c : CommandList) : Except Err Unit × World × CommandList :=
  match op { world := w, cl := c.recorder } with
  | (res, s) => (res, s.world, { c with recorder := s.cl })

/-- Forward an operation to the compute command list, acquiring it if none is
cached.  On the compute-kind list the operation runs below its copy branch. -/
def forward (env : Env) (op : Op Unit) (w : World) (c : CommandList) :
    Except Err Unit × World × CommandList :=
  match c.ensureComputeCommandList env w with
  | (w1, c1, compute) =>
    match op { world := w1, cl := compute } with
    | (res, s) => (res, s.world, { c1 with m_ComputeCommandList := some s.cl })

/-- Source `CommandList::GenerateMips`. -/
def GenerateMips (env : Env) (texture : Texture) (w : World) (c : CommandList) :
    Except Err Unit × World × CommandList :=
  if c.m_d3d12CommandListType = D3D12_COMMAND_LIST_TYPE.COPY then
    c.forward env (GenerateMips_body env texture) w
  else
    c.onOwn (GenerateMips_body env texture) w

/-- Source `CommandList::PanoToCubemap`. -/
def PanoToCubemap (env : Env) (cubemapTexture panoTexture : Texture) (w : World)
    (c : CommandList) : Except Err Unit × World × CommandList :=
  if c.m_d3d12CommandListType = D3D12_COMMAND_LIST_TYPE.COPY then
    c.forward env (PanoToCubemap_body env cubemapTexture panoTexture) w
  else
    c.onOwn (PanoToCubemap_body env cubemapTexture panoTexture) w

end CommandList

/-! ## Reading a log -/

/-- Flush traffic: the flush call and the barriers it drains into the
underlying command list.  What a flush drains depends on the barriers the
tracker holds, the rest of a log only on the operation and its arguments. -/
def Event.isFlushTraffic : Event → Bool
  | Event.FlushResourceBarriers => true
  | Event.Command (Command.ResourceBarrier _) => true
  | _ => false

/-- A log without its flush traffic. -/
def stripFlush (log : List Event) : List Event := log.filter (fun e => !e.isFlushTraffic)

/-- The recorder `r1` is `r` after some more calls, and those calls, flush
traffic apart, are `calls`. -/
def Emits (r r1 : Recorder) (calls : List Event) : Prop :=
  ∃ new, r1.log = r.log ++ new ∧ stripFlush new = calls

/-- The calls a recorder has made since it was `r`. -/
def Recorder.since (r1 r : Recorder) : List Event := r1.log.drop r.log.length

/-- The calls of `TransitionBarrier`, flush traffic apart. -/
def TransitionBarrier_calls (resource : Option D3D12Resource) (stateAfter subresource : Nat) :
    List Event :=
  match resource with
  | some res =>
    [Event.ResourceBarrier
      (Barrier.Transition res D3D12_RESOURCE_STATE_COMMON stateAfter subresource)]
  | none => []

/-- The calls of `CopyResource`, flush traffic apart. -/
def CopyResource_calls (env : Env) (dstRes srcRes : Option D3D12Resource) : List Event :=
  TransitionBarrier_calls dstRes D3D12_RESOURCE_STATE_COPY_DEST env.TransitionBarrier_subresource ++
  TransitionBarrier_calls srcRes D3D12_RESOURCE_STATE_COPY_SOURCE
    env.TransitionBarrier_subresource ++
  [Event.Command (Command.CopyResource dstRes srcRes),
   Event.TrackResource (dstRes.map D3D12Object.resource),
   Event.TrackResource (srcRes.map D3D12Object.resource)]

/-- The calls of `SetComputeRootSignature` when the signature differs from
the current one. -/
def SetComputeRootSignature_calls (rootSignature : Option Nat) : List Event :=
  (List.range D3D12_DESCRIPTOR_HEAP_TYPE_NUM_TYPES).map
    (fun i => Event.ParseRootSignature i rootSignature) ++
  [Event.Command (Command.SetComputeRootSignature rootSignature),
   Event.TrackResource (rootSignature.map D3D12Object.rootSignature)]

/-- The calls of `Dispatch`, flush traffic apart. -/
def Dispatch_calls (numGroupsX numGroupsY numGroupsZ : Nat) : List Event :=
  (List.range D3D12_DESCRIPTOR_HEAP_TYPE_NUM_TYPES).map
    (fun i => Event.CommitStagedDescriptorsForDispatch i) ++
  [Event.Command (Command.Dispatch numGroupsX numGroupsY numGroupsZ)]

/-- The calls of `SetUnorderedAccessView` on one subresource, flush traffic apart. -/
def SetUnorderedAccessView_calls (rootParameterIndex descrptorOffset : Nat)
    (resource : Option D3D12Resource) (stateAfter subresource : Nat) (uav : Descriptor) :
    List Event :=
  TransitionBarrier_calls resource stateAfter subresource ++
  [Event.StageDescriptors D3D12_DESCRIPTOR_HEAP_TYPE_CBV_SRV_UAV rootParameterIndex
    descrptorOffset 1 uav,
   Event.TrackResource (resource.map D3D12Object.resource)]

/-- The constant buffer a pass of `GenerateMips_UAV` writes. -/
def passCB (resourceDesc : D3D12_RESOURCE_DESC) (isSRGB : Bool) (srcMip mipCount : Nat) :
    GenerateMipsCB :=
  { SrcMipLevel := srcMip
    NumMipLevels := mipCount
    SrcDimension := SrcDimension resourceDesc srcMip
    IsSRGB := isSRGB
    TexelSizeDenomX := max 1 (dstWidth resourceDesc srcMip)
    TexelSizeDenomY := max 1 (dstHeight resourceDesc srcMip) }

/-- The calls of one pass of `GenerateMips_UAV`, flush traffic apart, in order:
the constants, the source view (transition, staging, tracking), the target
views, the padding, the dispatch and the UAV barrier. -/
def pass_calls (env : Env) (pso : PSO) (texture : Texture)
    (resourceDesc : D3D12_RESOURCE_DESC) (isSRGB : Bool) (srcMip mipCount : Nat) : List Event :=
  [Event.Command (Command.SetComputeRoot32BitConstantsMips env.GenerateMips_GenerateMipsCB
    (passCB resourceDesc isSRGB srcMip mipCount))] ++
  TransitionBarrier_calls texture.GetD3D12Resource
    D3D12_RESOURCE_STATE_NON_PIXEL_SHADER_RESOURCE (u32 srcMip) ++
  [Event.StageDescriptors D3D12_DESCRIPTOR_HEAP_TYPE_CBV_SRV_UAV env.GenerateMips_SrcMip 0 1
    (Descriptor.SRV texture.GetD3D12Resource
      (some (if isSRGB then env.GetSRGBFormat resourceDesc.Format else resourceDesc.Format))
      (some resourceDesc.MipLevels)),
   Event.TrackResource (texture.GetD3D12Resource.map D3D12Object.resource)] ++
  (List.range mipCount).flatMap (fun mip =>
    SetUnorderedAccessView_calls env.GenerateMips_OutMip mip texture.GetD3D12Resource
      D3D12_RESOURCE_STATE_UNORDERED_ACCESS (u32 (srcMip + mip + 1))
      (Descriptor.UAV texture.GetD3D12Resource (some resourceDesc.Format)
        (some (u32 (srcMip + mip + 1))))) ++
  (if mipCount < 4 then
    [Event.StageDescriptors D3D12_DESCRIPTOR_HEAP_TYPE_CBV_SRV_UAV env.GenerateMips_OutMip
      mipCount (4 - mipCount) pso.GetDefaultUAV]
   else []) ++
  Dispatch_calls (env.DivideByMultiple (max 1 (dstWidth resourceDesc srcMip)) 8)
    (env.DivideByMultiple (max 1 (dstHeight resourceDesc srcMip)) 8) env.Dispatch_numGroupsZ ++
  [Event.ResourceBarrier (Barrier.UAV texture.GetD3D12Resource)]

/-- The passes the loop of `GenerateMips_UAV` runs from `srcMip` on with an
assigned `mipCount`, as pairs `(srcMip, mipCount)`: the list ends at the
bound, when `fuel` passes have run, or at a zero scan mask, where the source
goes on with an unassigned `mipCount` that the model does not follow. -/
def passes (resourceDesc : D3D12_RESOURCE_DESC) : Nat → Nat → List (Nat × Nat)
  | 0, _ => []
  | fuel + 1, srcMip =>
    if srcMip < sub32 resourceDesc.MipLevels 1 then
      match mipCount resourceDesc srcMip with
      | none => []
      | some mipCount =>
        (srcMip, mipCount) :: passes resourceDesc fuel (u32 (srcMip + mipCount))
    else []

/-- How the pass loop `GenerateMips_UAV_loop` ends from `srcMip` on: at the
bound, out of fuel, or at a zero scan mask, where the model stops and the
source goes on with an unassigned `mipCount`. -/
def passesOutcome (resourceDesc : D3D12_RESOURCE_DESC) : Nat → Nat → Except Err Unit
  | 0, srcMip =>
    if srcMip < sub32 resourceDesc.MipLevels 1 then Except.error Err.outOfFuel else Except.ok ()
  | fuel + 1, srcMip =>
    if srcMip < sub32 resourceDesc.MipLevels 1 then
      match mipCount resourceDesc srcMip with
      | none => Except.error Err.undefinedBitScan
      | some mipCount => passesOutcome resourceDesc fuel (u32 (srcMip + mipCount))
    else Except.ok ()

/-- The pipeline state object `GenerateMips_UAV` uses on a recorder: the one it
holds, else the one it constructs. -/
def Recorder.mipsPSO (env : Env) (r : Recorder) : PSO :=
  r.m_GenerateMipsPSO.getD env.generateMipsPSO

/-- The calls of `GenerateMips_UAV` ahead of its pass loop. -/
def GenerateMips_UAV_prelude (env : Env) (r : Recorder) : List Event :=
  (if r.m_GenerateMipsPSO.isNone then [Event.CreateGenerateMipsPSO] else []) ++
  [Event.Command (Command.SetPipelineState (r.mipsPSO env).m_PipelineState)] ++
  (if r.m_RootSignature ≠ (r.mipsPSO env).m_RootSignature then
    SetComputeRootSignature_calls (r.mipsPSO env).m_RootSignature
   else [])

/-- The passes `GenerateMips_UAV` runs on a resource of the given description
up to the bound or to the first zero scan mask: the loop starts at mip 0 and
is given `MipLevels + 1` rounds. -/
def schedule (resourceDesc : D3D12_RESOURCE_DESC) : List (Nat × Nat) :=
  passes resourceDesc (resourceDesc.MipLevels + 1) 0

/-- The calls of the passes of `GenerateMips_UAV` on a texture. -/
def GenerateMips_UAV_passCalls (env : Env) (pso : PSO) (texture : Texture) (isSRGB : Bool) :
    List Event :=
  match texture.GetD3D12Resource with
  | none => []
  | some resource =>
    (schedule resource.desc).flatMap
      (fun p => pass_calls env pso texture resource.desc isSRGB p.1 p.2)

/-- The calls of `GenerateMips_UAV`, flush traffic apart. -/
def GenerateMips_UAV_calls (env : Env) (texture : Texture) (isSRGB : Bool) (r : Recorder) :
    List Event :=
  GenerateMips_UAV_prelude env r ++
    GenerateMips_UAV_passCalls env (r.mipsPSO env) texture isSRGB

/-! ## The claims' formulas and sample inputs -/

/-- The number of trailing zero bits of a non-zero 64-bit value. -/
def trailingZeros (n : Nat) : Nat := lowestSetBit 64 n

/-- The number of mips per pass as the specification words it:
`min(4, trailing-zeros(max(srcDim)) + 1)`, clamped by the remaining mips
`N - srcMip - 1`. -/
def specNumMipLevels (resourceDesc : D3D12_RESOURCE_DESC) (srcMip : Nat) : Nat :=
  min (min 4 (trailingZeros
      (max (srcWidth resourceDesc srcMip) (srcHeight resourceDesc srcMip)) + 1))
    (resourceDesc.MipLevels - srcMip - 1)

/-- A recorder that has made no call. -/
def Recorder.fresh : Recorder :=
  { log := [], m_TrackedObjects := [], m_RootSignature := none,
    m_ResourceStateTracker :=
      { m_PendingResourceBarriers := [], m_ResourceBarriers := [], m_FinalResourceState := [] },
    m_GenerateMipsPSO := none, m_PanoToCubemapPSO := none,
    m_DescriptorHeaps := [none, none, none, none] }

/-- A sample environment: the defaults and root parameter indices of the
library's headers, every device call succeeding. -/
def sampleEnv : Env :=
  { CopyBuffer_flags := 0
    TransitionBarrier_subresource := D3D12_RESOURCE_BARRIER_ALL_SUBRESOURCES
    TransitionBarrier_flushBarriers := false
    UAVBarrier_flushBarriers := false
    AliasingBarrier_flushBarriers := false
    Dispatch_numGroupsZ := 1
    TransitionResource_subResource := D3D12_RESOURCE_BARRIER_ALL_SUBRESOURCES
    SetShaderResourceView_firstSubresource := 0
    SetShaderResourceView_numSubresources := D3D12_RESOURCE_BARRIER_ALL_SUBRESOURCES
    GenerateMips_GenerateMipsCB := 0
    GenerateMips_SrcMip := 1
    GenerateMips_OutMip := 2
    PanoToCubemapRS_PanoToCubemapCB := 0
    PanoToCubemapRS_SrcTexture := 1
    PanoToCubemapRS_DstMips := 2
    generateMipsPSO := { m_RootSignature := some 100, m_PipelineState := some 101 }
    panoToCubemapPSO := { m_RootSignature := some 200, m_PipelineState := some 201 }
    GetUAVCompatableFormat := fun f => f
    IsSRGBFormat := fun _ => false
    GetSRGBFormat := fun f => f
    DivideByMultiple := fun value alignment => (value + alignment - 1) / alignment
    deviceFormatUAVSupport := fun _ => true
    succeeded := fun _ => true
    computeQueue_GetCommandList := fun _ => Recorder.fresh }

/-- A sample state: nothing created, nothing recorded. -/
def sampleSt : St :=
  { world := { deviceCalls := 0, computeQueueRequests := 0, ms_GlobalResourceState := [] }
    cl := Recorder.fresh }

/-- The description of a 2D texture of the given size and mip count, format 28
(`DXGI_FORMAT_R8G8B8A8_UNORM`), one array slice, not multisampled, with the
given flags. -/
def sampleDesc (width height mipLevels flags : Nat) : D3D12_RESOURCE_DESC :=
  { Dimension := D3D12_RESOURCE_DIMENSION_TEXTURE2D, Width := width, Height := height,
    DepthOrArraySize := 1, MipLevels := mipLevels, Format := 28, SampleCount := 1,
    Flags := flags }

/-- A resource with the description `sampleDesc`. -/
def sampleResource (width height mipLevels flags : Nat) : D3D12Resource :=
  { id := 1000, desc := sampleDesc width height mipLevels flags }

/-- A texture on `sampleResource` whose format supports UAV access. -/
def sampleTexture (width height mipLevels flags : Nat) : Texture :=
  { m_d3d12Resource := some (sampleResource width height mipLevels flags)
    uavSupport := true
    m_TextureUsage := 0 }

/-- A direct command list that has recorded nothing. -/
def sampleDirectList : CommandList :=
  { m_d3d12CommandListType := D3D12_COMMAND_LIST_TYPE.DIRECT
    recorder := Recorder.fresh
    m_ComputeCommandList := none }

/-- A command list in use: it tracks a root signature and a resource, root
signature 7 is current, two descriptor heaps are bound and a compute command
list is cached. -/
def sampleUsedList : CommandList :=
  { m_d3d12CommandListType := D3D12_COMMAND_LIST_TYPE.DIRECT
    recorder :=
      { Recorder.fresh with
        log := [Event.Command (Command.SetGraphicsRootSignature (some 7))]
        m_TrackedObjects :=
          [some (D3D12Object.rootSignature 7),
           some (D3D12Object.resource (sampleResource 8 8 1 0))]
        m_RootSignature := some 7
        m_DescriptorHeaps := [some 11, none, some 12, none] }
    m_ComputeCommandList := some Recorder.fresh }

/-- A copy command list that has recorded nothing and caches no compute list. -/
def sampleCopyList : CommandList :=
  { m_d3d12CommandListType := D3D12_COMMAND_LIST_TYPE.COPY
    recorder := Recorder.fresh
    m_ComputeCommandList := none }

/-- The operation never ends with a `throw std::exception(what)`. -/
def Op.NoException {α : Type} (x : Op α) : Prop :=
  ∀ s what, (x s).1 ≠ Except.error (Err.exception what)

/-- The steps of mip generation a log is read for: aliasing barrier requests,
resource copies, dispatches and UAV barrier requests. -/
inductive Step where
  | AliasingBarrier (resourceBefore resourceAfter : Option D3D12Resource)
  | CopyResource (dst src : Option D3D12Resource)
  | Dispatch
  | UAVBarrier (resource : Option D3D12Resource)
deriving DecidableEq, Repr

/-- The step a call stands for, if any. -/
def Event.step : Event → Option Step
  | Event.ResourceBarrier (Barrier.Aliasing a b) => some (Step.AliasingBarrier a b)
  | Event.ResourceBarrier (Barrier.UAV res) => some (Step.UAVBarrier res)
  | Event.Command (Command.CopyResource dst src) => some (Step.CopyResource dst src)
  | Event.Command (Command.Dispatch _ _ _) => some Step.Dispatch
  | _ => none

/-- The steps of a log, in order. -/
def steps (log : List Event) : List Step := log.filterMap Event.step

/-- The steps of `n` passes of mip generation on a resource: each pass is a
dispatch followed by a UAV barrier on the resource. -/
def mipSteps (resource : Option D3D12Resource) (n : Nat) : List Step :=
  (List.replicate n [Step.Dispatch, Step.UAVBarrier resource]).flatten

/-- The constant buffer a call writes for a pass of mip generation, if the
call is `SetCompute32BitConstants` with a `GenerateMipsCB`. -/
def Event.passConstants : Event → Option GenerateMipsCB
  | Event.Command (Command.SetComputeRoot32BitConstantsMips _ cb) => some cb
  | _ => none

/-- The constant buffers of mip generation written in a log, in order: one
for every pass of `GenerateMips_UAV` recorded in it. -/
def passConstants (log : List Event) : List GenerateMipsCB :=
  log.filterMap Event.passConstants

/-- The descriptions of the two placed resources of the staging path. -/
def aliasDesc (resourceDesc : D3D12_RESOURCE_DESC) : D3D12_RESOURCE_DESC :=
  { resourceDesc with Flags := aliasFlags resourceDesc.Flags }

/-- The description of the UAV-compatible placed resource of the staging path. -/
def uavDesc (env : Env) (resourceDesc : D3D12_RESOURCE_DESC) : D3D12_RESOURCE_DESC :=
  { aliasDesc resourceDesc with Format := env.GetUAVCompatableFormat resourceDesc.Format }

/-- The calls of the staging block of `GenerateMips`, flush traffic apart, when
the device calls succeed; `n` is the ordinal of the first of them. -/
def GenerateMips_stage_calls (env : Env) (resource : D3D12Resource) (n : Nat) : List Event :=
  [Event.CreateHeap (some n),
   Event.TrackResource (some (D3D12Object.heap n)),
   Event.CreatePlacedResource n (aliasDesc resource.desc) D3D12_RESOURCE_STATE_COMMON
     (some { id := n + 1, desc := aliasDesc resource.desc }),
   Event.AddGlobalResourceState (some { id := n + 1, desc := aliasDesc resource.desc })
     D3D12_RESOURCE_STATE_COMMON,
   Event.TrackResource
     (some (D3D12Object.resource { id := n + 1, desc := aliasDesc resource.desc })),
   Event.CreatePlacedResource n (uavDesc env resource.desc) D3D12_RESOURCE_STATE_COMMON
     (some { id := n + 2, desc := uavDesc env resource.desc }),
   Event.AddGlobalResourceState (some { id := n + 2, desc := uavDesc env resource.desc })
     D3D12_RESOURCE_STATE_COMMON,
   Event.TrackResource
     (some (D3D12Object.resource { id := n + 2, desc := uavDesc env resource.desc })),
   Event.ResourceBarrier
     (Barrier.Aliasing none (some { id := n + 1, desc := aliasDesc resource.desc }))] ++
  CopyResource_calls env (some { id := n + 1, desc := aliasDesc resource.desc })
    (some resource) ++
  [Event.ResourceBarrier
    (Barrier.Aliasing (some { id := n + 1, desc := aliasDesc resource.desc })
      (some { id := n + 2, desc := uavDesc env resource.desc }))]

/-- The texture `m_Device->CreateTexture(resource, usage)` returns. -/
def createdTexture (env : Env) (resource : D3D12Resource) (textureUsage : Nat) : Texture :=
  { m_d3d12Resource := some resource
    uavSupport := env.deviceFormatUAVSupport resource.desc.Format
    m_TextureUsage := textureUsage }

/-- The calls of `GenerateMips` below its copy branch, flush traffic apart, on
a supported texture with more than one mip when the device calls succeed and
the passes run to the end: `n` is the ordinal of the first device call and
`r1` the recorder on which `GenerateMips_UAV` starts. -/
def GenerateMips_body_calls (env : Env) (texture : Texture) (resource : D3D12Resource)
    (n : Nat) (r1 : Recorder) : List Event :=
  if needsStaging texture resource.desc then
    GenerateMips_stage_calls env resource n ++
    [Event.CheckFeatureSupport (uavDesc env resource.desc).Format true] ++
    GenerateMips_UAV_calls env
      (createdTexture env { id := n + 2, desc := uavDesc env resource.desc }
        texture.m_TextureUsage)
      (env.IsSRGBFormat resource.desc.Format) r1 ++
    [Event.ResourceBarrier (Barrier.Aliasing
      (some { id := n + 2, desc := uavDesc env resource.desc })
      (some { id := n + 1, desc := aliasDesc resource.desc }))] ++
    CopyResource_calls env (some resource)
      (some { id := n + 1, desc := aliasDesc resource.desc })
  else
    [Event.CheckFeatureSupport resource.desc.Format true] ++
    GenerateMips_UAV_calls env (createdTexture env resource texture.m_TextureUsage)
      (env.IsSRGBFormat resource.desc.Format) r1

/-- The operation leaves the count of requests to the compute queue as it was. -/
def Op.KeepsQueue {α : Type} (x : Op α) : Prop :=
  ∀ s, (x s).2.world.computeQueueRequests = s.world.computeQueueRequests

/-- A call that a copy command list forwards to its compute command list. -/
inductive ComputeCall where
  | GenerateMips (texture : Texture)
  | PanoToCubemap (cubemapTexture panoTexture : Texture)
deriving DecidableEq, Repr

/-- Make one call on a command list. -/
def CommandList.call (env : Env) (call : ComputeCall) (w : World) (c : CommandList) :
    Except Err Unit × World × CommandList :=
  match call with
  | ComputeCall.GenerateMips texture => c.GenerateMips env texture w
  | ComputeCall.PanoToCubemap cubemapTexture panoTexture =>
    c.PanoToCubemap env cubemapTexture panoTexture w

/-- Make a sequence of calls on a command list, one after the other, whatever
each returns or throws. -/
def CommandList.calls (env : Env) : List ComputeCall → World → CommandList → World × CommandList
  | [], w, c => (w, c)
  | call :: rest, w, c =>
    CommandList.calls env rest (c.call env call w).2.1 (c.call env call w).2.2

/-- A call of `StageDescriptors` on the CBV/SRV/UAV dynamic descriptor heap:
`numDescriptors` handles starting at `src`, for the slots from `offset` on of
the table at `rootParameterIndex`. -/
structure Staging where
  rootParameterIndex : Nat
  offset : Nat
  numDescriptors : Nat
  src : Descriptor
deriving DecidableEq, Repr

/-- The staging a call stands for, if it is one on the CBV/SRV/UAV heap. -/
def Event.staging : Event → Option Staging
  | Event.StageDescriptors heapType rootParameterIndex offset numDescriptors src =>
    if heapType = D3D12_DESCRIPTOR_HEAP_TYPE_CBV_SRV_UAV then
      some { rootParameterIndex := rootParameterIndex, offset := offset,
             numDescriptors := numDescriptors, src := src }
    else none
  | _ => none

/-- The stagings of a log, in order. -/
def stagings (log : List Event) : List Staging := log.filterMap Event.staging

/-- Whether a staging writes the given slot of the given table. -/
def Staging.covers (st : Staging) (rootParameterIndex slot : Nat) : Bool :=
  st.rootParameterIndex == rootParameterIndex && decide (st.offset ≤ slot) &&
    decide (slot < st.offset + st.numDescriptors)

/-- Modelled from the spec: `stage(rootParam, offset, count, srcCPUHandle…)`
"copies handles into the stage", so after a list of stagings a slot holds the
handle written by the last staging that covers it: the source handle of that
staging advanced by the slot's distance from its offset. -/
def stagedAt (l : List Staging) (rootParameterIndex slot : Nat) : Option (Descriptor × Nat) :=
  (l.reverse.find? (fun st => st.covers rootParameterIndex slot)).map
    (fun st => (st.src, slot - st.offset))

/-- The calls of one round of the colour-attachment loop of `SetRenderTarget`,
flush traffic apart. -/
def bindColorTarget_calls (env : Env) (texture : Texture) : List Event :=
  if texture.IsValid then
    TransitionBarrier_calls texture.GetD3D12Resource D3D12_RESOURCE_STATE_RENDER_TARGET
      env.TransitionBarrier_subresource ++
    [Event.TrackResource (texture.GetD3D12Resource.map D3D12Object.resource)]
  else []

/-- The descriptor one round of the colour-attachment loop of `SetRenderTarget`
pushes. -/
def bindColorTarget_descriptors (texture : Texture) : List Descriptor :=
  if texture.IsValid then [Descriptor.RTV texture.GetD3D12Resource] else []

/-- The calls of `SetRenderTarget`, flush traffic apart. -/
def SetRenderTarget_calls (env : Env) (renderTarget : Recorder.RenderTarget) : List Event :=
  (renderTarget.color.take 8).flatMap (bindColorTarget_calls env) ++
  (if renderTarget.depthStencil.GetD3D12Resource.isSome then
    TransitionBarrier_calls renderTarget.depthStencil.GetD3D12Resource
      D3D12_RESOURCE_STATE_DEPTH_WRITE env.TransitionBarrier_subresource ++
    [Event.TrackResource (renderTarget.depthStencil.GetD3D12Resource.map D3D12Object.resource)]
   else []) ++
  [Event.Command (Command.OMSetRenderTargets
    ((renderTarget.color.take 8).flatMap bindColorTarget_descriptors)
    (if renderTarget.depthStencil.GetD3D12Resource.isSome then
      some (Descriptor.DSV renderTarget.depthStencil.GetD3D12Resource) else none))]

/-! ## The remaining operations of the command list -/

def D3D12_CONSTANT_BUFFER_DATA_PLACEMENT_ALIGNMENT : Nat := 256

def DXGI_FORMAT_R16_UINT : Nat := 57

/-- Source `CommandList::SetPrimitiveTopology`. -/
def Recorder.SetPrimitiveTopology (primitiveTopology : Nat) (r : Recorder) : Recorder :=
  r.record (Command.IASetPrimitiveTopology primitiveTopology)

/-- Source `CommandList::SetGraphicsDynamicConstantBuffer`; `gpu` is the GPU
address of the allocation `m_UploadBuffer->Allocate` returns. -/
def Recorder.SetGraphicsDynamicConstantBuffer (rootParameterIndex sizeInBytes gpu : Nat)
    (r : Recorder) : Recorder :=
  let r := r.emit
    (Event.UploadBufferAllocate sizeInBytes D3D12_CONSTANT_BUFFER_DATA_PLACEMENT_ALIGNMENT)
  r.record (Command.SetGraphicsRootConstantBufferView rootParameterIndex gpu)

/-- Source `CommandList::SetGraphics32BitConstants`; `constants` is the pointer. -/
def Recorder.SetGraphics32BitConstants (rootParameterIndex numConstants constants : Nat)
    (r : Recorder) : Recorder :=
  r.record (Command.SetGraphicsRoot32BitConstants rootParameterIndex numConstants constants)

/-- Source `CommandList::SetCompute32BitConstants`; `constants` is the pointer. -/
def Recorder.SetCompute32BitConstants (rootParameterIndex numConstants constants : Nat)
    (r : Recorder) : Recorder :=
  r.record (Command.SetComputeRoot32BitConstants rootParameterIndex numConstants constants)

/-- Source `CommandList::SetDynamicVertexBuffer`; `gpu` is the GPU address of
the allocation. -/
def Recorder.SetDynamicVertexBuffer (slot numVertices vertexSize gpu : Nat) (r : Recorder) :
    Recorder :=
  let bufferSize := u64 (numVertices * vertexSize)
  let r := r.emit (Event.UploadBufferAllocate bufferSize vertexSize)
  r.record (Command.IASetVertexBuffersView slot gpu (u32 bufferSize) (u32 vertexSize))

/-- Source `CommandList::SetDynamicIndexBuffer`; `gpu` is the GPU address of
the allocation. -/
def Recorder.SetDynamicIndexBuffer (numIndicies indexFormat gpu : Nat) (r : Recorder) :
    Recorder :=
  let indexSizeInBytes := if indexFormat = DXGI_FORMAT_R16_UINT then 2 else 4
  let bufferSize := u64 (numIndicies * indexSizeInBytes)
  let r := r.emit (Event.UploadBufferAllocate bufferSize indexSizeInBytes)
  r.record (Command.IASetIndexBufferView gpu (u32 bufferSize) indexFormat)

/-- Source `CommandList::SetGraphicsDynamicStructuredBuffer`; `gpu` is the
GPU address of the allocation. -/
def Recorder.SetGraphicsDynamicStructuredBuffer (slot numElements elementSize gpu : Nat)
    (r : Recorder) : Recorder :=
  let bufferSize := u64 (numElements * elementSize)
  let r := r.emit (Event.UploadBufferAllocate bufferSize elementSize)
  r.record (Command.SetGraphicsRootShaderResourceView slot gpu)

/-- Source `CommandList::SetViewports`, for `numViewports` viewports (the
`assert` on their number is compiled out of a release build). -/
def Recorder.SetViewports (numViewports : Nat) (r : Recorder) : Recorder :=
  r.record (Command.RSSetViewports (u32 numViewports))

/-- Source `CommandList::SetViewport`. -/
def Recorder.SetViewport (r : Recorder) : Recorder := r.SetViewports 1

/-- Source `CommandList::SetScissorRects`, for `numRects` rectangles. -/
def Recorder.SetScissorRects (numRects : Nat) (r : Recorder) : Recorder :=
  r.record (Command.RSSetScissorRects (u32 numRects))

/-- Source `CommandList::SetScissorRect`. -/
def Recorder.SetScissorRect (r : Recorder) : Recorder := r.SetScissorRects 1

/-- Source `CommandList::BindDescriptorHeaps`: the non-null bound heaps, in
slot order, are set on the underlying list. -/
def Recorder.BindDescriptorHeaps (r : Recorder) : Recorder :=
  r.record (Command.SetDescriptorHeaps
    ((r.m_DescriptorHeaps.take D3D12_DESCRIPTOR_HEAP_TYPE_NUM_TYPES).filterMap id))

/-- Source `CommandList::SetDescriptorHeap`, for a heap type below
`D3D12_DESCRIPTOR_HEAP_TYPE_NUM_TYPES`. -/
def Recorder.SetDescriptorHeap (heapType : Nat) (heap : Option Nat) (r : Recorder) : Recorder :=
  if r.m_DescriptorHeaps.getD heapType none ≠ heap then
    let r := { r with m_DescriptorHeaps := r.m_DescriptorHeaps.set heapType heap }
    r.BindDescriptorHeaps
  else r

/-- Source `CommandList::Close()`. -/
def Recorder.Close (r : Recorder) : Recorder :=
  let r := r.FlushResourceBarriers
  r.record Command.Close

/-- Source `CommandList::ReleaseTrackedObjects`. -/
def Recorder.ReleaseTrackedObjects (r : Recorder) : Recorder :=
  { r with
    log := r.log ++ [Event.ReleaseTrackedObjects]
    m_TrackedObjects := [] }

/-- Modelled from the spec: `flushPending(patchList) → n` of the tracker
(`ResourceStateTracker::FlushPendingResourceBarriers`, not part of the
sources): "for each pending entry, read the current global state; if it
differs from `stateAfter`, emit a barrier into `patchList`; return the number
of barriers emitted".  A subresource the global map does not know is read as
COMMON (section 4.3, failure semantics).  The result is the list of barriers
emitted. -/
def ResourceStateTracker.FlushPendingResourceBarriers (t : ResourceStateTracker) (w : World) :
    List Barrier :=
  t.m_PendingResourceBarriers.filterMap (fun p =>
    let globalState := (w.globalState p.1 p.2.1).getD D3D12_RESOURCE_STATE_COMMON
    if globalState ≠ p.2.2 then some (Barrier.Transition p.1 globalState p.2.2 p.2.1)
    else none)

/-- Write one entry of a final map into the global map; the entry of a whole
resource replaces the entries of its subresources. -/
def World.commitEntry (w : World) (e : (D3D12Resource × Nat) × Nat) : World :=
  if e.1.2 = D3D12_RESOURCE_BARRIER_ALL_SUBRESOURCES then
    { w with ms_GlobalResourceState :=
        e :: w.ms_GlobalResourceState.filter (fun g => g.1.1 ≠ e.1.1) }
  else
    { w with ms_GlobalResourceState :=
        e :: w.ms_GlobalResourceState.filter (fun g => g.1 ≠ e.1) }

/-- Modelled from the spec: `commitFinal()` of the tracker
(`ResourceStateTracker::CommitFinalResourceStates`, not part of the sources):
"write every final-map entry into the global map". -/
def World.CommitFinalResourceStates (w : World) (t : ResourceStateTracker) : World :=
  t.m_FinalResourceState.foldl World.commitEntry w

/-- What `Close(pendingCommandList)` returns and leaves behind. -/
structure CloseResult where
  result : Bool
  world : World
  recorder : Recorder
  pendingCommandList : Recorder
deriving DecidableEq, Repr

/-- Source `bool CommandList::Close( CommandList& pendingCommandList )`, on the
recorders of the two command lists. -/
def Recorder.Close_pending (r : Recorder) (pendingCommandList : Recorder) (w : World) :
    CloseResult :=
  let r := r.FlushResourceBarriers
  let r := r.record Command.Close
  let barriers := r.m_ResourceStateTracker.FlushPendingResourceBarriers w
  let pendingCommandList := barriers.foldl
    (fun p b => p.record (Command.ResourceBarrier b)) pendingCommandList
  let numPendingBarriers := barriers.length
  let r := r.emit (Event.FlushPendingResourceBarriers numPendingBarriers)
  let w := w.CommitFinalResourceStates r.m_ResourceStateTracker
  let r := r.emit Event.CommitFinalResourceStates
  { result := decide (numPendingBarriers > 0), world := w, recorder := r,
    pendingCommandList := pendingCommandList }

/-- The loop of `Reset` over the descriptor heap types:
`m_DynamicDescriptorHeap[i]->Reset(); m_DescriptorHeaps[i] = nullptr;`. -/
def Recorder.resetDescriptorHeaps (r : Recorder) : Recorder :=
  (List.range D3D12_DESCRIPTOR_HEAP_TYPE_NUM_TYPES).foldl
    (fun r i =>
      let r := r.emit (Event.DynamicDescriptorHeapReset i)
      { r with m_DescriptorHeaps := r.m_DescriptorHeaps.set i none }) r

/-- Source `CommandList::Reset`; the two arguments say whether
`m_d3d12CommandAllocator->Reset()` and `m_d3d12CommandList->Reset(...)`
succeed. -/
def CommandList.Reset (allocatorReset commandListReset : Bool) (c : CommandList) :
    Except Err Unit × CommandList :=
  let r := c.recorder.emit (Event.CommandAllocatorReset allocatorReset)
  if !allocatorReset then (Except.error Err.ThrowIfFailed, { c with recorder := r }) else
  let r := r.record Command.Reset
  if !commandListReset then (Except.error Err.ThrowIfFailed, { c with recorder := r }) else
  let r := r.emit Event.ResourceStateTrackerReset
  let r := { r with m_ResourceStateTracker := r.m_ResourceStateTracker.Reset }
  let r := r.emit Event.UploadBufferReset
  let r := r.ReleaseTrackedObjects
  let r := r.resetDescriptorHeaps
  let r := { r with m_RootSignature := none }
  (Except.ok (), { c with recorder := r, m_ComputeCommandList := none })

/-- Source `CommandList::CopyTextureSubresource`; `requiredSize` is what
`GetRequiredIntermediateSize` returns for the destination and the range. -/
def CopyTextureSubresource (env : Env) (requiredSize : Nat) (texture : Texture)
    (firstSubresource numSubresources : Nat) : Op Unit :=
  match texture.GetD3D12Resource with
  | some destinationResource => do
    Op.onCl (Recorder.TransitionBarrier (some destinationResource)
      D3D12_RESOURCE_STATE_COPY_DEST env.TransitionBarrier_subresource
      env.TransitionBarrier_flushBarriers)
    Op.onCl Recorder.FlushResourceBarriers
    let intermediateResource ← Op.CreateCommittedResource env D3D12_HEAP_TYPE_UPLOAD
      (CD3DX12_RESOURCE_DESC_Buffer requiredSize 0) D3D12_RESOURCE_STATE_GENERIC_READ
    Op.onCl (Recorder.record (Command.UpdateSubresources (some destinationResource)
      (some intermediateResource) firstSubresource numSubresources))
    Op.onCl (Recorder.TrackResource_res (some intermediateResource))
    Op.onCl (Recorder.TrackResource_res (some destinationResource))
  | none => return ()

/-- Source `CommandList::LoadSceneFromFile`: the importer either yields a
scene, and nothing more is done, or the function throws. -/
def LoadSceneFromFile (aiScene : Bool) (errorMessage : String) : Op Unit :=
  if aiScene then return () else Op.raise (Err.exception errorMessage)

/-- The fields of `DirectX::TexMetadata` the loader reads. -/
structure TexMetadata where
  width : Nat
  height : Nat
  depth : Nat
  arraySize : Nat
  format : Nat
  dimension : Nat
deriving DecidableEq, Repr

/-- An image file as loaded: its metadata and `scratchImage.GetImageCount()`. -/
structure LoadedImage where
  metadata : TexMetadata
  imageCount : Nat
deriving DecidableEq, Repr

def TEX_DIMENSION_TEXTURE1D : Nat := 2

def TEX_DIMENSION_TEXTURE2D : Nat := 3

def TEX_DIMENSION_TEXTURE3D : Nat := 4

/-- What `LoadTextureFromFile` uses that is not part of the sources: the file
system (`fs::exists`), the image loaders of DirectXTex (`LoadFromDDSFile`,
`LoadFromHDRFile`, `LoadFromTGAFile`, `LoadFromWICFile`, chosen by the file
extension; `none` is a failed `HRESULT`), `MakeSRGB`, the value of
`TextureUsage::Albedo`, the mip count `GetDesc()` reports for a resource
created from a description that asks for the full chain, and
`GetRequiredIntermediateSize`. -/
structure TextureFiles where
  fileExists : String → Bool
  LoadFromFile : String → Option LoadedImage
  MakeSRGB : Nat → Nat
  TextureUsage_Albedo : Nat
  GetDesc_MipLevels : D3D12_RESOURCE_DESC → Nat
  GetRequiredIntermediateSize : D3D12Resource → Nat → Nat → Nat

/-- Helpers `CD3DX12_RESOURCE_DESC::Tex1D`, `Tex2D` and `Tex3D` of `d3dx12.h`
at their default mip count 0 (the full chain), as the `switch` on
`metadata.dimension` calls them; `none` is the `default` case. -/
def textureDesc (metadata : TexMetadata) (format : Nat) : Option D3D12_RESOURCE_DESC :=
  if metadata.dimension = TEX_DIMENSION_TEXTURE1D then
    some { Dimension := 2, Width := u64 metadata.width, Height := 1,
           DepthOrArraySize := metadata.arraySize % 65536, MipLevels := 0, Format := format,
           SampleCount := 1, Flags := 0 }
  else if metadata.dimension = TEX_DIMENSION_TEXTURE2D then
    some { Dimension := 3, Width := u64 metadata.width, Height := u32 metadata.height,
           DepthOrArraySize := metadata.arraySize % 65536, MipLevels := 0, Format := format,
           SampleCount := 1, Flags := 0 }
  else if metadata.dimension = TEX_DIMENSION_TEXTURE3D then
    some { Dimension := 4, Width := u64 metadata.width, Height := u32 metadata.height,
           DepthOrArraySize := metadata.depth % 65536, MipLevels := 0, Format := format,
           SampleCount := 1, Flags := 0 }
  else none

/-- The static `CommandList::ms_TextureCache`, from file name to resource. -/
def TextureCache : Type := List (String × D3D12Resource)

/-- Source `ms_TextureCache[fileName] = textureResource.Get()`. -/
def TextureCache.insert (cache : TextureCache) (fileName : String) (resource : D3D12Resource) :
    TextureCache :=
  (fileName, resource) :: List.filter (fun e => e.1 ≠ fileName) cache

/-- Source `ms_TextureCache.find( fileName )`. -/
def TextureCache.find (cache : TextureCache) (fileName : String) : Option D3D12Resource :=
  List.lookup fileName cache

/-- What a call of `LoadTextureFromFile` works on: the texture handed in by
reference, the clear value it holds, the texture cache, the process-wide
state and the command list. -/
structure LoadState where
  texture : Texture
  m_d3d12ClearValue : Option Nat
  ms_TextureCache : TextureCache
  world : World
  commandList : CommandList

/-- The calls `texture.SetTextureUsage(textureUsage);
texture.SetD3D12Resource(m_Device, resource); texture.CreateViews();
texture.SetName(fileName);` of `LoadTextureFromFile`.  `SetD3D12Resource`
(Resource.cpp) stores the resource, then, the texture holding a clear value,
dereferences its null `clearValue` argument, else clears the clear value and
queries the format support under `ThrowIfFailed`. -/
def LoadState.bindTexture (env : Env) (textureUsage : Nat) (resource : D3D12Resource)
    (s : LoadState) : Except Err Unit × LoadState :=
  let texture := { s.texture with m_TextureUsage := textureUsage }
  let texture := { texture with m_d3d12Resource := some resource }
  if s.m_d3d12ClearValue.isSome then
    (Except.error Err.nullDereference, { s with texture := texture })
  else
    match s.commandList.onOwn (Op.CheckFeatureSupport env (some resource)) s.world with
    | (Except.ok _, w, c) =>
      let texture := { texture with uavSupport := env.deviceFormatUAVSupport resource.desc.Format }
      (Except.ok (), { s with texture := texture, world := w, commandList := c })
    | (Except.error e, w, c) =>
      (Except.error e, { s with texture := texture, world := w, commandList := c })

/-- Source `CommandList::LoadTextureFromFile` on a file that is not in the
cache, from the point where the image is loaded. -/
def LoadState.loadNew (env : Env) (files : TextureFiles) (fileName : String)
    (textureUsage : Nat) (image : LoadedImage) (s : LoadState) : Except Err Unit × LoadState :=
  let format := if textureUsage = files.TextureUsage_Albedo then
      files.MakeSRGB image.metadata.format else image.metadata.format
  match textureDesc image.metadata format with
  | none => (Except.error (Err.exception "Invalid texture dimension."), s)
  | some textureDesc =>
    let created := { textureDesc with MipLevels := files.GetDesc_MipLevels textureDesc }
    match Op.CreateCommittedResource_GetDesc env D3D12_HEAP_TYPE_DEFAULT textureDesc created
        D3D12_RESOURCE_STATE_COMMON (St.mk s.world s.commandList.recorder) with
    | (Except.error e, s1) =>
      (Except.error e,
        { s with world := s1.world, commandList := { s.commandList with recorder := s1.cl } })
    | (Except.ok textureResource, s1) =>
      let s := { s with
        world := s1.world, commandList := { s.commandList with recorder := s1.cl } }
      match s.bindTexture env textureUsage textureResource with
      | (Except.error e, s) => (Except.error e, s)
      | (Except.ok _, s) =>
        let numSubresources := u32 image.imageCount
        let copy : Op Unit := do
          Op.AddGlobalResourceState (some textureResource) D3D12_RESOURCE_STATE_COMMON
          CopyTextureSubresource env
            (files.GetRequiredIntermediateSize textureResource 0 numSubresources)
            s.texture 0 numSubresources
        match s.commandList.onOwn copy s.world with
        | (Except.error e, w, c) => (Except.error e, { s with world := w, commandList := c })
        | (Except.ok _, w, c) =>
          let s := { s with world := w, commandList := c }
          let mips := if image.imageCount < textureResource.desc.MipLevels then
              s.commandList.GenerateMips env s.texture s.world
            else (Except.ok (), s.world, s.commandList)
          match mips with
          | (Except.error e, w, c) => (Except.error e, { s with world := w, commandList := c })
          | (Except.ok _, w, c) =>
            (Except.ok (),
              { s with
                world := w, commandList := c,
                ms_TextureCache := s.ms_TextureCache.insert fileName textureResource })

/-- Source `CommandList::LoadTextureFromFile`. -/
def LoadState.LoadTextureFromFile (env : Env) (files : TextureFiles) (fileName : String)
    (textureUsage : Nat) (s : LoadState) : Except Err Unit × LoadState :=
  if !files.fileExists fileName then (Except.error (Err.exception "File not found."), s)
  else
    match s.ms_TextureCache.find fileName with
    | some resource => s.bindTexture env textureUsage resource
    | none =>
      match files.LoadFromFile fileName with
      | none => (Except.error Err.ThrowIfFailed, s)
      | some image => s.loadNew env files fileName textureUsage image

/-- Source `CommandList::CopyVertexBuffer`. -/
def CopyVertexBuffer (env : Env) (numVertices vertexStride : Nat) (vertexBufferData : Option Nat) :
    Op (Option D3D12Resource) :=
  CopyBuffer env numVertices vertexStride vertexBufferData env.CopyBuffer_flags

/-- Source `CommandList::CopyIndexBuffer`. -/
def CopyIndexBuffer (env : Env) (numIndicies indexFormat : Nat) (indexBufferData : Option Nat) :
    Op (Option D3D12Resource) :=
  let indexSizeInBytes := if indexFormat = DXGI_FORMAT_R16_UINT then 2 else 4
  CopyBuffer env numIndicies indexSizeInBytes indexBufferData env.CopyBuffer_flags

/-- Source `CommandList::CopyByteAddressBuffer`. -/
def CopyByteAddressBuffer (env : Env) (bufferSize : Nat) (bufferData : Option Nat) :
    Op (Option D3D12Resource) :=
  CopyBuffer env 1 bufferSize bufferData D3D12_RESOURCE_FLAG_ALLOW_UNORDERED_ACCESS

/-- Source `CommandList::CopyStructuredBuffer`. -/
def CopyStructuredBuffer (env : Env) (numElements elementSize : Nat) (bufferData : Option Nat) :
    Op (Option D3D12Resource) :=
  CopyBuffer env numElements elementSize bufferData D3D12_RESOURCE_FLAG_ALLOW_UNORDERED_ACCESS

/-- Forget what an operation returns. -/
def Op.discard {α : Type} (x : Op α) : Op Unit := fun s =>
  match x s with
  | (Except.ok _, s1) => (Except.ok (), s1)
  | (Except.error e, s1) => (Except.error e, s1)

/-- A call of a member function of `CommandList` other than `Reset` (and
`ReleaseTrackedObjects`, which only `Reset` calls), with its arguments. -/
inductive Operation where
  | TransitionBarrier (resource : Option D3D12Resource) (stateAfter subresource : Nat)
      (flushBarriers : Bool)
  | UAVBarrier (resource : Option D3D12Resource) (flushBarriers : Bool)
  | AliasingBarrier (beforeResource afterResource : Option D3D12Resource) (flushBarriers : Bool)
  | FlushResourceBarriers
  | CopyResource (dstRes srcRes : Option D3D12Resource)
  | ResolveSubresource (dstRes srcRes : Texture) (dstSubresource srcSubresource dstFormat : Nat)
  | CopyBuffer (numElements elementSize : Nat) (bufferData : Option Nat) (flags : Nat)
  | CopyVertexBuffer (numVertices vertexStride : Nat) (vertexBufferData : Option Nat)
  | CopyIndexBuffer (numIndicies indexFormat : Nat) (indexBufferData : Option Nat)
  | CopyByteAddressBuffer (bufferSize : Nat) (bufferData : Option Nat)
  | CopyStructuredBuffer (numElements elementSize : Nat) (bufferData : Option Nat)
  | SetPrimitiveTopology (primitiveTopology : Nat)
  | LoadTextureFromFile (files : TextureFiles) (fileName : String) (textureUsage : Nat)
      (texture : Texture) (clearValue : Option Nat) (cache : TextureCache)
  | GenerateMips (texture : Texture)
  | GenerateMips_UAV (texture : Texture) (isSRGB : Bool)
  | PanoToCubemap (cubemapTexture panoTexture : Texture)
  | LoadSceneFromFile (aiScene : Bool) (errorMessage : String)
  | ClearTexture (texture : Texture)
  | ClearDepthStencilTexture (texture : Texture) (clearFlags : Nat)
  | CopyTextureSubresource (requiredSize : Nat) (texture : Texture)
      (firstSubresource numSubresources : Nat)
  | SetGraphicsDynamicConstantBuffer (rootParameterIndex sizeInBytes gpu : Nat)
  | SetGraphics32BitConstants (rootParameterIndex numConstants constants : Nat)
  | SetCompute32BitConstants (rootParameterIndex numConstants constants : Nat)
  | SetVertexBuffer (slot : Nat) (vertexBuffer : Option D3D12Resource)
  | SetDynamicVertexBuffer (slot numVertices vertexSize gpu : Nat)
  | SetIndexBuffer (indexBuffer : Option D3D12Resource)
  | SetDynamicIndexBuffer (numIndicies indexFormat gpu : Nat)
  | SetGraphicsDynamicStructuredBuffer (slot numElements elementSize gpu : Nat)
  | SetViewport
  | SetViewports (numViewports : Nat)
  | SetScissorRect
  | SetScissorRects (numRects : Nat)
  | SetPipelineState (pipelineState : Option Nat)
  | SetGraphicsRootSignature (rootSignature : Option Nat)
  | SetComputeRootSignature (rootSignature : Option Nat)
  | SetShaderResourceView (rootParameterIndex descriptorOffset : Nat)
      (resource : Option D3D12Resource) (stateAfter firstSubresource numSubresources : Nat)
      (srv : Descriptor)
  | SetUnorderedAccessView (rootParameterIndex descrptorOffset : Nat)
      (resource : Option D3D12Resource) (stateAfter firstSubresource numSubresources : Nat)
      (uav : Descriptor)
  | SetRenderTarget (renderTarget : Recorder.RenderTarget)
  | Draw (vertexCount instanceCount startVertex startInstance : Nat)
  | DrawIndexed (indexCount instanceCount startIndex : Nat) (baseVertex : Int)
      (startInstance : Nat)
  | Dispatch (numGroupsX numGroupsY numGroupsZ : Nat)
  | Close_pending (pendingCommandList : Recorder)
  | Close
  | TrackResource (object : Option D3D12Object)
  | TrackResource_res (res : Option D3D12Resource)
  | SetDescriptorHeap (heapType : Nat) (heap : Option Nat)
  | BindDescriptorHeaps

/-- Run an operation of the recorder that does not throw on a command list. -/
def CommandList.onRecorder (f : Recorder → Recorder) (w : World) (c : CommandList) :
    Except Err Unit × World × CommandList :=
  (Except.ok (), w, { c with recorder := f c.recorder })

/-- The effect of one call on the process-wide state and on the command list
it is made on (what it returns and what it writes to objects handed in by
reference is left out). -/
def CommandList.perform (env : Env) (op : Operation) (w : World) (c : CommandList) :
    Except Err Unit × World × CommandList :=
  match op with
  | Operation.TransitionBarrier resource stateAfter subresource flushBarriers =>
    c.onRecorder (Recorder.TransitionBarrier resource stateAfter subresource flushBarriers) w
  | Operation.UAVBarrier resource flushBarriers =>
    c.onRecorder (Recorder.UAVBarrier resource flushBarriers) w
  | Operation.AliasingBarrier beforeResource afterResource flushBarriers =>
    c.onRecorder (Recorder.AliasingBarrier beforeResource afterResource flushBarriers) w
  | Operation.FlushResourceBarriers => c.onRecorder Recorder.FlushResourceBarriers w
  | Operation.CopyResource dstRes srcRes => c.onRecorder (Recorder.CopyResource env dstRes srcRes) w
  | Operation.ResolveSubresource dstRes srcRes dstSubresource srcSubresource dstFormat =>
    c.onRecorder
      (Recorder.ResolveSubresource env dstRes srcRes dstSubresource srcSubresource dstFormat) w
  | Operation.CopyBuffer numElements elementSize bufferData flags =>
    c.onOwn (CopyBuffer env numElements elementSize bufferData flags).discard w
  | Operation.CopyVertexBuffer numVertices vertexStride vertexBufferData =>
    c.onOwn (CopyVertexBuffer env numVertices vertexStride vertexBufferData).discard w
  | Operation.CopyIndexBuffer numIndicies indexFormat indexBufferData =>
    c.onOwn (CopyIndexBuffer env numIndicies indexFormat indexBufferData).discard w
  | Operation.CopyByteAddressBuffer bufferSize bufferData =>
    c.onOwn (CopyByteAddressBuffer env bufferSize bufferData).discard w
  | Operation.CopyStructuredBuffer numElements elementSize bufferData =>
    c.onOwn (CopyStructuredBuffer env numElements elementSize bufferData).discard w
  | Operation.SetPrimitiveTopology primitiveTopology =>
    c.onRecorder (Recorder.SetPrimitiveTopology primitiveTopology) w
  | Operation.LoadTextureFromFile files fileName textureUsage texture clearValue cache =>
    match LoadState.LoadTextureFromFile env files fileName textureUsage
      (LoadState.mk texture clearValue cache w c) with
    | (res, s) => (res, s.world, s.commandList)
  | Operation.GenerateMips texture => c.GenerateMips env texture w
  | Operation.GenerateMips_UAV texture isSRGB => c.onOwn (GenerateMips_UAV env texture isSRGB) w
  | Operation.PanoToCubemap cubemapTexture panoTexture =>
    c.PanoToCubemap env cubemapTexture panoTexture w
  | Operation.LoadSceneFromFile aiScene errorMessage =>
    c.onOwn (LoadSceneFromFile aiScene errorMessage) w
  | Operation.ClearTexture texture => c.onRecorder (Recorder.ClearTexture env texture) w
  | Operation.ClearDepthStencilTexture texture clearFlags =>
    c.onRecorder (Recorder.ClearDepthStencilTexture env texture clearFlags) w
  | Operation.CopyTextureSubresource requiredSize texture firstSubresource numSubresources =>
    c.onOwn (CopyTextureSubresource env requiredSize texture firstSubresource numSubresources) w
  | Operation.SetGraphicsDynamicConstantBuffer rootParameterIndex sizeInBytes gpu =>
    c.onRecorder (Recorder.SetGraphicsDynamicConstantBuffer rootParameterIndex sizeInBytes gpu) w
  | Operation.SetGraphics32BitConstants rootParameterIndex numConstants constants =>
    c.onRecorder (Recorder.SetGraphics32BitConstants rootParameterIndex numConstants constants) w
  | Operation.SetCompute32BitConstants rootParameterIndex numConstants constants =>
    c.onRecorder (Recorder.SetCompute32BitConstants rootParameterIndex numConstants constants) w
  | Operation.SetVertexBuffer slot vertexBuffer =>
    c.onRecorder (Recorder.SetVertexBuffer env slot vertexBuffer) w
  | Operation.SetDynamicVertexBuffer slot numVertices vertexSize gpu =>
    c.onRecorder (Recorder.SetDynamicVertexBuffer slot numVertices vertexSize gpu) w
  | Operation.SetIndexBuffer indexBuffer => c.onRecorder (Recorder.SetIndexBuffer env indexBuffer) w
  | Operation.SetDynamicIndexBuffer numIndicies indexFormat gpu =>
    c.onRecorder (Recorder.SetDynamicIndexBuffer numIndicies indexFormat gpu) w
  | Operation.SetGraphicsDynamicStructuredBuffer slot numElements elementSize gpu =>
    c.onRecorder (Recorder.SetGraphicsDynamicStructuredBuffer slot numElements elementSize gpu) w
  | Operation.SetViewport => c.onRecorder Recorder.SetViewport w
  | Operation.SetViewports numViewports => c.onRecorder (Recorder.SetViewports numViewports) w
  | Operation.SetScissorRect => c.onRecorder Recorder.SetScissorRect w
  | Operation.SetScissorRects numRects => c.onRecorder (Recorder.SetScissorRects numRects) w
  | Operation.SetPipelineState pipelineState =>
    c.onRecorder (Recorder.SetPipelineState pipelineState) w
  | Operation.SetGraphicsRootSignature rootSignature =>
    c.onRecorder (Recorder.SetGraphicsRootSignature rootSignature) w
  | Operation.SetComputeRootSignature rootSignature =>
    c.onRecorder (Recorder.SetComputeRootSignature rootSignature) w
  | Operation.SetShaderResourceView rootParameterIndex descriptorOffset resource stateAfter
      firstSubresource numSubresources srv =>
    c.onRecorder (Recorder.SetShaderResourceView env rootParameterIndex descriptorOffset resource
      stateAfter firstSubresource numSubresources srv) w
  | Operation.SetUnorderedAccessView rootParameterIndex descrptorOffset resource stateAfter
      firstSubresource numSubresources uav =>
    c.onRecorder (Recorder.SetUnorderedAccessView env rootParameterIndex descrptorOffset resource
      stateAfter firstSubresource numSubresources uav) w
  | Operation.SetRenderTarget renderTarget =>
    c.onRecorder (Recorder.SetRenderTarget env renderTarget) w
  | Operation.Draw vertexCount instanceCount startVertex startInstance =>
    c.onRecorder (Recorder.Draw vertexCount instanceCount startVertex startInstance) w
  | Operation.DrawIndexed indexCount instanceCount startIndex baseVertex startInstance =>
    c.onRecorder
      (Recorder.DrawIndexed indexCount instanceCount startIndex baseVertex startInstance) w
  | Operation.Dispatch numGroupsX numGroupsY numGroupsZ =>
    c.onRecorder (Recorder.Dispatch numGroupsX numGroupsY numGroupsZ) w
  | Operation.Close_pending pendingCommandList =>
    (Except.ok (), (c.recorder.Close_pending pendingCommandList w).world,
      { c with recorder := (c.recorder.Close_pending pendingCommandList w).recorder })
  | Operation.Close => c.onRecorder Recorder.Close w
  | Operation.TrackResource object => c.onRecorder (Recorder.TrackResource object) w
  | Operation.TrackResource_res res => c.onRecorder (Recorder.TrackResource_res res) w
  | Operation.SetDescriptorHeap heapType heap =>
    c.onRecorder (Recorder.SetDescriptorHeap heapType heap) w
  | Operation.BindDescriptorHeaps => c.onRecorder Recorder.BindDescriptorHeaps w

/-- Make a sequence of calls on a command list, one after the other, whatever
each returns or throws. -/
def CommandList.performAll (env : Env) : List Operation → World → CommandList →
    World × CommandList
  | [], w, c => (w, c)
  | op :: rest, w, c =>
    CommandList.performAll env rest (c.perform env op w).2.1 (c.perform env op w).2.2

/-- The function of recorders keeps every tracked object, in order, and at
most appends to the list. -/
def Recorder.KeepsTracked (f : Recorder → Recorder) : Prop :=
  ∀ r, r.m_TrackedObjects <+: (f r).m_TrackedObjects

/-- The operation keeps every tracked object of the recorder it runs on, in
order, and at most appends to the list, whether it returns or throws. -/
def Op.KeepsTracked {α : Type} (x : Op α) : Prop :=
  ∀ s, s.cl.m_TrackedObjects <+: (x s).2.cl.m_TrackedObjects

/-- The command list `c1` holds every tracked object of `c`, in order and from
the start of its list, and so does its cached compute command list for the
one `c` caches. -/
def CommandList.Extends (c c1 : CommandList) : Prop :=
  c.recorder.m_TrackedObjects <+: c1.recorder.m_TrackedObjects ∧
  ∀ q, c.m_ComputeCommandList = some q →
    ∃ q1, c1.m_ComputeCommandList = some q1 ∧ q.m_TrackedObjects <+: q1.m_TrackedObjects

/-- The operations that set a root signature on the command list they are
made on: the two setters, and the operations that call
`SetComputeRootSignature` (mip generation, the panorama conversion, and the
texture load, which generates mips). -/
def Operation.setsRootSignature : Operation → Bool
  | Operation.SetGraphicsRootSignature _ => true
  | Operation.SetComputeRootSignature _ => true
  | Operation.GenerateMips _ => true
  | Operation.GenerateMips_UAV _ _ => true
  | Operation.PanoToCubemap _ _ => true
  | Operation.LoadTextureFromFile _ _ _ _ _ _ => true
  | _ => false

/-- The function of recorders leaves the current root signature as it is. -/
def Recorder.KeepsRootSignature (f : Recorder → Recorder) : Prop :=
  ∀ r, (f r).m_RootSignature = r.m_RootSignature

/-- The operation leaves the current root signature of the recorder it runs
on as it is, whether it returns or throws. -/
def Op.KeepsRootSignature {α : Type} (x : Op α) : Prop :=
  ∀ s, (x s).2.cl.m_RootSignature = s.cl.m_RootSignature

/-- Sample image files: every file exists and loads as an 8x8 2D image of
format 28 with one image, for which the device creates a one-mip resource. -/
def sampleFiles : TextureFiles :=
  { fileExists := fun _ => true
    LoadFromFile := fun _ =>
      some { metadata := { width := 8, height := 8, depth := 1, arraySize := 1, format := 28,
                           dimension := TEX_DIMENSION_TEXTURE2D },
             imageCount := 1 }
    MakeSRGB := fun f => f
    TextureUsage_Albedo := 0
    GetDesc_MipLevels := fun _ => 1
    GetRequiredIntermediateSize := fun _ _ _ => 256 }

/-- A sample state for a texture load: an unbound texture, an empty cache,
nothing created and a direct command list that has recorded nothing. -/
def sampleLoadState : LoadState :=
  { texture := { m_d3d12Resource := none, uavSupport := false, m_TextureUsage := 0 }
    m_d3d12ClearValue := none
    ms_TextureCache := []
    world := sampleSt.world
    commandList := sampleDirectList }

/-- The resource the first load of a sample file creates. -/
def sampleLoaded : D3D12Resource :=
  { id := 0,
    desc := { Dimension := 3, Width := 8, Height := 8, DepthOrArraySize := 1, MipLevels := 1,
              Format := 28, SampleCount := 1, Flags := 0 } }

/-! ## Resources (`Resource.cpp`) -/

/-- The structure `D3D12_FEATURE_DATA_FORMAT_SUPPORT`; `{}` is all zero. -/
structure D3D12_FEATURE_DATA_FORMAT_SUPPORT where
  Format : Nat
  Support1 : Nat
  Support2 : Nat
deriving DecidableEq, Repr

/-- A `D3D12_CLEAR_VALUE`: its format and the bits of its colour or
depth-stencil value. -/
structure D3D12_CLEAR_VALUE where
  Format : Nat
  Value : Nat
deriving DecidableEq, Repr

/-- The fields of a `Resource`.  `m_Device` is the identity of the device the
`shared_ptr` points to, `none` the null pointer, and so for the `ComPtr` and
the `unique_ptr`. -/
structure Resource where
  m_Device : Option Nat
  m_d3d12Resource : Option D3D12Resource
  m_FormatSupport : D3D12_FEATURE_DATA_FORMAT_SUPPORT
  m_d3d12ClearValue : Option D3D12_CLEAR_VALUE
  m_ResourceName : String
deriving DecidableEq, Repr

namespace Resource

/-- Source `Resource::CheckFeatureSupport`.  `query device format` is what the
device's `CheckFeatureSupport` writes to `Support1` and `Support2`, `none`
when the call fails. -/
def CheckFeatureSupport (query : Nat → Nat → Option (Nat × Nat)) (r : Resource) :
    Except Err Unit × Resource :=
  match r.m_d3d12Resource with
  | some resource =>
    match r.m_Device with
    | none => (Except.error Err.nullDereference, r)
    | some device =>
      let r := { r with m_FormatSupport := { r.m_FormatSupport with Format := resource.desc.Format } }
      match query device resource.desc.Format with
      | some support =>
        (Except.ok (),
          { r with
            m_FormatSupport :=
              { Format := resource.desc.Format, Support1 := support.1, Support2 := support.2 } })
      | none => (Except.error Err.ThrowIfFailed, r)
  | none =>
    (Except.ok (), { r with m_FormatSupport := { Format := 0, Support1 := 0, Support2 := 0 } })

/-- Source `Resource::SetName` (the name is also set on the D3D12 object). -/
def SetName (name : String) (r : Resource) : Resource := { r with m_ResourceName := name }

/-- Source `Resource::Reset`. -/
def Reset (r : Resource) : Resource :=
  { r with
    m_d3d12Resource := none
    m_FormatSupport := { Format := 0, Support1 := 0, Support2 := 0 }
    m_d3d12ClearValue := none
    m_ResourceName := "" }

/-- Source `Resource::SetD3D12Resource`; `clearValue` is the pointer argument. -/
def SetD3D12Resource (query : Nat → Nat → Option (Nat × Nat)) (device : Option Nat)
    (d3d12Resource : Option D3D12Resource) (clearValue : Option D3D12_CLEAR_VALUE)
    (r : Resource) : Except Err Unit × Resource :=
  let r := { r with m_Device := device, m_d3d12Resource := d3d12Resource }
  if r.m_d3d12ClearValue.isSome then
    match clearValue with
    | none => (Except.error Err.nullDereference, r)
    | some value =>
      match CheckFeatureSupport query { r with m_d3d12ClearValue := some value } with
      | (Except.ok _, r) => (Except.ok (), r.SetName r.m_ResourceName)
      | (Except.error e, r) => (Except.error e, r)
  else
    match CheckFeatureSupport query { r with m_d3d12ClearValue := none } with
    | (Except.ok _, r) => (Except.ok (), r.SetName r.m_ResourceName)
    | (Except.error e, r) => (Except.error e, r)

/-- Source `Resource& Resource::operator=(const Resource& other)` for `other`
another object (`this != &other`). -/
def copyAssign (r : Resource) (other : Resource) : Resource :=
  { r with
    m_Device := other.m_Device
    m_d3d12Resource := other.m_d3d12Resource
    m_FormatSupport := other.m_FormatSupport
    m_ResourceName := other.m_ResourceName
    m_d3d12ClearValue :=
      if other.m_d3d12ClearValue.isSome then other.m_d3d12ClearValue else r.m_d3d12ClearValue }

/-- The source of a move: its pointers are null and its name is empty, then
`other.Reset()`. -/
def movedFrom (other : Resource) : Resource :=
  Reset
    { other with
      m_Device := none, m_d3d12Resource := none, m_d3d12ClearValue := none,
      m_ResourceName := "" }

/-- Source `Resource& Resource::operator=(Resource&& other)` for `other`
another object: the assigned resource. -/
def moveAssign (_r : Resource) (other : Resource) : Resource :=
  { m_Device := other.m_Device
    m_d3d12Resource := other.m_d3d12Resource
    m_FormatSupport := other.m_FormatSupport
    m_ResourceName := other.m_ResourceName
    m_d3d12ClearValue := other.m_d3d12ClearValue }

/-- Source `Resource::Resource(const Resource& copy)`: the clear value of the
source is dereferenced whether or not it is null. -/
def copyConstruct (copy : Resource) : Except Err Resource :=
  match copy.m_d3d12ClearValue with
  | none => Except.error Err.nullDereference
  | some value =>
    Except.ok
      { m_Device := copy.m_Device
        m_d3d12Resource := copy.m_d3d12Resource
        m_FormatSupport := copy.m_FormatSupport
        m_ResourceName := copy.m_ResourceName
        m_d3d12ClearValue := some value }

/-- Source `Resource::Resource(Resource&& copy)`: the constructed resource
and the source after the move.  The pointers of the source are null and its
name is empty after the move; its `m_FormatSupport` is copied and stays as it
was (the body of the constructor is empty, where the move assignment calls
`other.Reset()`). -/
def moveConstruct (copy : Resource) : Resource × Resource :=
  ({ m_Device := copy.m_Device
     m_d3d12Resource := copy.m_d3d12Resource
     m_FormatSupport := copy.m_FormatSupport
     m_ResourceName := copy.m_ResourceName
     m_d3d12ClearValue := copy.m_d3d12ClearValue },
   { copy with
     m_Device := none, m_d3d12Resource := none, m_ResourceName := "",
     m_d3d12ClearValue := none })

/-- Source `Resource::CheckFormatSupport(D3D12_FORMAT_SUPPORT1)`. -/
def CheckFormatSupport1 (formatSupport : Nat) (r : Resource) : Bool :=
  (r.m_FormatSupport.Support1 &&& formatSupport) != 0

/-- Source `Resource::CheckFormatSupport(D3D12_FORMAT_SUPPORT2)`. -/
def CheckFormatSupport2 (formatSupport : Nat) (r : Resource) : Bool :=
  (r.m_FormatSupport.Support2 &&& formatSupport) != 0

end Resource

/-- An operation on a `Resource`: `SetD3D12Resource`, the assignment of
another object by copy or by move, the assignment of the resource to itself
(which the guard `this != &other` turns into no operation), being the source
of a move, `SetName` and `Reset`. -/
inductive ResourceOp where
  | SetD3D12Resource (device : Option Nat) (d3d12Resource : Option D3D12Resource)
      (clearValue : Option D3D12_CLEAR_VALUE)
  | copyAssign (other : Resource)
  | moveAssign (other : Resource)
  | selfAssign
  | movedFrom
  | SetName (name : String)
  | Reset
deriving DecidableEq, Repr

/-- The resource after an operation, whether the operation returns or throws. -/
def Resource.apply (query : Nat → Nat → Option (Nat × Nat)) (op : ResourceOp) (r : Resource) :
    Resource :=
  match op with
  | ResourceOp.SetD3D12Resource device d3d12Resource clearValue =>
    (r.SetD3D12Resource query device d3d12Resource clearValue).2
  | ResourceOp.copyAssign other => r.copyAssign other
  | ResourceOp.moveAssign other => r.moveAssign other
  | ResourceOp.selfAssign => r
  | ResourceOp.movedFrom => r.movedFrom
  | ResourceOp.SetName name => r.SetName name
  | ResourceOp.Reset => r.Reset

/-- The resource after a sequence of operations. -/
def Resource.applyAll (query : Nat → Nat → Option (Nat × Nat)) :
    List ResourceOp → Resource → Resource
  | [], r => r
  | op :: rest, r => Resource.applyAll query rest (r.apply query op)

/-- The operation leaves a resource bound to the device `d` bound to `d`
by what it is handed: `SetD3D12Resource` gets the device `d`, an assignment
has a source bound to `d`, and the resource is not the source of a move. -/
def ResourceOp.keepsDevice (d : Nat) : ResourceOp → Bool
  | ResourceOp.SetD3D12Resource device _ _ => device == some d
  | ResourceOp.copyAssign other => other.m_Device == some d
  | ResourceOp.moveAssign other => other.m_Device == some d
  | ResourceOp.movedFrom => false
  | _ => true

/-- The operation is one that keeps the clear value `v` of a resource:
`SetName`, the assignment of the resource to itself, a copy assignment or a
move assignment whose source holds `v`. -/
def ResourceOp.keepsClearValue (v : D3D12_CLEAR_VALUE) : ResourceOp → Bool
  | ResourceOp.SetName _ => true
  | ResourceOp.selfAssign => true
  | ResourceOp.copyAssign other => other.m_d3d12ClearValue == some v
  | ResourceOp.moveAssign other => other.m_d3d12ClearValue == some v
  | _ => false

/-- A sample resource: bound to device 1, holding the clear value `(28, 7)`. -/
def sampleBound : Resource :=
  { m_Device := some 1
    m_d3d12Resource := some (sampleResource 8 8 1 0)
    m_FormatSupport := { Format := 28, Support1 := 0, Support2 := 0 }
    m_d3d12ClearValue := some { Format := 28, Value := 7 }
    m_ResourceName := "texture" }

/-- A sample device: every format-support query succeeds with empty masks. -/
def sampleQuery : Nat → Nat → Option (Nat × Nat) := fun _ _ => some (0, 0)

/-- A sample resource of a format for which the device reported the masks 3
and 1. -/
def sampleSupported : Resource :=
  { m_Device := some 1
    m_d3d12Resource := some (sampleResource 8 8 1 0)
    m_FormatSupport := { Format := 28, Support1 := 3, Support2 := 1 }
    m_d3d12ClearValue := none
    m_ResourceName := "texture" }

/-- A sample resource on device 2 that holds the clear value `(28, 7)`. -/
def sampleOther : Resource :=
  { m_Device := some 2
    m_d3d12Resource := some (sampleResource 4 4 1 0)
    m_FormatSupport := { Format := 28, Support1 := 0, Support2 := 0 }
    m_d3d12ClearValue := some { Format := 28, Value := 7 }
    m_ResourceName := "other" }

/-! ## Frame pacing (`Samples/05-afr/src/main.cpp`) -/

def D3D12_RESOURCE_STATE_PRESENT : Nat := 0

/-- A call `Render` records on `g_CommandList` after the transition of the
back buffer; `nodeIndex` selects the clear colour. -/
inductive RenderCall where
  | ClearRenderTargetView (backBufferIndex nodeIndex : Nat)
  | ClearDepthStencilView
  | SetPipelineState
  | SetGraphicsRootSignature
  | IASetPrimitiveTopology
  | IASetVertexBuffers
  | IASetIndexBuffer
  | RSSetViewports
  | RSSetScissorRects
  | OMSetRenderTargets (backBufferIndex : Nat)
  | SetGraphicsRoot32BitConstants
  | DrawIndexedInstanced
deriving DecidableEq, Repr

/-- A call the sample makes on the command list, the queue, the swap chain,
the fence or the device, or a store to the fence table. -/
inductive AppEvent where
  /-- Call `g_CommandList->ResourceBarrier` with a transition of a back buffer -/
  | ResourceBarrier (backBufferIndex stateBefore stateAfter : Nat)
  /-- Call `g_CommandList->Close()` -/
  | Close
  /-- Call `g_CommandQueue->ExecuteCommandLists` -/
  | ExecuteCommandLists
  /-- Call `g_SwapChain->Present` and whether it succeeded -/
  | SwapChainPresent (ok : Bool)
  /-- Call `commandQueue->Signal(fence, value)` and whether it succeeded -/
  | Signal (value : Nat) (ok : Bool)
  /-- Store `g_FenceValues[index] = value` -/
  | FenceTableWrite (index value : Nat)
  /-- Call `g_Device->SwitchToNextNode()` -/
  | SwitchToNextNode
  /-- Call `fence->GetCompletedValue(nodeMask)` and the value it returns -/
  | GetCompletedValue (nodeMask value : Nat)
  /-- Call `fence->SetEventOnCompletion(fenceValue, fenceEvent)` and whether it
  succeeded -/
  | SetEventOnCompletion (fenceValue : Nat) (ok : Bool)
  /-- Call `::WaitForSingleObject(fenceEvent, INFINITE)`, which blocks until the
  event is signalled; `completed` is the completed value of the fence when the
  call returns -/
  | WaitForSingleObject (completed : Nat)
  /-- Call `g_CommandAllocators[frameIndex]->Reset()` and whether it succeeded -/
  | CommandAllocatorReset (frameIndex : Nat) (ok : Bool)
  /-- Call `g_CommandList->Reset(g_CommandAllocators[frameIndex], nullptr)` and
  whether it succeeded -/
  | CommandListReset (frameIndex : Nat) (ok : Bool)
  /-- A call `Render` records on `g_CommandList` -/
  | Record (call : RenderCall)
deriving DecidableEq, Repr

/-- The globals of the sample that frame pacing reads and writes, the active
node index of the affinity device, and the log of the calls made. -/
structure App where
  g_FenceValue : Nat
  g_FenceValues : List Nat
  g_NumFrames : Nat
  g_FrameIndex : Nat
  activeNodeIndex : Nat
  log : List AppEvent
deriving DecidableEq, Repr

/-- What a call of `Present` meets outside the sample: the index
`g_SwapChain->GetCurrentBackBufferIndex()` returns and whether
`g_SwapChain->Present` and `commandQueue->Signal` succeed. -/
structure PresentInput where
  backBufferIndex : Nat
  presentOk : Bool
  signalOk : Bool
deriving DecidableEq, Repr

namespace App

def emit (e : AppEvent) (a : App) : App := { a with log := a.log ++ [e] }

/-- Source `Signal(g_CommandQueue, g_Fence, g_FenceValue)`: the counter is
incremented (a `uint64_t`), the queue is signalled with the new value under
`ThrowIfFailed`, and the new value is returned. -/
def Signal (signalOk : Bool) (a : App) : Except Err Nat × App :=
  let fenceValueForSignal := u64 (a.g_FenceValue + 1)
  let a := { a with g_FenceValue := fenceValueForSignal }
  let a := a.emit (AppEvent.Signal fenceValueForSignal signalOk)
  if signalOk then (Except.ok fenceValueForSignal, a) else (Except.error Err.ThrowIfFailed, a)

/-- Source `Present()` of the sample.  `SwitchToNextNode` is the node the
affinity device switches to from a given node. -/
def Present (SwitchToNextNode : Nat → Nat) (input : PresentInput) (a : App) :
    Except Err Unit × App :=
  let backBufferIndex := input.backBufferIndex
  let a := a.emit (AppEvent.ResourceBarrier backBufferIndex D3D12_RESOURCE_STATE_RENDER_TARGET
    D3D12_RESOURCE_STATE_PRESENT)
  let a := a.emit AppEvent.Close
  let a := a.emit AppEvent.ExecuteCommandLists
  let a := a.emit (AppEvent.SwapChainPresent input.presentOk)
  if !input.presentOk then (Except.error Err.ThrowIfFailed, a) else
  match a.Signal input.signalOk with
  | (Except.error e, a) => (Except.error e, a)
  | (Except.ok value, a) =>
    let a := { a with g_FenceValues := a.g_FenceValues.set backBufferIndex value }
    let a := a.emit (AppEvent.FenceTableWrite backBufferIndex value)
    let a := a.emit AppEvent.SwitchToNextNode
    let a := { a with activeNodeIndex := SwitchToNextNode a.activeNodeIndex }
    let activeNodeIndex := a.activeNodeIndex
    if activeNodeIndex = 0 then
      (Except.ok (), { a with g_FrameIndex := u32 (a.g_FrameIndex + 1) % a.g_NumFrames })
    else (Except.ok (), a)

/-- A sequence of calls of `Present`, whatever each returns or throws. -/
def presents (SwitchToNextNode : Nat → Nat) : List PresentInput → App → App
  | [], a => a
  | input :: rest, a => presents SwitchToNextNode rest (a.Present SwitchToNextNode input).2

/-- The states a sequence of calls of `Present` goes through, the first one
included. -/
def trace (SwitchToNextNode : Nat → Nat) : List PresentInput → App → List App
  | [], a => [a]
  | input :: rest, a => a :: trace SwitchToNextNode rest (a.Present SwitchToNextNode input).2

/-- The values stored to the fence table, in the order of the stores. -/
def fenceTableWrites (a : App) : List Nat :=
  a.log.filterMap (fun e =>
    match e with
    | AppEvent.FenceTableWrite _ value => some value
    | _ => none)

end App

/-- The sample at start-up with the given number of frames and back buffers:
counter 0, table all 0, frame index 0, node 0. -/
def App.initial (numFrames backBufferCount : Nat) : App :=
  { g_FenceValue := 0, g_FenceValues := List.replicate backBufferCount 0,
    g_NumFrames := numFrames, g_FrameIndex := 0, activeNodeIndex := 0, log := [] }

/-- A call of `Present` on back buffer `i` that meets no failure. -/
def presentOn (i : Nat) : PresentInput :=
  { backBufferIndex := i, presentOk := true, signalOk := true }

/-- Source `g_NumFrames = nodeCount > 1 ? 1 : 2` of the sample's start-up. -/
def numFramesFor (nodeCount : Nat) : Nat := if nodeCount > 1 then 1 else 2

/-- The nodes the calls of a sequence of `Present` render on: the active node
at each call. -/
def App.renderNodes (SwitchToNextNode : Nat → Nat) (inputs : List PresentInput) (a : App) :
    List Nat :=
  ((App.trace SwitchToNextNode inputs a).take inputs.length).map App.activeNodeIndex

/-- The frame indices observed in the states whose active node is 0. -/
def framesAtNodeZero (states : List App) : List Nat :=
  (states.filter (fun s => s.activeNodeIndex = 0)).map App.g_FrameIndex

/-- The active node, the frame index and the number of frames of a state. -/
def App.pace (a : App) : Nat × Nat × Nat := (a.activeNodeIndex, a.g_FrameIndex, a.g_NumFrames)

/-- The node switch of a device of two nodes: `(node + 1) mod 2`. -/
def switchOfTwo (node : Nat) : Nat := (node + 1) % 2

/-- The fence counter bounds the fence table and every value stored to it so
far, and the values stored so far are strictly increasing. -/
def App.FenceOrdered (a : App) : Prop :=
  (∀ v ∈ a.g_FenceValues, v ≤ a.g_FenceValue) ∧
  (∀ v ∈ a.fenceTableWrites, v ≤ a.g_FenceValue) ∧
  a.fenceTableWrites.Pairwise (fun x y => x < y)

/-! ## Reading the passes of mip generation -/

/-- The values of `srcMip` with which the body of the pass loop of
`GenerateMips_UAV` is entered from `srcMip` on, the pass that scans a zero
mask included. -/
def passStarts (resourceDesc : D3D12_RESOURCE_DESC) : Nat → Nat → List Nat
  | 0, _ => []
  | fuel + 1, srcMip =>
    if srcMip < sub32 resourceDesc.MipLevels 1 then
      srcMip ::
        (match mipCount resourceDesc srcMip with
          | none => []
          | some mipCount => passStarts resourceDesc fuel (u32 (srcMip + mipCount)))
    else []

/-- The mip slice a call makes a target of a compute pass: the `MipSlice` of
the unordered access view it stages. -/
def Event.targetMip : Event → Option Nat
  | Event.StageDescriptors _ _ _ _ (Descriptor.UAV _ _ (some mipSlice)) => some mipSlice
  | _ => none

/-- The target mip slices of a log, in order. -/
def targetMips (log : List Event) : List Nat := log.filterMap Event.targetMip

/-! ## Root signatures set on the underlying list -/

/-- The two root signature bind points of a command list. -/
inductive RootBindPoint where
  | graphics
  | compute
deriving DecidableEq, Repr

/-- The effect of one call on the list of root signatures set on the
underlying command list since the last `Reset` that succeeded: the reset of
the resource state tracker, which `Reset` reaches once its two device calls
have succeeded, starts a new list, and `SetGraphicsRootSignature` and
`SetComputeRootSignature` of the underlying list append to it. -/
def rootCallStep (acc : List (RootBindPoint × Option Nat)) :
    Event → List (RootBindPoint × Option Nat)
  | Event.ResourceStateTrackerReset => []
  | Event.Command (Command.SetGraphicsRootSignature S) => acc ++ [(RootBindPoint.graphics, S)]
  | Event.Command (Command.SetComputeRootSignature S) => acc ++ [(RootBindPoint.compute, S)]
  | _ => acc

/-- The root signatures set on the underlying command list since the last
`Reset` that succeeded, with their bind points, in order. -/
def rootSignatureCalls (log : List Event) : List (RootBindPoint × Option Nat) :=
  log.foldl rootCallStep []

/-- The call is one `rootSignatureCalls` reads. -/
@[simp]
def Event.isRootCall : Event → Bool
  | Event.ResourceStateTrackerReset => true
  | Event.Command (Command.SetGraphicsRootSignature _) => true
  | Event.Command (Command.SetComputeRootSignature _) => true
  | _ => false

/-- The current root signature of a recorder and the root signatures set on
its underlying list since the last `Reset`. -/
def Recorder.rootState (r : Recorder) : Option Nat × List (RootBindPoint × Option Nat) :=
  (r.m_RootSignature, rootSignatureCalls r.log)

/-- The current root signature of the recorder is the one last set on the
underlying list since the last `Reset`, on either bind point, and null when
none has been set. -/
def Recorder.RootCurrent (r : Recorder) : Prop :=
  r.m_RootSignature = (((rootSignatureCalls r.log).getLast?).map Prod.snd).getD none

/-- The function of recorders keeps `RootCurrent`. -/
def Recorder.KeepsRootCurrent (f : Recorder → Recorder) : Prop :=
  ∀ r : Recorder, r.RootCurrent → (f r).RootCurrent

/-- The operation keeps `RootCurrent` of the recorder it runs on, whether it
returns or throws. -/
def Op.KeepsRootCurrent {α : Type} (x : Op α) : Prop :=
  ∀ s : St, s.cl.RootCurrent → (x s).2.cl.RootCurrent

/-- The command list `c1` has `RootCurrent` on its own recorder if `c` has. -/
def CommandList.KeepsRoot (c c1 : CommandList) : Prop :=
  c.recorder.RootCurrent → c1.recorder.RootCurrent

/-! ## Multisample quality levels (`Device.cpp`) -/

/-- The structure `DXGI_SAMPLE_DESC`. -/
structure DXGI_SAMPLE_DESC where
  Count : Nat
  Quality : Nat
deriving DecidableEq, Repr

/-- The loop of `Device::GetMultisampleQualityLevels`, run for at most `fuel`
tests of its condition, `none` when they do not suffice.
`CheckFeatureSupport sampleCount` is what the device's call for
`D3D12_FEATURE_MULTISAMPLE_QUALITY_LEVELS` answers for the format and the
flags of the call at that sample count: whether it succeeds and the
`NumQualityLevels` it writes (a `UINT`).  `SampleCount` is a `UINT`, so that
its doubling wraps. -/
def Device.GetMultisampleQualityLevels_loop (CheckFeatureSupport : Nat → Bool × Nat)
    (numSamples : Nat) : Nat → Nat → DXGI_SAMPLE_DESC → Option DXGI_SAMPLE_DESC
  | 0, _, _ => none
  | fuel + 1, SampleCount, sampleDesc =>
    if SampleCount ≤ numSamples ∧ (CheckFeatureSupport SampleCount).1 = true ∧
        u32 (CheckFeatureSupport SampleCount).2 > 0 then
      Device.GetMultisampleQualityLevels_loop CheckFeatureSupport numSamples fuel
        (u32 (SampleCount * 2))
        { Count := SampleCount, Quality := u32 (CheckFeatureSupport SampleCount).2 - 1 }
    else some sampleDesc

/-- Source `Device::GetMultisampleQualityLevels`; `CheckFeatureSupport format
flags sampleCount` is the answer of the device. -/
def Device.GetMultisampleQualityLevels (CheckFeatureSupport : Nat → Nat → Nat → Bool × Nat)
    (format numSamples flags : Nat) (fuel : Nat) : Option DXGI_SAMPLE_DESC :=
  Device.GetMultisampleQualityLevels_loop (CheckFeatureSupport format flags) numSamples fuel 1
    { Count := 1, Quality := 0 }

/-- The device supports the sample count with at least one quality level. -/
def multisampleSupported (CheckFeatureSupport : Nat → Bool × Nat) (sampleCount : Nat) : Prop :=
  (CheckFeatureSupport sampleCount).1 = true ∧ u32 (CheckFeatureSupport sampleCount).2 > 0

instance (CheckFeatureSupport : Nat → Bool × Nat) (sampleCount : Nat) :
    Decidable (multisampleSupported CheckFeatureSupport sampleCount) := by
  unfold multisampleSupported
  exact inferInstance

/-- A sample device: sample counts 1, 2, 4 and 8 have 3 quality levels for
every format and flags, the others none. -/
def sampleMultisample : Nat → Nat → Nat → Bool × Nat :=
  fun _ _ sampleCount =>
    if sampleCount = 1 ∨ sampleCount = 2 ∨ sampleCount = 4 ∨ sampleCount = 8 then (true, 3)
    else (true, 0)

/-! ## Rendering a frame (`Samples/05-afr/src/main.cpp`) -/

/-- What a call of `Render` meets outside the sample: the index
`g_SwapChain->GetCurrentBackBufferIndex()` returns, the value
`fence->GetCompletedValue(nodeMask)` returns, whether
`fence->SetEventOnCompletion` succeeds, the completed value of the fence when
`::WaitForSingleObject` returns, whether the two resets succeed, and what the
call of `Present` at the end meets. -/
structure RenderInput where
  backBufferIndex : Nat
  completed : Nat
  setEventOk : Bool
  reached : Nat
  allocatorResetOk : Bool
  commandListResetOk : Bool
  present : PresentInput
deriving DecidableEq, Repr

namespace App

/-- Source `WaitForFenceValue(fence, fenceValue, fenceEvent)` of the sample. -/
def WaitForFenceValue (fenceValue completed : Nat) (setEventOk : Bool) (reached : Nat)
    (a : App) : Except Err Unit × App :=
  let nodeMask := u32 (1 <<< a.activeNodeIndex)
  let a := a.emit (AppEvent.GetCompletedValue nodeMask completed)
  if completed < fenceValue then
    let a := a.emit (AppEvent.SetEventOnCompletion fenceValue setEventOk)
    if !setEventOk then (Except.error Err.ThrowIfFailed, a) else
    (Except.ok (), a.emit (AppEvent.WaitForSingleObject reached))
  else (Except.ok (), a)

/-- The calls `Render` records on `g_CommandList` between the transition of
the back buffer and `Present`. -/
def renderCalls (backBufferIndex nodeIndex : Nat) : List AppEvent :=
  [AppEvent.Record (RenderCall.ClearRenderTargetView backBufferIndex nodeIndex),
   AppEvent.Record RenderCall.ClearDepthStencilView,
   AppEvent.Record RenderCall.SetPipelineState,
   AppEvent.Record RenderCall.SetGraphicsRootSignature,
   AppEvent.Record RenderCall.IASetPrimitiveTopology,
   AppEvent.Record RenderCall.IASetVertexBuffers,
   AppEvent.Record RenderCall.IASetIndexBuffer,
   AppEvent.Record RenderCall.RSSetViewports,
   AppEvent.Record RenderCall.RSSetScissorRects,
   AppEvent.Record (RenderCall.OMSetRenderTargets backBufferIndex),
   AppEvent.Record RenderCall.SetGraphicsRoot32BitConstants,
   AppEvent.Record RenderCall.DrawIndexedInstanced]

/-- The part of `Render()` after the wait: the two resets, the transition of
the back buffer, the recorded calls and `Present()`. -/
def recordFrame (SwitchToNextNode : Nat → Nat) (input : RenderInput) (a : App) :
    Except Err Unit × App :=
  let backBufferIndex := input.backBufferIndex
  let a := a.emit (AppEvent.CommandAllocatorReset a.g_FrameIndex input.allocatorResetOk)
  if !input.allocatorResetOk then (Except.error Err.ThrowIfFailed, a) else
  let a := a.emit (AppEvent.CommandListReset a.g_FrameIndex input.commandListResetOk)
  if !input.commandListResetOk then (Except.error Err.ThrowIfFailed, a) else
  let a := a.emit (AppEvent.ResourceBarrier backBufferIndex D3D12_RESOURCE_STATE_PRESENT
    D3D12_RESOURCE_STATE_RENDER_TARGET)
  let a := { a with log := a.log ++ renderCalls backBufferIndex a.activeNodeIndex }
  a.Present SwitchToNextNode input.present

/-- Source `Render()` of the sample, for a back buffer index within the fence
table: the wait for the fence value stored for the current back buffer, then
the rest. -/
def Render (SwitchToNextNode : Nat → Nat) (input : RenderInput) (a : App) :
    Except Err Unit × App :=
  match a.WaitForFenceValue (a.g_FenceValues.getD input.backBufferIndex 0) input.completed
      input.setEventOk input.reached with
  | (Except.error e, a) => (Except.error e, a)
  | (Except.ok _, a) => a.recordFrame SwitchToNextNode input

end App

/-- The completed value of the fence a call reports: what `GetCompletedValue`
returns, and the value the fence has reached when `WaitForSingleObject`
returns. -/
def AppEvent.completedValue : AppEvent → Option Nat
  | AppEvent.GetCompletedValue _ value => some value
  | AppEvent.WaitForSingleObject completed => some completed
  | _ => none

/-- The completed value of the fence last reported in a log. -/
def completedValueSeen (log : List AppEvent) : Option Nat :=
  (log.filterMap AppEvent.completedValue).getLast?

/-- The call resets a command allocator or the command list. -/
def AppEvent.isReset : AppEvent → Bool
  | AppEvent.CommandAllocatorReset _ _ => true
  | AppEvent.CommandListReset _ _ => true
  | _ => false

/-- A sample call of `Render` on back buffer 1: the fence has completed 3,
the wait is needed, succeeds and returns with the fence at 5. -/
def sampleRender : RenderInput :=
  { backBufferIndex := 1, completed := 3, setEventOk := true, reached := 5,
    allocatorResetOk := true, commandListResetOk := true, present := presentOn 1 }

/-- A sample state: two back buffers whose stored fence values are 4 and 5. -/
def sampleApp : App :=
  { g_FenceValue := 5, g_FenceValues := [4, 5], g_NumFrames := 1, g_FrameIndex := 0,
    activeNodeIndex := 1, log := [] }

/-! ## Lemmas on logs -/

theorem u32_u32 (x : Nat) : u32 (u32 x) = u32 x := by
  simp [u32]

theorem u32_lt (x : Nat) : u32 x < 4294967296 := by
  unfold u32
  omega

theorem u32_of_lt {x : Nat} (h : x < 4294967296) : u32 x = x := by
  unfold u32
  omega

theorem stripFlush_append (a b : List Event) :
    stripFlush (a ++ b) = stripFlush a ++ stripFlush b := by
  simp [stripFlush]

theorem emits_refl (r : Recorder) : Emits r r [] :=
  ⟨[], by simp, rfl⟩

theorem emits_trans {r r1 r2 : Recorder} {a b : List Event}
    (h1 : Emits r r1 a) (h2 : Emits r1 r2 b) : Emits r r2 (a ++ b) := by
  obtain ⟨n1, e1, s1⟩ := h1
  obtain ⟨n2, e2, s2⟩ := h2
  exact ⟨n1 ++ n2, by rw [e2, e1, List.append_assoc], by rw [stripFlush_append, s1, s2]⟩

theorem emits_since_eq {r r1 : Recorder} {a : List Event} (h : Emits r r1 a) :
    stripFlush (r1.since r) = a := by
  obtain ⟨n, e, s⟩ := h
  simp [Recorder.since, e, s]

theorem emits_emit (r : Recorder) (e : Event) (h : e.isFlushTraffic = false) :
    Emits r (r.emit e) [e] :=
  ⟨[e], rfl, by simp [stripFlush, h]⟩

theorem emits_record (r : Recorder) (c : Command) (h : (Event.Command c).isFlushTraffic = false) :
    Emits r (r.record c) [Event.Command c] :=
  emits_emit r _ h

theorem emits_flush (r : Recorder) : Emits r r.FlushResourceBarriers [] := by
  refine ⟨Event.FlushResourceBarriers ::
    r.m_ResourceStateTracker.m_ResourceBarriers.map
      (fun b => Event.Command (Command.ResourceBarrier b)), ?_, ?_⟩
  · simp [Recorder.FlushResourceBarriers, ResourceStateTracker.FlushResourceBarriers]
  · simp [stripFlush, Event.isFlushTraffic]

theorem emits_flushIf (r : Recorder) (b : Bool) :
    Emits r (if b then r.FlushResourceBarriers else r) [] := by
  cases b
  · exact emits_refl r
  · exact emits_flush r

theorem emits_tracker_ResourceBarrier (r : Recorder) (b : Barrier) :
    Emits r (r.tracker_ResourceBarrier b) [Event.ResourceBarrier b] :=
  ⟨[Event.ResourceBarrier b], rfl, by simp [stripFlush, Event.isFlushTraffic]⟩

theorem emits_TransitionBarrier (r : Recorder) (resource : Option D3D12Resource)
    (stateAfter subresource : Nat) (flushBarriers : Bool) :
    Emits r (r.TransitionBarrier resource stateAfter subresource flushBarriers)
      (TransitionBarrier_calls resource stateAfter subresource) := by
  cases resource with
  | none => simpa [Recorder.TransitionBarrier, TransitionBarrier_calls] using emits_flushIf r _
  | some res =>
    simpa [Recorder.TransitionBarrier, TransitionBarrier_calls] using
      emits_trans (emits_tracker_ResourceBarrier r _) (emits_flushIf _ flushBarriers)

theorem emits_UAVBarrier (r : Recorder) (resource : Option D3D12Resource) (flushBarriers : Bool) :
    Emits r (r.UAVBarrier resource flushBarriers)
      [Event.ResourceBarrier (Barrier.UAV resource)] := by
  simpa [Recorder.UAVBarrier] using
    emits_trans (emits_tracker_ResourceBarrier r _) (emits_flushIf _ flushBarriers)

theorem emits_AliasingBarrier (r : Recorder) (a b : Option D3D12Resource)
    (flushBarriers : Bool) :
    Emits r (r.AliasingBarrier a b flushBarriers)
      [Event.ResourceBarrier (Barrier.Aliasing a b)] := by
  simpa [Recorder.AliasingBarrier] using
    emits_trans (emits_tracker_ResourceBarrier r _) (emits_flushIf _ flushBarriers)

theorem emits_TrackResource (r : Recorder) (object : Option D3D12Object) :
    Emits r (r.TrackResource object) [Event.TrackResource object] :=
  ⟨[Event.TrackResource object], rfl, by simp [stripFlush, Event.isFlushTraffic]⟩

theorem emits_TrackResource_res (r : Recorder) (resource : Option D3D12Resource) :
    Emits r (r.TrackResource_res resource)
      [Event.TrackResource (resource.map D3D12Object.resource)] :=
  emits_TrackResource r _

theorem emits_foldl {α : Type} (f : Recorder → α → Recorder) (calls : α → List Event)
    (h : ∀ r a, Emits r (f r a) (calls a)) (l : List α) (r : Recorder) :
    Emits r (l.foldl f r) (l.flatMap calls) := by
  induction l generalizing r with
  | nil => simpa using emits_refl r
  | cons a l ih =>
    simpa using emits_trans (h r a) (ih (f r a))

theorem emits_CopyResource (env : Env) (r : Recorder) (dstRes srcRes : Option D3D12Resource) :
    Emits r (r.CopyResource env dstRes srcRes) (CopyResource_calls env dstRes srcRes) := by
  unfold Recorder.CopyResource CopyResource_calls
  have h := emits_trans (emits_trans (emits_trans (emits_trans (emits_trans
    (emits_TransitionBarrier r dstRes D3D12_RESOURCE_STATE_COPY_DEST
      env.TransitionBarrier_subresource env.TransitionBarrier_flushBarriers)
    (emits_TransitionBarrier _ srcRes D3D12_RESOURCE_STATE_COPY_SOURCE
      env.TransitionBarrier_subresource env.TransitionBarrier_flushBarriers))
    (emits_flush _))
    (emits_record _ (Command.CopyResource dstRes srcRes) rfl))
    (emits_TrackResource_res _ dstRes))
    (emits_TrackResource_res _ srcRes)
  simpa using h

theorem emits_parseRootSignatures (r : Recorder) (rootSignature : Option Nat) :
    Emits r (r.parseRootSignatures rootSignature)
      ((List.range D3D12_DESCRIPTOR_HEAP_TYPE_NUM_TYPES).map
        (fun i => Event.ParseRootSignature i rootSignature)) := by
  have h := emits_foldl (fun r i => r.emit (Event.ParseRootSignature i rootSignature))
    (fun i => [Event.ParseRootSignature i rootSignature])
    (fun r i => emits_emit r _ rfl) (List.range D3D12_DESCRIPTOR_HEAP_TYPE_NUM_TYPES) r
  simpa [Recorder.parseRootSignatures, List.flatMap, List.map] using h

theorem emits_SetComputeRootSignature (r : Recorder) (rootSignature : Option Nat) :
    Emits r (r.SetComputeRootSignature rootSignature)
      (if r.m_RootSignature ≠ rootSignature then SetComputeRootSignature_calls rootSignature
       else []) := by
  unfold Recorder.SetComputeRootSignature
  by_cases h : r.m_RootSignature = rootSignature
  · simpa [h] using emits_refl r
  · have h1 := emits_parseRootSignatures { r with m_RootSignature := rootSignature }
      rootSignature
    have e1 : (Recorder.parseRootSignatures rootSignature
        { r with m_RootSignature := rootSignature }).m_RootSignature = rootSignature := by
      simp [Recorder.parseRootSignatures, Recorder.emit, D3D12_DESCRIPTOR_HEAP_TYPE_NUM_TYPES,
        List.range, List.range.loop]
    have h2 := emits_trans (emits_trans h1
      (emits_record _ (Command.SetComputeRootSignature rootSignature) rfl))
      (emits_TrackResource _ (rootSignature.map D3D12Object.rootSignature))
    have h0 : Emits r { r with m_RootSignature := rootSignature } [] := ⟨[], by simp, rfl⟩
    have h3 := emits_trans h0 h2
    simp only [ne_eq, h, not_false_eq_true, if_true, e1, Recorder.record, Recorder.emit]
    simpa [SetComputeRootSignature_calls, Recorder.record, Recorder.emit] using h3

theorem emits_commitStagedDescriptorsForDispatch (r : Recorder) :
    Emits r r.commitStagedDescriptorsForDispatch
      ((List.range D3D12_DESCRIPTOR_HEAP_TYPE_NUM_TYPES).map
        (fun i => Event.CommitStagedDescriptorsForDispatch i)) := by
  have h := emits_foldl (fun r i => r.emit (Event.CommitStagedDescriptorsForDispatch i))
    (fun i => [Event.CommitStagedDescriptorsForDispatch i])
    (fun r i => emits_emit r _ rfl) (List.range D3D12_DESCRIPTOR_HEAP_TYPE_NUM_TYPES) r
  simpa [Recorder.commitStagedDescriptorsForDispatch, List.flatMap, List.map] using h

theorem emits_Dispatch (r : Recorder) (x y z : Nat) :
    Emits r (r.Dispatch x y z) (Dispatch_calls x y z) := by
  unfold Recorder.Dispatch Dispatch_calls
  have h := emits_trans (emits_trans (emits_flush r)
    (emits_commitStagedDescriptorsForDispatch _))
    (emits_record _ (Command.Dispatch x y z) rfl)
  simpa using h

theorem emits_transitionSubresources_one (env : Env) (r : Recorder)
    (resource : Option D3D12Resource) (stateAfter firstSubresource : Nat) :
    Emits r (r.transitionSubresources env resource stateAfter firstSubresource 1)
      (TransitionBarrier_calls resource stateAfter (u32 firstSubresource)) := by
  have h := emits_TransitionBarrier r resource stateAfter (u32 firstSubresource)
    env.TransitionBarrier_flushBarriers
  simpa [Recorder.transitionSubresources, D3D12_RESOURCE_BARRIER_ALL_SUBRESOURCES, List.range,
    List.range.loop] using h

theorem emits_SetShaderResourceView_one (env : Env) (r : Recorder)
    (rootParameterIndex descriptorOffset : Nat) (resource : Option D3D12Resource)
    (stateAfter firstSubresource : Nat) (srv : Descriptor) :
    Emits r
      (r.SetShaderResourceView env rootParameterIndex descriptorOffset resource stateAfter
        firstSubresource 1 srv)
      (TransitionBarrier_calls resource stateAfter (u32 firstSubresource) ++
        [Event.StageDescriptors D3D12_DESCRIPTOR_HEAP_TYPE_CBV_SRV_UAV rootParameterIndex
          descriptorOffset 1 srv,
         Event.TrackResource (resource.map D3D12Object.resource)]) := by
  unfold Recorder.SetShaderResourceView
  have h := emits_trans (emits_trans
    (emits_transitionSubresources_one env r resource stateAfter firstSubresource)
    (emits_emit _ (Event.StageDescriptors D3D12_DESCRIPTOR_HEAP_TYPE_CBV_SRV_UAV
      rootParameterIndex descriptorOffset 1 srv) rfl))
    (emits_TrackResource_res _ resource)
  simpa using h

theorem emits_SetUnorderedAccessView_one (env : Env) (r : Recorder)
    (rootParameterIndex descrptorOffset : Nat) (resource : Option D3D12Resource)
    (stateAfter firstSubresource : Nat) (uav : Descriptor) :
    Emits r
      (r.SetUnorderedAccessView env rootParameterIndex descrptorOffset resource stateAfter
        firstSubresource 1 uav)
      (SetUnorderedAccessView_calls rootParameterIndex descrptorOffset resource stateAfter
        (u32 firstSubresource) uav) := by
  unfold Recorder.SetUnorderedAccessView SetUnorderedAccessView_calls
  have h := emits_trans (emits_trans
    (emits_transitionSubresources_one env r resource stateAfter firstSubresource)
    (emits_emit _ (Event.StageDescriptors D3D12_DESCRIPTOR_HEAP_TYPE_CBV_SRV_UAV
      rootParameterIndex descrptorOffset 1 uav) rfl))
    (emits_TrackResource_res _ resource)
  simpa using h

theorem emits_GenerateMips_UAV_pass (env : Env) (pso : PSO) (texture : Texture)
    (resourceDesc : D3D12_RESOURCE_DESC) (isSRGB : Bool) (srcMip mipCount : Nat)
    (r : Recorder) :
    Emits r (r.GenerateMips_UAV_pass env pso texture resourceDesc isSRGB srcMip mipCount)
      (pass_calls env pso texture resourceDesc isSRGB srcMip mipCount) := by
  unfold Recorder.GenerateMips_UAV_pass pass_calls
  have h1 := emits_record r (Command.SetComputeRoot32BitConstantsMips
    env.GenerateMips_GenerateMipsCB (passCB resourceDesc isSRGB srcMip mipCount)) rfl
  have h2 := emits_SetShaderResourceView_one env
    (r.record (Command.SetComputeRoot32BitConstantsMips
      env.GenerateMips_GenerateMipsCB (passCB resourceDesc isSRGB srcMip mipCount)))
    env.GenerateMips_SrcMip 0 texture.GetD3D12Resource
    D3D12_RESOURCE_STATE_NON_PIXEL_SHADER_RESOURCE srcMip
    (Descriptor.SRV texture.GetD3D12Resource
      (some (if isSRGB then env.GetSRGBFormat resourceDesc.Format else resourceDesc.Format))
      (some resourceDesc.MipLevels))
  have h3 := fun r0 => emits_foldl
    (fun r mip => Recorder.SetUnorderedAccessView env env.GenerateMips_OutMip mip
      texture.GetD3D12Resource D3D12_RESOURCE_STATE_UNORDERED_ACCESS
      (u32 (srcMip + mip + 1)) 1
      (Descriptor.UAV texture.GetD3D12Resource (some resourceDesc.Format)
        (some (u32 (srcMip + mip + 1)))) r)
    (fun mip => SetUnorderedAccessView_calls env.GenerateMips_OutMip mip
      texture.GetD3D12Resource D3D12_RESOURCE_STATE_UNORDERED_ACCESS
      (u32 (srcMip + mip + 1))
      (Descriptor.UAV texture.GetD3D12Resource (some resourceDesc.Format)
        (some (u32 (srcMip + mip + 1)))))
    (fun r mip => by
      simpa [u32_u32] using emits_SetUnorderedAccessView_one env r env.GenerateMips_OutMip mip
        texture.GetD3D12Resource D3D12_RESOURCE_STATE_UNORDERED_ACCESS
        (u32 (srcMip + mip + 1))
        (Descriptor.UAV texture.GetD3D12Resource (some resourceDesc.Format)
          (some (u32 (srcMip + mip + 1)))))
    (List.range mipCount) r0
  have h4 : ∀ r0 : Recorder, Emits r0
      (if mipCount < 4 then
        r0.emit (Event.StageDescriptors D3D12_DESCRIPTOR_HEAP_TYPE_CBV_SRV_UAV
          env.GenerateMips_OutMip mipCount (4 - mipCount) pso.GetDefaultUAV)
       else r0)
      (if mipCount < 4 then
        [Event.StageDescriptors D3D12_DESCRIPTOR_HEAP_TYPE_CBV_SRV_UAV env.GenerateMips_OutMip
          mipCount (4 - mipCount) pso.GetDefaultUAV]
       else []) := by
    intro r0
    by_cases h : mipCount < 4
    · simpa [h] using emits_emit r0
        (Event.StageDescriptors D3D12_DESCRIPTOR_HEAP_TYPE_CBV_SRV_UAV env.GenerateMips_OutMip
          mipCount (4 - mipCount) pso.GetDefaultUAV) rfl
    · simpa [h] using emits_refl r0
  have h := emits_trans (emits_trans (emits_trans (emits_trans (emits_trans h1 h2) (h3 _))
    (h4 _))
    (emits_Dispatch _ (env.DivideByMultiple (max 1 (dstWidth resourceDesc srcMip)) 8)
      (env.DivideByMultiple (max 1 (dstHeight resourceDesc srcMip)) 8) env.Dispatch_numGroupsZ))
    (emits_UAVBarrier _ texture.GetD3D12Resource env.UAVBarrier_flushBarriers)
  simpa [Recorder.SetCompute32BitConstants_Mips, passCB] using h


theorem GenerateMips_UAV_loop_spec (env : Env) (pso : PSO) (texture : Texture)
    (resourceDesc : D3D12_RESOURCE_DESC) (isSRGB : Bool) (fuel srcMip : Nat) (s : St) :
    (GenerateMips_UAV_loop env pso texture resourceDesc isSRGB fuel srcMip s).1 =
        passesOutcome resourceDesc fuel srcMip ∧
    (GenerateMips_UAV_loop env pso texture resourceDesc isSRGB fuel srcMip s).2.world = s.world ∧
    Emits s.cl (GenerateMips_UAV_loop env pso texture resourceDesc isSRGB fuel srcMip s).2.cl
      ((passes resourceDesc fuel srcMip).flatMap
        (fun p => pass_calls env pso texture resourceDesc isSRGB p.1 p.2)) := by
  induction fuel generalizing srcMip s with
  | zero =>
    by_cases h : srcMip < sub32 resourceDesc.MipLevels 1
    · simpa [GenerateMips_UAV_loop, passesOutcome, passes, h, Op.raise] using emits_refl s.cl
    · simpa [GenerateMips_UAV_loop, passesOutcome, passes, h, Op.pure] using emits_refl s.cl
  | succ fuel ih =>
    simp only [GenerateMips_UAV_loop, passesOutcome, passes]
    by_cases h : srcMip < sub32 resourceDesc.MipLevels 1
    · cases hm : mipCount resourceDesc srcMip with
      | none => simpa [h, hm, Op.raise] using emits_refl s.cl
      | some k =>
        have hp := emits_GenerateMips_UAV_pass env pso texture resourceDesc isSRGB srcMip k s.cl
        obtain ⟨i1, i2, i3⟩ := ih (u32 (srcMip + k))
          { s with cl := s.cl.GenerateMips_UAV_pass env pso texture resourceDesc isSRGB srcMip k }
        simp only [h, hm, if_true, Op.bind, Op.onCl]
        refine ⟨i1, i2, ?_⟩
        simpa using emits_trans hp i3
    · simpa [h, Op.pure] using emits_refl s.cl

theorem GenerateMips_UAV_spec (env : Env) (texture : Texture) (isSRGB : Bool) (s : St) :
    (GenerateMips_UAV env texture isSRGB s).2.world = s.world ∧
    Emits s.cl (GenerateMips_UAV env texture isSRGB s).2.cl
      (GenerateMips_UAV_calls env texture isSRGB s.cl) ∧
    (GenerateMips_UAV env texture isSRGB s).1 =
      match texture.GetD3D12Resource with
      | none => Except.error Err.nullDereference
      | some resource => passesOutcome resource.desc (resource.desc.MipLevels + 1) 0 := by
  have hpso : ∀ s : St, (ensureGenerateMipsPSO env s).1 = Except.ok (s.cl.mipsPSO env) ∧
      (ensureGenerateMipsPSO env s).2.world = s.world ∧
      (ensureGenerateMipsPSO env s).2.cl.m_RootSignature = s.cl.m_RootSignature ∧
      Emits s.cl (ensureGenerateMipsPSO env s).2.cl
        (if s.cl.m_GenerateMipsPSO.isNone then [Event.CreateGenerateMipsPSO] else []) := by
    intro s
    unfold ensureGenerateMipsPSO Recorder.mipsPSO
    cases h : s.cl.m_GenerateMipsPSO with
    | none =>
      refine ⟨by simp, by simp, by simp [Recorder.emit], ?_⟩
      exact ⟨[Event.CreateGenerateMipsPSO], by simp [Recorder.emit], by
        simp [stripFlush, Event.isFlushTraffic]⟩
    | some pso => exact ⟨by simp, by simp, by simp, by simpa using emits_refl s.cl⟩
  obtain ⟨p1, p2, p3, p4⟩ := hpso s
  generalize hs1 : ensureGenerateMipsPSO env s = res1 at p1 p2 p3 p4
  obtain ⟨o1, s1⟩ := res1
  simp only at p1 p2 p3 p4
  subst p1
  have q1 := emits_record s1.cl (Command.SetPipelineState (s.cl.mipsPSO env).m_PipelineState) rfl
  have q2 := emits_SetComputeRootSignature
    (s1.cl.record (Command.SetPipelineState (s.cl.mipsPSO env).m_PipelineState))
    (s.cl.mipsPSO env).m_RootSignature
  have e2 : (s1.cl.record (Command.SetPipelineState
      (s.cl.mipsPSO env).m_PipelineState)).m_RootSignature = s.cl.m_RootSignature := by
    simpa [Recorder.record, Recorder.emit] using p3
  rw [e2] at q2
  have q := emits_trans (emits_trans p4 q1) q2
  unfold GenerateMips_UAV GenerateMips_UAV_calls GenerateMips_UAV_prelude
    GenerateMips_UAV_passCalls schedule
  simp only [bind, Op.bind, hs1, Op.onCl]
  cases ht : texture.GetD3D12Resource with
  | none =>
    simp only [Op.raise, List.append_nil]
    exact ⟨p2, q, trivial⟩
  | some resource =>
    obtain ⟨l1, l2, l3⟩ := GenerateMips_UAV_loop_spec env (s.cl.mipsPSO env) texture
      resource.desc isSRGB (resource.desc.MipLevels + 1) 0
      { world := s1.world
        cl := Recorder.SetComputeRootSignature (s.cl.mipsPSO env).m_RootSignature
          (s1.cl.record (Command.SetPipelineState (s.cl.mipsPSO env).m_PipelineState)) }
    simp only
    refine ⟨by rw [l2]; exact p2, emits_trans q l3, l1⟩

theorem mem_passes (resourceDesc : D3D12_RESOURCE_DESC) (fuel srcMip : Nat) (p : Nat × Nat)
    (h : p ∈ passes resourceDesc fuel srcMip) :
    p.1 < sub32 resourceDesc.MipLevels 1 ∧ mipCount resourceDesc p.1 = some p.2 := by
  induction fuel generalizing srcMip with
  | zero => simp [passes] at h
  | succ fuel ih =>
    simp only [passes] at h
    by_cases hb : srcMip < sub32 resourceDesc.MipLevels 1
    · cases hm : mipCount resourceDesc srcMip with
      | none => simp [hb, hm] at h
      | some k =>
        simp only [hb, hm, if_true, List.mem_cons] at h
        rcases h with h | h
        · subst h
          exact ⟨hb, hm⟩
        · exact ih _ h
    · simp [hb] at h

theorem mem_TransitionBarrier_calls (e : Event) (resource : Option D3D12Resource)
    (stateAfter subresource : Nat) :
    e ∈ TransitionBarrier_calls resource stateAfter subresource ↔
      ∃ res, resource = some res ∧ e = Event.ResourceBarrier
        (Barrier.Transition res D3D12_RESOURCE_STATE_COMMON stateAfter subresource) := by
  cases resource <;> simp [TransitionBarrier_calls]

theorem constants_mem_pass_calls (env : Env) (pso : PSO) (texture : Texture)
    (resourceDesc : D3D12_RESOURCE_DESC) (isSRGB : Bool) (srcMip mipCount idx : Nat)
    (cb : GenerateMipsCB)
    (h : Event.Command (Command.SetComputeRoot32BitConstantsMips idx cb) ∈
      pass_calls env pso texture resourceDesc isSRGB srcMip mipCount) :
    cb = passCB resourceDesc isSRGB srcMip mipCount := by
  simp [pass_calls, mem_TransitionBarrier_calls, SetUnorderedAccessView_calls,
    Dispatch_calls] at h
  exact h.2


theorem constants_not_mem_prelude (env : Env) (r : Recorder) (idx : Nat) (cb : GenerateMipsCB) :
    Event.Command (Command.SetComputeRoot32BitConstantsMips idx cb) ∉
      GenerateMips_UAV_prelude env r := by
  unfold GenerateMips_UAV_prelude SetComputeRootSignature_calls
  intro h
  simp only [List.mem_append, List.mem_singleton] at h
  rcases h with (h | h) | h
  · split at h <;> simp at h
  · simp at h
  · split at h <;> simp at h

theorem mem_since_of_emits {r r1 : Recorder} {calls : List Event} (h : Emits r r1 calls)
    (e : Event) (hf : e.isFlushTraffic = false) : e ∈ r1.since r ↔ e ∈ calls := by
  rw [← emits_since_eq h]
  simp [stripFlush, hf]

/-- Every constant buffer `GenerateMips_UAV` writes is the one of a pass of the
loop: the pass starts below the loop bound, its `mipCount` is the value
computed from the scan, and the other fields are those of `passCB`. -/
theorem GenerateMips_UAV_constants (env : Env) (texture : Texture) (isSRGB : Bool) (s : St)
    (idx : Nat) (cb : GenerateMipsCB)
    (h : Event.Command (Command.SetComputeRoot32BitConstantsMips idx cb) ∈
      (GenerateMips_UAV env texture isSRGB s).2.cl.since s.cl) :
    ∃ resource, texture.GetD3D12Resource = some resource ∧
      cb.SrcMipLevel < sub32 resource.desc.MipLevels 1 ∧
      mipCount resource.desc cb.SrcMipLevel = some cb.NumMipLevels ∧
      cb = passCB resource.desc isSRGB cb.SrcMipLevel cb.NumMipLevels := by
  obtain ⟨_, he, _⟩ := GenerateMips_UAV_spec env texture isSRGB s
  rw [mem_since_of_emits he (Event.Command (Command.SetComputeRoot32BitConstantsMips idx cb))
    rfl] at h
  unfold GenerateMips_UAV_calls at h
  rcases List.mem_append.mp h with h | h
  · exact absurd h (constants_not_mem_prelude env s.cl idx cb)
  · unfold GenerateMips_UAV_passCalls at h
    cases ht : texture.GetD3D12Resource with
    | none => simp [ht] at h
    | some resource =>
      simp only [ht, List.mem_flatMap] at h
      obtain ⟨p, hp, hmem⟩ := h
      have hcb := constants_mem_pass_calls _ _ _ _ _ _ _ _ _ hmem
      obtain ⟨hb, hm⟩ := mem_passes _ _ _ _ hp
      refine ⟨resource, rfl, ?_, ?_, ?_⟩
      · rw [hcb]; exact hb
      · rw [hcb]; exact hm
      · rw [hcb]; rfl






theorem mipCount_eq (resourceDesc : D3D12_RESOURCE_DESC) (srcMip k : Nat)
    (hk : mipCount resourceDesc srcMip = some k)
    (hb : srcMip < sub32 resourceDesc.MipLevels 1)
    (h1 : 1 ≤ resourceDesc.MipLevels) (h2 : resourceDesc.MipLevels < 65536) :
    u32 (bitScanMask resourceDesc srcMip) ≠ 0 ∧
    k = min (min 4 (lowestSetBit 32 (u32 (bitScanMask resourceDesc srcMip)) + 1))
      (resourceDesc.MipLevels - srcMip - 1) := by
  unfold mipCount BitScanForward at hk
  by_cases hz : u32 (bitScanMask resourceDesc srcMip) = 0
  · simp [hz] at hk
  · refine ⟨hz, ?_⟩
    simp only [hz, if_false, Option.some.injEq] at hk
    generalize lowestSetBit 32 (u32 (bitScanMask resourceDesc srcMip)) = t at hk ⊢
    unfold sub32 u32 at *
    split at hk <;> omega

theorem noException_pure {α : Type} (a : α) : Op.NoException (Op.pure a) := by
  intro s what
  simp [Op.pure]

theorem noException_bind {α β : Type} (x : Op α) (f : α → Op β) (hx : Op.NoException x)
    (hf : ∀ a, Op.NoException (f a)) : Op.NoException (Op.bind x f) := by
  intro s what
  unfold Op.bind
  generalize hxs : x s = res
  obtain ⟨o, s1⟩ := res
  cases o with
  | ok a => exact hf a s1 what
  | error e =>
    have := hx s what
    rw [hxs] at this
    simpa using this

theorem noException_onCl (f : Recorder → Recorder) : Op.NoException (Op.onCl f) := by
  intro s what
  simp [Op.onCl]

theorem noException_AddGlobalResourceState (resource : Option D3D12Resource) (state : Nat) :
    Op.NoException (Op.AddGlobalResourceState resource state) := by
  intro s what
  simp [Op.AddGlobalResourceState]

theorem noException_CreateHeap (env : Env) : Op.NoException (Op.CreateHeap env) := by
  intro s what
  unfold Op.CreateHeap
  by_cases h : env.succeeded s.world.deviceCalls <;> simp [h]

theorem noException_CreatePlacedResource (env : Env) (heap : Nat) (desc : D3D12_RESOURCE_DESC)
    (initialState : Nat) : Op.NoException (Op.CreatePlacedResource env heap desc initialState) := by
  intro s what
  unfold Op.CreatePlacedResource
  by_cases h : env.succeeded s.world.deviceCalls <;> simp [h]

theorem noException_CheckFeatureSupport (env : Env) (resource : Option D3D12Resource) :
    Op.NoException (Op.CheckFeatureSupport env resource) := by
  intro s what
  unfold Op.CheckFeatureSupport
  cases resource with
  | none => simp
  | some res => by_cases h : env.succeeded s.world.deviceCalls <;> simp [h]

theorem noException_CreateTexture (env : Env) (resource : Option D3D12Resource)
    (textureUsage : Nat) : Op.NoException (Op.CreateTexture env resource textureUsage) := by
  intro s what
  unfold Op.CreateTexture
  have h := noException_CheckFeatureSupport env resource s what
  generalize Op.CheckFeatureSupport env resource s = res at h
  obtain ⟨o, s1⟩ := res
  cases o with
  | ok a => simp
  | error e => simpa using h

theorem passesOutcome_ne_exception (resourceDesc : D3D12_RESOURCE_DESC) (fuel srcMip : Nat)
    (what : String) :
    passesOutcome resourceDesc fuel srcMip ≠ Except.error (Err.exception what) := by
  induction fuel generalizing srcMip with
  | zero =>
    simp only [passesOutcome]
    split <;> simp
  | succ fuel ih =>
    simp only [passesOutcome]
    split
    · split
      · simp
      · exact ih _
    · simp

theorem noException_GenerateMips_UAV (env : Env) (texture : Texture) (isSRGB : Bool) :
    Op.NoException (GenerateMips_UAV env texture isSRGB) := by
  intro s what
  rw [(GenerateMips_UAV_spec env texture isSRGB s).2.2]
  cases texture.GetD3D12Resource with
  | none => simp
  | some resource => exact passesOutcome_ne_exception _ _ _ _

theorem noException_GenerateMips_stage (env : Env) (resource : D3D12Resource) :
    Op.NoException (GenerateMips_stage env resource) := by
  unfold GenerateMips_stage
  refine noException_bind _ _ (noException_CreateHeap env) (fun heap => ?_)
  refine noException_bind _ _ (noException_onCl _) (fun _ => ?_)
  refine noException_bind _ _ (noException_CreatePlacedResource _ _ _ _) (fun aliasResource => ?_)
  refine noException_bind _ _ (noException_AddGlobalResourceState _ _) (fun _ => ?_)
  refine noException_bind _ _ (noException_onCl _) (fun _ => ?_)
  refine noException_bind _ _ (noException_CreatePlacedResource _ _ _ _) (fun uavResource => ?_)
  refine noException_bind _ _ (noException_AddGlobalResourceState _ _) (fun _ => ?_)
  refine noException_bind _ _ (noException_onCl _) (fun _ => ?_)
  refine noException_bind _ _ (noException_onCl _) (fun _ => ?_)
  refine noException_bind _ _ (noException_onCl _) (fun _ => ?_)
  refine noException_bind _ _ (noException_onCl _) (fun _ => ?_)
  exact noException_pure _





theorem noException_GenerateMips_supported (env : Env) (texture : Texture)
    (resource : D3D12Resource) :
    Op.NoException (do
      let (uavResource, aliasResource) ←
        (if needsStaging texture resource.desc then do
          let (aliasResource, uavResource) ← GenerateMips_stage env resource
          return (uavResource, some aliasResource)
        else return (resource, none))
      let uavTexture ← Op.CreateTexture env (some uavResource) texture.m_TextureUsage
      GenerateMips_UAV env uavTexture (env.IsSRGBFormat resource.desc.Format)
      match aliasResource with
      | some aliasRes => do
        Op.onCl (Recorder.AliasingBarrier (some uavResource) (some aliasRes)
          env.AliasingBarrier_flushBarriers)
        Op.onCl (Recorder.CopyResource env (some resource) (some aliasRes))
      | none => return ()) := by
  refine noException_bind _ _ ?_ (fun p => ?_)
  · split
    · refine noException_bind _ _ (noException_GenerateMips_stage env resource) (fun q => ?_)
      exact noException_pure _
    · exact noException_pure _
  · obtain ⟨uavResource, aliasResource⟩ := p
    refine noException_bind _ _ (noException_CreateTexture _ _ _) (fun uavTexture => ?_)
    refine noException_bind _ _ (noException_GenerateMips_UAV _ _ _) (fun _ => ?_)
    cases aliasResource with
    | none => exact noException_pure _
    | some aliasRes =>
      refine noException_bind _ _ (noException_onCl _) (fun _ => ?_)
      exact noException_onCl _

/-- When `GenerateMips`, below its copy branch, ends with a
`throw std::exception(what)`. -/
theorem GenerateMips_body_exception (env : Env) (texture : Texture) (s : St) (what : String) :
    (GenerateMips_body env texture s).1 = Except.error (Err.exception what) ↔
      what = "GenerateMips is only supported for non-multi-sampled 2D Textures." ∧
      ∃ resource, texture.GetD3D12Resource = some resource ∧
        resource.desc.MipLevels ≠ 1 ∧ unsupportedShape resource.desc = true := by
  unfold GenerateMips_body
  cases ht : texture.GetD3D12Resource with
  | none => simp [Op.pure]
  | some resource =>
    simp only
    by_cases h1 : resource.desc.MipLevels = 1
    · simp [h1, Op.pure]
    · by_cases h2 : unsupportedShape resource.desc = true
      · simp only [h1, h2, if_false, if_true, Op.raise]
        constructor
        · intro h
          injection h with h
          injection h with h
          exact ⟨h.symm, resource, rfl, h1, h2⟩
        · rintro ⟨rfl, _⟩
          rfl
      · simp only [h1, h2, if_false]
        constructor
        · intro h
          exact absurd h (noException_GenerateMips_supported env texture resource s what)
        · rintro ⟨_, r, hr, _, hu⟩
          cases hr
          exact absurd hu h2

/-- Claim C2.  On a command list that is not of the copy kind,
`GenerateMips(texture)` throws its exception ("GenerateMips is only supported
for non-multi-sampled 2D Textures.") if and only if the texture has a non-null
resource, its `MipLevels` is not 1, and the resource is not a 2D texture or
has `DepthOrArraySize != 1` or `SampleDesc.Count > 1`; in every other case no
`throw std::exception(what)` ends the call. -/
theorem C2_GenerateMips_throws_iff (env : Env) (texture : Texture) (w : World)
    (c : CommandList) (hc : c.m_d3d12CommandListType ≠ D3D12_COMMAND_LIST_TYPE.COPY) :
    ((c.GenerateMips env texture w).1 = Except.error (Err.exception
        "GenerateMips is only supported for non-multi-sampled 2D Textures.") ↔
      ∃ resource, texture.GetD3D12Resource = some resource ∧
        resource.desc.MipLevels ≠ 1 ∧
        (resource.desc.Dimension ≠ D3D12_RESOURCE_DIMENSION_TEXTURE2D ∨
          resource.desc.DepthOrArraySize ≠ 1 ∨ resource.desc.SampleCount > 1)) ∧
    (∀ what, (c.GenerateMips env texture w).1 = Except.error (Err.exception what) →
      what = "GenerateMips is only supported for non-multi-sampled 2D Textures.") := by
  have hrun : (c.GenerateMips env texture w).1 =
      (GenerateMips_body env texture { world := w, cl := c.recorder }).1 := by
    simp [CommandList.GenerateMips, hc, CommandList.onOwn]
  rw [hrun]
  constructor
  · rw [GenerateMips_body_exception]
    simp [unsupportedShape, or_assoc]
  · intro what h
    exact ((GenerateMips_body_exception env texture _ what).mp h).1

/-- Claim C2 at a direct command list and a 3D texture with four mips. -/
theorem C2_GenerateMips_throws_iff_witness :
    D3D12_COMMAND_LIST_TYPE.DIRECT ≠ D3D12_COMMAND_LIST_TYPE.COPY ∧
    (({ m_d3d12CommandListType := D3D12_COMMAND_LIST_TYPE.DIRECT, recorder := Recorder.fresh,
        m_ComputeCommandList := none } : CommandList).GenerateMips sampleEnv
      { m_d3d12Resource := some
          { id := 7
            desc := { Dimension := 4, Width := 8, Height := 8, DepthOrArraySize := 8,
                      MipLevels := 4, Format := 28, SampleCount := 1, Flags := 0 } }
        uavSupport := true, m_TextureUsage := 0 } sampleSt.world).1 =
      Except.error (Err.exception
        "GenerateMips is only supported for non-multi-sampled 2D Textures.") :=
  ⟨by decide,
    ((C2_GenerateMips_throws_iff sampleEnv
      { m_d3d12Resource := some
          { id := 7
            desc := { Dimension := 4, Width := 8, Height := 8, DepthOrArraySize := 8,
                      MipLevels := 4, Format := 28, SampleCount := 1, Flags := 0 } }
        uavSupport := true, m_TextureUsage := 0 } sampleSt.world
      { m_d3d12CommandListType := D3D12_COMMAND_LIST_TYPE.DIRECT, recorder := Recorder.fresh,
        m_ComputeCommandList := none } (by decide)).1).mpr
      ⟨_, rfl, by decide, Or.inl (by decide)⟩⟩

theorem steps_append (a b : List Event) : steps (a ++ b) = steps a ++ steps b := by
  simp [steps]

theorem steps_stripFlush (l : List Event) : steps (stripFlush l) = steps l := by
  induction l with
  | nil => rfl
  | cons e l ih =>
    by_cases h : e.isFlushTraffic = true
    · have hs : e.step = none := by
        cases e with
        | Command c => cases c <;> simp_all [Event.isFlushTraffic, Event.step]
        | _ => simp_all [Event.isFlushTraffic, Event.step]
      simp only [stripFlush, steps] at ih ⊢
      simp [List.filter_cons, h, List.filterMap_cons, hs, ih]
    · simp only [stripFlush, steps] at ih ⊢
      simp [List.filter_cons, h, List.filterMap_cons, ih]

theorem steps_since_of_emits {r r1 : Recorder} {calls : List Event} (h : Emits r r1 calls) :
    steps (r1.since r) = steps calls := by
  rw [← emits_since_eq h, steps_stripFlush]

theorem steps_TransitionBarrier_calls (resource : Option D3D12Resource)
    (stateAfter subresource : Nat) :
    steps (TransitionBarrier_calls resource stateAfter subresource) = [] := by
  cases resource <;> simp [TransitionBarrier_calls, steps, Event.step]

theorem steps_CopyResource_calls (env : Env) (dstRes srcRes : Option D3D12Resource) :
    steps (CopyResource_calls env dstRes srcRes) = [Step.CopyResource dstRes srcRes] := by
  simp [CopyResource_calls, steps_append, steps_TransitionBarrier_calls]
  simp [steps, Event.step]

theorem steps_SetComputeRootSignature_calls (rootSignature : Option Nat) :
    steps (SetComputeRootSignature_calls rootSignature) = [] := by
  simp [SetComputeRootSignature_calls, steps, Event.step, List.filterMap_map,
    Function.comp_def]

theorem steps_Dispatch_calls (x y z : Nat) : steps (Dispatch_calls x y z) = [Step.Dispatch] := by
  simp [Dispatch_calls, steps, Event.step, List.filterMap_map, Function.comp_def]

theorem steps_SetUnorderedAccessView_calls (rootParameterIndex descrptorOffset : Nat)
    (resource : Option D3D12Resource) (stateAfter subresource : Nat) (uav : Descriptor) :
    steps (SetUnorderedAccessView_calls rootParameterIndex descrptorOffset resource stateAfter
      subresource uav) = [] := by
  simp [SetUnorderedAccessView_calls, steps_append, steps_TransitionBarrier_calls]
  simp [steps, Event.step]

theorem steps_flatMap_nil {α : Type} (l : List α) (f : α → List Event)
    (h : ∀ a, steps (f a) = []) : steps (l.flatMap f) = [] := by
  induction l with
  | nil => rfl
  | cons a l ih => simp [List.flatMap_cons, steps_append, h, ih]

theorem steps_pass_calls (env : Env) (pso : PSO) (texture : Texture)
    (resourceDesc : D3D12_RESOURCE_DESC) (isSRGB : Bool) (srcMip mipCount : Nat) :
    steps (pass_calls env pso texture resourceDesc isSRGB srcMip mipCount) =
      [Step.Dispatch, Step.UAVBarrier texture.GetD3D12Resource] := by
  unfold pass_calls
  simp only [steps_append, steps_TransitionBarrier_calls, steps_Dispatch_calls]
  rw [steps_flatMap_nil _ _ (fun a => steps_SetUnorderedAccessView_calls _ _ _ _ _ _)]
  by_cases h : mipCount < 4 <;> simp [h, steps, Event.step]

theorem steps_GenerateMips_UAV_prelude (env : Env) (r : Recorder) :
    steps (GenerateMips_UAV_prelude env r) = [] := by
  unfold GenerateMips_UAV_prelude
  simp only [steps_append]
  have h1 : steps (if r.m_GenerateMipsPSO.isNone then [Event.CreateGenerateMipsPSO] else []) =
      [] := by
    split <;> simp [steps, Event.step]
  have h2 : steps (if r.m_RootSignature ≠ (r.mipsPSO env).m_RootSignature then
      SetComputeRootSignature_calls (r.mipsPSO env).m_RootSignature else []) = [] := by
    split
    · exact steps_SetComputeRootSignature_calls _
    · rfl
  rw [h1, h2]
  simp [steps, Event.step]

theorem steps_flatMap_pass_calls (env : Env) (pso : PSO) (texture : Texture)
    (resourceDesc : D3D12_RESOURCE_DESC) (isSRGB : Bool) (ps : List (Nat × Nat)) :
    steps (ps.flatMap (fun p => pass_calls env pso texture resourceDesc isSRGB p.1 p.2)) =
      mipSteps texture.GetD3D12Resource ps.length := by
  induction ps with
  | nil => rfl
  | cons p ps ih =>
    rw [List.flatMap_cons, steps_append, ih, steps_pass_calls]
    rfl

theorem passCalls_some (env : Env) (pso : PSO) (texture : Texture) (isSRGB : Bool)
    (resource : D3D12Resource) (hres : texture.GetD3D12Resource = some resource) :
    GenerateMips_UAV_passCalls env pso texture isSRGB =
      (schedule resource.desc).flatMap
        (fun p => pass_calls env pso texture resource.desc isSRGB p.1 p.2) := by
  unfold GenerateMips_UAV_passCalls
  rw [hres]

theorem steps_GenerateMips_UAV_calls (env : Env) (texture : Texture) (isSRGB : Bool)
    (r : Recorder) (resource : D3D12Resource)
    (hres : texture.GetD3D12Resource = some resource) :
    steps (GenerateMips_UAV_calls env texture isSRGB r) =
      mipSteps (some resource)
        (schedule resource.desc).length := by
  unfold GenerateMips_UAV_calls
  rw [steps_append, steps_GenerateMips_UAV_prelude, passCalls_some env _ texture isSRGB resource hres,
    steps_flatMap_pass_calls, hres, List.nil_append]

theorem sub32_one {n : Nat} (h1 : 1 ≤ n) (h2 : n < 65536) : sub32 n 1 = n - 1 := by
  unfold sub32 u32
  omega

theorem mipCount_bounds (resourceDesc : D3D12_RESOURCE_DESC) (srcMip k : Nat)
    (hk : mipCount resourceDesc srcMip = some k)
    (hb : srcMip < resourceDesc.MipLevels - 1)
    (h1 : 1 ≤ resourceDesc.MipLevels) (h2 : resourceDesc.MipLevels < 65536) :
    1 ≤ k ∧ k ≤ 4 ∧ srcMip + k ≤ resourceDesc.MipLevels - 1 := by
  have hb1 : srcMip < sub32 resourceDesc.MipLevels 1 := by rw [sub32_one h1 h2]; exact hb
  obtain ⟨_, he⟩ := mipCount_eq resourceDesc srcMip k hk hb1 h1 h2
  omega

theorem mipCount_isSome (resourceDesc : D3D12_RESOURCE_DESC) (srcMip : Nat)
    (h : u32 (bitScanMask resourceDesc srcMip) ≠ 0) :
    ∃ k, mipCount resourceDesc srcMip = some k := by
  unfold mipCount BitScanForward
  simp [h]

theorem passesOutcome_ok (resourceDesc : D3D12_RESOURCE_DESC)
    (h1 : 1 ≤ resourceDesc.MipLevels) (h2 : resourceDesc.MipLevels < 65536)
    (hmask : ∀ m, m < resourceDesc.MipLevels - 1 → u32 (bitScanMask resourceDesc m) ≠ 0)
    (fuel srcMip : Nat) (hf : resourceDesc.MipLevels - 1 ≤ srcMip + fuel) :
    passesOutcome resourceDesc fuel srcMip = Except.ok () := by
  induction fuel generalizing srcMip with
  | zero =>
    simp only [passesOutcome, sub32_one h1 h2]
    have : ¬ srcMip < resourceDesc.MipLevels - 1 := by omega
    simp [this]
  | succ fuel ih =>
    simp only [passesOutcome, sub32_one h1 h2]
    by_cases hb : srcMip < resourceDesc.MipLevels - 1
    · obtain ⟨k, hk⟩ := mipCount_isSome resourceDesc srcMip (hmask srcMip hb)
      obtain ⟨k1, _, k3⟩ := mipCount_bounds resourceDesc srcMip k hk hb h1 h2
      simp only [hb, if_true, hk]
      rw [u32_of_lt (by omega)]
      exact ih _ (by omega)
    · simp [hb]

theorem passes_cover (resourceDesc : D3D12_RESOURCE_DESC)
    (h1 : 1 ≤ resourceDesc.MipLevels) (h2 : resourceDesc.MipLevels < 65536)
    (fuel srcMip : Nat) (hs : srcMip ≤ resourceDesc.MipLevels - 1)
    (hf : resourceDesc.MipLevels - 1 ≤ srcMip + fuel)
    (hmask : ∀ m, m ∈ passStarts resourceDesc fuel srcMip →
      u32 (bitScanMask resourceDesc m) ≠ 0) :
    passesOutcome resourceDesc fuel srcMip = Except.ok () ∧
    (passes resourceDesc fuel srcMip).flatMap
        (fun p => (List.range p.2).map (fun mip => p.1 + mip + 1)) =
      List.range' (srcMip + 1) (resourceDesc.MipLevels - 1 - srcMip) ∧
    ((passes resourceDesc fuel srcMip).map Prod.snd).sum =
      resourceDesc.MipLevels - 1 - srcMip := by
  induction fuel generalizing srcMip with
  | zero =>
    have hz : resourceDesc.MipLevels - 1 - srcMip = 0 := by omega
    have hb : ¬ srcMip < resourceDesc.MipLevels - 1 := by omega
    simp only [passesOutcome, passes, sub32_one h1 h2, hz]
    simp [hb]
  | succ fuel ih =>
    by_cases hb : srcMip < resourceDesc.MipLevels - 1
    · have hb1 : srcMip < sub32 resourceDesc.MipLevels 1 := by rw [sub32_one h1 h2]; exact hb
      have hm0 : u32 (bitScanMask resourceDesc srcMip) ≠ 0 := by
        apply hmask
        simp only [passStarts, hb1, if_true]
        exact List.mem_cons_self _ _
      obtain ⟨k, hk⟩ := mipCount_isSome resourceDesc srcMip hm0
      obtain ⟨k1, _, k3⟩ := mipCount_bounds resourceDesc srcMip k hk hb h1 h2
      have hu : u32 (srcMip + k) = srcMip + k := u32_of_lt (by omega)
      have hrest : ∀ m, m ∈ passStarts resourceDesc fuel (srcMip + k) →
          u32 (bitScanMask resourceDesc m) ≠ 0 := by
        intro m hm
        apply hmask
        simp only [passStarts, hb1, if_true, hk, hu]
        exact List.mem_cons_of_mem _ hm
      obtain ⟨i1, i2, i3⟩ := ih (srcMip + k) k3 (by omega) hrest
      simp only [passesOutcome, passes, hb1, if_true, hk, hu]
      refine ⟨i1, ?_, ?_⟩
      · rw [List.flatMap_cons, i2]
        have hr : (List.range k).map (fun mip => srcMip + mip + 1) =
            List.range' (srcMip + 1) k := by
          rw [List.range'_eq_map_range]
          apply List.map_congr_left
          intro a _
          omega
        simp only [hr]
        have hsplit : resourceDesc.MipLevels - 1 - srcMip =
            k + (resourceDesc.MipLevels - 1 - (srcMip + k)) := by omega
        have hshift : srcMip + k + 1 = srcMip + 1 + k := by omega
        rw [hsplit, hshift, List.range'_append_1]
        exact congrArg (fun n => List.range' (srcMip + 1) n) (Nat.add_comm _ _)
      · rw [List.map_cons, List.sum_cons, i3]
        simp only
        omega
    · have hb1 : ¬ srcMip < sub32 resourceDesc.MipLevels 1 := by rw [sub32_one h1 h2]; exact hb
      have hz : resourceDesc.MipLevels - 1 - srcMip = 0 := by omega
      simp only [passesOutcome, passes, hb1, if_false, hz]
      simp

/-- Claim C1, as amended.  For a texture of `N` mip levels (`1 ≤ N`, a
`UINT16`): wherever the pass loop of `GenerateMips_UAV` enters a pass, at a
source mip `srcMip < N - 1`, with a non-zero mask
`M = (dstWidth == 1 ? dstHeight : dstWidth) | (dstHeight == 1 ? dstWidth : dstHeight)`
of the halved source dimensions, `mipCount` is `min(4, t + 1)` clamped to the
remaining mips `N - srcMip - 1`, `t` the index of the lowest set bit of `M`;
the loop records the pass with that `mipCount` and goes on at
`srcMip + mipCount`; and the pass writes one constant buffer, whose
`SrcMipLevel` is `srcMip` and whose `NumMipLevels` is that `mipCount`.  So
every constant buffer in the log of a call of `GenerateMips_UAV` whose mask
is non-zero at its `SrcMipLevel` has the `NumMipLevels` of the formula.  The
pass in which the mask is zero is left out. -/
theorem C1_NumMipLevels (env : Env) (pso : PSO) (texture : Texture) (isSRGB : Bool) (s : St)
    (resource : D3D12Resource)
    (hres : texture.GetD3D12Resource = some resource)
    (h1 : 1 ≤ resource.desc.MipLevels) (h2 : resource.desc.MipLevels < 65536) :
    (∀ (srcMip fuel : Nat) (s0 : St), srcMip < resource.desc.MipLevels - 1 →
      u32 (bitScanMask resource.desc srcMip) ≠ 0 →
      mipCount resource.desc srcMip =
        some (min (min 4 (lowestSetBit 32 (u32 (bitScanMask resource.desc srcMip)) + 1))
          (resource.desc.MipLevels - srcMip - 1)) ∧
      GenerateMips_UAV_loop env pso texture resource.desc isSRGB (fuel + 1) srcMip s0 =
        GenerateMips_UAV_loop env pso texture resource.desc isSRGB fuel
          (u32 (srcMip +
            min (min 4 (lowestSetBit 32 (u32 (bitScanMask resource.desc srcMip)) + 1))
              (resource.desc.MipLevels - srcMip - 1)))
          { s0 with
            cl := s0.cl.GenerateMips_UAV_pass env pso texture resource.desc isSRGB srcMip
              (min (min 4 (lowestSetBit 32 (u32 (bitScanMask resource.desc srcMip)) + 1))
                (resource.desc.MipLevels - srcMip - 1)) } ∧
      ∀ idx cb, Event.Command (Command.SetComputeRoot32BitConstantsMips idx cb) ∈
          (s0.cl.GenerateMips_UAV_pass env pso texture resource.desc isSRGB srcMip
            (min (min 4 (lowestSetBit 32 (u32 (bitScanMask resource.desc srcMip)) + 1))
              (resource.desc.MipLevels - srcMip - 1))).since s0.cl ↔
        (idx = env.GenerateMips_GenerateMipsCB ∧
          cb = passCB resource.desc isSRGB srcMip
            (min (min 4 (lowestSetBit 32 (u32 (bitScanMask resource.desc srcMip)) + 1))
              (resource.desc.MipLevels - srcMip - 1)))) ∧
    (∀ idx cb, Event.Command (Command.SetComputeRoot32BitConstantsMips idx cb) ∈
        (GenerateMips_UAV env texture isSRGB s).2.cl.since s.cl →
      u32 (bitScanMask resource.desc cb.SrcMipLevel) ≠ 0 →
      cb.NumMipLevels =
        min (min 4 (lowestSetBit 32 (u32 (bitScanMask resource.desc cb.SrcMipLevel)) + 1))
          (resource.desc.MipLevels - cb.SrcMipLevel - 1)) := by
  constructor
  · intro srcMip fuel s0 hb hz
    have hb1 : srcMip < sub32 resource.desc.MipLevels 1 := by
      rw [sub32_one h1 h2]
      exact hb
    obtain ⟨k, hk⟩ := mipCount_isSome resource.desc srcMip hz
    have hk2 := (mipCount_eq resource.desc srcMip k hk hb1 h1 h2).2
    rw [← hk2]
    refine ⟨hk, ?_, ?_⟩
    · simp only [GenerateMips_UAV_loop, hb1, if_true, hk, Op.bind, Op.onCl]
    · intro idx cb
      rw [mem_since_of_emits
        (emits_GenerateMips_UAV_pass env pso texture resource.desc isSRGB srcMip k s0.cl)
        (Event.Command (Command.SetComputeRoot32BitConstantsMips idx cb)) rfl]
      simp [pass_calls, mem_TransitionBarrier_calls, SetUnorderedAccessView_calls,
        Dispatch_calls]
  · intro idx cb h hz
    obtain ⟨res, hr, hb, hm, _⟩ := GenerateMips_UAV_constants env texture isSRGB s idx cb h
    rw [hres] at hr
    cases hr
    exact (mipCount_eq resource.desc cb.SrcMipLevel cb.NumMipLevels hm hb h1 h2).2

set_option maxRecDepth 100000 in
/-- The amended claim C1 at an 8x12 texture with four mips, where the first
pass writes `NumMipLevels = 2` and the second, from mip 2, writes 1, and at
the first pass of an 8x4 texture with four mips, whose mask is 6. -/
theorem C1_NumMipLevels_witness :
    (sampleTexture 8 12 4 4).GetD3D12Resource = some (sampleResource 8 12 4 4) ∧
    (2 : Nat) = min (min 4 (lowestSetBit 32 (u32 6) + 1)) (4 - 0 - 1) ∧
    mipCount (sampleDesc 8 12 4 4) 2 = some 1 ∧
    u32 (bitScanMask (sampleDesc 8 4 4 4) 0) = 6 ∧
    mipCount (sampleDesc 8 4 4 4) 0 = some 2 :=
  ⟨rfl,
    (C1_NumMipLevels sampleEnv sampleEnv.generateMipsPSO (sampleTexture 8 12 4 4) false
      sampleSt (sampleResource 8 12 4 4) rfl (by decide) (by decide)).2 0
      { SrcMipLevel := 0, NumMipLevels := 2, SrcDimension := 0, IsSRGB := false,
        TexelSizeDenomX := 4, TexelSizeDenomY := 6 }
      (by decide) (by decide),
    ((C1_NumMipLevels sampleEnv sampleEnv.generateMipsPSO (sampleTexture 8 12 4 4) false
      sampleSt (sampleResource 8 12 4 4) rfl (by decide) (by decide)).1 2 0 sampleSt
      (by decide) (by decide)).1,
    by decide,
    ((C1_NumMipLevels sampleEnv sampleEnv.generateMipsPSO (sampleTexture 8 4 4 4) false
      sampleSt (sampleResource 8 4 4 4) rfl (by decide) (by decide)).1 0 0 sampleSt
      (by decide) (by decide)).1⟩

set_option maxRecDepth 100000 in
/-- Claim C1 as stated fails: on an 8x12 texture with four mips the first pass
of `GenerateMips_UAV` writes `NumMipLevels = 2`, where the stated formula
`min(4, trailingZeros(max(8, 12)) + 1)` clamped to `4 - 0 - 1` gives 3. -/
theorem C1_counterexample :
    ∃ idx cb, Event.Command (Command.SetComputeRoot32BitConstantsMips idx cb) ∈
        (GenerateMips_UAV sampleEnv (sampleTexture 8 12 4 4) false sampleSt).2.cl.since
          sampleSt.cl ∧
      cb.SrcMipLevel = 0 ∧ cb.NumMipLevels = 2 ∧
      specNumMipLevels (sampleDesc 8 12 4 4) cb.SrcMipLevel = 3 :=
  ⟨0, { SrcMipLevel := 0, NumMipLevels := 2, SrcDimension := 0, IsSRGB := false,
        TexelSizeDenomX := 4, TexelSizeDenomY := 6 },
    by decide, rfl, rfl, by decide⟩

theorem passes_uavDesc (env : Env) (resourceDesc : D3D12_RESOURCE_DESC) (fuel srcMip : Nat) :
    passes (uavDesc env resourceDesc) fuel srcMip = passes resourceDesc fuel srcMip := by
  induction fuel generalizing srcMip with
  | zero => rfl
  | succ fuel ih =>
    have hm : mipCount (uavDesc env resourceDesc) srcMip = mipCount resourceDesc srcMip := rfl
    have hl : (uavDesc env resourceDesc).MipLevels = resourceDesc.MipLevels := rfl
    simp only [passes, hm, hl, ih]

theorem schedule_uavDesc (env : Env) (resourceDesc : D3D12_RESOURCE_DESC) :
    schedule (uavDesc env resourceDesc) = schedule resourceDesc :=
  passes_uavDesc env resourceDesc (resourceDesc.MipLevels + 1) 0

theorem passesOutcome_uavDesc (env : Env) (resourceDesc : D3D12_RESOURCE_DESC)
    (fuel srcMip : Nat) :
    passesOutcome (uavDesc env resourceDesc) fuel srcMip =
      passesOutcome resourceDesc fuel srcMip := by
  induction fuel generalizing srcMip with
  | zero => rfl
  | succ fuel ih =>
    have hm : mipCount (uavDesc env resourceDesc) srcMip = mipCount resourceDesc srcMip := rfl
    have hl : (uavDesc env resourceDesc).MipLevels = resourceDesc.MipLevels := rfl
    simp only [passesOutcome, hm, hl, ih]

theorem GenerateMips_stage_run (env : Env) (resource : D3D12Resource) (s : St)
    (hok : ∀ n, env.succeeded n = true) :
    ∃ s1, GenerateMips_stage env resource s =
        (Except.ok ({ id := s.world.deviceCalls + 1, desc := aliasDesc resource.desc },
          { id := s.world.deviceCalls + 2, desc := uavDesc env resource.desc }), s1) ∧
      Emits s.cl s1.cl (GenerateMips_stage_calls env resource s.world.deviceCalls) := by
  apply Exists.intro
  constructor
  · simp only [GenerateMips_stage, bind, Op.bind, Op.CreateHeap, Op.CreatePlacedResource,
      Op.AddGlobalResourceState, Op.onCl, hok, if_true, pure, Op.pure]
    rfl
  · have h := emits_trans (emits_trans (emits_trans (emits_trans (emits_trans (emits_trans
      (emits_trans (emits_trans (emits_trans (emits_trans
      (emits_emit s.cl (Event.CreateHeap (some s.world.deviceCalls)) rfl)
      (emits_TrackResource _ (some (D3D12Object.heap s.world.deviceCalls))))
      (emits_emit _ (Event.CreatePlacedResource s.world.deviceCalls (aliasDesc resource.desc)
        D3D12_RESOURCE_STATE_COMMON
        (some { id := s.world.deviceCalls + 1, desc := aliasDesc resource.desc })) rfl))
      (emits_emit _ (Event.AddGlobalResourceState
        (some { id := s.world.deviceCalls + 1, desc := aliasDesc resource.desc })
        D3D12_RESOURCE_STATE_COMMON) rfl))
      (emits_TrackResource_res _
        (some { id := s.world.deviceCalls + 1, desc := aliasDesc resource.desc })))
      (emits_emit _ (Event.CreatePlacedResource s.world.deviceCalls (uavDesc env resource.desc)
        D3D12_RESOURCE_STATE_COMMON
        (some { id := s.world.deviceCalls + 2, desc := uavDesc env resource.desc })) rfl))
      (emits_emit _ (Event.AddGlobalResourceState
        (some { id := s.world.deviceCalls + 2, desc := uavDesc env resource.desc })
        D3D12_RESOURCE_STATE_COMMON) rfl))
      (emits_TrackResource_res _
        (some { id := s.world.deviceCalls + 2, desc := uavDesc env resource.desc })))
      (emits_AliasingBarrier _ none
        (some { id := s.world.deviceCalls + 1, desc := aliasDesc resource.desc })
        env.AliasingBarrier_flushBarriers))
      (emits_CopyResource env _
        (some { id := s.world.deviceCalls + 1, desc := aliasDesc resource.desc })
        (some resource)))
      (emits_AliasingBarrier _
        (some { id := s.world.deviceCalls + 1, desc := aliasDesc resource.desc })
        (some { id := s.world.deviceCalls + 2, desc := uavDesc env resource.desc })
        env.AliasingBarrier_flushBarriers)
    exact h

theorem CreateTexture_run (env : Env) (resource : D3D12Resource) (textureUsage : Nat) (s : St)
    (hok : ∀ n, env.succeeded n = true) :
    ∃ s1, Op.CreateTexture env (some resource) textureUsage s =
        (Except.ok (createdTexture env resource textureUsage), s1) ∧
      Emits s.cl s1.cl [Event.CheckFeatureSupport resource.desc.Format true] := by
  apply Exists.intro
  constructor
  · simp only [Op.CreateTexture, Op.CheckFeatureSupport, hok, if_true]
    rfl
  · exact emits_emit s.cl (Event.CheckFeatureSupport resource.desc.Format true) rfl

theorem GenerateMips_UAV_run (env : Env) (texture : Texture) (isSRGB : Bool) (s : St)
    (resource : D3D12Resource) (hres : texture.GetD3D12Resource = some resource)
    (hpass : passesOutcome resource.desc (resource.desc.MipLevels + 1) 0 = Except.ok ()) :
    ∃ s1, GenerateMips_UAV env texture isSRGB s = (Except.ok (), s1) ∧
      Emits s.cl s1.cl (GenerateMips_UAV_calls env texture isSRGB s.cl) := by
  obtain ⟨_, he, ho⟩ := GenerateMips_UAV_spec env texture isSRGB s
  rw [hres] at ho
  refine ⟨(GenerateMips_UAV env texture isSRGB s).2, ?_, he⟩
  have h1 : (GenerateMips_UAV env texture isSRGB s).1 = Except.ok () := by
    rw [ho]; exact hpass
  rw [← h1]

/-- The calls of `GenerateMips` below its copy branch on a supported texture
with more than one mip, flush traffic apart, when the device calls succeed
and every pass has a non-zero scan mask; `r1` is the recorder on which
`GenerateMips_UAV` starts. -/
theorem GenerateMips_body_run (env : Env) (texture : Texture) (s : St)
    (resource : D3D12Resource) (hres : texture.GetD3D12Resource = some resource)
    (hN : resource.desc.MipLevels ≠ 1) (hshape : unsupportedShape resource.desc = false)
    (hok : ∀ n, env.succeeded n = true)
    (hpass : passesOutcome resource.desc (resource.desc.MipLevels + 1) 0 = Except.ok ()) :
    (GenerateMips_body env texture s).1 = Except.ok () ∧
    ∃ r1, Emits s.cl (GenerateMips_body env texture s).2.cl
      (GenerateMips_body_calls env texture resource s.world.deviceCalls r1) := by
  unfold GenerateMips_body GenerateMips_body_calls
  simp only [hres, hN, hshape, if_false, Bool.false_eq_true]
  by_cases hst : needsStaging texture resource.desc = true
  · obtain ⟨s1, hs1, he1⟩ := GenerateMips_stage_run env resource s hok
    obtain ⟨s2, hs2, he2⟩ := CreateTexture_run env
      { id := s.world.deviceCalls + 2, desc := uavDesc env resource.desc }
      texture.m_TextureUsage s1 hok
    obtain ⟨s3, hs3, he3⟩ := GenerateMips_UAV_run env
      (createdTexture env { id := s.world.deviceCalls + 2, desc := uavDesc env resource.desc }
        texture.m_TextureUsage)
      (env.IsSRGBFormat resource.desc.Format) s2
      { id := s.world.deviceCalls + 2, desc := uavDesc env resource.desc } rfl
      (by rw [passesOutcome_uavDesc]; exact hpass)
    simp only [hst, if_true, bind, Op.bind, hs1, pure, Op.pure, hs2, hs3, Op.onCl]
    refine ⟨trivial, s2.cl, ?_⟩
    have h := emits_trans (emits_trans (emits_trans (emits_trans he1 he2) he3)
      (emits_AliasingBarrier _
        (some { id := s.world.deviceCalls + 2, desc := uavDesc env resource.desc })
        (some { id := s.world.deviceCalls + 1, desc := aliasDesc resource.desc })
        env.AliasingBarrier_flushBarriers))
      (emits_CopyResource env _ (some resource)
        (some { id := s.world.deviceCalls + 1, desc := aliasDesc resource.desc }))
    simpa using h
  · obtain ⟨s2, hs2, he2⟩ := CreateTexture_run env resource texture.m_TextureUsage s hok
    obtain ⟨s3, hs3, he3⟩ := GenerateMips_UAV_run env
      (createdTexture env resource texture.m_TextureUsage)
      (env.IsSRGBFormat resource.desc.Format) s2 resource rfl hpass
    have hst1 : needsStaging texture resource.desc = false := by simpa using hst
    simp only [hst1, Bool.false_eq_true, if_false, bind, Op.bind, pure, Op.pure, hs2, hs3]
    exact ⟨trivial, s2.cl, emits_trans he2 he3⟩

theorem steps_GenerateMips_stage_calls (env : Env) (resource : D3D12Resource) (n : Nat) :
    steps (GenerateMips_stage_calls env resource n) =
      [Step.AliasingBarrier none (some { id := n + 1, desc := aliasDesc resource.desc }),
       Step.CopyResource (some { id := n + 1, desc := aliasDesc resource.desc }) (some resource),
       Step.AliasingBarrier (some { id := n + 1, desc := aliasDesc resource.desc })
         (some { id := n + 2, desc := uavDesc env resource.desc })] := by
  unfold GenerateMips_stage_calls
  rw [steps_append, steps_append, steps_CopyResource_calls]
  rfl

theorem steps_CheckFeatureSupport (format : Nat) (ok : Bool) :
    steps [Event.CheckFeatureSupport format ok] = [] := rfl

theorem steps_Aliasing (a b : Option D3D12Resource) :
    steps [Event.ResourceBarrier (Barrier.Aliasing a b)] = [Step.AliasingBarrier a b] := rfl

theorem list_shape (a b c : Step) (m : List Step) (d e : Step) :
    [a, b, c] ++ [] ++ m ++ [d] ++ [e] = [a, b, c] ++ m ++ [d, e] := by
  simp

theorem steps_GenerateMips_body_calls (env : Env) (texture : Texture) (resource : D3D12Resource)
    (n : Nat) (r1 : Recorder) :
    steps (GenerateMips_body_calls env texture resource n r1) =
      if needsStaging texture resource.desc then
        [Step.AliasingBarrier none (some { id := n + 1, desc := aliasDesc resource.desc }),
         Step.CopyResource (some { id := n + 1, desc := aliasDesc resource.desc })
           (some resource),
         Step.AliasingBarrier (some { id := n + 1, desc := aliasDesc resource.desc })
           (some { id := n + 2, desc := uavDesc env resource.desc })] ++
        mipSteps (some { id := n + 2, desc := uavDesc env resource.desc })
          (schedule resource.desc).length ++
        [Step.AliasingBarrier (some { id := n + 2, desc := uavDesc env resource.desc })
           (some { id := n + 1, desc := aliasDesc resource.desc }),
         Step.CopyResource (some resource)
           (some { id := n + 1, desc := aliasDesc resource.desc })]
      else
        mipSteps (some resource) (schedule resource.desc).length := by
  unfold GenerateMips_body_calls
  by_cases hst : needsStaging texture resource.desc = true
  · rw [if_pos hst, if_pos hst]
    rw [steps_append, steps_append, steps_append, steps_append, steps_GenerateMips_stage_calls,
      steps_CopyResource_calls,
      steps_GenerateMips_UAV_calls env
        (createdTexture env { id := n + 2, desc := uavDesc env resource.desc }
          texture.m_TextureUsage)
        (env.IsSRGBFormat resource.desc.Format) r1
        { id := n + 2, desc := uavDesc env resource.desc } rfl,
      schedule_uavDesc]
    rw [steps_CheckFeatureSupport, steps_Aliasing]
    exact list_shape _ _ _ _ _ _
  · rw [if_neg hst, if_neg hst]
    rw [steps_append, steps_GenerateMips_UAV_calls env
      (createdTexture env resource texture.m_TextureUsage)
      (env.IsSRGBFormat resource.desc.Format) r1 resource rfl]
    rw [steps_CheckFeatureSupport, List.nil_append]

theorem passes_ne_nil (resourceDesc : D3D12_RESOURCE_DESC) (fuel srcMip k : Nat)
    (hb : srcMip < sub32 resourceDesc.MipLevels 1)
    (hk : mipCount resourceDesc srcMip = some k) :
    0 < (passes resourceDesc (fuel + 1) srcMip).length := by
  simp only [passes, hb, if_true, hk, List.length_cons]
  omega

/-- Claim C3.  On a command list not of the copy kind, for a supported 2D
texture with at least two mips, when the device calls succeed and the scan
mask is non-zero at every source mip at which the pass loop enters a pass
(`passStarts`), `GenerateMips` returns and its steps are: on the staging path, taken exactly when the texture's format does not support UAV or
the resource lacks `ALLOW_UNORDERED_ACCESS`, aliasing barrier (null -> alias),
`CopyResource(alias <- original)`, aliasing barrier (alias -> uavAlias), the
passes of mip generation on uavAlias (at least one), aliasing barrier
(uavAlias -> alias), `CopyResource(original <- alias)`; on the other path the
passes of mip generation on the original resource and no aliasing barrier and
no copy. -/
theorem C3_GenerateMips_sequence (env : Env) (texture : Texture) (w : World) (c : CommandList)
    (resource : D3D12Resource)
    (hc : c.m_d3d12CommandListType ≠ D3D12_COMMAND_LIST_TYPE.COPY)
    (hres : texture.GetD3D12Resource = some resource)
    (hN1 : 2 ≤ resource.desc.MipLevels) (hN2 : resource.desc.MipLevels < 65536)
    (hshape : unsupportedShape resource.desc = false)
    (hok : ∀ n, env.succeeded n = true)
    (hmask : ∀ m, m ∈ passStarts resource.desc (resource.desc.MipLevels + 1) 0 →
      u32 (bitScanMask resource.desc m) ≠ 0) :
    (c.GenerateMips env texture w).1 = Except.ok () ∧
    0 < (schedule resource.desc).length ∧
    ((texture.CheckUAVSupport = false ∨
        resource.desc.Flags &&& D3D12_RESOURCE_FLAG_ALLOW_UNORDERED_ACCESS = 0) →
      steps ((c.GenerateMips env texture w).2.2.recorder.since c.recorder) =
        [Step.AliasingBarrier none
           (some { id := w.deviceCalls + 1, desc := aliasDesc resource.desc }),
         Step.CopyResource (some { id := w.deviceCalls + 1, desc := aliasDesc resource.desc })
           (some resource),
         Step.AliasingBarrier (some { id := w.deviceCalls + 1, desc := aliasDesc resource.desc })
           (some { id := w.deviceCalls + 2, desc := uavDesc env resource.desc })] ++
        mipSteps (some { id := w.deviceCalls + 2, desc := uavDesc env resource.desc })
          (schedule resource.desc).length ++
        [Step.AliasingBarrier (some { id := w.deviceCalls + 2, desc := uavDesc env resource.desc })
           (some { id := w.deviceCalls + 1, desc := aliasDesc resource.desc }),
         Step.CopyResource (some resource)
           (some { id := w.deviceCalls + 1, desc := aliasDesc resource.desc })]) ∧
    (¬ (texture.CheckUAVSupport = false ∨
        resource.desc.Flags &&& D3D12_RESOURCE_FLAG_ALLOW_UNORDERED_ACCESS = 0) →
      steps ((c.GenerateMips env texture w).2.2.recorder.since c.recorder) =
        mipSteps (some resource)
          (schedule resource.desc).length) := by
  have hpass : passesOutcome resource.desc (resource.desc.MipLevels + 1) 0 = Except.ok () :=
    (passes_cover resource.desc (by omega) hN2 (resource.desc.MipLevels + 1) 0
      (Nat.zero_le _) (by omega) hmask).1
  have hb0 : 0 < sub32 resource.desc.MipLevels 1 := by
    rw [sub32_one (by omega) hN2]
    omega
  have hm0 : u32 (bitScanMask resource.desc 0) ≠ 0 := by
    apply hmask
    simp only [passStarts, hb0, if_true]
    exact List.mem_cons_self _ _
  obtain ⟨hr, r1, he⟩ := GenerateMips_body_run env texture { world := w, cl := c.recorder }
    resource hres (by omega) hshape hok hpass
  have hrun1 : (c.GenerateMips env texture w).1 =
      (GenerateMips_body env texture { world := w, cl := c.recorder }).1 := by
    simp [CommandList.GenerateMips, hc, CommandList.onOwn]
  have hrun2 : (c.GenerateMips env texture w).2.2.recorder =
      (GenerateMips_body env texture { world := w, cl := c.recorder }).2.cl := by
    simp [CommandList.GenerateMips, hc, CommandList.onOwn]
  have hsteps := steps_since_of_emits he
  rw [steps_GenerateMips_body_calls] at hsteps
  have hcond : needsStaging texture resource.desc = true ↔
      (texture.CheckUAVSupport = false ∨
        resource.desc.Flags &&& D3D12_RESOURCE_FLAG_ALLOW_UNORDERED_ACCESS = 0) := by
    simp [needsStaging]
  obtain ⟨k, hk⟩ := mipCount_isSome resource.desc 0 hm0
  refine ⟨hrun1.trans hr, ?_, ?_, ?_⟩
  · exact passes_ne_nil resource.desc resource.desc.MipLevels 0 k hb0 hk
  · intro h
    rw [hrun2, hsteps, if_pos (hcond.mpr h)]
  · intro h
    rw [hrun2, hsteps, if_neg (fun hn => h (hcond.mp hn))]

/-- Claim C3 at a direct command list and a 16x2 texture with five mips and
no `ALLOW_UNORDERED_ACCESS` flag, whose one pass starts at mip 0 and writes
all four target mips (the scan mask is zero at mip 3, where no pass starts):
the staging path, with one pass of mip generation on the UAV alias. -/
theorem C3_GenerateMips_sequence_witness :
    passStarts (sampleDesc 16 2 5 0) 6 0 = [0] ∧
    u32 (bitScanMask (sampleDesc 16 2 5 0) 3) = 0 ∧
    (sampleDirectList.GenerateMips sampleEnv (sampleTexture 16 2 5 0) sampleSt.world).1 =
      Except.ok () ∧
    steps ((sampleDirectList.GenerateMips sampleEnv (sampleTexture 16 2 5 0)
        sampleSt.world).2.2.recorder.since sampleDirectList.recorder) =
      [Step.AliasingBarrier none (some { id := 1, desc := aliasDesc (sampleDesc 16 2 5 0) }),
       Step.CopyResource (some { id := 1, desc := aliasDesc (sampleDesc 16 2 5 0) })
         (some (sampleResource 16 2 5 0)),
       Step.AliasingBarrier (some { id := 1, desc := aliasDesc (sampleDesc 16 2 5 0) })
         (some { id := 2, desc := uavDesc sampleEnv (sampleDesc 16 2 5 0) }),
       Step.Dispatch,
       Step.UAVBarrier (some { id := 2, desc := uavDesc sampleEnv (sampleDesc 16 2 5 0) }),
       Step.AliasingBarrier (some { id := 2, desc := uavDesc sampleEnv (sampleDesc 16 2 5 0) })
         (some { id := 1, desc := aliasDesc (sampleDesc 16 2 5 0) }),
       Step.CopyResource (some (sampleResource 16 2 5 0))
         (some { id := 1, desc := aliasDesc (sampleDesc 16 2 5 0) })] :=
  ⟨by decide, by decide,
    (C3_GenerateMips_sequence sampleEnv (sampleTexture 16 2 5 0) sampleSt.world
      sampleDirectList (sampleResource 16 2 5 0)
      (by decide) rfl (by decide) (by decide) (by decide) (fun _ => rfl) (by decide)).1,
    (C3_GenerateMips_sequence sampleEnv (sampleTexture 16 2 5 0) sampleSt.world
      sampleDirectList (sampleResource 16 2 5 0)
      (by decide) rfl (by decide) (by decide) (by decide) (fun _ => rfl) (by decide)).2.2.1
      (Or.inr (by decide))⟩

theorem keepsQueue_pure {α : Type} (a : α) : Op.KeepsQueue (Op.pure a) := fun _ => rfl

theorem keepsQueue_raise {α : Type} (e : Err) : Op.KeepsQueue (Op.raise e : Op α) := fun _ => rfl

theorem keepsQueue_onCl (f : Recorder → Recorder) : Op.KeepsQueue (Op.onCl f) := fun _ => rfl

theorem keepsQueue_bind {α β : Type} (x : Op α) (f : α → Op β) (hx : Op.KeepsQueue x)
    (hf : ∀ a, Op.KeepsQueue (f a)) : Op.KeepsQueue (Op.bind x f) := by
  intro s
  unfold Op.bind
  have h1 := hx s
  generalize x s = res at h1
  obtain ⟨o, s1⟩ := res
  cases o with
  | ok a => exact (hf a s1).trans h1
  | error e => exact h1

theorem keepsQueue_AddGlobalResourceState (resource : Option D3D12Resource) (state : Nat) :
    Op.KeepsQueue (Op.AddGlobalResourceState resource state) := by
  intro s
  cases resource <;> rfl

theorem keepsQueue_CreateCommittedResource (env : Env) (heapType : Nat)
    (desc : D3D12_RESOURCE_DESC) (initialState : Nat) :
    Op.KeepsQueue (Op.CreateCommittedResource env heapType desc initialState) := by
  intro s
  unfold Op.CreateCommittedResource
  by_cases h : env.succeeded s.world.deviceCalls <;> simp [h]

theorem keepsQueue_CreateHeap (env : Env) : Op.KeepsQueue (Op.CreateHeap env) := by
  intro s
  unfold Op.CreateHeap
  by_cases h : env.succeeded s.world.deviceCalls <;> simp [h]

theorem keepsQueue_CreatePlacedResource (env : Env) (heap : Nat) (desc : D3D12_RESOURCE_DESC)
    (initialState : Nat) : Op.KeepsQueue (Op.CreatePlacedResource env heap desc initialState) := by
  intro s
  unfold Op.CreatePlacedResource
  by_cases h : env.succeeded s.world.deviceCalls <;> simp [h]

theorem keepsQueue_CheckFeatureSupport (env : Env) (resource : Option D3D12Resource) :
    Op.KeepsQueue (Op.CheckFeatureSupport env resource) := by
  intro s
  unfold Op.CheckFeatureSupport
  cases resource with
  | none => rfl
  | some res => by_cases h : env.succeeded s.world.deviceCalls <;> simp [h]

theorem keepsQueue_CreateTexture (env : Env) (resource : Option D3D12Resource)
    (textureUsage : Nat) : Op.KeepsQueue (Op.CreateTexture env resource textureUsage) := by
  intro s
  unfold Op.CreateTexture
  have h := keepsQueue_CheckFeatureSupport env resource s
  generalize Op.CheckFeatureSupport env resource s = res at h
  obtain ⟨o, s1⟩ := res
  cases o <;> exact h

theorem keepsQueue_GenerateMips_UAV (env : Env) (texture : Texture) (isSRGB : Bool) :
    Op.KeepsQueue (GenerateMips_UAV env texture isSRGB) := by
  intro s
  rw [(GenerateMips_UAV_spec env texture isSRGB s).1]

theorem keepsQueue_GenerateMips_stage (env : Env) (resource : D3D12Resource) :
    Op.KeepsQueue (GenerateMips_stage env resource) := by
  unfold GenerateMips_stage
  refine keepsQueue_bind _ _ (keepsQueue_CreateHeap env) (fun heap => ?_)
  refine keepsQueue_bind _ _ (keepsQueue_onCl _) (fun _ => ?_)
  refine keepsQueue_bind _ _ (keepsQueue_CreatePlacedResource _ _ _ _) (fun aliasResource => ?_)
  refine keepsQueue_bind _ _ (keepsQueue_AddGlobalResourceState _ _) (fun _ => ?_)
  refine keepsQueue_bind _ _ (keepsQueue_onCl _) (fun _ => ?_)
  refine keepsQueue_bind _ _ (keepsQueue_CreatePlacedResource _ _ _ _) (fun uavResource => ?_)
  refine keepsQueue_bind _ _ (keepsQueue_AddGlobalResourceState _ _) (fun _ => ?_)
  refine keepsQueue_bind _ _ (keepsQueue_onCl _) (fun _ => ?_)
  refine keepsQueue_bind _ _ (keepsQueue_onCl _) (fun _ => ?_)
  refine keepsQueue_bind _ _ (keepsQueue_onCl _) (fun _ => ?_)
  refine keepsQueue_bind _ _ (keepsQueue_onCl _) (fun _ => ?_)
  exact keepsQueue_pure _

theorem keepsQueue_GenerateMips_body (env : Env) (texture : Texture) :
    Op.KeepsQueue (GenerateMips_body env texture) := by
  unfold GenerateMips_body
  cases texture.GetD3D12Resource with
  | none => exact keepsQueue_pure _
  | some resource =>
    simp only
    split
    · exact keepsQueue_pure _
    · split
      · exact keepsQueue_raise _
      · refine keepsQueue_bind _ _ ?_ (fun p => ?_)
        · split
          · refine keepsQueue_bind _ _ (keepsQueue_GenerateMips_stage env resource) (fun q => ?_)
            exact keepsQueue_pure _
          · exact keepsQueue_pure _
        · obtain ⟨uavResource, aliasResource⟩ := p
          refine keepsQueue_bind _ _ (keepsQueue_CreateTexture _ _ _) (fun uavTexture => ?_)
          refine keepsQueue_bind _ _ (keepsQueue_GenerateMips_UAV _ _ _) (fun _ => ?_)
          cases aliasResource with
          | none => exact keepsQueue_pure _
          | some aliasRes =>
            refine keepsQueue_bind _ _ (keepsQueue_onCl _) (fun _ => ?_)
            exact keepsQueue_onCl _

theorem keepsQueue_ensurePanoToCubemapPSO (env : Env) :
    Op.KeepsQueue (ensurePanoToCubemapPSO env) := by
  intro s
  unfold ensurePanoToCubemapPSO
  cases s.cl.m_PanoToCubemapPSO <;> rfl

theorem keepsQueue_PanoToCubemap_stage (env : Env) (cubemapResource : D3D12Resource) :
    Op.KeepsQueue (PanoToCubemap_stage env cubemapResource) := by
  unfold PanoToCubemap_stage
  refine keepsQueue_bind _ _ (keepsQueue_CreateCommittedResource _ _ _ _) (fun r => ?_)
  refine keepsQueue_bind _ _ (keepsQueue_AddGlobalResourceState _ _) (fun _ => ?_)
  refine keepsQueue_bind _ _ (keepsQueue_CheckFeatureSupport _ _) (fun _ => ?_)
  refine keepsQueue_bind _ _ (keepsQueue_onCl _) (fun _ => ?_)
  exact keepsQueue_pure _

theorem keepsQueue_PanoToCubemap_body (env : Env) (cubemapTexture panoTexture : Texture) :
    Op.KeepsQueue (PanoToCubemap_body env cubemapTexture panoTexture) := by
  unfold PanoToCubemap_body
  refine keepsQueue_bind _ _ (keepsQueue_ensurePanoToCubemapPSO env) (fun pso => ?_)
  cases cubemapTexture.GetD3D12Resource with
  | none => exact keepsQueue_pure _
  | some cubemapResource =>
    simp only
    refine keepsQueue_bind _ _ (keepsQueue_CreateTexture _ _ _) (fun stagingTexture0 => ?_)
    refine keepsQueue_bind _ _ ?_ (fun stagingResource => ?_)
    · split
      · exact keepsQueue_PanoToCubemap_stage env cubemapResource
      · exact keepsQueue_pure _
    · refine keepsQueue_bind _ _ (keepsQueue_onCl _) (fun _ => ?_)
      refine keepsQueue_bind _ _ (keepsQueue_onCl _) (fun _ => ?_)
      refine keepsQueue_bind _ _ (keepsQueue_onCl _) (fun _ => ?_)
      refine keepsQueue_bind _ _ (keepsQueue_onCl _) (fun _ => ?_)
      split
      · exact keepsQueue_onCl _
      · exact keepsQueue_pure _

theorem forward_spec (env : Env) (op : Op Unit) (hop : Op.KeepsQueue op) (w : World)
    (c : CommandList) :
    (c.forward env op w).2.2.recorder = c.recorder ∧
    (c.forward env op w).2.2.m_d3d12CommandListType = c.m_d3d12CommandListType ∧
    (c.forward env op w).2.2.m_ComputeCommandList.isSome = true ∧
    (c.forward env op w).2.1.computeQueueRequests =
      w.computeQueueRequests + (if c.m_ComputeCommandList.isSome then 0 else 1) := by
  unfold CommandList.forward CommandList.ensureComputeCommandList
  cases hcc : c.m_ComputeCommandList with
  | none =>
    refine ⟨rfl, rfl, rfl, ?_⟩
    simp only [Option.isSome_none, Bool.false_eq_true, if_false]
    exact hop _
  | some compute =>
    refine ⟨rfl, rfl, rfl, ?_⟩
    simp only [Option.isSome_some, if_true, Nat.add_zero]
    exact hop _

theorem call_spec (env : Env) (call : ComputeCall) (w : World) (c : CommandList)
    (hc : c.m_d3d12CommandListType = D3D12_COMMAND_LIST_TYPE.COPY) :
    (c.call env call w).2.2.recorder = c.recorder ∧
    (c.call env call w).2.2.m_d3d12CommandListType = D3D12_COMMAND_LIST_TYPE.COPY ∧
    (c.call env call w).2.2.m_ComputeCommandList.isSome = true ∧
    (c.call env call w).2.1.computeQueueRequests =
      w.computeQueueRequests + (if c.m_ComputeCommandList.isSome then 0 else 1) := by
  cases call with
  | GenerateMips texture =>
    have h := forward_spec env (GenerateMips_body env texture)
      (keepsQueue_GenerateMips_body env texture) w c
    rw [hc] at h
    simpa [CommandList.call, CommandList.GenerateMips, hc] using h
  | PanoToCubemap cubemapTexture panoTexture =>
    have h := forward_spec env (PanoToCubemap_body env cubemapTexture panoTexture)
      (keepsQueue_PanoToCubemap_body env cubemapTexture panoTexture) w c
    rw [hc] at h
    simpa [CommandList.call, CommandList.PanoToCubemap, hc] using h

theorem calls_spec (env : Env) (calls : List ComputeCall) (w : World) (c : CommandList)
    (hc : c.m_d3d12CommandListType = D3D12_COMMAND_LIST_TYPE.COPY) :
    (c.calls env calls w).2.recorder = c.recorder ∧
    (c.calls env calls w).1.computeQueueRequests =
      w.computeQueueRequests +
        (if c.m_ComputeCommandList.isSome = true ∨ calls = [] then 0 else 1) := by
  induction calls generalizing w c with
  | nil => simp [CommandList.calls]
  | cons call rest ih =>
    obtain ⟨h1, h2, h3, h4⟩ := call_spec env call w c hc
    obtain ⟨i1, i2⟩ := ih (c.call env call w).2.1 (c.call env call w).2.2 h2
    unfold CommandList.calls
    refine ⟨i1.trans h1, ?_⟩
    rw [i2, h4, h3]
    by_cases hs : c.m_ComputeCommandList.isSome = true <;> simp [hs]

/-- Claim C4.  On a command list of the copy kind, `GenerateMips(texture)`
leaves the list's own recorder (its log and its tracked objects) as it was and
runs on the compute command list: the cached one if there is one, else the one
it obtains from the compute queue and caches.  Over any sequence of
`GenerateMips` and `PanoToCubemap` calls the own recorder stays as it was and
the compute queue is asked at most once: never if a list is cached at the
start, exactly once otherwise (if any call is made). -/
theorem C4_copy_kind_forwards (env : Env) (texture : Texture) (calls : List ComputeCall)
    (w : World) (c : CommandList)
    (hc : c.m_d3d12CommandListType = D3D12_COMMAND_LIST_TYPE.COPY) :
    (c.GenerateMips env texture w).2.2.recorder = c.recorder ∧
    (c.GenerateMips env texture w).2.2.recorder.log = c.recorder.log ∧
    (c.GenerateMips env texture w).2.2.recorder.m_TrackedObjects = c.recorder.m_TrackedObjects ∧
    (∀ compute, c.m_ComputeCommandList = some compute →
      (c.GenerateMips env texture w).1 =
        (GenerateMips_body env texture (St.mk w compute)).1 ∧
      (c.GenerateMips env texture w).2.1 =
        (GenerateMips_body env texture (St.mk w compute)).2.world ∧
      (c.GenerateMips env texture w).2.2.m_ComputeCommandList =
        some (GenerateMips_body env texture (St.mk w compute)).2.cl) ∧
    (c.m_ComputeCommandList = none →
      (c.GenerateMips env texture w).1 =
        (GenerateMips_body env texture
          (St.mk { w with computeQueueRequests := w.computeQueueRequests + 1 }
            (env.computeQueue_GetCommandList w.computeQueueRequests))).1 ∧
      (c.GenerateMips env texture w).2.1 =
        (GenerateMips_body env texture
          (St.mk { w with computeQueueRequests := w.computeQueueRequests + 1 }
            (env.computeQueue_GetCommandList w.computeQueueRequests))).2.world ∧
      (c.GenerateMips env texture w).2.2.m_ComputeCommandList =
        some (GenerateMips_body env texture
          (St.mk { w with computeQueueRequests := w.computeQueueRequests + 1 }
            (env.computeQueue_GetCommandList w.computeQueueRequests))).2.cl) ∧
    (c.calls env calls w).2.recorder = c.recorder ∧
    (c.calls env calls w).1.computeQueueRequests ≤ w.computeQueueRequests + 1 ∧
    (c.calls env calls w).1.computeQueueRequests =
      w.computeQueueRequests +
        (if c.m_ComputeCommandList.isSome = true ∨ calls = [] then 0 else 1) := by
  obtain ⟨h1, _, _, _⟩ := call_spec env (ComputeCall.GenerateMips texture) w c hc
  have h1a : (c.GenerateMips env texture w).2.2.recorder = c.recorder := h1
  obtain ⟨k1, k2⟩ := calls_spec env calls w c hc
  refine ⟨h1a, by rw [h1a], by rw [h1a], ?_, ?_, k1, ?_, k2⟩
  · intro compute hcc
    simp [CommandList.GenerateMips, hc, CommandList.forward,
      CommandList.ensureComputeCommandList, hcc]
  · intro hcc
    simp [CommandList.GenerateMips, hc, CommandList.forward,
      CommandList.ensureComputeCommandList, hcc]
  · rw [k2]
    split <;> omega

/-- Claim C4 at a copy command list without a cached compute list, on which
mips are generated twice and a panorama is converted once. -/
theorem C4_copy_kind_forwards_witness :
    sampleCopyList.m_d3d12CommandListType = D3D12_COMMAND_LIST_TYPE.COPY ∧
    (sampleCopyList.calls sampleEnv
      [ComputeCall.GenerateMips (sampleTexture 8 8 4 4),
       ComputeCall.PanoToCubemap (sampleTexture 8 8 4 4) (sampleTexture 16 8 1 0),
       ComputeCall.GenerateMips (sampleTexture 16 16 5 0)] sampleSt.world).1.computeQueueRequests
      = 0 + (if sampleCopyList.m_ComputeCommandList.isSome = true ∨
          [ComputeCall.GenerateMips (sampleTexture 8 8 4 4),
           ComputeCall.PanoToCubemap (sampleTexture 8 8 4 4) (sampleTexture 16 8 1 0),
           ComputeCall.GenerateMips (sampleTexture 16 16 5 0)] = [] then 0 else 1) :=
  ⟨rfl, (C4_copy_kind_forwards sampleEnv (sampleTexture 8 8 4 4)
    [ComputeCall.GenerateMips (sampleTexture 8 8 4 4),
     ComputeCall.PanoToCubemap (sampleTexture 8 8 4 4) (sampleTexture 16 8 1 0),
     ComputeCall.GenerateMips (sampleTexture 16 16 5 0)] sampleSt.world sampleCopyList rfl).2.2.2.2.2.2.2⟩

theorem SrcDimension_eq (resourceDesc : D3D12_RESOURCE_DESC) (srcMip : Nat) :
    SrcDimension resourceDesc srcMip =
      2 * (srcHeight resourceDesc srcMip % 2) + srcWidth resourceDesc srcMip % 2 := by
  unfold SrcDimension
  rw [Nat.and_one_is_mod, Nat.and_one_is_mod, Nat.shiftLeft_eq]
  rcases Nat.mod_two_eq_zero_or_one (srcHeight resourceDesc srcMip) with h | h <;>
    rcases Nat.mod_two_eq_zero_or_one (srcWidth resourceDesc srcMip) with w | w <;>
    rw [h, w] <;> decide

/-- Claim C5.  Every constant buffer a pass of `GenerateMips_UAV` writes has a
`SrcDimension` in {0,1,2,3} whose bit 0 is set exactly when the source width
`Width >> srcMip` is odd and whose bit 1 is set exactly when the source height
`Height >> srcMip` is odd. -/
theorem C5_SrcDimension (env : Env) (texture : Texture) (isSRGB : Bool) (s : St)
    (resource : D3D12Resource) (idx : Nat) (cb : GenerateMipsCB)
    (hres : texture.GetD3D12Resource = some resource)
    (h : Event.Command (Command.SetComputeRoot32BitConstantsMips idx cb) ∈
      (GenerateMips_UAV env texture isSRGB s).2.cl.since s.cl) :
    cb.SrcDimension < 4 ∧
    (cb.SrcDimension.testBit 0 = true ↔ (resource.desc.Width >>> cb.SrcMipLevel) % 2 = 1) ∧
    (cb.SrcDimension.testBit 1 = true ↔ (resource.desc.Height >>> cb.SrcMipLevel) % 2 = 1) := by
  obtain ⟨res, hr, _, _, hcb⟩ := GenerateMips_UAV_constants env texture isSRGB s idx cb h
  rw [hres] at hr
  cases hr
  have hd : cb.SrcDimension = SrcDimension resource.desc cb.SrcMipLevel := by
    rw [hcb]; rfl
  rw [hd, SrcDimension_eq]
  unfold srcHeight srcWidth
  rcases Nat.mod_two_eq_zero_or_one (resource.desc.Height >>> cb.SrcMipLevel) with hh | hh <;>
    rcases Nat.mod_two_eq_zero_or_one (resource.desc.Width >>> cb.SrcMipLevel) with hw | hw <;>
    rw [hh, hw] <;> decide

set_option maxRecDepth 100000 in
/-- Claim C5 at a 6x5 texture with three mips: the first pass has an even
width and an odd height and writes `SrcDimension = 2`. -/
theorem C5_SrcDimension_witness :
    (sampleTexture 6 5 3 4).GetD3D12Resource = some (sampleResource 6 5 3 4) ∧
    ((2 : Nat) < 4 ∧ (Nat.testBit 2 0 = true ↔ (6 >>> 0) % 2 = 1) ∧
      (Nat.testBit 2 1 = true ↔ (5 >>> 0) % 2 = 1)) :=
  ⟨rfl, C5_SrcDimension sampleEnv (sampleTexture 6 5 3 4) false sampleSt
    (sampleResource 6 5 3 4) 0
    { SrcMipLevel := 0, NumMipLevels := 1, SrcDimension := 2, IsSRGB := false,
      TexelSizeDenomX := 3, TexelSizeDenomY := 2 }
    rfl (by decide)⟩

theorem filterMap_stripFlush {β : Type} (g : Event → Option β)
    (hg : ∀ e, e.isFlushTraffic = true → g e = none) (l : List Event) :
    (stripFlush l).filterMap g = l.filterMap g := by
  induction l with
  | nil => rfl
  | cons e l ih =>
    simp only [stripFlush] at ih ⊢
    by_cases h : e.isFlushTraffic = true
    · simp [List.filter_cons, h, List.filterMap_cons, hg e h, ih]
    · simp [List.filter_cons, h, List.filterMap_cons, ih]

theorem staging_of_flushTraffic (e : Event) (h : e.isFlushTraffic = true) :
    e.staging = none := by
  cases e with
  | Command c => rfl
  | FlushResourceBarriers => rfl
  | _ => simp [Event.isFlushTraffic] at h

theorem stagings_since_of_emits {r r1 : Recorder} {calls : List Event} (h : Emits r r1 calls) :
    stagings (r1.since r) = stagings calls := by
  rw [← emits_since_eq h]
  exact (filterMap_stripFlush Event.staging staging_of_flushTraffic _).symm

theorem stagings_append (a b : List Event) : stagings (a ++ b) = stagings a ++ stagings b := by
  simp [stagings]

theorem stagings_TransitionBarrier_calls (resource : Option D3D12Resource)
    (stateAfter subresource : Nat) :
    stagings (TransitionBarrier_calls resource stateAfter subresource) = [] := by
  cases resource <;> rfl

theorem stagings_Dispatch_calls (x y z : Nat) : stagings (Dispatch_calls x y z) = [] := rfl

theorem stagings_SetUnorderedAccessView_calls (rootParameterIndex descrptorOffset : Nat)
    (resource : Option D3D12Resource) (stateAfter subresource : Nat) (uav : Descriptor) :
    stagings (SetUnorderedAccessView_calls rootParameterIndex descrptorOffset resource stateAfter
      subresource uav) =
      [{ rootParameterIndex := rootParameterIndex, offset := descrptorOffset,
         numDescriptors := 1, src := uav }] := by
  unfold SetUnorderedAccessView_calls
  rw [stagings_append, stagings_TransitionBarrier_calls]
  rfl

theorem stagings_flatMap {α : Type} (l : List α) (f : α → List Event) (g : α → Staging)
    (h : ∀ a, stagings (f a) = [g a]) : stagings (l.flatMap f) = l.map g := by
  induction l with
  | nil => rfl
  | cons a l ih => simp [List.flatMap_cons, stagings_append, h, ih]

/-- The stagings of one pass of `GenerateMips_UAV`: the source view, one target
view per mip of the pass, and the padding when the pass has fewer than four. -/
theorem stagings_pass_calls (env : Env) (pso : PSO) (texture : Texture)
    (resourceDesc : D3D12_RESOURCE_DESC) (isSRGB : Bool) (srcMip mipCount : Nat) :
    stagings (pass_calls env pso texture resourceDesc isSRGB srcMip mipCount) =
      [{ rootParameterIndex := env.GenerateMips_SrcMip, offset := 0, numDescriptors := 1,
         src := Descriptor.SRV texture.GetD3D12Resource
          (some (if isSRGB then env.GetSRGBFormat resourceDesc.Format else resourceDesc.Format))
          (some resourceDesc.MipLevels) }] ++
      (List.range mipCount).map (fun mip =>
        { rootParameterIndex := env.GenerateMips_OutMip, offset := mip, numDescriptors := 1,
          src := Descriptor.UAV texture.GetD3D12Resource (some resourceDesc.Format)
            (some (u32 (srcMip + mip + 1))) }) ++
      (if mipCount < 4 then
        [{ rootParameterIndex := env.GenerateMips_OutMip, offset := mipCount,
           numDescriptors := 4 - mipCount, src := pso.GetDefaultUAV }]
       else []) := by
  unfold pass_calls
  simp only [stagings_append, stagings_TransitionBarrier_calls, stagings_Dispatch_calls]
  rw [stagings_flatMap _ _ _ (fun mip => stagings_SetUnorderedAccessView_calls _ _ _ _ _ _)]
  by_cases h : mipCount < 4 <;> simp [h, stagings, Event.staging]

/-- Claim C6.  In a pass of `GenerateMips_UAV` with `mipCount` target mips
(`1 ≤ mipCount ≤ 4`) from source mip `srcMip`, the stagings are, in order, the
source view, the UAV of mip slice `srcMip + i + 1` at slot `i` of the OutMip
table for each `i < mipCount`, and for `mipCount < 4` the default UAV for the
`4 - mipCount` slots from `mipCount` on; after them slot `i` of the OutMip table holds, for `i < mipCount`, the UAV of mip slice
`srcMip + i + 1` and, for `mipCount ≤ i < 4`, the default UAV (the handle at
distance `i - mipCount` from `GetDefaultUAV()`), so all four slots are staged;
and any staging of the default UAV has `offset + count = 4`. -/
theorem C6_OutMip_slots (env : Env) (pso : PSO) (texture : Texture)
    (resourceDesc : D3D12_RESOURCE_DESC) (isSRGB : Bool) (srcMip mipCount : Nat) (r : Recorder)
    (h1 : 1 ≤ mipCount) (h4 : mipCount ≤ 4) (hs : srcMip < 65536) :
    stagings ((r.GenerateMips_UAV_pass env pso texture resourceDesc isSRGB srcMip
        mipCount).since r) =
      [{ rootParameterIndex := env.GenerateMips_SrcMip, offset := 0, numDescriptors := 1,
         src := Descriptor.SRV texture.GetD3D12Resource
          (some (if isSRGB then env.GetSRGBFormat resourceDesc.Format else resourceDesc.Format))
          (some resourceDesc.MipLevels) }] ++
      (List.range mipCount).map (fun i =>
        { rootParameterIndex := env.GenerateMips_OutMip, offset := i, numDescriptors := 1,
          src := Descriptor.UAV texture.GetD3D12Resource (some resourceDesc.Format)
            (some (srcMip + i + 1)) }) ++
      (if mipCount < 4 then
        [{ rootParameterIndex := env.GenerateMips_OutMip, offset := mipCount,
           numDescriptors := 4 - mipCount, src := pso.GetDefaultUAV }]
       else []) ∧
    (∀ i, i < mipCount →
      stagedAt (stagings ((r.GenerateMips_UAV_pass env pso texture resourceDesc isSRGB srcMip
          mipCount).since r)) env.GenerateMips_OutMip i =
        some (Descriptor.UAV texture.GetD3D12Resource (some resourceDesc.Format)
          (some (srcMip + i + 1)), 0)) ∧
    (∀ i, mipCount ≤ i → i < 4 →
      stagedAt (stagings ((r.GenerateMips_UAV_pass env pso texture resourceDesc isSRGB srcMip
          mipCount).since r)) env.GenerateMips_OutMip i =
        some (pso.GetDefaultUAV, i - mipCount)) ∧
    (∀ root offset count,
      Event.StageDescriptors D3D12_DESCRIPTOR_HEAP_TYPE_CBV_SRV_UAV root offset count
          pso.GetDefaultUAV ∈
        (r.GenerateMips_UAV_pass env pso texture resourceDesc isSRGB srcMip mipCount).since r →
      root = env.GenerateMips_OutMip ∧ offset = mipCount ∧ offset + count = 4) := by
  have he := emits_GenerateMips_UAV_pass env pso texture resourceDesc isSRGB srcMip mipCount r
  have hst := stagings_since_of_emits he
  rw [stagings_pass_calls] at hst
  have hu : ∀ i, i < 4 → u32 (srcMip + i + 1) = srcMip + i + 1 := fun i hi =>
    u32_of_lt (by omega)
  refine ⟨?_, ?_, ?_, ?_⟩
  · rw [hst]
    congr 2
    apply List.map_congr_left
    intro i hi
    rw [hu i (by have := List.mem_range.mp hi; omega)]
  · intro i hi
    rw [hst]
    have h0 := hu 0 (by omega)
    have h1' := hu 1 (by omega)
    have h2 := hu 2 (by omega)
    have h3 := hu 3 (by omega)
    interval_cases mipCount <;> interval_cases i <;>
      simp [stagedAt, Staging.covers, List.range_succ, h0, h1', h2, h3]
  · intro i hi hi4
    rw [hst]
    interval_cases mipCount <;> interval_cases i <;>
      simp [stagedAt, Staging.covers, List.range_succ]
  · intro root offset count hmem
    rw [mem_since_of_emits he (Event.StageDescriptors D3D12_DESCRIPTOR_HEAP_TYPE_CBV_SRV_UAV root
      offset count pso.GetDefaultUAV) rfl] at hmem
    simp [pass_calls, mem_TransitionBarrier_calls, SetUnorderedAccessView_calls,
      Dispatch_calls, PSO.GetDefaultUAV] at hmem
    obtain ⟨hlt, rfl, rfl, rfl⟩ := hmem
    exact ⟨rfl, rfl, by omega⟩

/-- Claim C6 at the first pass (two target mips) of an 8x12 texture with four
mips: slot 3 of the OutMip table holds the second default UAV. -/
theorem C6_OutMip_slots_witness :
    (1 ≤ 2 ∧ 2 ≤ 4 ∧ 0 < 65536) ∧
    stagedAt (stagings ((Recorder.fresh.GenerateMips_UAV_pass sampleEnv
        sampleEnv.generateMipsPSO (sampleTexture 8 12 4 4) (sampleDesc 8 12 4 4) false 0
        2).since Recorder.fresh)) sampleEnv.GenerateMips_OutMip 3 =
      some (sampleEnv.generateMipsPSO.GetDefaultUAV, 3 - 2) :=
  ⟨⟨by decide, by decide, by decide⟩,
    (C6_OutMip_slots sampleEnv sampleEnv.generateMipsPSO (sampleTexture 8 12 4 4)
      (sampleDesc 8 12 4 4) false 0 2 Recorder.fresh (by decide) (by decide) (by decide)).2.2.1 3
      (by decide) (by decide)⟩

theorem mipSteps_succ (resource : Option D3D12Resource) (n : Nat) :
    mipSteps resource (n + 1) =
      Step.Dispatch :: Step.UAVBarrier resource :: mipSteps resource n := by
  simp [mipSteps, List.replicate_succ]

theorem count_UAVBarrier_mipSteps (resource : Option D3D12Resource) (n : Nat) :
    (mipSteps resource n).count (Step.UAVBarrier resource) = n := by
  induction n with
  | zero => rfl
  | succ n ih => simp [mipSteps_succ, ih]

theorem count_Dispatch_mipSteps (resource : Option D3D12Resource) (n : Nat) :
    (mipSteps resource n).count Step.Dispatch = n := by
  induction n with
  | zero => rfl
  | succ n ih => simp [mipSteps_succ, ih]

theorem passConstants_append (a b : List Event) :
    passConstants (a ++ b) = passConstants a ++ passConstants b := by
  simp [passConstants, List.filterMap_append]

theorem passConstants_of_flushTraffic (e : Event) (h : e.isFlushTraffic = true) :
    e.passConstants = none := by
  cases e with
  | Command c => cases c <;> first | rfl | simp [Event.isFlushTraffic] at h
  | _ => rfl

theorem passConstants_since_of_emits {r r1 : Recorder} {calls : List Event}
    (h : Emits r r1 calls) : passConstants (r1.since r) = passConstants calls := by
  rw [← emits_since_eq h]
  exact (filterMap_stripFlush Event.passConstants passConstants_of_flushTraffic _).symm

theorem passConstants_TransitionBarrier_calls (resource : Option D3D12Resource)
    (stateAfter subresource : Nat) :
    passConstants (TransitionBarrier_calls resource stateAfter subresource) = [] := by
  cases resource <;> rfl

theorem passConstants_flatMap_nil {α : Type} (l : List α) (f : α → List Event)
    (h : ∀ a, passConstants (f a) = []) : passConstants (l.flatMap f) = [] := by
  induction l with
  | nil => rfl
  | cons a l ih => simp [List.flatMap_cons, passConstants_append, ih, h]

theorem passConstants_pass_calls (env : Env) (pso : PSO) (texture : Texture)
    (resourceDesc : D3D12_RESOURCE_DESC) (isSRGB : Bool) (srcMip mipCount : Nat) :
    passConstants (pass_calls env pso texture resourceDesc isSRGB srcMip mipCount) =
      [passCB resourceDesc isSRGB srcMip mipCount] := by
  unfold pass_calls
  simp only [passConstants_append, passConstants_TransitionBarrier_calls]
  rw [passConstants_flatMap_nil]
  · by_cases h : mipCount < 4 <;>
      simp [h, passConstants, Event.passConstants, Dispatch_calls, List.filterMap_map,
        Function.comp_def]
  · intro a
    rw [SetUnorderedAccessView_calls, passConstants_append,
      passConstants_TransitionBarrier_calls]
    rfl

theorem passConstants_flatMap_pass_calls (env : Env) (pso : PSO) (texture : Texture)
    (resourceDesc : D3D12_RESOURCE_DESC) (isSRGB : Bool) (ps : List (Nat × Nat)) :
    passConstants (ps.flatMap (fun p => pass_calls env pso texture resourceDesc isSRGB p.1 p.2)) =
      ps.map (fun p => passCB resourceDesc isSRGB p.1 p.2) := by
  induction ps with
  | nil => rfl
  | cons p ps ih =>
    rw [List.flatMap_cons, passConstants_append, ih, passConstants_pass_calls]
    rfl

theorem passConstants_GenerateMips_UAV_prelude (env : Env) (r : Recorder) :
    passConstants (GenerateMips_UAV_prelude env r) = [] := by
  unfold GenerateMips_UAV_prelude
  simp only [passConstants_append]
  have h1 : passConstants
      (if r.m_GenerateMipsPSO.isNone then [Event.CreateGenerateMipsPSO] else []) = [] := by
    split <;> rfl
  have h2 : passConstants (if r.m_RootSignature ≠ (r.mipsPSO env).m_RootSignature then
      SetComputeRootSignature_calls (r.mipsPSO env).m_RootSignature else []) = [] := by
    split
    · simp [SetComputeRootSignature_calls, passConstants, Event.passConstants,
        List.filterMap_map, Function.comp_def]
    · rfl
  rw [h1, h2]
  rfl

theorem passConstants_GenerateMips_UAV_calls (env : Env) (texture : Texture) (isSRGB : Bool)
    (r : Recorder) (resource : D3D12Resource)
    (hres : texture.GetD3D12Resource = some resource) :
    passConstants (GenerateMips_UAV_calls env texture isSRGB r) =
      (schedule resource.desc).map (fun p => passCB resource.desc isSRGB p.1 p.2) := by
  unfold GenerateMips_UAV_calls
  rw [passConstants_append, passConstants_GenerateMips_UAV_prelude,
    passCalls_some env _ texture isSRGB resource hres, passConstants_flatMap_pass_calls,
    List.nil_append]

/-- Claim C7.  A pass of `GenerateMips_UAV`, whatever its source mip and its
`mipCount`, records exactly one dispatch and then requests exactly one UAV
barrier, on the texture being mipped.  So the steps of any run of passes are
those of the passes in turn, each barrier right after the dispatch of its
pass, and the UAV barriers requested, like the dispatches recorded, are as
many as the passes.  In the log of a call of `GenerateMips_UAV`, where every
pass writes one constant buffer, the steps are a dispatch and a UAV barrier
for each constant buffer written; and when the scan mask is non-zero wherever
the loop enters a pass, the call returns after the passes of the schedule. -/
theorem C7_dispatch_then_UAV_barrier (env : Env) (pso : PSO) (texture : Texture)
    (resourceDesc : D3D12_RESOURCE_DESC) (isSRGB : Bool) (srcMip mipCount : Nat) (r : Recorder)
    (s : St) (resource : D3D12Resource) (hres : texture.GetD3D12Resource = some resource) :
    steps ((r.GenerateMips_UAV_pass env pso texture resourceDesc isSRGB srcMip mipCount).since
      r) = [Step.Dispatch, Step.UAVBarrier (some resource)] ∧
    (∀ (ps : List (Nat × Nat)) (r0 : Recorder),
      steps ((ps.foldl (fun r1 p =>
          r1.GenerateMips_UAV_pass env pso texture resourceDesc isSRGB p.1 p.2) r0).since r0) =
        mipSteps (some resource) ps.length ∧
      (passConstants ((ps.foldl (fun r1 p =>
          r1.GenerateMips_UAV_pass env pso texture resourceDesc isSRGB p.1 p.2) r0).since
        r0)).length = ps.length) ∧
    (∀ n, (mipSteps (some resource) n).count (Step.UAVBarrier (some resource)) = n ∧
      (mipSteps (some resource) n).count Step.Dispatch = n) ∧
    steps ((GenerateMips_UAV env texture isSRGB s).2.cl.since s.cl) =
      mipSteps (some resource)
        (passConstants ((GenerateMips_UAV env texture isSRGB s).2.cl.since s.cl)).length ∧
    (1 ≤ resource.desc.MipLevels → resource.desc.MipLevels < 65536 →
      (∀ m, m ∈ passStarts resource.desc (resource.desc.MipLevels + 1) 0 →
        u32 (bitScanMask resource.desc m) ≠ 0) →
      (GenerateMips_UAV env texture isSRGB s).1 = Except.ok () ∧
      (passConstants ((GenerateMips_UAV env texture isSRGB s).2.cl.since s.cl)).length =
        (schedule resource.desc).length) := by
  have h1 := steps_since_of_emits
    (emits_GenerateMips_UAV_pass env pso texture resourceDesc isSRGB srcMip mipCount r)
  rw [steps_pass_calls, hres] at h1
  obtain ⟨_, g2, g3⟩ := GenerateMips_UAV_spec env texture isSRGB s
  have h2 := steps_since_of_emits g2
  rw [steps_GenerateMips_UAV_calls env texture isSRGB s.cl resource hres] at h2
  have h3 := passConstants_since_of_emits g2
  rw [passConstants_GenerateMips_UAV_calls env texture isSRGB s.cl resource hres] at h3
  have hlen : (passConstants ((GenerateMips_UAV env texture isSRGB s).2.cl.since s.cl)).length =
      (schedule resource.desc).length := by
    rw [h3, List.length_map]
  refine ⟨h1, ?_, fun n => ⟨count_UAVBarrier_mipSteps _ n, count_Dispatch_mipSteps _ n⟩, ?_, ?_⟩
  · intro ps r0
    have he := emits_foldl
      (fun r1 (p : Nat × Nat) =>
        Recorder.GenerateMips_UAV_pass env pso texture resourceDesc isSRGB p.1 p.2 r1)
      (fun p => pass_calls env pso texture resourceDesc isSRGB p.1 p.2)
      (fun r1 p => emits_GenerateMips_UAV_pass env pso texture resourceDesc isSRGB p.1 p.2 r1)
      ps r0
    constructor
    · rw [steps_since_of_emits he, steps_flatMap_pass_calls, hres]
    · rw [passConstants_since_of_emits he, passConstants_flatMap_pass_calls, List.length_map]
  · rw [hlen, h2]
  · intro hN1 hN2 hmask
    refine ⟨?_, hlen⟩
    rw [g3, hres]
    exact (passes_cover resource.desc hN1 hN2 (resource.desc.MipLevels + 1) 0
      (Nat.zero_le _) (by omega) hmask).1

set_option maxRecDepth 100000 in
/-- Claim C7 at an 8x12 texture with four mips, mipped in two passes, and at
a run of three passes from a fresh recorder, one of them with a `mipCount`
of 0. -/
theorem C7_dispatch_then_UAV_barrier_witness :
    (sampleTexture 8 12 4 4).GetD3D12Resource = some (sampleResource 8 12 4 4) ∧
    steps ((Recorder.fresh.GenerateMips_UAV_pass sampleEnv sampleEnv.generateMipsPSO
      (sampleTexture 8 12 4 4) (sampleDesc 8 12 4 4) false 0 2).since Recorder.fresh) =
      [Step.Dispatch, Step.UAVBarrier (some (sampleResource 8 12 4 4))] ∧
    steps (([(0, 2), (2, 0), (2, 1)].foldl (fun r1 (p : Nat × Nat) =>
        r1.GenerateMips_UAV_pass sampleEnv sampleEnv.generateMipsPSO (sampleTexture 8 12 4 4)
          (sampleDesc 8 12 4 4) false p.1 p.2) Recorder.fresh).since Recorder.fresh) =
      [Step.Dispatch, Step.UAVBarrier (some (sampleResource 8 12 4 4)),
       Step.Dispatch, Step.UAVBarrier (some (sampleResource 8 12 4 4)),
       Step.Dispatch, Step.UAVBarrier (some (sampleResource 8 12 4 4))] ∧
    steps ((GenerateMips_UAV sampleEnv (sampleTexture 8 12 4 4) false sampleSt).2.cl.since
      sampleSt.cl) =
      [Step.Dispatch, Step.UAVBarrier (some (sampleResource 8 12 4 4)),
       Step.Dispatch, Step.UAVBarrier (some (sampleResource 8 12 4 4))] :=
  ⟨rfl,
    (C7_dispatch_then_UAV_barrier sampleEnv sampleEnv.generateMipsPSO
      (sampleTexture 8 12 4 4) (sampleDesc 8 12 4 4) false 0 2 Recorder.fresh sampleSt
      (sampleResource 8 12 4 4) rfl).1,
    ((C7_dispatch_then_UAV_barrier sampleEnv sampleEnv.generateMipsPSO
      (sampleTexture 8 12 4 4) (sampleDesc 8 12 4 4) false 0 2 Recorder.fresh sampleSt
      (sampleResource 8 12 4 4) rfl).2.1 [(0, 2), (2, 0), (2, 1)] Recorder.fresh).1,
    ((C7_dispatch_then_UAV_barrier sampleEnv sampleEnv.generateMipsPSO
      (sampleTexture 8 12 4 4) (sampleDesc 8 12 4 4) false 0 2 Recorder.fresh sampleSt
      (sampleResource 8 12 4 4) rfl).2.2.2.1.trans (by decide))⟩

theorem lookup_filter_resource (l : List ((D3D12Resource × Nat) × Nat)) (res : D3D12Resource)
    (sub : Nat) : (l.filter (fun e => !decide (e.1.1 = res))).lookup (res, sub) = none := by
  induction l with
  | nil => rfl
  | cons e l ih =>
    by_cases h : e.1.1 = res
    · simp [List.filter_cons, h, ih]
    · have hne : ((res, sub) == e.1) = false := by
        rw [beq_eq_false_iff_ne]
        intro hk
        exact h (by rw [← hk])
      simp [List.filter_cons, h, List.lookup, hne, ih]

/-- A resource just registered in the global map is in the registered state
at every subresource. -/
theorem globalState_registered (n q : Nat) (l : List ((D3D12Resource × Nat) × Nat))
    (res : D3D12Resource) (state sub : Nat) :
    World.globalState
      { deviceCalls := n, computeQueueRequests := q,
        ms_GlobalResourceState := ((res, D3D12_RESOURCE_BARRIER_ALL_SUBRESOURCES), state) ::
          l.filter (fun e => !decide (e.1.1 = res)) } res sub = some state := by
  by_cases hs : sub = D3D12_RESOURCE_BARRIER_ALL_SUBRESOURCES
  · subst hs
    simp [World.globalState, List.lookup]
  · have hne : ((res, sub) == (res, D3D12_RESOURCE_BARRIER_ALL_SUBRESOURCES)) = false := by
      rw [beq_eq_false_iff_ne]
      intro hk
      exact hs (Prod.mk.inj hk).2
    simp [World.globalState, List.lookup, hne, lookup_filter_resource]

/-- Claim C8.  For a `CopyBuffer` call whose `size_t` product
`numElements * elementSize` is non-zero, when the device calls succeed: the
destination is created and at once registered in the global state map as
COMMON, before any call on the tracker or the command list; with non-null
`bufferData` the recorder then creates the upload resource, requests the
transition of the destination to COPY_DEST, flushes the barriers, records the
subresource upload, and appends the upload resource and then the destination
to the tracked objects; with null `bufferData` it requests no transition,
records no copy and tracks the destination only. -/
theorem C8_CopyBuffer_sequence (env : Env) (numElements elementSize : Nat)
    (bufferData : Option Nat) (flags : Nat) (s : St)
    (hsize : 0 < bufferSize numElements elementSize)
    (hok : ∀ n, env.succeeded n = true) :
    (CopyBuffer env numElements elementSize bufferData flags s).1 =
      Except.ok (some { id := s.world.deviceCalls,
                        desc := CD3DX12_RESOURCE_DESC_Buffer
                          (bufferSize numElements elementSize) flags }) ∧
    (∀ sub : Nat,
      (CopyBuffer env numElements elementSize bufferData flags s).2.world.globalState
        { id := s.world.deviceCalls,
          desc := CD3DX12_RESOURCE_DESC_Buffer (bufferSize numElements elementSize) flags } sub =
      some D3D12_RESOURCE_STATE_COMMON) ∧
    (CopyBuffer env numElements elementSize bufferData flags s).2.cl.log =
      s.cl.log ++
      [Event.CreateCommittedResource D3D12_HEAP_TYPE_DEFAULT
         (CD3DX12_RESOURCE_DESC_Buffer (bufferSize numElements elementSize) flags)
         D3D12_RESOURCE_STATE_COMMON
         (some { id := s.world.deviceCalls,
                 desc := CD3DX12_RESOURCE_DESC_Buffer
                   (bufferSize numElements elementSize) flags }),
       Event.AddGlobalResourceState
         (some { id := s.world.deviceCalls,
                 desc := CD3DX12_RESOURCE_DESC_Buffer
                   (bufferSize numElements elementSize) flags })
         D3D12_RESOURCE_STATE_COMMON] ++
      (if bufferData.isSome then
        [Event.CreateCommittedResource D3D12_HEAP_TYPE_UPLOAD
           (CD3DX12_RESOURCE_DESC_Buffer (bufferSize numElements elementSize) 0)
           D3D12_RESOURCE_STATE_GENERIC_READ
           (some { id := s.world.deviceCalls + 1,
                   desc := CD3DX12_RESOURCE_DESC_Buffer
                     (bufferSize numElements elementSize) 0 }),
         Event.TransitionResource
           (some { id := s.world.deviceCalls,
                   desc := CD3DX12_RESOURCE_DESC_Buffer
                     (bufferSize numElements elementSize) flags })
           D3D12_RESOURCE_STATE_COPY_DEST,
         Event.FlushResourceBarriers] ++
        (s.cl.m_ResourceStateTracker.transition
            { id := s.world.deviceCalls,
              desc := CD3DX12_RESOURCE_DESC_Buffer (bufferSize numElements elementSize) flags }
            env.TransitionResource_subResource
            D3D12_RESOURCE_STATE_COPY_DEST).m_ResourceBarriers.map
          (fun b => Event.Command (Command.ResourceBarrier b)) ++
        [Event.Command (Command.UpdateSubresources
           (some { id := s.world.deviceCalls,
                   desc := CD3DX12_RESOURCE_DESC_Buffer
                     (bufferSize numElements elementSize) flags })
           (some { id := s.world.deviceCalls + 1,
                   desc := CD3DX12_RESOURCE_DESC_Buffer
                     (bufferSize numElements elementSize) 0 }) 0 1),
         Event.TrackResource (some (D3D12Object.resource
           { id := s.world.deviceCalls + 1,
             desc := CD3DX12_RESOURCE_DESC_Buffer (bufferSize numElements elementSize) 0 }))]
       else []) ++
      [Event.TrackResource (some (D3D12Object.resource
         { id := s.world.deviceCalls,
           desc := CD3DX12_RESOURCE_DESC_Buffer (bufferSize numElements elementSize) flags })),
       Event.CheckFeatureSupport 0 true] ∧
    (CopyBuffer env numElements elementSize bufferData flags s).2.cl.m_TrackedObjects =
      s.cl.m_TrackedObjects ++
      (if bufferData.isSome then
        [some (D3D12Object.resource
          { id := s.world.deviceCalls + 1,
            desc := CD3DX12_RESOURCE_DESC_Buffer (bufferSize numElements elementSize) 0 })]
       else []) ++
      [some (D3D12Object.resource
        { id := s.world.deviceCalls,
          desc := CD3DX12_RESOURCE_DESC_Buffer (bufferSize numElements elementSize) flags })] := by
  have hne : bufferSize numElements elementSize ≠ 0 := by omega
  cases bufferData with
  | none =>
    simp [CopyBuffer, bind, Op.bind, pure, Op.pure, hne, Op.CreateCommittedResource, hok,
      Op.AddGlobalResourceState, Op.onCl, Op.CheckFeatureSupport, Recorder.emit,
      Recorder.TrackResource_res, Recorder.TrackResource, World.AddGlobalResourceState,
      CD3DX12_RESOURCE_DESC_Buffer]
    intro sub
    exact globalState_registered _ _ _ _ _ _
  | some data =>
    simp [CopyBuffer, bind, Op.bind, pure, Op.pure, hne, Op.CreateCommittedResource, hok,
      Op.AddGlobalResourceState, Op.onCl, Op.CheckFeatureSupport, Recorder.emit,
      Recorder.TrackResource_res, Recorder.TrackResource, World.AddGlobalResourceState,
      Recorder.tracker_TransitionResource, Recorder.FlushResourceBarriers,
      ResourceStateTracker.FlushResourceBarriers, Recorder.record,
      CD3DX12_RESOURCE_DESC_Buffer]
    intro sub
    exact globalState_registered _ _ _ _ _ _

theorem C8_CopyBuffer_sequence_witness :
    0 < bufferSize 3 4 ∧
    (CopyBuffer sampleEnv 3 4 (some 0) 0 sampleSt).2.cl.m_TrackedObjects =
      [some (D3D12Object.resource { id := 1, desc := CD3DX12_RESOURCE_DESC_Buffer 12 0 }),
       some (D3D12Object.resource { id := 0, desc := CD3DX12_RESOURCE_DESC_Buffer 12 0 })] :=
  ⟨by decide, (C8_CopyBuffer_sequence sampleEnv 3 4 (some 0) 0 sampleSt (by decide)
    (fun _ => rfl)).2.2.2⟩

/-- The log of a recorder after `FlushResourceBarriers`: the flush call, then
every barrier of the tracker's barrier list recorded on the command list. -/
theorem log_FlushResourceBarriers (r : Recorder) :
    r.FlushResourceBarriers.log = r.log ++ [Event.FlushResourceBarriers] ++
      r.m_ResourceStateTracker.m_ResourceBarriers.map
        (fun b => Event.Command (Command.ResourceBarrier b)) := rfl

/-- After `FlushResourceBarriers` the tracker's barrier list is empty. -/
theorem barriers_FlushResourceBarriers (r : Recorder) :
    r.FlushResourceBarriers.m_ResourceStateTracker.m_ResourceBarriers = [] := rfl

theorem log_emit (e : Event) (r : Recorder) : (r.emit e).log = r.log ++ [e] := rfl

theorem tracker_emit (e : Event) (r : Recorder) :
    (r.emit e).m_ResourceStateTracker = r.m_ResourceStateTracker := rfl

theorem tracker_foldl_emit {α : Type} (f : α → Event) (l : List α) (r : Recorder) :
    (l.foldl (fun r i => r.emit (f i)) r).m_ResourceStateTracker = r.m_ResourceStateTracker := by
  induction l generalizing r with
  | nil => rfl
  | cons a l ih => simp only [List.foldl_cons, ih, tracker_emit]

theorem log_foldl_emit {α : Type} (f : α → Event) (l : List α) (r : Recorder) :
    (l.foldl (fun r i => r.emit (f i)) r).log = r.log ++ l.map f := by
  induction l generalizing r with
  | nil => simp
  | cons a l ih =>
    simp only [List.foldl_cons, ih, List.map_cons, log_emit, List.append_assoc,
      List.singleton_append]

/-- Claim C9.  Each of `Draw`, `DrawIndexed`, `Dispatch`, `CopyResource` and
`ResolveSubresource` calls `FlushResourceBarriers` before it records its
command: with `r0` the recorder at that call (for the copy and the resolve,
after the operation's own two transition requests), the log of the operation
is the log of `r0`, the flush call, every barrier then in the tracker's
barrier list recorded on the command list, the descriptor commits of a draw
or dispatch, and only then the command; and the tracker's barrier list is
empty in the state on which the command is recorded. -/
theorem C9_flush_before_command (env : Env) (r : Recorder) :
    (∀ vertexCount instanceCount startVertex startInstance : Nat,
      (r.Draw vertexCount instanceCount startVertex startInstance).log =
        r.log ++ [Event.FlushResourceBarriers] ++
          r.m_ResourceStateTracker.m_ResourceBarriers.map
            (fun b => Event.Command (Command.ResourceBarrier b)) ++
          (List.range D3D12_DESCRIPTOR_HEAP_TYPE_NUM_TYPES).map
            Event.CommitStagedDescriptorsForDraw ++
          [Event.Command
            (Command.DrawInstanced vertexCount instanceCount startVertex startInstance)] ∧
      r.Draw vertexCount instanceCount startVertex startInstance =
        r.FlushResourceBarriers.commitStagedDescriptorsForDraw.record
          (Command.DrawInstanced vertexCount instanceCount startVertex startInstance) ∧
      r.FlushResourceBarriers.commitStagedDescriptorsForDraw.m_ResourceStateTracker.m_ResourceBarriers
        = []) ∧
    (∀ (indexCount instanceCount startIndex : Nat) (baseVertex : Int) (startInstance : Nat),
      (r.DrawIndexed indexCount instanceCount startIndex baseVertex startInstance).log =
        r.log ++ [Event.FlushResourceBarriers] ++
          r.m_ResourceStateTracker.m_ResourceBarriers.map
            (fun b => Event.Command (Command.ResourceBarrier b)) ++
          (List.range D3D12_DESCRIPTOR_HEAP_TYPE_NUM_TYPES).map
            Event.CommitStagedDescriptorsForDraw ++
          [Event.Command (Command.DrawIndexedInstanced indexCount instanceCount startIndex
            baseVertex startInstance)] ∧
      r.DrawIndexed indexCount instanceCount startIndex baseVertex startInstance =
        r.FlushResourceBarriers.commitStagedDescriptorsForDraw.record
          (Command.DrawIndexedInstanced indexCount instanceCount startIndex baseVertex
            startInstance) ∧
      r.FlushResourceBarriers.commitStagedDescriptorsForDraw.m_ResourceStateTracker.m_ResourceBarriers
        = []) ∧
    (∀ numGroupsX numGroupsY numGroupsZ : Nat,
      (r.Dispatch numGroupsX numGroupsY numGroupsZ).log =
        r.log ++ [Event.FlushResourceBarriers] ++
          r.m_ResourceStateTracker.m_ResourceBarriers.map
            (fun b => Event.Command (Command.ResourceBarrier b)) ++
          (List.range D3D12_DESCRIPTOR_HEAP_TYPE_NUM_TYPES).map
            Event.CommitStagedDescriptorsForDispatch ++
          [Event.Command (Command.Dispatch numGroupsX numGroupsY numGroupsZ)] ∧
      r.Dispatch numGroupsX numGroupsY numGroupsZ =
        r.FlushResourceBarriers.commitStagedDescriptorsForDispatch.record
          (Command.Dispatch numGroupsX numGroupsY numGroupsZ) ∧
      r.FlushResourceBarriers.commitStagedDescriptorsForDispatch.m_ResourceStateTracker.m_ResourceBarriers
        = []) ∧
    (∀ dstRes srcRes : Option D3D12Resource,
      let r0 := (r.TransitionBarrier dstRes D3D12_RESOURCE_STATE_COPY_DEST
              env.TransitionBarrier_subresource env.TransitionBarrier_flushBarriers).TransitionBarrier
            srcRes D3D12_RESOURCE_STATE_COPY_SOURCE
            env.TransitionBarrier_subresource env.TransitionBarrier_flushBarriers
      (r.CopyResource env dstRes srcRes).log =
        r0.log ++ [Event.FlushResourceBarriers] ++
          r0.m_ResourceStateTracker.m_ResourceBarriers.map
            (fun b => Event.Command (Command.ResourceBarrier b)) ++
          [Event.Command (Command.CopyResource dstRes srcRes),
           Event.TrackResource (dstRes.map D3D12Object.resource),
           Event.TrackResource (srcRes.map D3D12Object.resource)] ∧
      r.CopyResource env dstRes srcRes =
        (((r0.FlushResourceBarriers.record (Command.CopyResource dstRes srcRes)).TrackResource_res
          dstRes).TrackResource_res srcRes) ∧
      r0.FlushResourceBarriers.m_ResourceStateTracker.m_ResourceBarriers = []) ∧
    (∀ (dstRes srcRes : Texture) (dstSubresource srcSubresource dstFormat : Nat),
      let r0 := (r.TransitionBarrier dstRes.GetD3D12Resource D3D12_RESOURCE_STATE_RESOLVE_DEST
              dstSubresource env.TransitionBarrier_flushBarriers).TransitionBarrier
            srcRes.GetD3D12Resource D3D12_RESOURCE_STATE_RESOLVE_SOURCE
            srcSubresource env.TransitionBarrier_flushBarriers
      (r.ResolveSubresource env dstRes srcRes dstSubresource srcSubresource dstFormat).log =
        r0.log ++ [Event.FlushResourceBarriers] ++
          r0.m_ResourceStateTracker.m_ResourceBarriers.map
            (fun b => Event.Command (Command.ResourceBarrier b)) ++
          [Event.Command (Command.ResolveSubresource dstRes.GetD3D12Resource dstSubresource
             srcRes.GetD3D12Resource srcSubresource dstFormat),
           Event.TrackResource (srcRes.GetD3D12Resource.map D3D12Object.resource),
           Event.TrackResource (dstRes.GetD3D12Resource.map D3D12Object.resource)] ∧
      r.ResolveSubresource env dstRes srcRes dstSubresource srcSubresource dstFormat =
        (((r0.FlushResourceBarriers.record (Command.ResolveSubresource dstRes.GetD3D12Resource
            dstSubresource srcRes.GetD3D12Resource srcSubresource dstFormat)).TrackResource_res
          srcRes.GetD3D12Resource).TrackResource_res dstRes.GetD3D12Resource) ∧
      r0.FlushResourceBarriers.m_ResourceStateTracker.m_ResourceBarriers = []) := by
  refine ⟨?_, ?_, ?_, ?_, ?_⟩
  · intro a b c d
    refine ⟨?_, rfl, ?_⟩
    · simp only [Recorder.Draw, Recorder.record, log_emit,
        Recorder.commitStagedDescriptorsForDraw, log_foldl_emit, log_FlushResourceBarriers]
    · simp only [Recorder.commitStagedDescriptorsForDraw, tracker_foldl_emit,
        barriers_FlushResourceBarriers]
  · intro a b c d e
    refine ⟨?_, rfl, ?_⟩
    · simp only [Recorder.DrawIndexed, Recorder.record, log_emit,
        Recorder.commitStagedDescriptorsForDraw, log_foldl_emit, log_FlushResourceBarriers]
    · simp only [Recorder.commitStagedDescriptorsForDraw, tracker_foldl_emit,
        barriers_FlushResourceBarriers]
  · intro a b c
    refine ⟨?_, rfl, ?_⟩
    · simp only [Recorder.Dispatch, Recorder.record, log_emit,
        Recorder.commitStagedDescriptorsForDispatch, log_foldl_emit, log_FlushResourceBarriers]
    · simp only [Recorder.commitStagedDescriptorsForDispatch, tracker_foldl_emit,
        barriers_FlushResourceBarriers]
  · intro dstRes srcRes r0
    refine ⟨?_, rfl, rfl⟩
    simp only [Recorder.CopyResource, Recorder.record, Recorder.emit,
      Recorder.TrackResource_res, Recorder.TrackResource, log_FlushResourceBarriers,
      List.append_assoc, List.cons_append, List.nil_append]
  · intro dstRes srcRes a b c r0
    refine ⟨?_, rfl, rfl⟩
    simp only [Recorder.ResolveSubresource, Recorder.record, Recorder.emit,
      Recorder.TrackResource_res, Recorder.TrackResource, log_FlushResourceBarriers,
      List.append_assoc, List.cons_append, List.nil_append]

theorem emits_bindColorTarget (env : Env) (l : List Texture) (r : Recorder)
    (ds : List Descriptor) :
    Emits r (l.foldl (Recorder.bindColorTarget env) (r, ds)).1 (l.flatMap (bindColorTarget_calls env)) ∧
    (l.foldl (Recorder.bindColorTarget env) (r, ds)).2 = ds ++ l.flatMap bindColorTarget_descriptors := by
  induction l generalizing r ds with
  | nil => exact ⟨by simpa using emits_refl r, by simp⟩
  | cons t l ih =>
    by_cases hv : t.IsValid = true
    · have h1 := emits_trans
        (emits_TransitionBarrier r t.GetD3D12Resource D3D12_RESOURCE_STATE_RENDER_TARGET
          env.TransitionBarrier_subresource env.TransitionBarrier_flushBarriers)
        (emits_TrackResource_res _ t.GetD3D12Resource)
      obtain ⟨i1, i2⟩ := ih
        ((r.TransitionBarrier t.GetD3D12Resource D3D12_RESOURCE_STATE_RENDER_TARGET
          env.TransitionBarrier_subresource
          env.TransitionBarrier_flushBarriers).TrackResource_res t.GetD3D12Resource)
        (ds ++ [Descriptor.RTV t.GetD3D12Resource])
      constructor
      · simpa [Recorder.bindColorTarget, bindColorTarget_calls, hv] using emits_trans h1 i1
      · simpa [Recorder.bindColorTarget, bindColorTarget_descriptors, hv] using i2
    · have hv1 : t.IsValid = false := by simpa using hv
      obtain ⟨i1, i2⟩ := ih r ds
      constructor
      · simpa [Recorder.bindColorTarget, bindColorTarget_calls, hv1] using i1
      · simpa [Recorder.bindColorTarget, bindColorTarget_descriptors, hv1] using i2

theorem emits_SetRenderTarget (env : Env) (renderTarget : Recorder.RenderTarget) (r : Recorder) :
    Emits r (r.SetRenderTarget env renderTarget) (SetRenderTarget_calls env renderTarget) := by
  obtain ⟨h1, h2⟩ := emits_bindColorTarget env (renderTarget.color.take 8) r []
  unfold Recorder.SetRenderTarget SetRenderTarget_calls
  generalize (renderTarget.color.take 8).foldl (Recorder.bindColorTarget env) (r, []) = acc at h1 h2
  obtain ⟨r1, ds⟩ := acc
  simp only [List.nil_append] at h1 h2
  subst h2
  cases hd : renderTarget.depthStencil.GetD3D12Resource with
  | none =>
    have h := emits_trans h1 (emits_record r1 (Command.OMSetRenderTargets
      ((renderTarget.color.take 8).flatMap bindColorTarget_descriptors) none) rfl)
    simpa [hd] using h
  | some res =>
    have h := emits_trans (emits_trans (emits_trans h1
      (emits_TransitionBarrier r1 (some res) D3D12_RESOURCE_STATE_DEPTH_WRITE
        env.TransitionBarrier_subresource env.TransitionBarrier_flushBarriers))
      (emits_TrackResource_res _ (some res)))
      (emits_record _ (Command.OMSetRenderTargets
        ((renderTarget.color.take 8).flatMap bindColorTarget_descriptors)
        (some (Descriptor.DSV (some res)))) rfl)
    simpa [hd] using h

theorem emits_transition_record_track (r : Recorder) (resource : Option D3D12Resource)
    (stateAfter subresource : Nat) (flushBarriers : Bool) (c : Command)
    (hc : (Event.Command c).isFlushTraffic = false) :
    Emits r (((r.TransitionBarrier resource stateAfter subresource flushBarriers).record
        c).TrackResource_res resource)
      (TransitionBarrier_calls resource stateAfter subresource ++
        [Event.Command c, Event.TrackResource (resource.map D3D12Object.resource)]) := by
  have h := emits_trans (emits_trans
    (emits_TransitionBarrier r resource stateAfter subresource flushBarriers)
    (emits_record _ c hc)) (emits_TrackResource_res _ resource)
  simpa using h

/-- Claim C10.  Each recording operation calls the state tracker for a
transition of every (non-null) resource it accesses before it records its
command; flush traffic apart, its calls are: for `CopyResource` the
destination to COPY_DEST, the source to COPY_SOURCE, the copy, the tracking;
for `ClearTexture` RENDER_TARGET then the clear; for
`ClearDepthStencilTexture` DEPTH_WRITE then the clear; for `SetVertexBuffer`
VERTEX_AND_CONSTANT_BUFFER then the binding; for `SetIndexBuffer`
INDEX_BUFFER then the binding; for `SetRenderTarget` RENDER_TARGET for each
valid colour attachment, DEPTH_WRITE for the depth attachment, then
`OMSetRenderTargets`; for a pass of mip generation NON_PIXEL_SHADER_RESOURCE
on the source mip and UNORDERED_ACCESS on each target mip, then the dispatch.
The request for a resource is the tracker call with the barrier
`Transition(resource, COMMON, stateAfter, subresource)`. -/
theorem C10_transitions_before_commands (env : Env) (r : Recorder) :
    (∀ (res : D3D12Resource) (stateAfter subresource : Nat),
      TransitionBarrier_calls (some res) stateAfter subresource =
        [Event.ResourceBarrier
          (Barrier.Transition res D3D12_RESOURCE_STATE_COMMON stateAfter subresource)]) ∧
    (∀ dstRes srcRes : Option D3D12Resource,
      stripFlush ((r.CopyResource env dstRes srcRes).since r) =
        TransitionBarrier_calls dstRes D3D12_RESOURCE_STATE_COPY_DEST
          env.TransitionBarrier_subresource ++
        TransitionBarrier_calls srcRes D3D12_RESOURCE_STATE_COPY_SOURCE
          env.TransitionBarrier_subresource ++
        [Event.Command (Command.CopyResource dstRes srcRes),
         Event.TrackResource (dstRes.map D3D12Object.resource),
         Event.TrackResource (srcRes.map D3D12Object.resource)]) ∧
    (∀ texture : Texture,
      stripFlush ((r.ClearTexture env texture).since r) =
        TransitionBarrier_calls texture.GetD3D12Resource D3D12_RESOURCE_STATE_RENDER_TARGET
          env.TransitionBarrier_subresource ++
        [Event.Command (Command.ClearRenderTargetView (Descriptor.RTV texture.GetD3D12Resource)),
         Event.TrackResource (texture.GetD3D12Resource.map D3D12Object.resource)]) ∧
    (∀ (texture : Texture) (clearFlags : Nat),
      stripFlush ((r.ClearDepthStencilTexture env texture clearFlags).since r) =
        TransitionBarrier_calls texture.GetD3D12Resource D3D12_RESOURCE_STATE_DEPTH_WRITE
          env.TransitionBarrier_subresource ++
        [Event.Command
           (Command.ClearDepthStencilView (Descriptor.DSV texture.GetD3D12Resource) clearFlags),
         Event.TrackResource (texture.GetD3D12Resource.map D3D12Object.resource)]) ∧
    (∀ (slot : Nat) (vertexBuffer : Option D3D12Resource),
      stripFlush ((r.SetVertexBuffer env slot vertexBuffer).since r) =
        TransitionBarrier_calls vertexBuffer D3D12_RESOURCE_STATE_VERTEX_AND_CONSTANT_BUFFER
          env.TransitionBarrier_subresource ++
        [Event.Command (Command.IASetVertexBuffers slot vertexBuffer),
         Event.TrackResource (vertexBuffer.map D3D12Object.resource)]) ∧
    (∀ indexBuffer : Option D3D12Resource,
      stripFlush ((r.SetIndexBuffer env indexBuffer).since r) =
        TransitionBarrier_calls indexBuffer D3D12_RESOURCE_STATE_INDEX_BUFFER
          env.TransitionBarrier_subresource ++
        [Event.Command (Command.IASetIndexBuffer indexBuffer),
         Event.TrackResource (indexBuffer.map D3D12Object.resource)]) ∧
    (∀ renderTarget : Recorder.RenderTarget,
      stripFlush ((r.SetRenderTarget env renderTarget).since r) =
        (renderTarget.color.take 8).flatMap (fun texture =>
          if texture.IsValid then
            TransitionBarrier_calls texture.GetD3D12Resource D3D12_RESOURCE_STATE_RENDER_TARGET
              env.TransitionBarrier_subresource ++
            [Event.TrackResource (texture.GetD3D12Resource.map D3D12Object.resource)]
          else []) ++
        (if renderTarget.depthStencil.GetD3D12Resource.isSome then
          TransitionBarrier_calls renderTarget.depthStencil.GetD3D12Resource
            D3D12_RESOURCE_STATE_DEPTH_WRITE env.TransitionBarrier_subresource ++
          [Event.TrackResource
            (renderTarget.depthStencil.GetD3D12Resource.map D3D12Object.resource)]
         else []) ++
        [Event.Command (Command.OMSetRenderTargets
          ((renderTarget.color.take 8).flatMap bindColorTarget_descriptors)
          (if renderTarget.depthStencil.GetD3D12Resource.isSome then
            some (Descriptor.DSV renderTarget.depthStencil.GetD3D12Resource) else none))]) ∧
    (∀ (pso : PSO) (texture : Texture) (resourceDesc : D3D12_RESOURCE_DESC) (isSRGB : Bool)
        (srcMip mipCount : Nat),
      stripFlush ((r.GenerateMips_UAV_pass env pso texture resourceDesc isSRGB srcMip
          mipCount).since r) =
        [Event.Command (Command.SetComputeRoot32BitConstantsMips env.GenerateMips_GenerateMipsCB
          (passCB resourceDesc isSRGB srcMip mipCount))] ++
        TransitionBarrier_calls texture.GetD3D12Resource
          D3D12_RESOURCE_STATE_NON_PIXEL_SHADER_RESOURCE (u32 srcMip) ++
        [Event.StageDescriptors D3D12_DESCRIPTOR_HEAP_TYPE_CBV_SRV_UAV env.GenerateMips_SrcMip
          0 1
          (Descriptor.SRV texture.GetD3D12Resource
            (some (if isSRGB then env.GetSRGBFormat resourceDesc.Format
              else resourceDesc.Format))
            (some resourceDesc.MipLevels)),
         Event.TrackResource (texture.GetD3D12Resource.map D3D12Object.resource)] ++
        (List.range mipCount).flatMap (fun mip =>
          TransitionBarrier_calls texture.GetD3D12Resource
            D3D12_RESOURCE_STATE_UNORDERED_ACCESS (u32 (srcMip + mip + 1)) ++
          [Event.StageDescriptors D3D12_DESCRIPTOR_HEAP_TYPE_CBV_SRV_UAV
            env.GenerateMips_OutMip mip 1
            (Descriptor.UAV texture.GetD3D12Resource (some resourceDesc.Format)
              (some (u32 (srcMip + mip + 1)))),
           Event.TrackResource (texture.GetD3D12Resource.map D3D12Object.resource)]) ++
        (if mipCount < 4 then
          [Event.StageDescriptors D3D12_DESCRIPTOR_HEAP_TYPE_CBV_SRV_UAV
            env.GenerateMips_OutMip mipCount (4 - mipCount) pso.GetDefaultUAV]
         else []) ++
        (List.range D3D12_DESCRIPTOR_HEAP_TYPE_NUM_TYPES).map
          (fun i => Event.CommitStagedDescriptorsForDispatch i) ++
        [Event.Command (Command.Dispatch
          (env.DivideByMultiple (max 1 (dstWidth resourceDesc srcMip)) 8)
          (env.DivideByMultiple (max 1 (dstHeight resourceDesc srcMip)) 8)
          env.Dispatch_numGroupsZ),
         Event.ResourceBarrier (Barrier.UAV texture.GetD3D12Resource)]) := by
  refine ⟨fun _ _ _ => rfl, ?_, ?_, ?_, ?_, ?_, ?_, ?_⟩
  · intro dstRes srcRes
    exact emits_since_eq (emits_CopyResource env r dstRes srcRes)
  · intro texture
    exact emits_since_eq (emits_transition_record_track r _ _ _ _ _ rfl)
  · intro texture clearFlags
    exact emits_since_eq (emits_transition_record_track r _ _ _ _ _ rfl)
  · intro slot vertexBuffer
    exact emits_since_eq (emits_transition_record_track r _ _ _ _ _ rfl)
  · intro indexBuffer
    exact emits_since_eq (emits_transition_record_track r _ _ _ _ _ rfl)
  · intro renderTarget
    exact emits_since_eq (emits_SetRenderTarget env renderTarget r)
  · intro pso texture resourceDesc isSRGB srcMip mipCount
    have h := emits_since_eq
      (emits_GenerateMips_UAV_pass env pso texture resourceDesc isSRGB srcMip mipCount r)
    rw [h]
    simp only [pass_calls, SetUnorderedAccessView_calls, Dispatch_calls, List.append_assoc,
      List.cons_append, List.nil_append, List.singleton_append]

theorem map_range_heapTypes {α : Type} (f : Nat → α) :
    (List.range D3D12_DESCRIPTOR_HEAP_TYPE_NUM_TYPES).map f = [f 0, f 1, f 2, f 3] := rfl

theorem parseRootSignatures_eq (S : Option Nat) (r : Recorder) :
    r.parseRootSignatures S =
      { r with
        log := r.log ++ [Event.ParseRootSignature 0 S, Event.ParseRootSignature 1 S,
          Event.ParseRootSignature 2 S, Event.ParseRootSignature 3 S] } := by
  simp [Recorder.parseRootSignatures, D3D12_DESCRIPTOR_HEAP_TYPE_NUM_TYPES, List.range,
    List.range.loop, Recorder.emit]

/-- Claim C12.  `SetGraphicsRootSignature(S)` and `SetComputeRootSignature(S)`
leave the recorder as it is when `S` is its current root signature (no call
recorded, no heap re-parsed, nothing tracked); otherwise each of the
`D3D12_DESCRIPTOR_HEAP_TYPE_NUM_TYPES` dynamic descriptor heaps parses `S`,
in order, the signature is then set on the underlying list, `S` is the
current signature and `S` is appended to the tracked objects, nothing else
changing.  Calling the same setter a second time with the same `S` changes
nothing. -/
theorem C12_root_signature_setters (r : Recorder) (S : Option Nat) :
    r.SetGraphicsRootSignature S =
      (if r.m_RootSignature = S then r else
        { r with
          log := r.log ++
            (List.range D3D12_DESCRIPTOR_HEAP_TYPE_NUM_TYPES).map
              (fun i => Event.ParseRootSignature i S) ++
            [Event.Command (Command.SetGraphicsRootSignature S),
             Event.TrackResource (S.map D3D12Object.rootSignature)]
          m_RootSignature := S
          m_TrackedObjects := r.m_TrackedObjects ++ [S.map D3D12Object.rootSignature] }) ∧
    r.SetComputeRootSignature S =
      (if r.m_RootSignature = S then r else
        { r with
          log := r.log ++
            (List.range D3D12_DESCRIPTOR_HEAP_TYPE_NUM_TYPES).map
              (fun i => Event.ParseRootSignature i S) ++
            [Event.Command (Command.SetComputeRootSignature S),
             Event.TrackResource (S.map D3D12Object.rootSignature)]
          m_RootSignature := S
          m_TrackedObjects := r.m_TrackedObjects ++ [S.map D3D12Object.rootSignature] }) ∧
    (List.range D3D12_DESCRIPTOR_HEAP_TYPE_NUM_TYPES).map
        (fun i => Event.ParseRootSignature i S) =
      [Event.ParseRootSignature 0 S, Event.ParseRootSignature 1 S,
       Event.ParseRootSignature 2 S, Event.ParseRootSignature 3 S] ∧
    (r.SetGraphicsRootSignature S).SetGraphicsRootSignature S = r.SetGraphicsRootSignature S ∧
    (r.SetComputeRootSignature S).SetComputeRootSignature S = r.SetComputeRootSignature S := by
  have hg : ∀ r : Recorder, (r.SetGraphicsRootSignature S).m_RootSignature = S := by
    intro r
    by_cases h : r.m_RootSignature = S
    · simp [Recorder.SetGraphicsRootSignature, h]
    · simp [Recorder.SetGraphicsRootSignature, h, parseRootSignatures_eq, Recorder.record,
        Recorder.emit, Recorder.TrackResource, map_range_heapTypes]
  have hc : ∀ r : Recorder, (r.SetComputeRootSignature S).m_RootSignature = S := by
    intro r
    by_cases h : r.m_RootSignature = S
    · simp [Recorder.SetComputeRootSignature, h]
    · simp [Recorder.SetComputeRootSignature, h, parseRootSignatures_eq, Recorder.record,
        Recorder.emit, Recorder.TrackResource, map_range_heapTypes]
  refine ⟨?_, ?_, rfl, ?_, ?_⟩
  · by_cases h : r.m_RootSignature = S
    · simp [Recorder.SetGraphicsRootSignature, h]
    · simp [Recorder.SetGraphicsRootSignature, h, parseRootSignatures_eq, Recorder.record,
        Recorder.emit, Recorder.TrackResource, map_range_heapTypes]
  · by_cases h : r.m_RootSignature = S
    · simp [Recorder.SetComputeRootSignature, h]
    · simp [Recorder.SetComputeRootSignature, h, parseRootSignatures_eq, Recorder.record,
        Recorder.emit, Recorder.TrackResource, map_range_heapTypes]
  · have h := hg r
    generalize r.SetGraphicsRootSignature S = r1 at h
    simp [Recorder.SetGraphicsRootSignature, h]
  · have h := hc r
    generalize r.SetComputeRootSignature S = r1 at h
    simp [Recorder.SetComputeRootSignature, h]

theorem log_foldl_record (f : Barrier → Command) (l : List Barrier) (p : Recorder) :
    (l.foldl (fun p b => p.record (f b)) p).log = p.log ++ l.map (fun b => Event.Command (f b)) ∧
    (l.foldl (fun p b => p.record (f b)) p).m_TrackedObjects = p.m_TrackedObjects := by
  induction l generalizing p with
  | nil => simp
  | cons b l ih =>
    obtain ⟨h1, h2⟩ := ih (p.record (f b))
    refine ⟨?_, ?_⟩
    · rw [List.foldl_cons, h1]
      show (p.log ++ [Event.Command (f b)]) ++ _ = _
      simp
    · rw [List.foldl_cons, h2]
      rfl

/-- Claim C13.  `Close(pendingCommandList)` calls, in this order,
`FlushResourceBarriers` (which records the barriers the tracker holds),
`Close` on the underlying command list, the tracker's
`FlushPendingResourceBarriers(pendingCommandList)` and the tracker's
`CommitFinalResourceStates()`; the pending barriers are recorded on the
pending command list and on nothing else, the final states are committed to
the global map, and the call returns true exactly when the number of
barriers emitted into the pending command list is greater than zero. -/
theorem C13_Close_pending (pendingCommandList : Recorder) (w : World) (r : Recorder) :
    (r.Close_pending pendingCommandList w).recorder.log =
      r.log ++ [Event.FlushResourceBarriers] ++
        r.m_ResourceStateTracker.m_ResourceBarriers.map
          (fun b => Event.Command (Command.ResourceBarrier b)) ++
        [Event.Command Command.Close,
         Event.FlushPendingResourceBarriers
           (r.m_ResourceStateTracker.FlushPendingResourceBarriers w).length,
         Event.CommitFinalResourceStates] ∧
    (r.Close_pending pendingCommandList w).pendingCommandList.log =
      pendingCommandList.log ++
        (r.m_ResourceStateTracker.FlushPendingResourceBarriers w).map
          (fun b => Event.Command (Command.ResourceBarrier b)) ∧
    (r.Close_pending pendingCommandList w).pendingCommandList.m_TrackedObjects =
      pendingCommandList.m_TrackedObjects ∧
    (r.Close_pending pendingCommandList w).world =
      w.CommitFinalResourceStates r.m_ResourceStateTracker ∧
    (r.Close_pending pendingCommandList w).recorder.m_TrackedObjects = r.m_TrackedObjects ∧
    ((r.Close_pending pendingCommandList w).result = true ↔
      0 < (r.Close_pending pendingCommandList w).pendingCommandList.log.length -
        pendingCommandList.log.length) := by
  have hp := log_foldl_record Command.ResourceBarrier
    (r.m_ResourceStateTracker.FlushPendingResourceBarriers w) pendingCommandList
  refine ⟨?_, ?_, ?_, ?_, ?_, ?_⟩
  · simp [Recorder.Close_pending, Recorder.record, Recorder.emit, Recorder.FlushResourceBarriers,
      ResourceStateTracker.FlushResourceBarriers,
      ResourceStateTracker.FlushPendingResourceBarriers]
  · exact hp.1
  · exact hp.2
  · simp [Recorder.Close_pending, Recorder.record, Recorder.emit, Recorder.FlushResourceBarriers,
      ResourceStateTracker.FlushResourceBarriers, World.CommitFinalResourceStates]
  · simp [Recorder.Close_pending, Recorder.record, Recorder.emit, Recorder.FlushResourceBarriers,
      ResourceStateTracker.FlushResourceBarriers]
  · have hl : (r.Close_pending pendingCommandList w).pendingCommandList.log.length =
        pendingCommandList.log.length +
          (r.m_ResourceStateTracker.FlushPendingResourceBarriers w).length := by
      rw [show (r.Close_pending pendingCommandList w).pendingCommandList.log = _ from hp.1]
      simp
    rw [hl]
    simp [Recorder.Close_pending, Recorder.record, Recorder.emit,
      Recorder.FlushResourceBarriers, ResourceStateTracker.FlushResourceBarriers,
      ResourceStateTracker.FlushPendingResourceBarriers]

theorem keepsTracked_same (f : Recorder → Recorder)
    (h : ∀ r, (f r).m_TrackedObjects = r.m_TrackedObjects) : Recorder.KeepsTracked f := by
  intro r
  rw [h r]

theorem keepsTracked_comp (f g : Recorder → Recorder) (hf : Recorder.KeepsTracked f)
    (hg : Recorder.KeepsTracked g) : Recorder.KeepsTracked (fun r => g (f r)) :=
  fun r => (hf r).trans (hg (f r))

theorem keepsTracked_foldl {α : Type} (f : Recorder → α → Recorder)
    (h : ∀ a, Recorder.KeepsTracked (fun r => f r a)) (l : List α) :
    Recorder.KeepsTracked (fun r => l.foldl f r) := by
  induction l with
  | nil => exact fun r => List.prefix_refl _
  | cons a l ih => exact fun r => (h a r).trans (ih (f r a))

@[simp]
theorem tracked_emit (e : Event) (r : Recorder) :
    (r.emit e).m_TrackedObjects = r.m_TrackedObjects := rfl

@[simp]
theorem tracked_record (c : Command) (r : Recorder) :
    (r.record c).m_TrackedObjects = r.m_TrackedObjects := rfl

@[simp]
theorem tracked_tracker_ResourceBarrier (b : Barrier) (r : Recorder) :
    (r.tracker_ResourceBarrier b).m_TrackedObjects = r.m_TrackedObjects := rfl

@[simp]
theorem tracked_tracker_TransitionResource (env : Env) (resource : Option D3D12Resource)
    (stateAfter : Nat) (r : Recorder) :
    (r.tracker_TransitionResource env resource stateAfter).m_TrackedObjects =
      r.m_TrackedObjects := rfl

@[simp]
theorem tracked_FlushResourceBarriers (r : Recorder) :
    r.FlushResourceBarriers.m_TrackedObjects = r.m_TrackedObjects := rfl

@[simp]
theorem tracked_TransitionBarrier (resource : Option D3D12Resource)
    (stateAfter subresource : Nat) (flushBarriers : Bool) (r : Recorder) :
    (r.TransitionBarrier resource stateAfter subresource flushBarriers).m_TrackedObjects =
      r.m_TrackedObjects := by
  cases resource <;> cases flushBarriers <;> rfl

@[simp]
theorem tracked_UAVBarrier (resource : Option D3D12Resource) (flushBarriers : Bool)
    (r : Recorder) :
    (r.UAVBarrier resource flushBarriers).m_TrackedObjects = r.m_TrackedObjects := by
  cases flushBarriers <;> rfl

@[simp]
theorem tracked_AliasingBarrier (a b : Option D3D12Resource) (flushBarriers : Bool)
    (r : Recorder) :
    (r.AliasingBarrier a b flushBarriers).m_TrackedObjects = r.m_TrackedObjects := by
  cases flushBarriers <;> rfl

@[simp]
theorem tracked_TrackResource (object : Option D3D12Object) (r : Recorder) :
    (r.TrackResource object).m_TrackedObjects = r.m_TrackedObjects ++ [object] := rfl

@[simp]
theorem tracked_TrackResource_res (resource : Option D3D12Resource) (r : Recorder) :
    (r.TrackResource_res resource).m_TrackedObjects =
      r.m_TrackedObjects ++ [resource.map D3D12Object.resource] := rfl

@[simp]
theorem tracked_foldl_emit {α : Type} (f : α → Event) (l : List α) (r : Recorder) :
    (l.foldl (fun r i => r.emit (f i)) r).m_TrackedObjects = r.m_TrackedObjects := by
  induction l generalizing r with
  | nil => rfl
  | cons a l ih => simp only [List.foldl_cons, ih, tracked_emit]

@[simp]
theorem tracked_parseRootSignatures (S : Option Nat) (r : Recorder) :
    (r.parseRootSignatures S).m_TrackedObjects = r.m_TrackedObjects :=
  tracked_foldl_emit _ _ r

@[simp]
theorem tracked_commitStagedDescriptorsForDraw (r : Recorder) :
    r.commitStagedDescriptorsForDraw.m_TrackedObjects = r.m_TrackedObjects :=
  tracked_foldl_emit _ _ r

@[simp]
theorem tracked_commitStagedDescriptorsForDispatch (r : Recorder) :
    r.commitStagedDescriptorsForDispatch.m_TrackedObjects = r.m_TrackedObjects :=
  tracked_foldl_emit _ _ r

@[simp]
theorem tracked_Draw (a b c d : Nat) (r : Recorder) :
    (r.Draw a b c d).m_TrackedObjects = r.m_TrackedObjects := by
  simp [Recorder.Draw]

@[simp]
theorem tracked_DrawIndexed (a b c : Nat) (d : Int) (e : Nat) (r : Recorder) :
    (r.DrawIndexed a b c d e).m_TrackedObjects = r.m_TrackedObjects := by
  simp [Recorder.DrawIndexed]

@[simp]
theorem tracked_Dispatch (x y z : Nat) (r : Recorder) :
    (r.Dispatch x y z).m_TrackedObjects = r.m_TrackedObjects := by
  simp [Recorder.Dispatch]

@[simp]
theorem tracked_transitionSubresources (env : Env) (resource : Option D3D12Resource)
    (stateAfter firstSubresource numSubresources : Nat) (r : Recorder) :
    (r.transitionSubresources env resource stateAfter firstSubresource
      numSubresources).m_TrackedObjects = r.m_TrackedObjects := by
  unfold Recorder.transitionSubresources
  split
  · generalize List.range numSubresources = l
    induction l generalizing r with
    | nil => rfl
    | cons a l ih => simp only [List.foldl_cons, ih, tracked_TransitionBarrier]
  · exact tracked_TransitionBarrier _ _ _ _ r

@[simp]
theorem tracked_SetShaderResourceView (env : Env) (i o : Nat)
    (resource : Option D3D12Resource) (stateAfter first num : Nat) (srv : Descriptor)
    (r : Recorder) :
    (r.SetShaderResourceView env i o resource stateAfter first num srv).m_TrackedObjects =
      r.m_TrackedObjects ++ [resource.map D3D12Object.resource] := by
  simp [Recorder.SetShaderResourceView]

@[simp]
theorem tracked_SetUnorderedAccessView (env : Env) (i o : Nat)
    (resource : Option D3D12Resource) (stateAfter first num : Nat) (uav : Descriptor)
    (r : Recorder) :
    (r.SetUnorderedAccessView env i o resource stateAfter first num uav).m_TrackedObjects =
      r.m_TrackedObjects ++ [resource.map D3D12Object.resource] := by
  simp [Recorder.SetUnorderedAccessView]

@[simp]
theorem keepsTracked_TransitionBarrier (resource : Option D3D12Resource)
    (stateAfter subresource : Nat) (flushBarriers : Bool) :
    Recorder.KeepsTracked
      (Recorder.TransitionBarrier resource stateAfter subresource flushBarriers) :=
  keepsTracked_same _ (tracked_TransitionBarrier _ _ _ _)

@[simp]
theorem keepsTracked_UAVBarrier (resource : Option D3D12Resource) (flushBarriers : Bool) :
    Recorder.KeepsTracked (Recorder.UAVBarrier resource flushBarriers) :=
  keepsTracked_same _ (tracked_UAVBarrier _ _)

@[simp]
theorem keepsTracked_AliasingBarrier (a b : Option D3D12Resource) (flushBarriers : Bool) :
    Recorder.KeepsTracked (Recorder.AliasingBarrier a b flushBarriers) :=
  keepsTracked_same _ (tracked_AliasingBarrier _ _ _)

@[simp]
theorem keepsTracked_FlushResourceBarriers :
    Recorder.KeepsTracked Recorder.FlushResourceBarriers :=
  keepsTracked_same _ tracked_FlushResourceBarriers

@[simp]
theorem keepsTracked_record (c : Command) : Recorder.KeepsTracked (Recorder.record c) :=
  keepsTracked_same _ (tracked_record c)

@[simp]
theorem keepsTracked_tracker_TransitionResource (env : Env)
    (resource : Option D3D12Resource) (stateAfter : Nat) :
    Recorder.KeepsTracked (Recorder.tracker_TransitionResource env resource stateAfter) :=
  keepsTracked_same _ (tracked_tracker_TransitionResource env resource stateAfter)

@[simp]
theorem keepsTracked_TrackResource (object : Option D3D12Object) :
    Recorder.KeepsTracked (Recorder.TrackResource object) := by
  intro r
  simp

@[simp]
theorem keepsTracked_TrackResource_res (resource : Option D3D12Resource) :
    Recorder.KeepsTracked (Recorder.TrackResource_res resource) := by
  intro r
  simp

@[simp]
theorem keepsTracked_CopyResource (env : Env) (dstRes srcRes : Option D3D12Resource) :
    Recorder.KeepsTracked (Recorder.CopyResource env dstRes srcRes) := by
  intro r
  simp [Recorder.CopyResource]

@[simp]
theorem keepsTracked_ResolveSubresource (env : Env) (dstRes srcRes : Texture)
    (a b c : Nat) : Recorder.KeepsTracked (Recorder.ResolveSubresource env dstRes srcRes a b c) := by
  intro r
  simp [Recorder.ResolveSubresource]

@[simp]
theorem keepsTracked_ClearTexture (env : Env) (texture : Texture) :
    Recorder.KeepsTracked (Recorder.ClearTexture env texture) := by
  intro r
  simp [Recorder.ClearTexture]

@[simp]
theorem keepsTracked_ClearDepthStencilTexture (env : Env) (texture : Texture)
    (clearFlags : Nat) :
    Recorder.KeepsTracked (Recorder.ClearDepthStencilTexture env texture clearFlags) := by
  intro r
  simp [Recorder.ClearDepthStencilTexture]

@[simp]
theorem keepsTracked_SetVertexBuffer (env : Env) (slot : Nat)
    (vertexBuffer : Option D3D12Resource) :
    Recorder.KeepsTracked (Recorder.SetVertexBuffer env slot vertexBuffer) := by
  intro r
  simp [Recorder.SetVertexBuffer]

@[simp]
theorem keepsTracked_SetIndexBuffer (env : Env) (indexBuffer : Option D3D12Resource) :
    Recorder.KeepsTracked (Recorder.SetIndexBuffer env indexBuffer) := by
  intro r
  simp [Recorder.SetIndexBuffer]

@[simp]
theorem keepsTracked_SetPipelineState (pipelineState : Option Nat) :
    Recorder.KeepsTracked (Recorder.SetPipelineState pipelineState) := by
  intro r
  simp [Recorder.SetPipelineState]

@[simp]
theorem keepsTracked_SetGraphicsRootSignature (S : Option Nat) :
    Recorder.KeepsTracked (Recorder.SetGraphicsRootSignature S) := by
  intro r
  unfold Recorder.SetGraphicsRootSignature
  split
  · simp
  · exact List.prefix_refl _

@[simp]
theorem keepsTracked_SetComputeRootSignature (S : Option Nat) :
    Recorder.KeepsTracked (Recorder.SetComputeRootSignature S) := by
  intro r
  unfold Recorder.SetComputeRootSignature
  split
  · simp
  · exact List.prefix_refl _

@[simp]
theorem keepsTracked_SetShaderResourceView (env : Env) (i o : Nat)
    (resource : Option D3D12Resource) (stateAfter first num : Nat) (srv : Descriptor) :
    Recorder.KeepsTracked
      (Recorder.SetShaderResourceView env i o resource stateAfter first num srv) := by
  intro r
  simp

@[simp]
theorem keepsTracked_SetUnorderedAccessView (env : Env) (i o : Nat)
    (resource : Option D3D12Resource) (stateAfter first num : Nat) (uav : Descriptor) :
    Recorder.KeepsTracked
      (Recorder.SetUnorderedAccessView env i o resource stateAfter first num uav) := by
  intro r
  simp

theorem keepsTracked_bindColorTarget (env : Env) (l : List Texture) (r : Recorder)
    (ds : List Descriptor) :
    r.m_TrackedObjects <+: (l.foldl (Recorder.bindColorTarget env) (r, ds)).1.m_TrackedObjects := by
  induction l generalizing r ds with
  | nil => exact List.prefix_refl _
  | cons t l ih =>
    rw [List.foldl_cons]
    unfold Recorder.bindColorTarget
    split
    · refine List.IsPrefix.trans ?_ (ih _ _)
      simp
    · exact ih r ds

@[simp]
theorem keepsTracked_SetRenderTarget (env : Env) (renderTarget : Recorder.RenderTarget) :
    Recorder.KeepsTracked (Recorder.SetRenderTarget env renderTarget) := by
  intro r
  have h := keepsTracked_bindColorTarget env (renderTarget.color.take 8) r []
  unfold Recorder.SetRenderTarget
  generalize (renderTarget.color.take 8).foldl (Recorder.bindColorTarget env) (r, []) = acc at h
  obtain ⟨r1, ds⟩ := acc
  refine h.trans ?_
  simp only
  split <;> simp

@[simp]
theorem keepsTracked_Draw (a b c d : Nat) : Recorder.KeepsTracked (Recorder.Draw a b c d) :=
  keepsTracked_same _ (tracked_Draw a b c d)

@[simp]
theorem keepsTracked_DrawIndexed (a b c : Nat) (d : Int) (e : Nat) :
    Recorder.KeepsTracked (Recorder.DrawIndexed a b c d e) :=
  keepsTracked_same _ (tracked_DrawIndexed a b c d e)

@[simp]
theorem keepsTracked_Dispatch (x y z : Nat) :
    Recorder.KeepsTracked (Recorder.Dispatch x y z) :=
  keepsTracked_same _ (tracked_Dispatch x y z)

@[simp]
theorem keepsTracked_GenerateMips_UAV_pass (env : Env) (pso : PSO) (texture : Texture)
    (resourceDesc : D3D12_RESOURCE_DESC) (isSRGB : Bool) (srcMip mipCount : Nat) :
    Recorder.KeepsTracked
      (Recorder.GenerateMips_UAV_pass env pso texture resourceDesc isSRGB srcMip mipCount) := by
  intro r
  unfold Recorder.GenerateMips_UAV_pass
  simp only [tracked_UAVBarrier, tracked_Dispatch]
  have hf := keepsTracked_foldl
    (fun r mip => Recorder.SetUnorderedAccessView env env.GenerateMips_OutMip mip
      texture.GetD3D12Resource D3D12_RESOURCE_STATE_UNORDERED_ACCESS
      (u32 (srcMip + mip + 1)) 1
      (Descriptor.UAV texture.GetD3D12Resource (some resourceDesc.Format)
        (some (u32 (srcMip + mip + 1)))) r)
    (fun mip => keepsTracked_SetUnorderedAccessView _ _ _ _ _ _ _ _) (List.range mipCount)
  split
  · rw [tracked_emit]
    refine List.IsPrefix.trans ?_ (hf _)
    simp [Recorder.SetCompute32BitConstants_Mips]
  · refine List.IsPrefix.trans ?_ (hf _)
    simp [Recorder.SetCompute32BitConstants_Mips]

@[simp]
theorem keepsTracked_PanoToCubemap_pass (env : Env) (pso : PSO)
    (cubemapDesc : D3D12_RESOURCE_DESC) (stagingTexture panoTexture : Texture)
    (mipSlice numMips : Nat) :
    Recorder.KeepsTracked
      (Recorder.PanoToCubemap_pass env pso cubemapDesc stagingTexture panoTexture mipSlice
        numMips) := by
  intro r
  unfold Recorder.PanoToCubemap_pass
  simp only [tracked_Dispatch]
  have hf := keepsTracked_foldl
    (fun r mip => Recorder.SetUnorderedAccessView env env.PanoToCubemapRS_DstMips mip
      stagingTexture.GetD3D12Resource D3D12_RESOURCE_STATE_UNORDERED_ACCESS 0 0
      (Descriptor.UAV stagingTexture.GetD3D12Resource
        (some (env.GetUAVCompatableFormat cubemapDesc.Format))
        (some (u32 (mipSlice + mip)))) r)
    (fun mip => keepsTracked_SetUnorderedAccessView _ _ _ _ _ _ _ _) (List.range numMips)
  split
  · rw [tracked_emit]
    refine List.IsPrefix.trans ?_ (hf _)
    simp [Recorder.SetCompute32BitConstants_Pano]
  · refine List.IsPrefix.trans ?_ (hf _)
    simp [Recorder.SetCompute32BitConstants_Pano]

@[simp]
theorem keepsTracked_PanoToCubemap_loop (env : Env) (pso : PSO)
    (cubemapDesc : D3D12_RESOURCE_DESC) (stagingTexture panoTexture : Texture)
    (fuel mipSlice : Nat) :
    Recorder.KeepsTracked
      (Recorder.PanoToCubemap_loop env pso cubemapDesc stagingTexture panoTexture fuel
        mipSlice) := by
  induction fuel generalizing mipSlice with
  | zero => exact fun r => List.prefix_refl _
  | succ fuel ih =>
    intro r
    simp only [Recorder.PanoToCubemap_loop]
    split
    · exact (keepsTracked_PanoToCubemap_pass env pso cubemapDesc stagingTexture panoTexture
        mipSlice _ r).trans (ih _ _)
    · exact List.prefix_refl _

theorem opKeepsTracked_pure {α : Type} (a : α) : Op.KeepsTracked (Op.pure a) :=
  fun _ => List.prefix_refl _

theorem opKeepsTracked_raise {α : Type} (e : Err) : Op.KeepsTracked (Op.raise e : Op α) :=
  fun _ => List.prefix_refl _

theorem opKeepsTracked_onCl (f : Recorder → Recorder) (h : Recorder.KeepsTracked f) :
    Op.KeepsTracked (Op.onCl f) := fun s => h s.cl

theorem opKeepsTracked_bind {α β : Type} (x : Op α) (f : α → Op β) (hx : Op.KeepsTracked x)
    (hf : ∀ a, Op.KeepsTracked (f a)) : Op.KeepsTracked (Op.bind x f) := by
  intro s
  unfold Op.bind
  have h1 := hx s
  generalize x s = res at h1
  obtain ⟨o, s1⟩ := res
  cases o with
  | ok a => exact h1.trans (hf a s1)
  | error e => exact h1

theorem opKeepsTracked_discard {α : Type} (x : Op α) (hx : Op.KeepsTracked x) :
    Op.KeepsTracked x.discard := by
  intro s
  unfold Op.discard
  have h1 := hx s
  generalize x s = res at h1
  obtain ⟨o, s1⟩ := res
  cases o <;> exact h1

theorem opKeepsTracked_AddGlobalResourceState (resource : Option D3D12Resource) (state : Nat) :
    Op.KeepsTracked (Op.AddGlobalResourceState resource state) :=
  fun _ => List.prefix_refl _

theorem opKeepsTracked_CreateCommittedResource (env : Env) (heapType : Nat)
    (desc : D3D12_RESOURCE_DESC) (initialState : Nat) :
    Op.KeepsTracked (Op.CreateCommittedResource env heapType desc initialState) := by
  intro s
  unfold Op.CreateCommittedResource
  by_cases h : env.succeeded s.world.deviceCalls <;> simp [h]

theorem opKeepsTracked_CreateCommittedResource_GetDesc (env : Env) (heapType : Nat)
    (desc created : D3D12_RESOURCE_DESC) (initialState : Nat) :
    Op.KeepsTracked
      (Op.CreateCommittedResource_GetDesc env heapType desc created initialState) := by
  intro s
  unfold Op.CreateCommittedResource_GetDesc
  by_cases h : env.succeeded s.world.deviceCalls <;> simp [h]

theorem opKeepsTracked_CreateHeap (env : Env) : Op.KeepsTracked (Op.CreateHeap env) := by
  intro s
  unfold Op.CreateHeap
  by_cases h : env.succeeded s.world.deviceCalls <;> simp [h]

theorem opKeepsTracked_CreatePlacedResource (env : Env) (heap : Nat)
    (desc : D3D12_RESOURCE_DESC) (initialState : Nat) :
    Op.KeepsTracked (Op.CreatePlacedResource env heap desc initialState) := by
  intro s
  unfold Op.CreatePlacedResource
  by_cases h : env.succeeded s.world.deviceCalls <;> simp [h]

theorem opKeepsTracked_CheckFeatureSupport (env : Env) (resource : Option D3D12Resource) :
    Op.KeepsTracked (Op.CheckFeatureSupport env resource) := by
  intro s
  unfold Op.CheckFeatureSupport
  cases resource with
  | none => exact List.prefix_refl _
  | some res => by_cases h : env.succeeded s.world.deviceCalls <;> simp [h]

theorem opKeepsTracked_CreateTexture (env : Env) (resource : Option D3D12Resource)
    (textureUsage : Nat) : Op.KeepsTracked (Op.CreateTexture env resource textureUsage) := by
  intro s
  unfold Op.CreateTexture
  have h := opKeepsTracked_CheckFeatureSupport env resource s
  generalize Op.CheckFeatureSupport env resource s = res at h
  obtain ⟨o, s1⟩ := res
  cases o <;> exact h

theorem opKeepsTracked_ensureGenerateMipsPSO (env : Env) :
    Op.KeepsTracked (ensureGenerateMipsPSO env) := by
  intro s
  unfold ensureGenerateMipsPSO
  cases s.cl.m_GenerateMipsPSO <;> exact List.prefix_refl _

theorem opKeepsTracked_ensurePanoToCubemapPSO (env : Env) :
    Op.KeepsTracked (ensurePanoToCubemapPSO env) := by
  intro s
  unfold ensurePanoToCubemapPSO
  cases s.cl.m_PanoToCubemapPSO <;> exact List.prefix_refl _

theorem opKeepsTracked_GenerateMips_UAV_loop (env : Env) (pso : PSO) (texture : Texture)
    (resourceDesc : D3D12_RESOURCE_DESC) (isSRGB : Bool) (fuel srcMip : Nat) :
    Op.KeepsTracked (GenerateMips_UAV_loop env pso texture resourceDesc isSRGB fuel srcMip) := by
  induction fuel generalizing srcMip with
  | zero =>
    simp only [GenerateMips_UAV_loop]
    split
    · exact opKeepsTracked_raise _
    · exact opKeepsTracked_pure _
  | succ fuel ih =>
    simp only [GenerateMips_UAV_loop]
    split
    · split
      · exact opKeepsTracked_raise _
      · exact opKeepsTracked_bind _ _ (opKeepsTracked_onCl _ (by simp)) (fun _ => ih _)
    · exact opKeepsTracked_pure _

theorem opKeepsTracked_GenerateMips_UAV (env : Env) (texture : Texture) (isSRGB : Bool) :
    Op.KeepsTracked (GenerateMips_UAV env texture isSRGB) := by
  unfold GenerateMips_UAV
  refine opKeepsTracked_bind _ _ (opKeepsTracked_ensureGenerateMipsPSO env) (fun pso => ?_)
  refine opKeepsTracked_bind _ _ (opKeepsTracked_onCl _ (by simp)) (fun _ => ?_)
  refine opKeepsTracked_bind _ _ (opKeepsTracked_onCl _ (by simp)) (fun _ => ?_)
  cases texture.GetD3D12Resource with
  | none => exact opKeepsTracked_raise _
  | some resource => exact opKeepsTracked_GenerateMips_UAV_loop _ _ _ _ _ _ _

theorem opKeepsTracked_GenerateMips_stage (env : Env) (resource : D3D12Resource) :
    Op.KeepsTracked (GenerateMips_stage env resource) := by
  unfold GenerateMips_stage
  refine opKeepsTracked_bind _ _ (opKeepsTracked_CreateHeap env) (fun heap => ?_)
  refine opKeepsTracked_bind _ _ (opKeepsTracked_onCl _ (by simp)) (fun _ => ?_)
  refine opKeepsTracked_bind _ _ (opKeepsTracked_CreatePlacedResource _ _ _ _) (fun a => ?_)
  refine opKeepsTracked_bind _ _ (opKeepsTracked_AddGlobalResourceState _ _) (fun _ => ?_)
  refine opKeepsTracked_bind _ _ (opKeepsTracked_onCl _ (by simp)) (fun _ => ?_)
  refine opKeepsTracked_bind _ _ (opKeepsTracked_CreatePlacedResource _ _ _ _) (fun u => ?_)
  refine opKeepsTracked_bind _ _ (opKeepsTracked_AddGlobalResourceState _ _) (fun _ => ?_)
  refine opKeepsTracked_bind _ _ (opKeepsTracked_onCl _ (by simp)) (fun _ => ?_)
  refine opKeepsTracked_bind _ _ (opKeepsTracked_onCl _ (by simp)) (fun _ => ?_)
  refine opKeepsTracked_bind _ _ (opKeepsTracked_onCl _ (by simp)) (fun _ => ?_)
  refine opKeepsTracked_bind _ _ (opKeepsTracked_onCl _ (by simp)) (fun _ => ?_)
  exact opKeepsTracked_pure _

theorem opKeepsTracked_GenerateMips_body (env : Env) (texture : Texture) :
    Op.KeepsTracked (GenerateMips_body env texture) := by
  unfold GenerateMips_body
  cases texture.GetD3D12Resource with
  | none => exact opKeepsTracked_pure _
  | some resource =>
    simp only
    split
    · exact opKeepsTracked_pure _
    · split
      · exact opKeepsTracked_raise _
      · refine opKeepsTracked_bind _ _ ?_ (fun p => ?_)
        · split
          · refine opKeepsTracked_bind _ _ (opKeepsTracked_GenerateMips_stage env resource)
              (fun q => ?_)
            exact opKeepsTracked_pure _
          · exact opKeepsTracked_pure _
        · obtain ⟨uavResource, aliasResource⟩ := p
          refine opKeepsTracked_bind _ _ (opKeepsTracked_CreateTexture _ _ _) (fun t => ?_)
          refine opKeepsTracked_bind _ _ (opKeepsTracked_GenerateMips_UAV _ _ _) (fun _ => ?_)
          cases aliasResource with
          | none => exact opKeepsTracked_pure _
          | some aliasRes =>
            refine opKeepsTracked_bind _ _ (opKeepsTracked_onCl _ (by simp)) (fun _ => ?_)
            exact opKeepsTracked_onCl _ (by simp)

theorem opKeepsTracked_PanoToCubemap_stage (env : Env) (cubemapResource : D3D12Resource) :
    Op.KeepsTracked (PanoToCubemap_stage env cubemapResource) := by
  unfold PanoToCubemap_stage
  refine opKeepsTracked_bind _ _ (opKeepsTracked_CreateCommittedResource _ _ _ _) (fun r => ?_)
  refine opKeepsTracked_bind _ _ (opKeepsTracked_AddGlobalResourceState _ _) (fun _ => ?_)
  refine opKeepsTracked_bind _ _ (opKeepsTracked_CheckFeatureSupport _ _) (fun _ => ?_)
  refine opKeepsTracked_bind _ _ (opKeepsTracked_onCl _ (by simp)) (fun _ => ?_)
  exact opKeepsTracked_pure _

theorem opKeepsTracked_PanoToCubemap_body (env : Env) (cubemapTexture panoTexture : Texture) :
    Op.KeepsTracked (PanoToCubemap_body env cubemapTexture panoTexture) := by
  unfold PanoToCubemap_body
  refine opKeepsTracked_bind _ _ (opKeepsTracked_ensurePanoToCubemapPSO env) (fun pso => ?_)
  cases cubemapTexture.GetD3D12Resource with
  | none => exact opKeepsTracked_pure _
  | some cubemapResource =>
    simp only
    refine opKeepsTracked_bind _ _ (opKeepsTracked_CreateTexture _ _ _) (fun t0 => ?_)
    refine opKeepsTracked_bind _ _ ?_ (fun stagingResource => ?_)
    · split
      · exact opKeepsTracked_PanoToCubemap_stage env cubemapResource
      · exact opKeepsTracked_pure _
    · refine opKeepsTracked_bind _ _ (opKeepsTracked_onCl _ (by simp)) (fun _ => ?_)
      refine opKeepsTracked_bind _ _ (opKeepsTracked_onCl _ (by simp)) (fun _ => ?_)
      refine opKeepsTracked_bind _ _ (opKeepsTracked_onCl _ (by simp)) (fun _ => ?_)
      refine opKeepsTracked_bind _ _ (opKeepsTracked_onCl _ (by simp)) (fun _ => ?_)
      split
      · exact opKeepsTracked_onCl _ (by simp)
      · exact opKeepsTracked_pure _

theorem opKeepsTracked_CopyBuffer (env : Env) (numElements elementSize : Nat)
    (bufferData : Option Nat) (flags : Nat) :
    Op.KeepsTracked (CopyBuffer env numElements elementSize bufferData flags) := by
  unfold CopyBuffer
  simp only
  split
  · refine opKeepsTracked_bind _ _ (opKeepsTracked_CheckFeatureSupport _ _) (fun _ => ?_)
    exact opKeepsTracked_pure _
  · refine opKeepsTracked_bind _ _ (opKeepsTracked_CreateCommittedResource _ _ _ _) (fun d => ?_)
    refine opKeepsTracked_bind _ _ (opKeepsTracked_AddGlobalResourceState _ _) (fun _ => ?_)
    split
    · refine opKeepsTracked_bind _ _ (opKeepsTracked_CreateCommittedResource _ _ _ _)
        (fun u => ?_)
      refine opKeepsTracked_bind _ _ (opKeepsTracked_onCl _ (by simp)) (fun _ => ?_)
      refine opKeepsTracked_bind _ _ (opKeepsTracked_onCl _ (by simp)) (fun _ => ?_)
      refine opKeepsTracked_bind _ _ (opKeepsTracked_onCl _ (by simp)) (fun _ => ?_)
      refine opKeepsTracked_bind _ _ (opKeepsTracked_onCl _ (by simp)) (fun _ => ?_)
      refine opKeepsTracked_bind _ _ (opKeepsTracked_onCl _ (by simp)) (fun _ => ?_)
      refine opKeepsTracked_bind _ _ (opKeepsTracked_CheckFeatureSupport _ _) (fun _ => ?_)
      exact opKeepsTracked_pure _
    · refine opKeepsTracked_bind _ _ (opKeepsTracked_pure _) (fun _ => ?_)
      refine opKeepsTracked_bind _ _ (opKeepsTracked_onCl _ (by simp)) (fun _ => ?_)
      refine opKeepsTracked_bind _ _ (opKeepsTracked_CheckFeatureSupport _ _) (fun _ => ?_)
      exact opKeepsTracked_pure _

theorem opKeepsTracked_CopyTextureSubresource (env : Env) (requiredSize : Nat)
    (texture : Texture) (firstSubresource numSubresources : Nat) :
    Op.KeepsTracked
      (CopyTextureSubresource env requiredSize texture firstSubresource numSubresources) := by
  unfold CopyTextureSubresource
  cases texture.GetD3D12Resource with
  | none => exact opKeepsTracked_pure _
  | some dst =>
    simp only
    refine opKeepsTracked_bind _ _ (opKeepsTracked_onCl _ (by simp)) (fun _ => ?_)
    refine opKeepsTracked_bind _ _ (opKeepsTracked_onCl _ (by simp)) (fun _ => ?_)
    refine opKeepsTracked_bind _ _ (opKeepsTracked_CreateCommittedResource _ _ _ _) (fun i => ?_)
    refine opKeepsTracked_bind _ _ (opKeepsTracked_onCl _ (by simp)) (fun _ => ?_)
    refine opKeepsTracked_bind _ _ (opKeepsTracked_onCl _ (by simp)) (fun _ => ?_)
    exact opKeepsTracked_onCl _ (by simp)

theorem opKeepsTracked_LoadSceneFromFile (aiScene : Bool) (errorMessage : String) :
    Op.KeepsTracked (LoadSceneFromFile aiScene errorMessage) := by
  unfold LoadSceneFromFile
  split
  · exact opKeepsTracked_pure _
  · exact opKeepsTracked_raise _

theorem extends_refl (c : CommandList) : c.Extends c :=
  ⟨List.prefix_refl _, fun q hq => ⟨q, hq, List.prefix_refl _⟩⟩

theorem extends_trans {a b c : CommandList} (h1 : a.Extends b) (h2 : b.Extends c) :
    a.Extends c := by
  refine ⟨h1.1.trans h2.1, fun q hq => ?_⟩
  obtain ⟨q1, hq1, p1⟩ := h1.2 q hq
  obtain ⟨q2, hq2, p2⟩ := h2.2 q1 hq1
  exact ⟨q2, hq2, p1.trans p2⟩

theorem extends_recorder (c : CommandList) (r : Recorder)
    (h : c.recorder.m_TrackedObjects <+: r.m_TrackedObjects) :
    c.Extends { c with recorder := r } :=
  ⟨h, fun q hq => ⟨q, hq, List.prefix_refl _⟩⟩

theorem extends_onRecorder (f : Recorder → Recorder) (hf : Recorder.KeepsTracked f) (w : World)
    (c : CommandList) : c.Extends (c.onRecorder f w).2.2 :=
  extends_recorder c _ (hf c.recorder)

theorem extends_onOwn (op : Op Unit) (hop : Op.KeepsTracked op) (w : World) (c : CommandList) :
    c.Extends (c.onOwn op w).2.2 := by
  unfold CommandList.onOwn
  exact extends_recorder c _ (hop { world := w, cl := c.recorder })

theorem extends_forward (env : Env) (op : Op Unit) (hop : Op.KeepsTracked op) (w : World)
    (c : CommandList) : c.Extends (c.forward env op w).2.2 := by
  unfold CommandList.forward CommandList.ensureComputeCommandList
  cases hc : c.m_ComputeCommandList with
  | none =>
    refine ⟨List.prefix_refl _, fun q hq => ?_⟩
    rw [hc] at hq
    cases hq
  | some compute =>
    refine ⟨List.prefix_refl _, fun q hq => ?_⟩
    rw [hc] at hq
    cases hq
    exact ⟨_, rfl, hop { world := w, cl := compute }⟩

theorem extends_GenerateMips (env : Env) (texture : Texture) (w : World) (c : CommandList) :
    c.Extends (c.GenerateMips env texture w).2.2 := by
  unfold CommandList.GenerateMips
  split
  · exact extends_forward env _ (opKeepsTracked_GenerateMips_body env texture) w c
  · exact extends_onOwn _ (opKeepsTracked_GenerateMips_body env texture) w c

theorem extends_PanoToCubemap (env : Env) (cubemapTexture panoTexture : Texture) (w : World)
    (c : CommandList) : c.Extends (c.PanoToCubemap env cubemapTexture panoTexture w).2.2 := by
  unfold CommandList.PanoToCubemap
  split
  · exact extends_forward env _ (opKeepsTracked_PanoToCubemap_body env _ _) w c
  · exact extends_onOwn _ (opKeepsTracked_PanoToCubemap_body env _ _) w c

theorem extends_bindTexture (env : Env) (textureUsage : Nat) (resource : D3D12Resource)
    (s : LoadState) : s.commandList.Extends (s.bindTexture env textureUsage resource).2.commandList := by
  unfold LoadState.bindTexture
  simp only
  split
  · exact extends_refl _
  · have h := extends_onOwn (Op.CheckFeatureSupport env (some resource))
      (opKeepsTracked_CheckFeatureSupport env _) s.world s.commandList
    generalize s.commandList.onOwn (Op.CheckFeatureSupport env (some resource)) s.world = res at h
    obtain ⟨o, w, c⟩ := res
    cases o <;> exact h

theorem extends_loadNew (env : Env) (files : TextureFiles) (fileName : String)
    (textureUsage : Nat) (image : LoadedImage) (s : LoadState) :
    s.commandList.Extends (s.loadNew env files fileName textureUsage image).2.commandList := by
  unfold LoadState.loadNew
  simp only
  split
  · exact extends_refl _
  · rename_i desc0 hdesc
    have h1 := opKeepsTracked_CreateCommittedResource_GetDesc env D3D12_HEAP_TYPE_DEFAULT desc0
      { desc0 with MipLevels := files.GetDesc_MipLevels desc0 } D3D12_RESOURCE_STATE_COMMON
      (St.mk s.world s.commandList.recorder)
    generalize Op.CreateCommittedResource_GetDesc env D3D12_HEAP_TYPE_DEFAULT desc0
      { desc0 with MipLevels := files.GetDesc_MipLevels desc0 } D3D12_RESOURCE_STATE_COMMON
      (St.mk s.world s.commandList.recorder) = res1 at h1
    obtain ⟨o1, s1⟩ := res1
    have e1 : s.commandList.Extends { s.commandList with recorder := s1.cl } :=
      extends_recorder _ _ h1
    cases o1 with
    | error e => exact e1
    | ok textureResource =>
      simp only
      generalize hs2 : ({ s with
        world := s1.world, commandList := { s.commandList with recorder := s1.cl } } :
          LoadState) = s2
      have e1a : s.commandList.Extends s2.commandList := by
        rw [← hs2]
        exact e1
      have h2 := extends_bindTexture env textureUsage textureResource s2
      generalize s2.bindTexture env textureUsage textureResource = res2 at h2
      obtain ⟨o2, s3⟩ := res2
      have e2 := extends_trans e1a h2
      cases o2 with
      | error e => exact e2
      | ok u =>
        simp only
        have h3 := extends_onOwn
          (do
            Op.AddGlobalResourceState (some textureResource) D3D12_RESOURCE_STATE_COMMON
            CopyTextureSubresource env
              (files.GetRequiredIntermediateSize textureResource 0 (u32 image.imageCount))
              s3.texture 0 (u32 image.imageCount))
          (opKeepsTracked_bind _ _ (opKeepsTracked_AddGlobalResourceState _ _)
            (fun _ => opKeepsTracked_CopyTextureSubresource _ _ _ _ _)) s3.world s3.commandList
        generalize s3.commandList.onOwn
          (do
            Op.AddGlobalResourceState (some textureResource) D3D12_RESOURCE_STATE_COMMON
            CopyTextureSubresource env
              (files.GetRequiredIntermediateSize textureResource 0 (u32 image.imageCount))
              s3.texture 0 (u32 image.imageCount)) s3.world = res3 at h3
        obtain ⟨o3, w3, c3⟩ := res3
        have e3 := extends_trans e2 h3
        cases o3 with
        | error e => exact e3
        | ok u3 =>
          simp only
          have h4 : c3.Extends
              (if image.imageCount < textureResource.desc.MipLevels then
                c3.GenerateMips env s3.texture w3
              else (Except.ok (), w3, c3)).2.2 := by
            split
            · exact extends_GenerateMips env _ _ _
            · exact extends_refl _
          generalize (if image.imageCount < textureResource.desc.MipLevels then
                c3.GenerateMips env s3.texture w3
              else (Except.ok (), w3, c3)) = res4 at h4
          obtain ⟨o4, w4, c4⟩ := res4
          cases o4 <;> exact extends_trans e3 h4

theorem extends_LoadTextureFromFile (env : Env) (files : TextureFiles) (fileName : String)
    (textureUsage : Nat) (s : LoadState) :
    s.commandList.Extends
      (s.LoadTextureFromFile env files fileName textureUsage).2.commandList := by
  unfold LoadState.LoadTextureFromFile
  split
  · exact extends_refl _
  · split
    · exact extends_bindTexture _ _ _ _
    · split
      · exact extends_refl _
      · exact extends_loadNew _ _ _ _ _ _

theorem tracked_Close_pending (r pendingCommandList : Recorder) (w : World) :
    (r.Close_pending pendingCommandList w).recorder.m_TrackedObjects = r.m_TrackedObjects := rfl

theorem extends_perform (env : Env) (op : Operation) (w : World) (c : CommandList) :
    c.Extends (c.perform env op w).2.2 := by
  cases op with
  | LoadTextureFromFile files fileName textureUsage texture clearValue cache =>
    exact extends_LoadTextureFromFile env files fileName textureUsage
      (LoadState.mk texture clearValue cache w c)
  | GenerateMips texture => exact extends_GenerateMips env texture w c
  | PanoToCubemap a b => exact extends_PanoToCubemap env a b w c
  | GenerateMips_UAV texture isSRGB =>
    exact extends_onOwn _ (opKeepsTracked_GenerateMips_UAV env texture isSRGB) w c
  | CopyBuffer a b d f =>
    exact extends_onOwn _ (opKeepsTracked_discard _ (opKeepsTracked_CopyBuffer env a b d f)) w c
  | CopyVertexBuffer a b d =>
    exact extends_onOwn _ (opKeepsTracked_discard _ (opKeepsTracked_CopyBuffer env _ _ _ _)) w c
  | CopyIndexBuffer a b d =>
    exact extends_onOwn _ (opKeepsTracked_discard _ (opKeepsTracked_CopyBuffer env _ _ _ _)) w c
  | CopyByteAddressBuffer a d =>
    exact extends_onOwn _ (opKeepsTracked_discard _ (opKeepsTracked_CopyBuffer env _ _ _ _)) w c
  | CopyStructuredBuffer a b d =>
    exact extends_onOwn _ (opKeepsTracked_discard _ (opKeepsTracked_CopyBuffer env _ _ _ _)) w c
  | LoadSceneFromFile a m => exact extends_onOwn _ (opKeepsTracked_LoadSceneFromFile a m) w c
  | CopyTextureSubresource q t a b =>
    exact extends_onOwn _ (opKeepsTracked_CopyTextureSubresource env q t a b) w c
  | Close_pending pendingCommandList =>
    exact extends_recorder c _ (List.prefix_refl _)
  | SetDescriptorHeap heapType heap =>
    refine extends_onRecorder _ (fun r => ?_) w c
    unfold Recorder.SetDescriptorHeap
    split <;> exact List.prefix_refl _
  | _ =>
    first
      | exact extends_onRecorder _ (by simp) w c
      | exact extends_onRecorder _ (fun r => List.prefix_refl _) w c

theorem extends_performAll (env : Env) (ops : List Operation) (w : World) (c : CommandList) :
    c.Extends (CommandList.performAll env ops w c).2 := by
  induction ops generalizing w c with
  | nil => exact extends_refl c
  | cons op rest ih =>
    exact extends_trans (extends_perform env op w c) (ih _ _)

/-- Claim C11.  Every operation of a command list other than `Reset` keeps
the tracked objects it finds, in their order, at the head of the list and at
most appends to it: that holds for one call, whether it returns or throws,
for any sequence of calls, for the compute command list a copy command list
caches and forwards to, and for the pending command list handed to
`Close(pendingCommandList)`.  `Reset` empties the list when its two device
calls succeed and leaves it as it is when one of them fails. -/
theorem C11_tracked_objects_only_appended (env : Env) (w : World) (c : CommandList) :
    (∀ op : Operation,
      c.recorder.m_TrackedObjects <+: (c.perform env op w).2.2.recorder.m_TrackedObjects) ∧
    (∀ ops : List Operation,
      c.recorder.m_TrackedObjects <+:
        (CommandList.performAll env ops w c).2.recorder.m_TrackedObjects) ∧
    (∀ (ops : List Operation) (q : Recorder), c.m_ComputeCommandList = some q →
      ∃ q1, (CommandList.performAll env ops w c).2.m_ComputeCommandList = some q1 ∧
        q.m_TrackedObjects <+: q1.m_TrackedObjects) ∧
    (∀ pendingCommandList : Recorder,
      (c.recorder.Close_pending pendingCommandList w).pendingCommandList.m_TrackedObjects =
        pendingCommandList.m_TrackedObjects) ∧
    (∀ allocatorReset commandListReset : Bool,
      (c.Reset allocatorReset commandListReset).2.recorder.m_TrackedObjects =
        if allocatorReset && commandListReset then [] else c.recorder.m_TrackedObjects) := by
  refine ⟨fun op => (extends_perform env op w c).1, fun ops => (extends_performAll env ops w c).1,
    fun ops q hq => (extends_performAll env ops w c).2 q hq, fun p => ?_, fun a b => ?_⟩
  · exact (log_foldl_record Command.ResourceBarrier _ p).2
  · cases a <;> cases b <;> simp [CommandList.Reset, Recorder.ReleaseTrackedObjects,
      Recorder.resetDescriptorHeaps, Recorder.emit, Recorder.record, List.range,
      List.range.loop, D3D12_DESCRIPTOR_HEAP_TYPE_NUM_TYPES]

theorem C11_tracked_objects_only_appended_witness :
    (∃ q1, (CommandList.performAll sampleEnv
        [Operation.GenerateMips (sampleTexture 8 12 4 4), Operation.Close]
        sampleSt.world
        { sampleCopyList with m_ComputeCommandList := some Recorder.fresh }).2.m_ComputeCommandList
          = some q1 ∧
      Recorder.fresh.m_TrackedObjects <+: q1.m_TrackedObjects) :=
  (C11_tracked_objects_only_appended sampleEnv sampleSt.world
    { sampleCopyList with m_ComputeCommandList := some Recorder.fresh }).2.2.1
    [Operation.GenerateMips (sampleTexture 8 12 4 4), Operation.Close] Recorder.fresh rfl

@[simp]
theorem rootSig_emit (e : Event) (r : Recorder) :
    (r.emit e).m_RootSignature = r.m_RootSignature := rfl

@[simp]
theorem rootSig_record (c : Command) (r : Recorder) :
    (r.record c).m_RootSignature = r.m_RootSignature := rfl

@[simp]
theorem rootSig_tracker_TransitionResource (env : Env) (resource : Option D3D12Resource)
    (stateAfter : Nat) (r : Recorder) :
    (r.tracker_TransitionResource env resource stateAfter).m_RootSignature =
      r.m_RootSignature := rfl

@[simp]
theorem rootSig_FlushResourceBarriers (r : Recorder) :
    r.FlushResourceBarriers.m_RootSignature = r.m_RootSignature := rfl

@[simp]
theorem rootSig_TransitionBarrier (resource : Option D3D12Resource)
    (stateAfter subresource : Nat) (flushBarriers : Bool) (r : Recorder) :
    (r.TransitionBarrier resource stateAfter subresource flushBarriers).m_RootSignature =
      r.m_RootSignature := by
  cases resource <;> cases flushBarriers <;> rfl

@[simp]
theorem rootSig_UAVBarrier (resource : Option D3D12Resource) (flushBarriers : Bool)
    (r : Recorder) :
    (r.UAVBarrier resource flushBarriers).m_RootSignature = r.m_RootSignature := by
  cases flushBarriers <;> rfl

@[simp]
theorem rootSig_AliasingBarrier (a b : Option D3D12Resource) (flushBarriers : Bool)
    (r : Recorder) :
    (r.AliasingBarrier a b flushBarriers).m_RootSignature = r.m_RootSignature := by
  cases flushBarriers <;> rfl

@[simp]
theorem rootSig_TrackResource (object : Option D3D12Object) (r : Recorder) :
    (r.TrackResource object).m_RootSignature = r.m_RootSignature := rfl

@[simp]
theorem rootSig_TrackResource_res (resource : Option D3D12Resource) (r : Recorder) :
    (r.TrackResource_res resource).m_RootSignature = r.m_RootSignature := rfl

@[simp]
theorem rootSig_foldl_emit {α : Type} (f : α → Event) (l : List α) (r : Recorder) :
    (l.foldl (fun r i => r.emit (f i)) r).m_RootSignature = r.m_RootSignature := by
  induction l generalizing r with
  | nil => rfl
  | cons a l ih => simp only [List.foldl_cons, ih, rootSig_emit]

@[simp]
theorem rootSig_commitStagedDescriptorsForDraw (r : Recorder) :
    r.commitStagedDescriptorsForDraw.m_RootSignature = r.m_RootSignature :=
  rootSig_foldl_emit _ _ r

@[simp]
theorem rootSig_commitStagedDescriptorsForDispatch (r : Recorder) :
    r.commitStagedDescriptorsForDispatch.m_RootSignature = r.m_RootSignature :=
  rootSig_foldl_emit _ _ r

@[simp]
theorem rootSig_transitionSubresources (env : Env) (resource : Option D3D12Resource)
    (stateAfter firstSubresource numSubresources : Nat) (r : Recorder) :
    (r.transitionSubresources env resource stateAfter firstSubresource
      numSubresources).m_RootSignature = r.m_RootSignature := by
  unfold Recorder.transitionSubresources
  split
  · generalize List.range numSubresources = l
    induction l generalizing r with
    | nil => rfl
    | cons a l ih => simp only [List.foldl_cons, ih, rootSig_TransitionBarrier]
  · exact rootSig_TransitionBarrier _ _ _ _ r

theorem rootSig_bindColorTarget (env : Env) (l : List Texture) (r : Recorder)
    (ds : List Descriptor) :
    (l.foldl (Recorder.bindColorTarget env) (r, ds)).1.m_RootSignature = r.m_RootSignature := by
  induction l generalizing r ds with
  | nil => rfl
  | cons t l ih =>
    rw [List.foldl_cons]
    unfold Recorder.bindColorTarget
    split
    · exact (ih _ _).trans (by simp)
    · exact ih r ds

theorem rootSig_SetRenderTarget (env : Env) (renderTarget : Recorder.RenderTarget)
    (r : Recorder) : (r.SetRenderTarget env renderTarget).m_RootSignature = r.m_RootSignature := by
  have h := rootSig_bindColorTarget env (renderTarget.color.take 8) r []
  unfold Recorder.SetRenderTarget
  generalize (renderTarget.color.take 8).foldl (Recorder.bindColorTarget env) (r, []) = acc at h
  obtain ⟨r1, ds⟩ := acc
  rw [← h]
  simp only
  split <;> simp

theorem rootSig_resetDescriptorHeaps (r : Recorder) :
    r.resetDescriptorHeaps.m_RootSignature = r.m_RootSignature := rfl

theorem opKeepsRootSignature_pure {α : Type} (a : α) : Op.KeepsRootSignature (Op.pure a) :=
  fun _ => rfl

theorem opKeepsRootSignature_raise {α : Type} (e : Err) :
    Op.KeepsRootSignature (Op.raise e : Op α) := fun _ => rfl

theorem opKeepsRootSignature_onCl (f : Recorder → Recorder) (h : Recorder.KeepsRootSignature f) :
    Op.KeepsRootSignature (Op.onCl f) := fun s => h s.cl

theorem opKeepsRootSignature_bind {α β : Type} (x : Op α) (f : α → Op β)
    (hx : Op.KeepsRootSignature x) (hf : ∀ a, Op.KeepsRootSignature (f a)) :
    Op.KeepsRootSignature (Op.bind x f) := by
  intro s
  unfold Op.bind
  have h1 := hx s
  generalize x s = res at h1
  obtain ⟨o, s1⟩ := res
  cases o with
  | ok a => exact (hf a s1).trans h1
  | error e => exact h1

theorem opKeepsRootSignature_discard {α : Type} (x : Op α) (hx : Op.KeepsRootSignature x) :
    Op.KeepsRootSignature x.discard := by
  intro s
  unfold Op.discard
  have h1 := hx s
  generalize x s = res at h1
  obtain ⟨o, s1⟩ := res
  cases o <;> exact h1

theorem opKeepsRootSignature_AddGlobalResourceState (resource : Option D3D12Resource)
    (state : Nat) : Op.KeepsRootSignature (Op.AddGlobalResourceState resource state) :=
  fun _ => rfl

theorem opKeepsRootSignature_CreateCommittedResource (env : Env) (heapType : Nat)
    (desc : D3D12_RESOURCE_DESC) (initialState : Nat) :
    Op.KeepsRootSignature (Op.CreateCommittedResource env heapType desc initialState) := by
  intro s
  unfold Op.CreateCommittedResource
  by_cases h : env.succeeded s.world.deviceCalls <;> simp [h]

theorem opKeepsRootSignature_CheckFeatureSupport (env : Env) (resource : Option D3D12Resource) :
    Op.KeepsRootSignature (Op.CheckFeatureSupport env resource) := by
  intro s
  unfold Op.CheckFeatureSupport
  cases resource with
  | none => rfl
  | some res => by_cases h : env.succeeded s.world.deviceCalls <;> simp [h]

theorem opKeepsRootSignature_CopyBuffer (env : Env) (numElements elementSize : Nat)
    (bufferData : Option Nat) (flags : Nat) :
    Op.KeepsRootSignature (CopyBuffer env numElements elementSize bufferData flags) := by
  unfold CopyBuffer
  simp only
  split
  · refine opKeepsRootSignature_bind _ _ (opKeepsRootSignature_CheckFeatureSupport _ _)
      (fun _ => ?_)
    exact opKeepsRootSignature_pure _
  · refine opKeepsRootSignature_bind _ _ (opKeepsRootSignature_CreateCommittedResource _ _ _ _)
      (fun d => ?_)
    refine opKeepsRootSignature_bind _ _ (opKeepsRootSignature_AddGlobalResourceState _ _)
      (fun _ => ?_)
    split
    · refine opKeepsRootSignature_bind _ _
        (opKeepsRootSignature_CreateCommittedResource _ _ _ _) (fun u => ?_)
      refine opKeepsRootSignature_bind _ _ (opKeepsRootSignature_onCl _ (fun r => rfl))
        (fun _ => ?_)
      refine opKeepsRootSignature_bind _ _ (opKeepsRootSignature_onCl _ (fun r => rfl))
        (fun _ => ?_)
      refine opKeepsRootSignature_bind _ _ (opKeepsRootSignature_onCl _ (fun r => rfl))
        (fun _ => ?_)
      refine opKeepsRootSignature_bind _ _ (opKeepsRootSignature_onCl _ (fun r => rfl))
        (fun _ => ?_)
      refine opKeepsRootSignature_bind _ _ (opKeepsRootSignature_onCl _ (fun r => rfl))
        (fun _ => ?_)
      refine opKeepsRootSignature_bind _ _ (opKeepsRootSignature_CheckFeatureSupport _ _)
        (fun _ => ?_)
      exact opKeepsRootSignature_pure _
    · refine opKeepsRootSignature_bind _ _ (opKeepsRootSignature_pure _) (fun _ => ?_)
      refine opKeepsRootSignature_bind _ _ (opKeepsRootSignature_onCl _ (fun r => rfl))
        (fun _ => ?_)
      refine opKeepsRootSignature_bind _ _ (opKeepsRootSignature_CheckFeatureSupport _ _)
        (fun _ => ?_)
      exact opKeepsRootSignature_pure _

theorem opKeepsRootSignature_CopyTextureSubresource (env : Env) (requiredSize : Nat)
    (texture : Texture) (firstSubresource numSubresources : Nat) :
    Op.KeepsRootSignature
      (CopyTextureSubresource env requiredSize texture firstSubresource numSubresources) := by
  unfold CopyTextureSubresource
  cases texture.GetD3D12Resource with
  | none => exact opKeepsRootSignature_pure _
  | some dst =>
    simp only
    refine opKeepsRootSignature_bind _ _
      (opKeepsRootSignature_onCl _ (rootSig_TransitionBarrier _ _ _ _)) (fun _ => ?_)
    refine opKeepsRootSignature_bind _ _ (opKeepsRootSignature_onCl _ (fun r => rfl))
      (fun _ => ?_)
    refine opKeepsRootSignature_bind _ _ (opKeepsRootSignature_CreateCommittedResource _ _ _ _)
      (fun i => ?_)
    refine opKeepsRootSignature_bind _ _ (opKeepsRootSignature_onCl _ (fun r => rfl))
      (fun _ => ?_)
    refine opKeepsRootSignature_bind _ _ (opKeepsRootSignature_onCl _ (fun r => rfl))
      (fun _ => ?_)
    exact opKeepsRootSignature_onCl _ (fun r => rfl)

theorem opKeepsRootSignature_LoadSceneFromFile (aiScene : Bool) (errorMessage : String) :
    Op.KeepsRootSignature (LoadSceneFromFile aiScene errorMessage) := by
  unfold LoadSceneFromFile
  split
  · exact opKeepsRootSignature_pure _
  · exact opKeepsRootSignature_raise _

theorem rootSig_onRecorder (f : Recorder → Recorder) (hf : Recorder.KeepsRootSignature f)
    (w : World) (c : CommandList) :
    (c.onRecorder f w).2.2.recorder.m_RootSignature = c.recorder.m_RootSignature :=
  hf c.recorder

theorem rootSig_onOwn (op : Op Unit) (hop : Op.KeepsRootSignature op) (w : World)
    (c : CommandList) :
    (c.onOwn op w).2.2.recorder.m_RootSignature = c.recorder.m_RootSignature :=
  hop { world := w, cl := c.recorder }

theorem rootSig_perform (env : Env) (op : Operation) (h : op.setsRootSignature = false)
    (w : World) (c : CommandList) :
    (c.perform env op w).2.2.recorder.m_RootSignature = c.recorder.m_RootSignature := by
  cases op with
  | SetGraphicsRootSignature S => cases h
  | SetComputeRootSignature S => cases h
  | GenerateMips t => cases h
  | GenerateMips_UAV t b => cases h
  | PanoToCubemap a b => cases h
  | LoadTextureFromFile a b d e f g => cases h
  | CopyBuffer a b d f =>
    exact rootSig_onOwn _
      (opKeepsRootSignature_discard _ (opKeepsRootSignature_CopyBuffer env a b d f)) w c
  | CopyVertexBuffer a b d =>
    exact rootSig_onOwn _
      (opKeepsRootSignature_discard _ (opKeepsRootSignature_CopyBuffer env _ _ _ _)) w c
  | CopyIndexBuffer a b d =>
    exact rootSig_onOwn _
      (opKeepsRootSignature_discard _ (opKeepsRootSignature_CopyBuffer env _ _ _ _)) w c
  | CopyByteAddressBuffer a d =>
    exact rootSig_onOwn _
      (opKeepsRootSignature_discard _ (opKeepsRootSignature_CopyBuffer env _ _ _ _)) w c
  | CopyStructuredBuffer a b d =>
    exact rootSig_onOwn _
      (opKeepsRootSignature_discard _ (opKeepsRootSignature_CopyBuffer env _ _ _ _)) w c
  | LoadSceneFromFile a m =>
    exact rootSig_onOwn _ (opKeepsRootSignature_LoadSceneFromFile a m) w c
  | CopyTextureSubresource q t a b =>
    exact rootSig_onOwn _ (opKeepsRootSignature_CopyTextureSubresource env q t a b) w c
  | Close_pending pendingCommandList => rfl
  | SetDescriptorHeap heapType heap =>
    refine rootSig_onRecorder _ (fun r => ?_) w c
    unfold Recorder.SetDescriptorHeap
    split <;> rfl
  | SetRenderTarget rt => exact rootSig_onRecorder _ (rootSig_SetRenderTarget env rt) w c
  | _ =>
    first
      | exact rootSig_onRecorder _ (fun r => rfl) w c
      | exact rootSig_onRecorder _ (fun r => by simp) w c
      | exact rootSig_onRecorder _ (fun r => by
          simp [Recorder.CopyResource, Recorder.ResolveSubresource, Recorder.ClearTexture,
            Recorder.ClearDepthStencilTexture, Recorder.SetVertexBuffer, Recorder.SetIndexBuffer,
            Recorder.SetPipelineState, Recorder.SetShaderResourceView,
            Recorder.SetUnorderedAccessView, Recorder.Draw, Recorder.DrawIndexed,
            Recorder.Dispatch, Recorder.Close]) w c

theorem rootSig_performAll (env : Env) (ops : List Operation)
    (h : ∀ op ∈ ops, op.setsRootSignature = false) (w : World) (c : CommandList) :
    (CommandList.performAll env ops w c).2.recorder.m_RootSignature =
      c.recorder.m_RootSignature := by
  induction ops generalizing w c with
  | nil => rfl
  | cons op rest ih =>
    simp only [CommandList.performAll]
    rw [ih (fun o ho => h o (List.mem_cons_of_mem _ ho))]
    exact rootSig_perform env op (h op (List.mem_cons_self _ _)) w c

theorem getD_set_none (l : List (Option Nat)) (i : Nat) (hi : i < 4) :
    ((((l.set 0 none).set 1 none).set 2 none).set 3 none).getD i none = none := by
  rw [List.getD_eq_getElem?_getD]
  interval_cases i
  · simp only [List.getElem?_set]
    simp
    split <;> simp
  · simp [List.getElem?_set]
    split <;> simp
  · simp [List.getElem?_set]
    split <;> simp
  · simp [List.getElem?_set]
    split <;> simp

theorem heaps_Reset (c : CommandList) :
    (c.Reset true true).2.recorder.m_DescriptorHeaps =
      (((c.recorder.m_DescriptorHeaps.set 0 none).set 1 none).set 2 none).set 3 none := rfl

/-- Claim C14.  After a `Reset` that returns (both device calls succeeding)
the tracked-objects list is empty, the current root signature is null, the
cached compute command list is null and every one of the
`D3D12_DESCRIPTOR_HEAP_TYPE_NUM_TYPES` bound descriptor heap slots is null.
So, after any calls that set no root signature, the first
`SetGraphicsRootSignature` or `SetComputeRootSignature` with a non-null
signature has the four dynamic descriptor heaps parse it, sets it on the
underlying list and tracks it, whatever was current before the `Reset`. -/
theorem C14_Reset (env : Env) (c : CommandList) (allocatorReset commandListReset : Bool)
    (h : (c.Reset allocatorReset commandListReset).1 = Except.ok ()) :
    (c.Reset allocatorReset commandListReset).2.recorder.m_TrackedObjects = [] ∧
    (c.Reset allocatorReset commandListReset).2.recorder.m_RootSignature = none ∧
    (c.Reset allocatorReset commandListReset).2.m_ComputeCommandList = none ∧
    (∀ i, i < D3D12_DESCRIPTOR_HEAP_TYPE_NUM_TYPES →
      (c.Reset allocatorReset commandListReset).2.recorder.m_DescriptorHeaps.getD i none =
        none) ∧
    (∀ (ops : List Operation) (w : World) (S : Nat),
      (∀ op ∈ ops, op.setsRootSignature = false) →
      ((CommandList.performAll env ops w
          (c.Reset allocatorReset commandListReset).2).2.recorder.SetGraphicsRootSignature
            (some S)).log =
        (CommandList.performAll env ops w
          (c.Reset allocatorReset commandListReset).2).2.recorder.log ++
        [Event.ParseRootSignature 0 (some S), Event.ParseRootSignature 1 (some S),
         Event.ParseRootSignature 2 (some S), Event.ParseRootSignature 3 (some S),
         Event.Command (Command.SetGraphicsRootSignature (some S)),
         Event.TrackResource (some (D3D12Object.rootSignature S))] ∧
      ((CommandList.performAll env ops w
          (c.Reset allocatorReset commandListReset).2).2.recorder.SetComputeRootSignature
            (some S)).log =
        (CommandList.performAll env ops w
          (c.Reset allocatorReset commandListReset).2).2.recorder.log ++
        [Event.ParseRootSignature 0 (some S), Event.ParseRootSignature 1 (some S),
         Event.ParseRootSignature 2 (some S), Event.ParseRootSignature 3 (some S),
         Event.Command (Command.SetComputeRootSignature (some S)),
         Event.TrackResource (some (D3D12Object.rootSignature S))]) := by
  have hab : allocatorReset = true ∧ commandListReset = true := by
    cases allocatorReset <;> cases commandListReset <;> simp [CommandList.Reset] at h ⊢
  obtain ⟨ha, hb⟩ := hab
  subst ha
  subst hb
  have hroot : (c.Reset true true).2.recorder.m_RootSignature = none := rfl
  refine ⟨rfl, hroot, rfl, ?_, ?_⟩
  · intro i hi
    rw [heaps_Reset]
    exact getD_set_none _ i hi
  · intro ops w S hops
    have hr := rootSig_performAll env ops hops w (c.Reset true true).2
    rw [hroot] at hr
    generalize (CommandList.performAll env ops w (c.Reset true true).2).2.recorder = r at hr
    constructor
    · simp [Recorder.SetGraphicsRootSignature, hr, parseRootSignatures_eq, Recorder.record,
        Recorder.emit, Recorder.TrackResource]
    · simp [Recorder.SetComputeRootSignature, hr, parseRootSignatures_eq, Recorder.record,
        Recorder.emit, Recorder.TrackResource]

/-- Claim C14 at a command list in use, which tracks two objects, has root
signature 7 current, two descriptor heaps bound and a compute command list
cached: after `Reset` all of that is gone, and after a draw the setter called
with the same signature 7 parses, sets and tracks it again. -/
theorem C14_Reset_witness :
    sampleUsedList.recorder.m_TrackedObjects.length = 2 ∧
    sampleUsedList.recorder.m_RootSignature = some 7 ∧
    sampleUsedList.m_ComputeCommandList = some Recorder.fresh ∧
    sampleUsedList.recorder.m_DescriptorHeaps = [some 11, none, some 12, none] ∧
    (sampleUsedList.Reset true true).1 = Except.ok () ∧
    (sampleUsedList.Reset true true).2.recorder.m_TrackedObjects = [] ∧
    (sampleUsedList.Reset true true).2.recorder.m_RootSignature = none ∧
    (sampleUsedList.Reset true true).2.m_ComputeCommandList = none ∧
    (∀ i, i < D3D12_DESCRIPTOR_HEAP_TYPE_NUM_TYPES →
      (sampleUsedList.Reset true true).2.recorder.m_DescriptorHeaps.getD i none = none) ∧
    ((CommandList.performAll sampleEnv [Operation.Draw 3 1 0 0] sampleSt.world
        (sampleUsedList.Reset true true).2).2.recorder.SetGraphicsRootSignature (some 7)).log =
      (CommandList.performAll sampleEnv [Operation.Draw 3 1 0 0] sampleSt.world
        (sampleUsedList.Reset true true).2).2.recorder.log ++
      [Event.ParseRootSignature 0 (some 7), Event.ParseRootSignature 1 (some 7),
       Event.ParseRootSignature 2 (some 7), Event.ParseRootSignature 3 (some 7),
       Event.Command (Command.SetGraphicsRootSignature (some 7)),
       Event.TrackResource (some (D3D12Object.rootSignature 7))] :=
  ⟨rfl, rfl, rfl, rfl, rfl,
    (C14_Reset sampleEnv sampleUsedList true true rfl).1,
    (C14_Reset sampleEnv sampleUsedList true true rfl).2.1,
    (C14_Reset sampleEnv sampleUsedList true true rfl).2.2.1,
    (C14_Reset sampleEnv sampleUsedList true true rfl).2.2.2.1,
    ((C14_Reset sampleEnv sampleUsedList true true rfl).2.2.2.2
      [Operation.Draw 3 1 0 0] sampleSt.world 7 (by decide)).1⟩

theorem find_insert_self (cache : TextureCache) (fileName : String) (r : D3D12Resource) :
    (cache.insert fileName r).find fileName = some r := by
  simp [TextureCache.insert, TextureCache.find, List.lookup]

theorem lookup_filter_ne (cache : List (String × D3D12Resource)) (fileName other : String)
    (h : other ≠ fileName) :
    List.lookup other (List.filter (fun e => e.1 ≠ fileName) cache) = List.lookup other cache := by
  have hof : (other == fileName) = false := by
    rw [beq_eq_false_iff_ne]
    exact h
  induction cache with
  | nil => rfl
  | cons e l ih =>
    simp only [ne_eq, decide_not] at ih ⊢
    by_cases he : e.1 = fileName
    · simp [List.filter_cons, he, List.lookup, hof, ih]
    · by_cases ho : other = e.1
      · simp [List.filter_cons, he, List.lookup, ho]
      · have hne : (other == e.1) = false := by
          rw [beq_eq_false_iff_ne]
          exact ho
        simp [List.filter_cons, he, List.lookup, hne, ih]

theorem find_insert_other (cache : TextureCache) (fileName other : String) (r : D3D12Resource)
    (h : other ≠ fileName) : (cache.insert fileName r).find other = cache.find other := by
  have hne : (other == fileName) = false := by
    rw [beq_eq_false_iff_ne]
    exact h
  simp only [TextureCache.insert, TextureCache.find, List.lookup, hne]
  exact lookup_filter_ne cache fileName other h

theorem filter_of_lookup_none (cache : List (String × D3D12Resource)) (fileName : String)
    (h : List.lookup fileName cache = none) :
    List.filter (fun e => e.1 ≠ fileName) cache = cache := by
  induction cache with
  | nil => rfl
  | cons e l ih =>
    by_cases he : fileName = e.1
    · simp [List.lookup, he] at h
    · have hne : (fileName == e.1) = false := by
        rw [beq_eq_false_iff_ne]
        exact he
      simp only [List.lookup, hne] at h
      have he1 : decide (e.1 ≠ fileName) = true := by
        rw [decide_eq_true_eq]
        exact fun x => he x.symm
      rw [List.filter_cons, he1, if_pos rfl, ih h]

theorem length_insert_new (cache : TextureCache) (fileName : String) (r : D3D12Resource)
    (h : cache.find fileName = none) :
    List.length (cache.insert fileName r) = List.length cache + 1 := by
  simp only [TextureCache.insert, List.length_cons]
  rw [filter_of_lookup_none cache fileName h]

/-- What `bindTexture` leaves behind: the texture is bound to the resource, the
cache and the compute command list are as before, and the recorder has made
no call but the format-support query of `SetD3D12Resource`. -/
theorem bindTexture_spec (env : Env) (textureUsage : Nat) (resource : D3D12Resource)
    (s : LoadState) :
    (s.bindTexture env textureUsage resource).2.texture.m_d3d12Resource = some resource ∧
    (s.bindTexture env textureUsage resource).2.ms_TextureCache = s.ms_TextureCache ∧
    (s.bindTexture env textureUsage resource).2.commandList.m_ComputeCommandList =
      s.commandList.m_ComputeCommandList ∧
    (s.bindTexture env textureUsage resource).2.commandList.recorder.log =
      s.commandList.recorder.log ++
        (if s.m_d3d12ClearValue.isSome then []
         else [Event.CheckFeatureSupport resource.desc.Format
           (env.succeeded s.world.deviceCalls)]) := by
  unfold LoadState.bindTexture
  simp only
  split
  · exact ⟨rfl, rfl, rfl, by simp⟩
  · by_cases hok : env.succeeded s.world.deviceCalls = true
    · simp [CommandList.onOwn, Op.CheckFeatureSupport, hok, Recorder.emit]
    · have hok1 : env.succeeded s.world.deviceCalls = false := by simpa using hok
      simp [CommandList.onOwn, Op.CheckFeatureSupport, hok1, Recorder.emit]

/-- The two ways `loadNew` ends: it throws and the cache is untouched, or it
returns and the cache has the file's entry added, for the resource the
texture is bound to. -/
theorem loadNew_cases (env : Env) (files : TextureFiles) (fileName : String)
    (textureUsage : Nat) (image : LoadedImage) (s : LoadState)
    (P : Except Err Unit × LoadState → Prop)
    (herr : ∀ e s1, s1.ms_TextureCache = s.ms_TextureCache → P (Except.error e, s1))
    (hok : ∀ s1 r, s1.ms_TextureCache = s.ms_TextureCache.insert fileName r →
      s1.texture.m_d3d12Resource = some r → P (Except.ok (), s1)) :
    P (s.loadNew env files fileName textureUsage image) := by
  unfold LoadState.loadNew
  simp only
  split
  · exact herr _ _ rfl
  · rename_i desc0 hdesc
    generalize Op.CreateCommittedResource_GetDesc env D3D12_HEAP_TYPE_DEFAULT desc0
      { desc0 with MipLevels := files.GetDesc_MipLevels desc0 } D3D12_RESOURCE_STATE_COMMON
      (St.mk s.world s.commandList.recorder) = res1
    obtain ⟨o1, s1⟩ := res1
    cases o1 with
    | error e => exact herr _ _ rfl
    | ok textureResource =>
      simp only
      generalize hs2 : ({ s with
        world := s1.world, commandList := { s.commandList with recorder := s1.cl } } :
          LoadState) = s2
      have hc2 : s2.ms_TextureCache = s.ms_TextureCache := by
        rw [← hs2]
      have h2 := bindTexture_spec env textureUsage textureResource s2
      generalize s2.bindTexture env textureUsage textureResource = res2 at h2
      obtain ⟨o2, s3⟩ := res2
      obtain ⟨ht3, hc3, -, -⟩ := h2
      simp only at ht3 hc3
      cases o2 with
      | error e => exact herr _ _ (hc3.trans hc2)
      | ok u =>
        simp only
        generalize s3.commandList.onOwn
          (do
            Op.AddGlobalResourceState (some textureResource) D3D12_RESOURCE_STATE_COMMON
            CopyTextureSubresource env
              (files.GetRequiredIntermediateSize textureResource 0 (u32 image.imageCount))
              s3.texture 0 (u32 image.imageCount)) s3.world = res3
        obtain ⟨o3, w3, c3⟩ := res3
        cases o3 with
        | error e => exact herr _ _ (hc3.trans hc2)
        | ok u3 =>
          simp only
          generalize (if image.imageCount < textureResource.desc.MipLevels then
                c3.GenerateMips env s3.texture w3
              else (Except.ok (), w3, c3)) = res4
          obtain ⟨o4, w4, c4⟩ := res4
          cases o4 with
          | error e => exact herr _ _ (hc3.trans hc2)
          | ok u4 =>
            refine hok _ textureResource ?_ ht3
            simp only [hc3, hc2]

/-- Claim C15.  For a file that exists: when the texture cache holds a
resource for the file name, `LoadTextureFromFile` binds the texture to that
resource, leaves the cache and the cached compute command list as they are
and records no command (its only call is the format-support query of
`SetD3D12Resource`); a load that returns for a name the cache does not hold
adds one entry, for that name and the texture's new resource, and changes no
other entry; a load that returns leaves the cache holding the texture's
resource for the name; and no load, returning or throwing, changes an entry
the cache holds.  So once a load of a name has returned, every later load of
that name binds to the same resource. -/
theorem C15_texture_cache (env : Env) (files : TextureFiles) (fileName : String)
    (textureUsage : Nat) (s : LoadState) (hfile : files.fileExists fileName = true) :
    (∀ r, s.ms_TextureCache.find fileName = some r →
      (s.LoadTextureFromFile env files fileName textureUsage).2.texture.m_d3d12Resource =
        some r ∧
      (s.LoadTextureFromFile env files fileName textureUsage).2.ms_TextureCache =
        s.ms_TextureCache ∧
      (s.LoadTextureFromFile env files fileName textureUsage).2.commandList.m_ComputeCommandList =
        s.commandList.m_ComputeCommandList ∧
      (s.LoadTextureFromFile env files fileName textureUsage).2.commandList.recorder.log =
        s.commandList.recorder.log ++
          (if s.m_d3d12ClearValue.isSome then []
           else [Event.CheckFeatureSupport r.desc.Format
             (env.succeeded s.world.deviceCalls)])) ∧
    (s.ms_TextureCache.find fileName = none →
      (s.LoadTextureFromFile env files fileName textureUsage).1 = Except.ok () →
      ∃ r, (s.LoadTextureFromFile env files fileName textureUsage).2.texture.m_d3d12Resource =
          some r ∧
        (s.LoadTextureFromFile env files fileName textureUsage).2.ms_TextureCache.find fileName =
          some r ∧
        (∀ other, other ≠ fileName →
          (s.LoadTextureFromFile env files fileName textureUsage).2.ms_TextureCache.find other =
            s.ms_TextureCache.find other) ∧
        List.length (s.LoadTextureFromFile env files fileName textureUsage).2.ms_TextureCache =
          List.length s.ms_TextureCache + 1) ∧
    ((s.LoadTextureFromFile env files fileName textureUsage).1 = Except.ok () →
      (s.LoadTextureFromFile env files fileName textureUsage).2.ms_TextureCache.find fileName =
        (s.LoadTextureFromFile env files fileName textureUsage).2.texture.m_d3d12Resource ∧
      ((s.LoadTextureFromFile env files fileName textureUsage).2.ms_TextureCache.find
        fileName).isSome = true) ∧
    (∀ other r, s.ms_TextureCache.find other = some r →
      (s.LoadTextureFromFile env files fileName textureUsage).2.ms_TextureCache.find other =
        some r) := by
  have hmiss : s.ms_TextureCache.find fileName = none →
      (s.LoadTextureFromFile env files fileName textureUsage).1 = Except.ok () →
      ∃ r, (s.LoadTextureFromFile env files fileName textureUsage).2.ms_TextureCache =
          s.ms_TextureCache.insert fileName r ∧
        (s.LoadTextureFromFile env files fileName textureUsage).2.texture.m_d3d12Resource =
          some r := by
    intro hnone hok
    unfold LoadState.LoadTextureFromFile at hok ⊢
    simp only [hfile, Bool.not_true, Bool.false_eq_true, if_false, hnone] at hok ⊢
    cases hl : files.LoadFromFile fileName with
    | none => simp [hl] at hok
    | some image =>
      simp only [hl] at hok ⊢
      revert hok
      refine loadNew_cases env files fileName textureUsage image s
        (fun out => out.1 = Except.ok () → ∃ r, out.2.ms_TextureCache =
          s.ms_TextureCache.insert fileName r ∧ out.2.texture.m_d3d12Resource = some r) ?_ ?_
      · intro e s1 _ hok
        cases hok
      · intro s1 r hc ht _
        exact ⟨r, hc, ht⟩
  have hhit : ∀ r, s.ms_TextureCache.find fileName = some r →
      s.LoadTextureFromFile env files fileName textureUsage =
        s.bindTexture env textureUsage r := by
    intro r hr
    unfold LoadState.LoadTextureFromFile
    simp only [hfile, Bool.not_true, Bool.false_eq_true, if_false, hr]
  have hkeep : ∀ other r, s.ms_TextureCache.find other = some r →
      (s.LoadTextureFromFile env files fileName textureUsage).2.ms_TextureCache.find other =
        some r := by
    intro other r hr
    cases hf : s.ms_TextureCache.find fileName with
    | some r0 =>
      rw [hhit r0 hf, (bindTexture_spec env textureUsage r0 s).2.1]
      exact hr
    | none =>
      have hne : other ≠ fileName := by
        intro he
        rw [he, hf] at hr
        cases hr
      unfold LoadState.LoadTextureFromFile
      simp only [hfile, Bool.not_true, Bool.false_eq_true, if_false, hf]
      cases hl : files.LoadFromFile fileName with
      | none => exact hr
      | some image =>
        simp only
        refine loadNew_cases env files fileName textureUsage image s
          (fun out => out.2.ms_TextureCache.find other = some r) ?_ ?_
        · intro e s1 hc
          simp only [hc]
          exact hr
        · intro s1 r1 hc _
          simp only [hc]
          rw [find_insert_other _ _ _ _ hne]
          exact hr
  refine ⟨?_, ?_, ?_, hkeep⟩
  · intro r hr
    rw [hhit r hr]
    exact bindTexture_spec env textureUsage r s
  · intro hnone hok
    obtain ⟨r, hc, ht⟩ := hmiss hnone hok
    refine ⟨r, ht, ?_, ?_, ?_⟩
    · rw [hc]
      exact find_insert_self _ _ _
    · intro other hne
      rw [hc]
      exact find_insert_other _ _ _ _ hne
    · rw [hc]
      exact length_insert_new _ _ _ hnone
  · intro hok
    cases hf : s.ms_TextureCache.find fileName with
    | some r0 =>
      have hb := bindTexture_spec env textureUsage r0 s
      rw [hhit r0 hf, hb.1, hb.2.1, hf]
      exact ⟨rfl, rfl⟩
    | none =>
      obtain ⟨r, hc, ht⟩ := hmiss hf hok
      rw [hc, ht, find_insert_self]
      exact ⟨rfl, rfl⟩

theorem C15_texture_cache_witness :
    sampleFiles.fileExists "a.png" = true ∧
    ((sampleLoadState.LoadTextureFromFile sampleEnv sampleFiles "a.png" 1).2.LoadTextureFromFile
      sampleEnv sampleFiles "a.png" 1).2.texture.m_d3d12Resource = some sampleLoaded :=
  ⟨rfl, ((C15_texture_cache sampleEnv sampleFiles "a.png" 1
    (sampleLoadState.LoadTextureFromFile sampleEnv sampleFiles "a.png" 1).2 rfl).1
      sampleLoaded (by decide)).1⟩

theorem device_CheckFeatureSupport (query : Nat → Nat → Option (Nat × Nat)) (r : Resource) :
    (r.CheckFeatureSupport query).2.m_Device = r.m_Device ∧
    (r.CheckFeatureSupport query).2.m_d3d12ClearValue = r.m_d3d12ClearValue := by
  unfold Resource.CheckFeatureSupport
  cases r.m_d3d12Resource with
  | none => exact ⟨rfl, rfl⟩
  | some resource =>
    cases hd : r.m_Device with
    | none => simp [hd]
    | some device =>
      simp only
      cases query device resource.desc.Format with
      | none => simp [hd]
      | some support => simp [hd]

theorem device_SetD3D12Resource (query : Nat → Nat → Option (Nat × Nat)) (device : Option Nat)
    (d3d12Resource : Option D3D12Resource) (clearValue : Option D3D12_CLEAR_VALUE)
    (r : Resource) :
    (r.SetD3D12Resource query device d3d12Resource clearValue).2.m_Device = device := by
  unfold Resource.SetD3D12Resource
  simp only
  split
  · cases clearValue with
    | none => rfl
    | some value =>
      simp only
      have h := (device_CheckFeatureSupport query
        { r with m_Device := device, m_d3d12Resource := d3d12Resource,
                 m_d3d12ClearValue := some value }).1
      generalize Resource.CheckFeatureSupport query
        { r with m_Device := device, m_d3d12Resource := d3d12Resource,
                 m_d3d12ClearValue := some value } = res at h
      obtain ⟨o, r1⟩ := res
      cases o <;> exact h
  · have h := (device_CheckFeatureSupport query
      { r with m_Device := device, m_d3d12Resource := d3d12Resource,
               m_d3d12ClearValue := none }).1
    generalize Resource.CheckFeatureSupport query
      { r with m_Device := device, m_d3d12Resource := d3d12Resource,
               m_d3d12ClearValue := none } = res at h
    obtain ⟨o, r1⟩ := res
    cases o <;> exact h

/-- Claim C16 as stated fails: a resource bound to device 1 is bound to device
2 after `SetD3D12Resource` with device 2, and after the copy assignment of a
resource bound to device 2. -/
theorem C16_counterexample :
    sampleBound.m_Device = some 1 ∧
    (Resource.applyAll sampleQuery
      [ResourceOp.SetD3D12Resource (some 2) (some (sampleResource 8 8 1 0))
        (some { Format := 28, Value := 7 })] sampleBound).m_Device = some 2 ∧
    (Resource.applyAll sampleQuery
      [ResourceOp.copyAssign { sampleBound with m_Device := some 2 }] sampleBound).m_Device =
        some 2 := by
  decide

/-- Claim C16, amended.  `SetName`, `Reset` and the assignment of a resource
to itself leave the device of a `Resource` as it is; `SetD3D12Resource` sets
it to its device argument, whether it returns or throws; the copy and the
move assignment of another object set it to the device of that object.  So
through every sequence of these operations in which each `SetD3D12Resource`
is handed the device `d` and each assignment has a source bound to `d`, a
resource bound to `d` is bound to `d` at every point. -/
theorem C16_device_kept (query : Nat → Nat → Option (Nat × Nat)) (r : Resource) :
    (∀ name, (r.apply query (ResourceOp.SetName name)).m_Device = r.m_Device) ∧
    (r.apply query ResourceOp.Reset).m_Device = r.m_Device ∧
    (r.apply query ResourceOp.selfAssign).m_Device = r.m_Device ∧
    (∀ device d3d12Resource clearValue,
      (r.apply query (ResourceOp.SetD3D12Resource device d3d12Resource clearValue)).m_Device =
        device) ∧
    (∀ other, (r.apply query (ResourceOp.copyAssign other)).m_Device = other.m_Device) ∧
    (∀ other, (r.apply query (ResourceOp.moveAssign other)).m_Device = other.m_Device) ∧
    (∀ (d : Nat) (ops : List ResourceOp), r.m_Device = some d →
      (∀ op ∈ ops, op.keepsDevice d = true) →
      ∀ n, (Resource.applyAll query (ops.take n) r).m_Device = some d) := by
  refine ⟨fun _ => rfl, rfl, rfl, fun device d3d12Resource clearValue =>
    device_SetD3D12Resource query device d3d12Resource clearValue r, fun _ => rfl, fun _ => rfl,
    ?_⟩
  intro d ops
  induction ops generalizing r with
  | nil =>
    intro hd _ n
    simpa [Resource.applyAll] using hd
  | cons op rest ih =>
    intro hd hops n
    cases n with
    | zero => simpa [Resource.applyAll] using hd
    | succ n =>
      simp only [List.take_succ_cons, Resource.applyAll]
      refine ih (r.apply query op) ?_ (fun o ho => hops o (List.mem_cons_of_mem _ ho)) n
      have hop := hops op (List.mem_cons_self _ _)
      cases op with
      | SetD3D12Resource device d3d12Resource clearValue =>
        simp only [ResourceOp.keepsDevice, beq_iff_eq] at hop
        rw [← hop]
        exact device_SetD3D12Resource query device d3d12Resource clearValue r
      | copyAssign other =>
        simp only [ResourceOp.keepsDevice, beq_iff_eq] at hop
        exact hop
      | moveAssign other =>
        simp only [ResourceOp.keepsDevice, beq_iff_eq] at hop
        exact hop
      | selfAssign => exact hd
      | movedFrom => simp [ResourceOp.keepsDevice] at hop
      | SetName name => exact hd
      | Reset => exact hd

theorem C16_device_kept_witness :
    sampleBound.m_Device = some 1 ∧
    (Resource.applyAll sampleQuery
      ([ResourceOp.Reset, ResourceOp.SetD3D12Resource (some 1) none none,
        ResourceOp.SetName "a"].take 3) sampleBound).m_Device = some 1 :=
  ⟨rfl, (C16_device_kept sampleQuery sampleBound).2.2.2.2.2.2 1
    [ResourceOp.Reset, ResourceOp.SetD3D12Resource (some 1) none none, ResourceOp.SetName "a"]
    rfl (by decide) 3⟩

/-- Claim C17 as stated fails: a resource holding the clear value `(28, 7)`
holds none after `Reset`, and holds `(28, 9)` after the copy assignment of a
resource holding `(28, 9)`. -/
theorem C17_counterexample :
    sampleBound.m_d3d12ClearValue = some { Format := 28, Value := 7 } ∧
    (Resource.applyAll sampleQuery [ResourceOp.Reset] sampleBound).m_d3d12ClearValue = none ∧
    (Resource.applyAll sampleQuery
      [ResourceOp.copyAssign
        { sampleBound with m_d3d12ClearValue := some { Format := 28, Value := 9 } }]
      sampleBound).m_d3d12ClearValue = some { Format := 28, Value := 9 } := by
  decide

/-- Claim C17, amended.  `SetName` and the assignment of a resource to itself
leave the clear value of a `Resource` as it is; `Reset` removes it; the copy
assignment of another object that holds a clear value takes that value; the
move assignment takes the other object's.  So through every sequence of
`SetName` calls, self-assignments and copy or move assignments from sources
holding `v`, a resource holding the clear value `v` holds `v` at every
point. -/
theorem C17_clear_value_kept (query : Nat → Nat → Option (Nat × Nat)) (r : Resource) :
    (∀ name, (r.apply query (ResourceOp.SetName name)).m_d3d12ClearValue =
      r.m_d3d12ClearValue) ∧
    (r.apply query ResourceOp.selfAssign).m_d3d12ClearValue = r.m_d3d12ClearValue ∧
    (r.apply query ResourceOp.Reset).m_d3d12ClearValue = none ∧
    (∀ (other : Resource) (w : D3D12_CLEAR_VALUE),
      (r.apply query
        (ResourceOp.copyAssign { other with m_d3d12ClearValue := some w })).m_d3d12ClearValue =
        some w) ∧
    (∀ other, (r.apply query (ResourceOp.moveAssign other)).m_d3d12ClearValue =
      other.m_d3d12ClearValue) ∧
    (∀ (v : D3D12_CLEAR_VALUE) (ops : List ResourceOp), r.m_d3d12ClearValue = some v →
      (∀ op ∈ ops, op.keepsClearValue v = true) →
      ∀ n, (Resource.applyAll query (ops.take n) r).m_d3d12ClearValue = some v) := by
  refine ⟨fun _ => rfl, rfl, rfl, fun _ _ => rfl, fun _ => rfl, ?_⟩
  intro v ops
  induction ops generalizing r with
  | nil =>
    intro hv _ n
    simpa [Resource.applyAll] using hv
  | cons op rest ih =>
    intro hv hops n
    cases n with
    | zero => simpa [Resource.applyAll] using hv
    | succ n =>
      simp only [List.take_succ_cons, Resource.applyAll]
      refine ih (r.apply query op) ?_ (fun o ho => hops o (List.mem_cons_of_mem _ ho)) n
      have hop := hops op (List.mem_cons_self _ _)
      cases op with
      | SetD3D12Resource device d3d12Resource clearValue =>
        simp [ResourceOp.keepsClearValue] at hop
      | copyAssign other =>
        simp only [ResourceOp.keepsClearValue, beq_iff_eq] at hop
        show (if other.m_d3d12ClearValue.isSome then other.m_d3d12ClearValue
          else r.m_d3d12ClearValue) = some v
        simp [hop]
      | moveAssign other =>
        simp only [ResourceOp.keepsClearValue, beq_iff_eq] at hop
        exact hop
      | selfAssign => exact hv
      | movedFrom => simp [ResourceOp.keepsClearValue] at hop
      | SetName name => exact hv
      | Reset => simp [ResourceOp.keepsClearValue] at hop

/-- The amended claim C17 at a resource holding `(28, 7)`: it holds `(28, 7)`
after `SetName`, the copy assignment of a resource on another device that
holds `(28, 7)`, and the assignment to itself. -/
theorem C17_clear_value_kept_witness :
    sampleBound.m_d3d12ClearValue = some { Format := 28, Value := 7 } ∧
    (Resource.applyAll sampleQuery
      ([ResourceOp.SetName "a", ResourceOp.copyAssign sampleOther,
        ResourceOp.selfAssign].take 3)
      sampleBound).m_d3d12ClearValue = some { Format := 28, Value := 7 } :=
  ⟨rfl, (C17_clear_value_kept sampleQuery sampleBound).2.2.2.2.2
    { Format := 28, Value := 7 }
    [ResourceOp.SetName "a", ResourceOp.copyAssign sampleOther, ResourceOp.selfAssign]
    rfl (by decide) 3⟩

/-- What `Present` leaves behind, by the outcome of its two fallible calls. -/
theorem Present_spec (sw : Nat → Nat) (input : PresentInput) (a : App) :
    (a.Present sw input).1 =
      (if input.presentOk && input.signalOk then Except.ok ()
       else Except.error Err.ThrowIfFailed) ∧
    (a.Present sw input).2.g_NumFrames = a.g_NumFrames ∧
    (a.Present sw input).2.activeNodeIndex =
      (if input.presentOk && input.signalOk then sw a.activeNodeIndex
       else a.activeNodeIndex) ∧
    (a.Present sw input).2.g_FrameIndex =
      (if input.presentOk && input.signalOk then
        (if sw a.activeNodeIndex = 0 then u32 (a.g_FrameIndex + 1) % a.g_NumFrames
         else a.g_FrameIndex)
       else a.g_FrameIndex) ∧
    (a.Present sw input).2.g_FenceValue =
      (if input.presentOk then u64 (a.g_FenceValue + 1) else a.g_FenceValue) ∧
    (a.Present sw input).2.g_FenceValues =
      (if input.presentOk && input.signalOk then
        a.g_FenceValues.set input.backBufferIndex (u64 (a.g_FenceValue + 1))
       else a.g_FenceValues) ∧
    (a.Present sw input).2.fenceTableWrites =
      a.fenceTableWrites ++
        (if input.presentOk && input.signalOk then [u64 (a.g_FenceValue + 1)] else []) := by
  obtain ⟨i, p, s⟩ := input
  cases p <;> cases s <;> by_cases h0 : sw a.activeNodeIndex = 0 <;>
    simp [App.Present, App.Signal, App.emit, App.fenceTableWrites, h0, List.filterMap_append]

/-- Claim C18.  A call of `Present` returns exactly when the swap chain's
`Present` and the queue's `Signal` succeed, and throws otherwise.  A call that
returns has switched the device to the next node, and has changed the frame
index only when the active node index is then zero, to
`(frameIndex + 1) mod numFrames`; a call that throws leaves node and frame
index as they were.  So `frameIndex < numFrames`, once true, is true before
and after every call of `Present`, and it is true at start-up, where the
frame index is 0 and `g_NumFrames` is 1 or 2: indexing the `g_NumFrames`
command allocators by the frame index is in bounds. -/
theorem C18_frame_index (sw : Nat → Nat) (a : App) :
    (∀ input : PresentInput,
      (a.Present sw input).1 =
        (if input.presentOk && input.signalOk then Except.ok ()
         else Except.error Err.ThrowIfFailed) ∧
      (a.Present sw input).2.activeNodeIndex =
        (if input.presentOk && input.signalOk then sw a.activeNodeIndex
         else a.activeNodeIndex) ∧
      (a.Present sw input).2.g_FrameIndex =
        (if input.presentOk && input.signalOk then
          (if sw a.activeNodeIndex = 0 then u32 (a.g_FrameIndex + 1) % a.g_NumFrames
           else a.g_FrameIndex)
         else a.g_FrameIndex) ∧
      (AppEvent.SwitchToNextNode ∈ (a.Present sw input).2.log.drop a.log.length ↔
        (input.presentOk && input.signalOk) = true)) ∧
    (∀ input : PresentInput, (a.Present sw input).1 = Except.ok () →
      (a.Present sw input).2.activeNodeIndex = sw a.activeNodeIndex ∧
      (a.Present sw input).2.g_FrameIndex =
        (if (a.Present sw input).2.activeNodeIndex = 0 then
          u32 (a.g_FrameIndex + 1) % a.g_NumFrames
         else a.g_FrameIndex)) ∧
    (∀ (input : PresentInput) (e : Err), (a.Present sw input).1 = Except.error e →
      (a.Present sw input).2.activeNodeIndex = a.activeNodeIndex ∧
      (a.Present sw input).2.g_FrameIndex = a.g_FrameIndex) ∧
    (a.g_FrameIndex < a.g_NumFrames → a.g_NumFrames < 4294967296 →
      u32 (a.g_FrameIndex + 1) % a.g_NumFrames = (a.g_FrameIndex + 1) % a.g_NumFrames) ∧
    (∀ inputs : List PresentInput, a.g_FrameIndex < a.g_NumFrames →
      ∀ s ∈ App.trace sw inputs a, s.g_FrameIndex < s.g_NumFrames) ∧
    (∀ (nodeCount backBufferCount : Nat) (inputs : List PresentInput),
      ∀ s ∈ App.trace sw inputs (App.initial (numFramesFor nodeCount) backBufferCount),
        s.g_NumFrames = numFramesFor nodeCount ∧ s.g_FrameIndex < numFramesFor nodeCount) := by
  have hstep : ∀ (a : App) (input : PresentInput), a.g_FrameIndex < a.g_NumFrames →
      (a.Present sw input).2.g_FrameIndex < (a.Present sw input).2.g_NumFrames := by
    intro a input h
    obtain ⟨-, h2, -, h4, -⟩ := Present_spec sw input a
    rw [h2, h4]
    split
    · split
      · exact Nat.mod_lt _ (by omega)
      · exact h
    · exact h
  have hinv : ∀ (inputs : List PresentInput) (a : App), a.g_FrameIndex < a.g_NumFrames →
      ∀ s ∈ App.trace sw inputs a, s.g_FrameIndex < s.g_NumFrames ∧
        s.g_NumFrames = a.g_NumFrames := by
    intro inputs
    induction inputs with
    | nil =>
      intro a h s hs
      simp only [App.trace, List.mem_singleton] at hs
      subst hs
      exact ⟨h, rfl⟩
    | cons input rest ih =>
      intro a h s hs
      simp only [App.trace, List.mem_cons] at hs
      rcases hs with hs | hs
      · subst hs
        exact ⟨h, rfl⟩
      · obtain ⟨h1, h2⟩ := ih _ (hstep a input h) s hs
        exact ⟨h1, h2.trans (Present_spec sw input a).2.1⟩
  refine ⟨?_, ?_, ?_, ?_, fun inputs h s hs => (hinv inputs a h s hs).1, ?_⟩
  · intro input
    obtain ⟨h1, -, h3, h4, -⟩ := Present_spec sw input a
    refine ⟨h1, h3, h4, ?_⟩
    obtain ⟨i, p, s⟩ := input
    cases p <;> cases s <;> by_cases h0 : sw a.activeNodeIndex = 0 <;>
      simp [App.Present, App.Signal, App.emit, h0]
  · intro input hok
    obtain ⟨h1, -, h3, h4, -⟩ := Present_spec sw input a
    rw [h1] at hok
    have hb : (input.presentOk && input.signalOk) = true := by
      by_contra hb
      simp [hb] at hok
    rw [h3, h4]
    simp [hb]
  · intro input e herr
    obtain ⟨h1, -, h3, h4, -⟩ := Present_spec sw input a
    rw [h1] at herr
    have hb : (input.presentOk && input.signalOk) = false := by
      cases hb : (input.presentOk && input.signalOk)
      · rfl
      · simp [hb] at herr
    rw [h3, h4]
    simp [hb]
  · intro h hn
    rw [u32_of_lt (by omega)]
  · intro nodeCount backBufferCount inputs s hs
    have h0 : (App.initial (numFramesFor nodeCount) backBufferCount).g_FrameIndex <
        (App.initial (numFramesFor nodeCount) backBufferCount).g_NumFrames := by
      simp only [App.initial, numFramesFor]
      split <;> omega
    obtain ⟨h1, h2⟩ := hinv inputs _ h0 s hs
    have h3 : s.g_NumFrames = numFramesFor nodeCount := h2
    exact ⟨h3, h3 ▸ h1⟩

/-- Claim C18 on the sample of two frames and two nodes: the first call of
`Present` returns and switches from node 0 to node 1, leaving the frame index
at 0, the second returns, switches back to node 0 and moves the frame
index to 1, and the frame index is below the number of frames throughout. -/
theorem C18_frame_index_witness :
    (App.initial 2 2).g_FrameIndex < (App.initial 2 2).g_NumFrames ∧
    ((App.initial 2 2).Present switchOfTwo (presentOn 0)).1 = Except.ok () ∧
    ((App.initial 2 2).Present switchOfTwo (presentOn 0)).2.activeNodeIndex = 1 ∧
    ((App.initial 2 2).Present switchOfTwo (presentOn 0)).2.g_FrameIndex = 0 ∧
    (App.presents switchOfTwo [presentOn 0, presentOn 1] (App.initial 2 2)).activeNodeIndex =
      0 ∧
    (App.presents switchOfTwo [presentOn 0, presentOn 1] (App.initial 2 2)).g_FrameIndex = 1 ∧
    ∀ s ∈ App.trace switchOfTwo [presentOn 0, presentOn 1] (App.initial 2 2),
      s.g_FrameIndex < s.g_NumFrames :=
  ⟨by decide,
    ((C18_frame_index switchOfTwo (App.initial 2 2)).1 (presentOn 0)).1,
    ((C18_frame_index switchOfTwo (App.initial 2 2)).2.1 (presentOn 0) rfl).1,
    ((C18_frame_index switchOfTwo (App.initial 2 2)).2.1 (presentOn 0) rfl).2,
    ((C18_frame_index switchOfTwo
      ((App.initial 2 2).Present switchOfTwo (presentOn 0)).2).2.1 (presentOn 1) rfl).1,
    ((C18_frame_index switchOfTwo
      ((App.initial 2 2).Present switchOfTwo (presentOn 0)).2).2.1 (presentOn 1) rfl).2,
    (C18_frame_index switchOfTwo (App.initial 2 2)).2.2.2.2.1
      [presentOn 0, presentOn 1] (by decide)⟩

theorem pace_presentOn (sw : Nat → Nat) (i : Nat) (a : App) :
    (a.Present sw (presentOn i)).2.pace =
      (sw a.activeNodeIndex,
        (if sw a.activeNodeIndex = 0 then u32 (a.g_FrameIndex + 1) % a.g_NumFrames
         else a.g_FrameIndex), a.g_NumFrames) := by
  obtain ⟨-, h2, h3, h4, -⟩ := Present_spec sw (presentOn i) a
  simp only [App.pace, h2, h3, h4]
  simp [presentOn]

/-- The nodes and frame indices along a run of calls of `Present` that meet no
failure depend neither on the back buffers presented nor on the fence table. -/
theorem trace_pace (sw : Nat → Nat) (is : List Nat) (a b : App) (h : a.pace = b.pace) :
    (App.trace sw (is.map presentOn) a).map App.pace =
      (App.trace sw ((is.map (fun _ => 0)).map presentOn) b).map App.pace := by
  induction is generalizing a b with
  | nil => simp [App.trace, h]
  | cons i rest ih =>
    simp only [List.map_cons, App.trace, h, List.cons.injEq, true_and]
    apply ih
    rw [pace_presentOn, pace_presentOn]
    simp only [App.pace, Prod.mk.injEq] at h
    obtain ⟨h1, h2, h3⟩ := h
    rw [h1, h2, h3]

theorem renderNodes_eq (sw : Nat → Nat) (inputs : List PresentInput) (a : App) :
    App.renderNodes sw inputs a =
      (((App.trace sw inputs a).map App.pace).take inputs.length).map (fun p => p.1) := by
  simp [App.renderNodes, List.map_take, App.pace, Function.comp_def]

theorem framesAtNodeZero_eq (states : List App) :
    framesAtNodeZero states =
      ((states.map App.pace).filter (fun p => p.1 = 0)).map (fun p => p.2.1) := by
  simp [framesAtNodeZero, List.filter_map, App.pace, Function.comp_def]

/-- Claim C19 as stated fails: with two nodes and two frames, from node 0 and
frame index 0, four calls of `Present` render on the nodes 0, 1, 0, 1, but
the frame indices observed where the active node is 0 are 0, 1 at the calls
and 0, 1, 0 with the state the fourth call leaves, not 0, 1, 0, 1. -/
theorem C19_counterexample :
    App.renderNodes switchOfTwo [presentOn 0, presentOn 1, presentOn 0, presentOn 1]
      (App.initial 2 2) = [0, 1, 0, 1] ∧
    framesAtNodeZero
      ((App.trace switchOfTwo [presentOn 0, presentOn 1, presentOn 0, presentOn 1]
        (App.initial 2 2)).take 4) = [0, 1] ∧
    framesAtNodeZero
      (App.trace switchOfTwo [presentOn 0, presentOn 1, presentOn 0, presentOn 1]
        (App.initial 2 2)) = [0, 1, 0] ∧
    framesAtNodeZero
      (App.trace switchOfTwo [presentOn 0, presentOn 1, presentOn 0, presentOn 1]
        (App.initial 2 2)) ≠ [0, 1, 0, 1] := by
  decide

/-- Claim C19, amended.  With two nodes and two frames, from node 0 and frame
index 0 and the node switch `(node + 1) mod 2`, four successive calls of
`Present` that return, whatever back buffers they present, render on the
nodes 0, 1, 0, 1; the frame indices observed at the calls where the active
node is 0 are 0, 1 (and 0 again in the state the fourth call leaves); over
eight successive calls they are 0, 1, 0, 1. -/
theorem C19_AFR_alternation (n i1 i2 i3 i4 i5 i6 i7 i8 : Nat) :
    App.renderNodes switchOfTwo [presentOn i1, presentOn i2, presentOn i3, presentOn i4]
      (App.initial 2 n) = [0, 1, 0, 1] ∧
    framesAtNodeZero
      ((App.trace switchOfTwo [presentOn i1, presentOn i2, presentOn i3, presentOn i4]
        (App.initial 2 n)).take 4) = [0, 1] ∧
    framesAtNodeZero
      (App.trace switchOfTwo [presentOn i1, presentOn i2, presentOn i3, presentOn i4]
        (App.initial 2 n)) = [0, 1, 0] ∧
    App.renderNodes switchOfTwo
      [presentOn i1, presentOn i2, presentOn i3, presentOn i4, presentOn i5, presentOn i6,
       presentOn i7, presentOn i8] (App.initial 2 n) = [0, 1, 0, 1, 0, 1, 0, 1] ∧
    framesAtNodeZero
      ((App.trace switchOfTwo
        [presentOn i1, presentOn i2, presentOn i3, presentOn i4, presentOn i5, presentOn i6,
         presentOn i7, presentOn i8] (App.initial 2 n)).take 8) = [0, 1, 0, 1] := by
  have h4 := trace_pace switchOfTwo [i1, i2, i3, i4] (App.initial 2 n) (App.initial 2 0) rfl
  have h8 := trace_pace switchOfTwo [i1, i2, i3, i4, i5, i6, i7, i8] (App.initial 2 n)
    (App.initial 2 0) rfl
  simp only [List.map_cons, List.map_nil] at h4 h8
  refine ⟨?_, ?_, ?_, ?_, ?_⟩
  · rw [renderNodes_eq, h4]
    simp only [List.length_cons, List.length_nil]
    decide
  · rw [framesAtNodeZero_eq, List.map_take, h4]
    decide
  · rw [framesAtNodeZero_eq, h4]
    decide
  · rw [renderNodes_eq, h8]
    simp only [List.length_cons, List.length_nil]
    decide
  · rw [framesAtNodeZero_eq, List.map_take, h8]
    decide

theorem u64_of_lt {x : Nat} (h : x < 18446744073709551616) : u64 x = x := by
  unfold u64
  omega

theorem fenceOrdered_Present (sw : Nat → Nat) (input : PresentInput) (a : App)
    (h : a.FenceOrdered) (hw : a.g_FenceValue + 1 < 18446744073709551616) :
    (a.Present sw input).2.FenceOrdered ∧
    a.g_FenceValue ≤ (a.Present sw input).2.g_FenceValue ∧
    (a.Present sw input).2.g_FenceValue ≤ a.g_FenceValue + 1 ∧
    (∀ i, a.g_FenceValues.getD i 0 ≤ (a.Present sw input).2.g_FenceValues.getD i 0) := by
  obtain ⟨-, -, -, -, h5, h6, h7⟩ := Present_spec sw input a
  obtain ⟨t1, t2, t3⟩ := h
  rw [u64_of_lt hw] at h5 h6 h7
  have hge : a.g_FenceValue ≤ (a.Present sw input).2.g_FenceValue := by
    rw [h5]
    split <;> omega
  have hle : (a.Present sw input).2.g_FenceValue ≤ a.g_FenceValue + 1 := by
    rw [h5]
    split <;> omega
  by_cases hb : (input.presentOk && input.signalOk) = true
  · have hp : input.presentOk = true := by
      cases hp : input.presentOk
      · simp [hp] at hb
      · rfl
    simp only [hb, if_true] at h6 h7
    simp only [hp, if_true] at h5
    refine ⟨⟨?_, ?_, ?_⟩, hge, hle, ?_⟩
    · intro v hv
      rw [h6] at hv
      rw [h5]
      rcases List.mem_or_eq_of_mem_set hv with hv | hv
      · have := t1 v hv
        omega
      · omega
    · intro v hv
      rw [h7] at hv
      rw [h5]
      rcases List.mem_append.1 hv with hv | hv
      · have := t2 v hv
        omega
      · simp only [List.mem_singleton] at hv
        omega
    · rw [h7, List.pairwise_append]
      refine ⟨t3, List.pairwise_singleton _ _, ?_⟩
      intro x hx y hy
      simp only [List.mem_singleton] at hy
      have := t2 x hx
      omega
    · intro i
      rw [h6]
      by_cases hi : i = input.backBufferIndex
      · subst hi
        by_cases hlen : input.backBufferIndex < a.g_FenceValues.length
        · have hmem : a.g_FenceValues.getD input.backBufferIndex 0 ∈ a.g_FenceValues := by
            rw [List.getD_eq_getElem _ _ hlen]
            exact List.getElem_mem _
          have := t1 _ hmem
          rw [List.getD_eq_getElem?_getD, List.getD_eq_getElem?_getD, List.getElem?_set_self hlen]
          simp only [Option.getD_some]
          rw [← List.getD_eq_getElem?_getD]
          omega
        · rw [List.set_eq_of_length_le (by omega)]
      · rw [List.getD_eq_getElem?_getD, List.getD_eq_getElem?_getD,
          List.getElem?_set_ne (fun h => hi h.symm)]
  · have hb1 : (input.presentOk && input.signalOk) = false := by simpa using hb
    simp only [hb1, Bool.false_eq_true, if_false, List.append_nil] at h6 h7
    refine ⟨⟨?_, ?_, ?_⟩, hge, hle, ?_⟩
    · intro v hv
      rw [h6] at hv
      have := t1 v hv
      omega
    · intro v hv
      rw [h7] at hv
      have := t2 v hv
      omega
    · rw [h7]
      exact t3
    · intro i
      rw [h6]

theorem fenceOrdered_presents (sw : Nat → Nat) (inputs : List PresentInput) (a : App)
    (h : a.FenceOrdered) (hw : a.g_FenceValue + inputs.length < 18446744073709551616) :
    (App.presents sw inputs a).FenceOrdered ∧
    (∀ i, a.g_FenceValues.getD i 0 ≤ (App.presents sw inputs a).g_FenceValues.getD i 0) := by
  induction inputs generalizing a with
  | nil => exact ⟨h, fun i => Nat.le_refl _⟩
  | cons input rest ih =>
    simp only [List.length_cons] at hw
    obtain ⟨h1, h2, h3, h4⟩ := fenceOrdered_Present sw input a h (by omega)
    obtain ⟨h5, h6⟩ := ih (a.Present sw input).2 h1 (by omega)
    exact ⟨h5, fun i => (h4 i).trans (h6 i)⟩

/-- Claim C20.  `Signal` stores the fence counter plus one as the new counter
and returns it, and keeps the counter a bound of the table.  So, the counter not wrapping around `2^64` in the run, along
every run of calls of `Present` from start-up (counter and table all zero),
or from any state in which the counter bounds the table and the values stored
so far, the values `Present` stores to `g_FenceValues` are strictly
increasing in the order of the stores, and no slot of the table ever holds
less than it held before. -/
theorem C20_fence_values_monotone (sw : Nat → Nat) (a : App) :
    (∀ signalOk : Bool, a.g_FenceValue + 1 < 18446744073709551616 →
      (a.Signal signalOk).2.g_FenceValue = a.g_FenceValue + 1 ∧
      (∀ v, (a.Signal signalOk).1 = Except.ok v → v = a.g_FenceValue + 1) ∧
      (a.FenceOrdered → (a.Signal signalOk).2.FenceOrdered)) ∧
    (∀ inputs : List PresentInput, a.FenceOrdered →
      a.g_FenceValue + inputs.length < 18446744073709551616 →
      (App.presents sw inputs a).fenceTableWrites.Pairwise (fun x y => x < y) ∧
      (∀ i, a.g_FenceValues.getD i 0 ≤ (App.presents sw inputs a).g_FenceValues.getD i 0) ∧
      (App.presents sw inputs a).FenceOrdered) ∧
    (∀ (numFrames backBufferCount : Nat) (inputs : List PresentInput),
      inputs.length < 18446744073709551616 →
      (App.presents sw inputs
        (App.initial numFrames backBufferCount)).fenceTableWrites.Pairwise (fun x y => x < y)) := by
  refine ⟨?_, ?_, ?_⟩
  · intro signalOk hw
    refine ⟨?_, ?_, ?_⟩
    · cases signalOk <;> simp [App.Signal, App.emit, u64_of_lt hw]
    · cases signalOk <;> simp [App.Signal, App.emit, u64_of_lt hw]
    · intro h
      obtain ⟨t1, t2, t3⟩ := h
      have hv : (a.Signal signalOk).2.g_FenceValue = a.g_FenceValue + 1 := by
        cases signalOk <;> simp [App.Signal, App.emit, u64_of_lt hw]
      have ht : (a.Signal signalOk).2.g_FenceValues = a.g_FenceValues := by
        cases signalOk <;> simp [App.Signal, App.emit]
      have hwr : (a.Signal signalOk).2.fenceTableWrites = a.fenceTableWrites := by
        cases signalOk <;>
          simp [App.Signal, App.emit, App.fenceTableWrites, List.filterMap_append]
      refine ⟨?_, ?_, ?_⟩
      · intro v hm
        rw [ht] at hm
        have := t1 v hm
        omega
      · intro v hm
        rw [hwr] at hm
        have := t2 v hm
        omega
      · rw [hwr]
        exact t3
  · intro inputs h hw
    obtain ⟨h1, h2⟩ := fenceOrdered_presents sw inputs a h hw
    exact ⟨h1.2.2, h2, h1⟩
  · intro numFrames backBufferCount inputs hw
    have h0 : (App.initial numFrames backBufferCount).FenceOrdered := by
      refine ⟨?_, ?_, ?_⟩
      · intro v hv
        simp only [App.initial, List.mem_replicate] at hv
        simp [App.initial, hv.2]
      · intro v hv
        simp [App.initial, App.fenceTableWrites] at hv
      · simp [App.initial, App.fenceTableWrites]
    exact (fenceOrdered_presents sw inputs _ h0 (by simpa [App.initial] using hw)).1.2.2

theorem C20_fence_values_monotone_witness :
    (App.initial 2 2).g_FenceValue + 1 < 18446744073709551616 ∧
    ((App.initial 2 2).Signal true).2.g_FenceValue = (App.initial 2 2).g_FenceValue + 1 :=
  ⟨by decide, ((C20_fence_values_monotone switchOfTwo (App.initial 2 2)).1 true
    (by decide)).1⟩

theorem and_ne_zero_iff_testBit (a m : Nat) :
    ((a &&& m) != 0) = true ↔ ∃ i, m.testBit i = true ∧ a.testBit i = true := by
  rw [bne_iff_ne]
  constructor
  · intro h
    obtain ⟨i, hi⟩ := Nat.ne_zero_implies_bit_true h
    rw [Nat.testBit_and, Bool.and_eq_true] at hi
    exact ⟨i, hi.2, hi.1⟩
  · rintro ⟨i, hm, ha⟩ h0
    have : (a &&& m).testBit i = true := by
      rw [Nat.testBit_and, ha, hm]; rfl
    rw [h0, Nat.zero_testBit] at this
    exact Bool.noConfusion this

/-- C22: `Resource::CheckFormatSupport(mask)` is true exactly when some bit of
`mask` is set in the stored `Support1` (for the `D3D12_FORMAT_SUPPORT2`
overload, `Support2`) bitmask, so it is false for the empty mask.  The stored
bitmasks are those the device reports: on a resource with an underlying
resource and a device, `CheckFeatureSupport` stores the format of the resource
and, when the device's query succeeds, the two bitmasks it answers for that
format, and throws when it fails.  On a resource with no underlying resource
`CheckFeatureSupport` returns and zeroes the bitmasks, as `Reset` does, and
both overloads are then false for every mask.  The source of a move
construction, though, is left with no underlying resource and the bitmasks it
had: for the sample resource, whose masks are 3 and 1, both overloads are
true for the mask 1 after the move. -/
theorem C22_CheckFormatSupport (query : Nat → Nat → Option (Nat × Nat)) (r : Resource)
    (mask device : Nat) (resource : D3D12Resource) :
    (r.CheckFormatSupport1 mask = true ↔
        ∃ i, mask.testBit i = true ∧ r.m_FormatSupport.Support1.testBit i = true) ∧
      (r.CheckFormatSupport2 mask = true ↔
        ∃ i, mask.testBit i = true ∧ r.m_FormatSupport.Support2.testBit i = true) ∧
      r.CheckFormatSupport1 0 = false ∧ r.CheckFormatSupport2 0 = false ∧
      Resource.CheckFeatureSupport query
          { r with m_Device := some device, m_d3d12Resource := some resource } =
        (match query device resource.desc.Format with
          | some support =>
            (Except.ok (),
              { r with
                m_Device := some device, m_d3d12Resource := some resource
                m_FormatSupport :=
                  { Format := resource.desc.Format, Support1 := support.1,
                    Support2 := support.2 } })
          | none =>
            (Except.error Err.ThrowIfFailed,
              { r with
                m_Device := some device, m_d3d12Resource := some resource
                m_FormatSupport :=
                  { r.m_FormatSupport with Format := resource.desc.Format } })) ∧
      (Resource.CheckFeatureSupport query { r with m_d3d12Resource := none }).1 = Except.ok () ∧
      (Resource.CheckFeatureSupport query { r with m_d3d12Resource := none }).2.CheckFormatSupport1
        mask = false ∧
      (Resource.CheckFeatureSupport query { r with m_d3d12Resource := none }).2.CheckFormatSupport2
        mask = false ∧
      r.Reset.CheckFormatSupport1 mask = false ∧ r.Reset.CheckFormatSupport2 mask = false ∧
      (Resource.moveConstruct r).2.m_d3d12Resource = none ∧
      (Resource.moveConstruct r).2.CheckFormatSupport1 mask = r.CheckFormatSupport1 mask ∧
      (Resource.moveConstruct r).2.CheckFormatSupport2 mask = r.CheckFormatSupport2 mask ∧
      (Resource.moveConstruct sampleSupported).2.m_d3d12Resource = none ∧
      (Resource.moveConstruct sampleSupported).2.CheckFormatSupport1 1 = true ∧
      (Resource.moveConstruct sampleSupported).2.CheckFormatSupport2 1 = true := by
  refine ⟨and_ne_zero_iff_testBit _ _, and_ne_zero_iff_testBit _ _, ?_, ?_, ?_, rfl, ?_, ?_, ?_,
    ?_, rfl, rfl, rfl, rfl, by decide, by decide⟩
  · simp [Resource.CheckFormatSupport1]
  · simp [Resource.CheckFormatSupport2]
  · simp only [Resource.CheckFeatureSupport]
  · simp [Resource.CheckFormatSupport1, Resource.CheckFeatureSupport]
  · simp [Resource.CheckFormatSupport2, Resource.CheckFeatureSupport]
  · simp [Resource.CheckFormatSupport1, Resource.Reset]
  · simp [Resource.CheckFormatSupport2, Resource.Reset]

/-- C26: the copy constructor `Resource::Resource(const Resource&)` on a source
without a clear value dereferences the null `m_d3d12ClearValue`, whatever the
other fields of the source are; on a source with a clear value it returns the
copy, equal to the source in every field. -/
theorem C26_copyConstruct (copy : Resource) (value : D3D12_CLEAR_VALUE) :
    Resource.copyConstruct { copy with m_d3d12ClearValue := none } =
        Except.error Err.nullDereference ∧
      Resource.copyConstruct { copy with m_d3d12ClearValue := some value } =
        Except.ok { copy with m_d3d12ClearValue := some value } := by
  constructor <;> rfl

/-- C27: the copy assignment `a = b` of another object gives `a` the device,
the underlying resource, the format support and the name of `b`, and the clear
value of `b` when `b` has one; when `b` has none, `a` keeps the clear value it
had, so an `a` that held the clear value `value` still holds it. -/
theorem C27_copyAssign (a b : Resource) (value : D3D12_CLEAR_VALUE) :
    (a.copyAssign b).m_Device = b.m_Device ∧
      (a.copyAssign b).m_d3d12Resource = b.m_d3d12Resource ∧
      (a.copyAssign b).m_FormatSupport = b.m_FormatSupport ∧
      (a.copyAssign b).m_ResourceName = b.m_ResourceName ∧
      (a.copyAssign { b with m_d3d12ClearValue := some value }).m_d3d12ClearValue = some value ∧
      (a.copyAssign { b with m_d3d12ClearValue := none }).m_d3d12ClearValue =
        a.m_d3d12ClearValue ∧
      (Resource.copyAssign { a with m_d3d12ClearValue := some value }
        { b with m_d3d12ClearValue := none }).m_d3d12ClearValue = some value := by
  refine ⟨rfl, rfl, rfl, rfl, rfl, rfl, rfl⟩

theorem clearValue_SetD3D12Resource (query : Nat → Nat → Option (Nat × Nat))
    (device : Option Nat) (d3d12Resource : Option D3D12Resource)
    (clearValue : Option D3D12_CLEAR_VALUE) (r : Resource) :
    (r.SetD3D12Resource query device d3d12Resource clearValue).2.m_d3d12ClearValue =
      if r.m_d3d12ClearValue.isSome then
        (match clearValue with
          | none => r.m_d3d12ClearValue
          | some value => some value)
      else none := by
  unfold Resource.SetD3D12Resource
  simp only
  split
  · cases clearValue with
    | none => rfl
    | some value =>
      simp only
      have h := (device_CheckFeatureSupport query
        { r with m_Device := device, m_d3d12Resource := d3d12Resource,
                 m_d3d12ClearValue := some value }).2
      generalize Resource.CheckFeatureSupport query
        { r with m_Device := device, m_d3d12Resource := d3d12Resource,
                 m_d3d12ClearValue := some value } = res at h
      obtain ⟨o, r1⟩ := res
      cases o <;> exact h
  · have h := (device_CheckFeatureSupport query
      { r with m_Device := device, m_d3d12Resource := d3d12Resource,
               m_d3d12ClearValue := none }).2
    generalize Resource.CheckFeatureSupport query
      { r with m_Device := device, m_d3d12Resource := d3d12Resource,
               m_d3d12ClearValue := none } = res at h
    obtain ⟨o, r1⟩ := res
    cases o <;> exact h

/-- C28: `Resource::SetD3D12Resource` tests the clear value the resource holds,
not the argument.  On a resource that holds none, a call with the clear value
`value` leaves it without a clear value; on a resource that holds one, a call
with a null `clearValue` dereferences the null pointer.  Where the argument is
there exactly when the resource holds a clear value, the resource afterwards
holds the argument. -/
theorem C28_SetD3D12Resource (query : Nat → Nat → Option (Nat × Nat)) (device : Option Nat)
    (d3d12Resource : Option D3D12Resource) (value held : D3D12_CLEAR_VALUE) (r : Resource) :
    (Resource.SetD3D12Resource query device d3d12Resource (some value)
        { r with m_d3d12ClearValue := none }).2.m_d3d12ClearValue = none ∧
      (Resource.SetD3D12Resource query device d3d12Resource none
        { r with m_d3d12ClearValue := some held }).1 = Except.error Err.nullDereference ∧
      (Resource.SetD3D12Resource query device d3d12Resource (some value)
        { r with m_d3d12ClearValue := some held }).2.m_d3d12ClearValue = some value ∧
      (Resource.SetD3D12Resource query device d3d12Resource none
        { r with m_d3d12ClearValue := none }).2.m_d3d12ClearValue = none := by
  refine ⟨?_, rfl, ?_, ?_⟩
  · rw [clearValue_SetD3D12Resource]; rfl
  · rw [clearValue_SetD3D12Resource]; rfl
  · rw [clearValue_SetD3D12Resource]; rfl

theorem targetMips_append (a b : List Event) :
    targetMips (a ++ b) = targetMips a ++ targetMips b := by
  simp [targetMips]

theorem targetMips_stripFlush (l : List Event) : targetMips (stripFlush l) = targetMips l := by
  induction l with
  | nil => rfl
  | cons e l ih =>
    by_cases h : e.isFlushTraffic = true
    · have hs : e.targetMip = none := by
        cases e with
        | Command c => rfl
        | FlushResourceBarriers => rfl
        | _ => simp_all [Event.isFlushTraffic]
      simp only [stripFlush, targetMips] at ih ⊢
      simp [List.filter_cons, h, List.filterMap_cons, hs, ih]
    · simp only [stripFlush, targetMips] at ih ⊢
      simp [List.filter_cons, h, List.filterMap_cons, ih]

theorem targetMips_since_of_emits {r r1 : Recorder} {calls : List Event}
    (h : Emits r r1 calls) : targetMips (r1.since r) = targetMips calls := by
  rw [← emits_since_eq h, targetMips_stripFlush]

theorem targetMips_TransitionBarrier_calls (resource : Option D3D12Resource)
    (stateAfter subresource : Nat) :
    targetMips (TransitionBarrier_calls resource stateAfter subresource) = [] := by
  cases resource <;> rfl

theorem targetMips_Dispatch_calls (x y z : Nat) : targetMips (Dispatch_calls x y z) = [] := by
  simp [Dispatch_calls, targetMips, Event.targetMip]

theorem targetMips_SetUnorderedAccessView_calls (rootParameterIndex descrptorOffset : Nat)
    (resource : Option D3D12Resource) (stateAfter subresource : Nat)
    (res : Option D3D12Resource) (format : Option Nat) (mipSlice : Nat) :
    targetMips (SetUnorderedAccessView_calls rootParameterIndex descrptorOffset resource
      stateAfter subresource (Descriptor.UAV res format (some mipSlice))) = [mipSlice] := by
  rw [SetUnorderedAccessView_calls, targetMips_append, targetMips_TransitionBarrier_calls]
  rfl

theorem targetMips_flatMap {α : Type} (l : List α) (f : α → List Event) :
    targetMips (l.flatMap f) = l.flatMap (fun a => targetMips (f a)) := by
  induction l with
  | nil => rfl
  | cons a l ih => simp [List.flatMap_cons, targetMips_append, ih]

theorem targetMips_pass_calls (env : Env) (pso : PSO) (texture : Texture)
    (resourceDesc : D3D12_RESOURCE_DESC) (isSRGB : Bool) (srcMip mipCount : Nat) :
    targetMips (pass_calls env pso texture resourceDesc isSRGB srcMip mipCount) =
      (List.range mipCount).map (fun mip => u32 (srcMip + mip + 1)) := by
  unfold pass_calls
  simp only [targetMips_append, targetMips_TransitionBarrier_calls, targetMips_Dispatch_calls,
    targetMips_flatMap, targetMips_SetUnorderedAccessView_calls]
  have h1 : ∀ l : List Nat, l.flatMap (fun a => [u32 (srcMip + a + 1)]) =
      l.map (fun mip => u32 (srcMip + mip + 1)) := by
    intro l
    induction l with
    | nil => rfl
    | cons a l ih => simp [List.flatMap_cons, ih]
  rw [h1]
  by_cases h : mipCount < 4 <;> simp [h, targetMips, Event.targetMip, PSO.GetDefaultUAV]

theorem passes_bounds (resourceDesc : D3D12_RESOURCE_DESC)
    (h1 : 1 ≤ resourceDesc.MipLevels) (h2 : resourceDesc.MipLevels < 65536)
    (fuel srcMip : Nat) (p : Nat × Nat) (hp : p ∈ passes resourceDesc fuel srcMip) :
    1 ≤ p.2 ∧ p.2 ≤ 4 ∧ p.1 + p.2 ≤ resourceDesc.MipLevels - 1 := by
  obtain ⟨hb, hk⟩ := mem_passes resourceDesc fuel srcMip p hp
  rw [sub32_one h1 h2] at hb
  exact mipCount_bounds resourceDesc p.1 p.2 hk hb h1 h2

theorem targetMips_passes (env : Env) (pso : PSO) (texture : Texture)
    (resourceDesc : D3D12_RESOURCE_DESC) (isSRGB : Bool)
    (h1 : 1 ≤ resourceDesc.MipLevels) (h2 : resourceDesc.MipLevels < 65536)
    (ps : List (Nat × Nat))
    (hps : ∀ p, p ∈ ps → p.1 + p.2 ≤ resourceDesc.MipLevels - 1) :
    targetMips (ps.flatMap (fun p => pass_calls env pso texture resourceDesc isSRGB p.1 p.2)) =
      ps.flatMap (fun p => (List.range p.2).map (fun mip => p.1 + mip + 1)) := by
  induction ps with
  | nil => rfl
  | cons p ps ih =>
    rw [List.flatMap_cons, List.flatMap_cons, targetMips_append, targetMips_pass_calls,
      ih (fun q hq => hps q (List.mem_cons_of_mem _ hq))]
    congr 1
    apply List.map_congr_left
    intro a ha
    have := hps p (List.mem_cons_self _ _)
    have := List.mem_range.mp ha
    exact u32_of_lt (by omega)

theorem targetMips_SetComputeRootSignature_calls (rootSignature : Option Nat) :
    targetMips (SetComputeRootSignature_calls rootSignature) = [] := by
  simp [SetComputeRootSignature_calls, targetMips, Event.targetMip]

theorem targetMips_GenerateMips_UAV_prelude (env : Env) (r : Recorder) :
    targetMips (GenerateMips_UAV_prelude env r) = [] := by
  unfold GenerateMips_UAV_prelude
  simp only [targetMips_append]
  have h1 : targetMips
      (if r.m_GenerateMipsPSO.isNone then [Event.CreateGenerateMipsPSO] else []) = [] := by
    split <;> rfl
  have h2 : targetMips (if r.m_RootSignature ≠ (r.mipsPSO env).m_RootSignature then
      SetComputeRootSignature_calls (r.mipsPSO env).m_RootSignature else []) = [] := by
    split
    · exact targetMips_SetComputeRootSignature_calls _
    · rfl
  rw [h1, h2]
  rfl

/-- C23: on a texture whose resource has `N` mip levels, `2 ≤ N` (and
`N < 65536`, `MipLevels` being a `UINT16`), where the bit-scan argument is
non-zero in every pass the loop enters, `GenerateMips_UAV` returns; every
pass `(srcMip, mipCount)` it runs has `1 ≤ mipCount ≤ 4` and
`srcMip + mipCount ≤ N - 1`; the target mip slices of the views it stages are,
in order, `1, 2, ..., N - 1`; and the `mipCount`s of the passes sum to
`N - 1`. -/
theorem C23_pass_loop (env : Env) (texture : Texture) (isSRGB : Bool) (s : St)
    (resource : D3D12Resource) (hres : texture.GetD3D12Resource = some resource)
    (hN : 2 ≤ resource.desc.MipLevels) (h16 : resource.desc.MipLevels < 65536)
    (hmask : ∀ m, m ∈ passStarts resource.desc (resource.desc.MipLevels + 1) 0 →
      u32 (bitScanMask resource.desc m) ≠ 0) :
    (GenerateMips_UAV env texture isSRGB s).1 = Except.ok () ∧
    (∀ p, p ∈ schedule resource.desc →
      1 ≤ p.2 ∧ p.2 ≤ 4 ∧ p.1 + p.2 ≤ resource.desc.MipLevels - 1) ∧
    targetMips ((GenerateMips_UAV env texture isSRGB s).2.cl.since s.cl) =
      List.range' 1 (resource.desc.MipLevels - 1) ∧
    ((schedule resource.desc).map Prod.snd).sum = resource.desc.MipLevels - 1 := by
  have h1 : 1 ≤ resource.desc.MipLevels := by omega
  obtain ⟨c1, c2, c3⟩ := passes_cover resource.desc h1 h16 (resource.desc.MipLevels + 1) 0
    (Nat.zero_le _) (by omega) hmask
  obtain ⟨_, g2, g3⟩ := GenerateMips_UAV_spec env texture isSRGB s
  have hb : ∀ p, p ∈ schedule resource.desc →
      1 ≤ p.2 ∧ p.2 ≤ 4 ∧ p.1 + p.2 ≤ resource.desc.MipLevels - 1 :=
    fun p hp => passes_bounds resource.desc h1 h16 _ _ p hp
  refine ⟨?_, hb, ?_, c3⟩
  · rw [g3, hres]
    exact c1
  · rw [targetMips_since_of_emits g2]
    unfold GenerateMips_UAV_calls
    rw [targetMips_append, targetMips_GenerateMips_UAV_prelude,
      passCalls_some env _ texture isSRGB resource hres, List.nil_append,
      targetMips_passes env _ texture resource.desc isSRGB h1 h16 _ (fun p hp => (hb p hp).2.2)]
    exact c2

/-- Claim C23 at an 8x12 texture with four mips, mipped in the passes
`(0, 2)` and `(2, 1)`. -/
theorem C23_pass_loop_witness :
    (sampleTexture 8 12 4 4).GetD3D12Resource = some (sampleResource 8 12 4 4) ∧
    (GenerateMips_UAV sampleEnv (sampleTexture 8 12 4 4) false sampleSt).1 = Except.ok () ∧
    (∀ p, p ∈ schedule (sampleResource 8 12 4 4).desc →
      1 ≤ p.2 ∧ p.2 ≤ 4 ∧ p.1 + p.2 ≤ (sampleResource 8 12 4 4).desc.MipLevels - 1) ∧
    targetMips ((GenerateMips_UAV sampleEnv (sampleTexture 8 12 4 4) false sampleSt).2.cl.since
      sampleSt.cl) = List.range' 1 ((sampleResource 8 12 4 4).desc.MipLevels - 1) ∧
    ((schedule (sampleResource 8 12 4 4).desc).map Prod.snd).sum =
      (sampleResource 8 12 4 4).desc.MipLevels - 1 :=
  ⟨rfl, C23_pass_loop sampleEnv (sampleTexture 8 12 4 4) false sampleSt
    (sampleResource 8 12 4 4) rfl (by decide) (by decide) (by decide)⟩

/-- C24: on an 8x4 texture with four mips (`4 ≤ floor(log2 8) + 1`) the pass
loop of `GenerateMips_UAV` enters a pass at `srcMip = 2`, where `dstWidth` is
1 and `dstHeight` is 0, so that the argument of `_BitScanForward` is zero and
`mipCount` is left unassigned; on a 2x1 texture with two mips that is so in
the first pass. -/
theorem C24_zero_bit_scan_mask :
    passStarts (sampleDesc 8 4 4 4) 5 0 = [0, 2] ∧
    dstWidth (sampleDesc 8 4 4 4) 2 = 1 ∧ dstHeight (sampleDesc 8 4 4 4) 2 = 0 ∧
    bitScanMask (sampleDesc 8 4 4 4) 2 = 0 ∧
    (GenerateMips_UAV sampleEnv (sampleTexture 8 4 4 4) false sampleSt).1 =
      Except.error Err.undefinedBitScan ∧
    passStarts (sampleDesc 2 1 2 4) 3 0 = [0] ∧
    bitScanMask (sampleDesc 2 1 2 4) 0 = 0 ∧
    (GenerateMips_UAV sampleEnv (sampleTexture 2 1 2 4) false sampleSt).1 =
      Except.error Err.undefinedBitScan := by
  refine ⟨by decide, by decide, by decide, by decide, ?_, by decide, by decide, ?_⟩
  · rw [(GenerateMips_UAV_spec sampleEnv (sampleTexture 8 4 4 4) false sampleSt).2.2]
    rfl
  · rw [(GenerateMips_UAV_spec sampleEnv (sampleTexture 2 1 2 4) false sampleSt).2.2]
    rfl

theorem emits_transitionSubresources (env : Env) (r : Recorder)
    (resource : Option D3D12Resource) (stateAfter firstSubresource numSubresources : Nat) :
    Emits r (r.transitionSubresources env resource stateAfter firstSubresource numSubresources)
      (if numSubresources < D3D12_RESOURCE_BARRIER_ALL_SUBRESOURCES then
        (List.range numSubresources).flatMap (fun i =>
          TransitionBarrier_calls resource stateAfter (u32 (firstSubresource + i)))
       else TransitionBarrier_calls resource stateAfter env.TransitionBarrier_subresource) := by
  unfold Recorder.transitionSubresources
  split
  · exact emits_foldl _ _ (fun r i => emits_TransitionBarrier r resource stateAfter
      (u32 (firstSubresource + i)) env.TransitionBarrier_flushBarriers) _ r
  · exact emits_TransitionBarrier r resource stateAfter _ _

theorem flatMap_TransitionBarrier_calls (res : D3D12Resource) (stateAfter : Nat)
    (f : Nat → Nat) (l : List Nat) :
    l.flatMap (fun i => TransitionBarrier_calls (some res) stateAfter (f i)) =
      l.map (fun i => Event.ResourceBarrier
        (Barrier.Transition res D3D12_RESOURCE_STATE_COMMON stateAfter (f i))) := by
  induction l with
  | nil => rfl
  | cons a l ih =>
    simp only [TransitionBarrier_calls] at ih ⊢
    simp [List.flatMap_cons, ih]

/-- C30: on a resource with an underlying resource, the calls of
`SetShaderResourceView` and of `SetUnorderedAccessView`, flush traffic apart,
are: for `numSubresources` below `D3D12_RESOURCE_BARRIER_ALL_SUBRESOURCES`,
one transition request to `stateAfter` for each of the subresources
`firstSubresource + i`, `i < numSubresources` (32-bit sum), so
`numSubresources` of them and none for 0; otherwise one transition request
with the default subresource of `TransitionBarrier`; then the staging of one
descriptor at `(rootParameterIndex, descriptorOffset)` and the tracking of the
resource, which is appended to the tracked objects.  On a resource without an
underlying resource `TransitionBarrier` requests nothing. -/
theorem C30_view_setters (env : Env) (r : Recorder) (rootParameterIndex descriptorOffset : Nat)
    (res : D3D12Resource) (stateAfter firstSubresource numSubresources : Nat)
    (view : Descriptor) :
    let transitions : List Event :=
      if numSubresources < D3D12_RESOURCE_BARRIER_ALL_SUBRESOURCES then
        (List.range numSubresources).map (fun i => Event.ResourceBarrier
          (Barrier.Transition res D3D12_RESOURCE_STATE_COMMON stateAfter
            (u32 (firstSubresource + i))))
      else
        [Event.ResourceBarrier (Barrier.Transition res D3D12_RESOURCE_STATE_COMMON stateAfter
          env.TransitionBarrier_subresource)]
    let calls : List Event :=
      transitions ++
        [Event.StageDescriptors D3D12_DESCRIPTOR_HEAP_TYPE_CBV_SRV_UAV rootParameterIndex
          descriptorOffset 1 view,
         Event.TrackResource (some (D3D12Object.resource res))]
    stripFlush ((r.SetShaderResourceView env rootParameterIndex descriptorOffset (some res)
        stateAfter firstSubresource numSubresources view).since r) = calls ∧
      stripFlush ((r.SetUnorderedAccessView env rootParameterIndex descriptorOffset (some res)
        stateAfter firstSubresource numSubresources view).since r) = calls ∧
      transitions.length =
        (if numSubresources < D3D12_RESOURCE_BARRIER_ALL_SUBRESOURCES then numSubresources
         else 1) ∧
      (r.SetShaderResourceView env rootParameterIndex descriptorOffset (some res)
        stateAfter firstSubresource numSubresources view).m_TrackedObjects =
        r.m_TrackedObjects ++ [some (D3D12Object.resource res)] ∧
      (r.SetUnorderedAccessView env rootParameterIndex descriptorOffset (some res)
        stateAfter firstSubresource numSubresources view).m_TrackedObjects =
        r.m_TrackedObjects ++ [some (D3D12Object.resource res)] ∧
      stripFlush ((r.SetShaderResourceView env rootParameterIndex descriptorOffset none
        stateAfter firstSubresource numSubresources view).since r) =
        [Event.StageDescriptors D3D12_DESCRIPTOR_HEAP_TYPE_CBV_SRV_UAV rootParameterIndex
          descriptorOffset 1 view, Event.TrackResource none] ∧
      stripFlush ((r.SetUnorderedAccessView env rootParameterIndex descriptorOffset none
        stateAfter firstSubresource numSubresources view).since r) =
        [Event.StageDescriptors D3D12_DESCRIPTOR_HEAP_TYPE_CBV_SRV_UAV rootParameterIndex
          descriptorOffset 1 view, Event.TrackResource none] := by
  intro transitions calls
  have ht : ∀ r : Recorder, Emits r
      (r.transitionSubresources env (some res) stateAfter firstSubresource numSubresources)
      transitions := by
    intro r
    have h := emits_transitionSubresources env r (some res) stateAfter firstSubresource
      numSubresources
    rw [flatMap_TransitionBarrier_calls] at h
    exact h
  have hn : ∀ r : Recorder, Emits r
      (r.transitionSubresources env none stateAfter firstSubresource numSubresources) [] := by
    intro r
    have h := emits_transitionSubresources env r none stateAfter firstSubresource
      numSubresources
    have hz : (if numSubresources < D3D12_RESOURCE_BARRIER_ALL_SUBRESOURCES then
        (List.range numSubresources).flatMap (fun i =>
          TransitionBarrier_calls none stateAfter (u32 (firstSubresource + i)))
       else TransitionBarrier_calls none stateAfter env.TransitionBarrier_subresource) = [] := by
      split
      · simp [TransitionBarrier_calls]
      · rfl
    rw [hz] at h
    exact h
  have hstage : ∀ r : Recorder, Emits r
      (r.emit (Event.StageDescriptors D3D12_DESCRIPTOR_HEAP_TYPE_CBV_SRV_UAV
        rootParameterIndex descriptorOffset 1 view))
      [Event.StageDescriptors D3D12_DESCRIPTOR_HEAP_TYPE_CBV_SRV_UAV
        rootParameterIndex descriptorOffset 1 view] :=
    fun r => emits_emit r _ rfl
  refine ⟨?_, ?_, ?_, ?_, ?_, ?_, ?_⟩
  · have h := emits_trans (emits_trans (ht r) (hstage _))
      (emits_TrackResource_res _ (some res))
    rw [List.append_assoc] at h
    exact emits_since_eq h
  · have h := emits_trans (emits_trans (ht r) (hstage _))
      (emits_TrackResource_res _ (some res))
    rw [List.append_assoc] at h
    exact emits_since_eq h
  · show (if _ then _ else _ : List Event).length = _
    split <;> simp
  · exact tracked_SetShaderResourceView _ _ _ _ _ _ _ _ _
  · exact tracked_SetUnorderedAccessView _ _ _ _ _ _ _ _ _
  · have h := emits_trans (emits_trans (hn r) (hstage _)) (emits_TrackResource_res _ none)
    exact emits_since_eq h
  · have h := emits_trans (emits_trans (hn r) (hstage _)) (emits_TrackResource_res _ none)
    exact emits_since_eq h

theorem rootCallStep_neutral (acc : List (RootBindPoint × Option Nat)) (e : Event)
    (h : e.isRootCall = false) : rootCallStep acc e = acc := by
  cases e with
  | Command c => cases c <;> first | rfl | simp at h
  | ResourceStateTrackerReset => simp at h
  | _ => rfl

theorem rootSignatureCalls_snoc (l : List Event) (e : Event) :
    rootSignatureCalls (l ++ [e]) = rootCallStep (rootSignatureCalls l) e := by
  simp [rootSignatureCalls, List.foldl_append]

theorem rootSignatureCalls_append_neutral (l m : List Event)
    (h : ∀ e, e ∈ m → e.isRootCall = false) :
    rootSignatureCalls (l ++ m) = rootSignatureCalls l := by
  induction m generalizing l with
  | nil => simp
  | cons e m ih =>
    have h1 : l ++ e :: m = (l ++ [e]) ++ m := by simp
    rw [h1, ih _ (fun x hx => h x (List.mem_cons_of_mem _ hx)), rootSignatureCalls_snoc,
      rootCallStep_neutral _ _ (h e (List.mem_cons_self _ _))]

@[simp]
theorem rootState_emit (e : Event) (r : Recorder) (h : e.isRootCall = false) :
    (r.emit e).rootState = r.rootState := by
  simp only [Recorder.rootState, Recorder.emit, rootSignatureCalls_snoc,
    rootCallStep_neutral _ _ h]

@[simp]
theorem rootState_record (c : Command) (r : Recorder)
    (h : (Event.Command c).isRootCall = false) :
    (r.record c).rootState = r.rootState :=
  rootState_emit _ r h

@[simp]
theorem rootState_tracker_ResourceBarrier (b : Barrier) (r : Recorder) :
    (r.tracker_ResourceBarrier b).rootState = r.rootState := by
  simp only [Recorder.rootState, Recorder.tracker_ResourceBarrier, rootSignatureCalls_snoc]
  rfl

@[simp]
theorem rootState_tracker_TransitionResource (env : Env) (resource : Option D3D12Resource)
    (stateAfter : Nat) (r : Recorder) :
    (r.tracker_TransitionResource env resource stateAfter).rootState = r.rootState := by
  simp only [Recorder.rootState, Recorder.tracker_TransitionResource, rootSignatureCalls_snoc]
  rfl

@[simp]
theorem rootState_FlushResourceBarriers (r : Recorder) :
    r.FlushResourceBarriers.rootState = r.rootState := by
  simp only [Recorder.rootState, Recorder.FlushResourceBarriers]
  rw [List.append_assoc, rootSignatureCalls_append_neutral]
  intro e he
  simp only [List.singleton_append, List.mem_cons, List.mem_map] at he
  rcases he with he | ⟨b, _, he⟩
  · subst he; rfl
  · subst he; rfl

@[simp]
theorem rootState_TransitionBarrier (resource : Option D3D12Resource)
    (stateAfter subresource : Nat) (flushBarriers : Bool) (r : Recorder) :
    (r.TransitionBarrier resource stateAfter subresource flushBarriers).rootState =
      r.rootState := by
  cases resource <;> cases flushBarriers <;> simp [Recorder.TransitionBarrier]

@[simp]
theorem rootState_UAVBarrier (resource : Option D3D12Resource) (flushBarriers : Bool)
    (r : Recorder) : (r.UAVBarrier resource flushBarriers).rootState = r.rootState := by
  cases flushBarriers <;> simp [Recorder.UAVBarrier]

@[simp]
theorem rootState_AliasingBarrier (a b : Option D3D12Resource) (flushBarriers : Bool)
    (r : Recorder) : (r.AliasingBarrier a b flushBarriers).rootState = r.rootState := by
  cases flushBarriers <;> simp [Recorder.AliasingBarrier]

@[simp]
theorem rootState_TrackResource (object : Option D3D12Object) (r : Recorder) :
    (r.TrackResource object).rootState = r.rootState := by
  simp only [Recorder.rootState, Recorder.TrackResource, rootSignatureCalls_snoc]
  rfl

@[simp]
theorem rootState_TrackResource_res (resource : Option D3D12Resource) (r : Recorder) :
    (r.TrackResource_res resource).rootState = r.rootState :=
  rootState_TrackResource _ r

theorem rootState_foldl {α : Type} (f : Recorder → α → Recorder)
    (h : ∀ r a, (f r a).rootState = r.rootState) (l : List α) (r : Recorder) :
    (l.foldl f r).rootState = r.rootState := by
  induction l generalizing r with
  | nil => rfl
  | cons a l ih => rw [List.foldl_cons, ih, h]

theorem rootState_foldl_emit {α : Type} (f : α → Event) (h : ∀ a, (f a).isRootCall = false)
    (l : List α) (r : Recorder) :
    (l.foldl (fun r i => r.emit (f i)) r).rootState = r.rootState :=
  rootState_foldl _ (fun r a => rootState_emit _ r (h a)) l r

@[simp]
theorem rootState_parseRootSignatures (S : Option Nat) (r : Recorder) :
    (r.parseRootSignatures S).rootState = r.rootState :=
  rootState_foldl_emit (fun i => Event.ParseRootSignature i S) (fun _ => rfl) _ r

@[simp]
theorem rootState_commitStagedDescriptorsForDraw (r : Recorder) :
    r.commitStagedDescriptorsForDraw.rootState = r.rootState :=
  rootState_foldl_emit (fun i => Event.CommitStagedDescriptorsForDraw i) (fun _ => rfl) _ r

@[simp]
theorem rootState_commitStagedDescriptorsForDispatch (r : Recorder) :
    r.commitStagedDescriptorsForDispatch.rootState = r.rootState :=
  rootState_foldl_emit (fun i => Event.CommitStagedDescriptorsForDispatch i) (fun _ => rfl) _ r

@[simp]
theorem rootState_transitionSubresources (env : Env) (resource : Option D3D12Resource)
    (stateAfter firstSubresource numSubresources : Nat) (r : Recorder) :
    (r.transitionSubresources env resource stateAfter firstSubresource
      numSubresources).rootState = r.rootState := by
  unfold Recorder.transitionSubresources
  split
  · exact rootState_foldl _ (fun r a => rootState_TransitionBarrier _ _ _ _ r) _ r
  · exact rootState_TransitionBarrier _ _ _ _ r

@[simp]
theorem rootState_CopyResource (env : Env) (dstRes srcRes : Option D3D12Resource)
    (r : Recorder) : (r.CopyResource env dstRes srcRes).rootState = r.rootState := by
  simp [Recorder.CopyResource]

@[simp]
theorem rootState_ResolveSubresource (env : Env) (dstRes srcRes : Texture) (a b c : Nat)
    (r : Recorder) : (r.ResolveSubresource env dstRes srcRes a b c).rootState = r.rootState := by
  simp [Recorder.ResolveSubresource]

@[simp]
theorem rootState_ClearTexture (env : Env) (texture : Texture) (r : Recorder) :
    (r.ClearTexture env texture).rootState = r.rootState := by
  simp [Recorder.ClearTexture]

@[simp]
theorem rootState_ClearDepthStencilTexture (env : Env) (texture : Texture) (clearFlags : Nat)
    (r : Recorder) :
    (r.ClearDepthStencilTexture env texture clearFlags).rootState = r.rootState := by
  simp [Recorder.ClearDepthStencilTexture]

@[simp]
theorem rootState_SetVertexBuffer (env : Env) (slot : Nat) (vertexBuffer : Option D3D12Resource)
    (r : Recorder) : (r.SetVertexBuffer env slot vertexBuffer).rootState = r.rootState := by
  simp [Recorder.SetVertexBuffer]

@[simp]
theorem rootState_SetIndexBuffer (env : Env) (indexBuffer : Option D3D12Resource)
    (r : Recorder) : (r.SetIndexBuffer env indexBuffer).rootState = r.rootState := by
  simp [Recorder.SetIndexBuffer]

@[simp]
theorem rootState_SetPipelineState (pipelineState : Option Nat) (r : Recorder) :
    (r.SetPipelineState pipelineState).rootState = r.rootState := by
  simp [Recorder.SetPipelineState]

@[simp]
theorem rootState_SetShaderResourceView (env : Env) (i o : Nat)
    (resource : Option D3D12Resource) (stateAfter first num : Nat) (srv : Descriptor)
    (r : Recorder) :
    (r.SetShaderResourceView env i o resource stateAfter first num srv).rootState =
      r.rootState := by
  simp [Recorder.SetShaderResourceView]

@[simp]
theorem rootState_SetUnorderedAccessView (env : Env) (i o : Nat)
    (resource : Option D3D12Resource) (stateAfter first num : Nat) (uav : Descriptor)
    (r : Recorder) :
    (r.SetUnorderedAccessView env i o resource stateAfter first num uav).rootState =
      r.rootState := by
  simp [Recorder.SetUnorderedAccessView]

@[simp]
theorem rootState_Draw (a b c d : Nat) (r : Recorder) :
    (r.Draw a b c d).rootState = r.rootState := by
  simp [Recorder.Draw]

@[simp]
theorem rootState_DrawIndexed (a b c : Nat) (d : Int) (e : Nat) (r : Recorder) :
    (r.DrawIndexed a b c d e).rootState = r.rootState := by
  simp [Recorder.DrawIndexed]

@[simp]
theorem rootState_Dispatch (x y z : Nat) (r : Recorder) :
    (r.Dispatch x y z).rootState = r.rootState := by
  simp [Recorder.Dispatch]

theorem rootCurrent_of_eq {r r1 : Recorder} (h : r1.rootState = r.rootState)
    (hr : r.RootCurrent) : r1.RootCurrent := by
  simp only [Recorder.rootState, Prod.mk.injEq] at h
  unfold Recorder.RootCurrent
  rw [h.1, h.2]
  exact hr

theorem keepsRoot_same (f : Recorder → Recorder)
    (h : ∀ r : Recorder, (f r).rootState = r.rootState) : Recorder.KeepsRootCurrent f :=
  fun r hr => rootCurrent_of_eq (h r) hr

theorem keepsRoot_comp (f g : Recorder → Recorder) (hf : Recorder.KeepsRootCurrent f)
    (hg : Recorder.KeepsRootCurrent g) : Recorder.KeepsRootCurrent (fun r => g (f r)) :=
  fun r h => hg (f r) (hf r h)

theorem rootState_SetGraphicsRootSignature (S : Option Nat) (r : Recorder) :
    (r.SetGraphicsRootSignature S).rootState =
      if r.m_RootSignature = S then r.rootState
      else (S, rootSignatureCalls r.log ++ [(RootBindPoint.graphics, S)]) := by
  unfold Recorder.SetGraphicsRootSignature
  by_cases h : r.m_RootSignature = S
  · simp [h]
  · have hp := rootState_parseRootSignatures S { r with m_RootSignature := S }
    simp only [Recorder.rootState, Prod.mk.injEq] at hp
    simp only [ne_eq, h, not_false_eq_true, if_true, if_false]
    simp only [Recorder.rootState, Recorder.TrackResource, Recorder.record, Recorder.emit,
      rootSignatureCalls_snoc, hp.1, hp.2]
    rfl

theorem rootState_SetComputeRootSignature (S : Option Nat) (r : Recorder) :
    (r.SetComputeRootSignature S).rootState =
      if r.m_RootSignature = S then r.rootState
      else (S, rootSignatureCalls r.log ++ [(RootBindPoint.compute, S)]) := by
  unfold Recorder.SetComputeRootSignature
  by_cases h : r.m_RootSignature = S
  · simp [h]
  · have hp := rootState_parseRootSignatures S { r with m_RootSignature := S }
    simp only [Recorder.rootState, Prod.mk.injEq] at hp
    simp only [ne_eq, h, not_false_eq_true, if_true, if_false]
    simp only [Recorder.rootState, Recorder.TrackResource, Recorder.record, Recorder.emit,
      rootSignatureCalls_snoc, hp.1, hp.2]
    rfl

theorem rootCurrent_of_rootState (r : Recorder) (S : Option Nat) (b : RootBindPoint)
    (calls : List (RootBindPoint × Option Nat)) (h : r.rootState = (S, calls ++ [(b, S)])) :
    r.RootCurrent := by
  simp only [Recorder.rootState, Prod.mk.injEq] at h
  unfold Recorder.RootCurrent
  rw [h.1, h.2]
  simp

@[simp]
theorem keepsRoot_SetGraphicsRootSignature (S : Option Nat) :
    Recorder.KeepsRootCurrent (Recorder.SetGraphicsRootSignature S) := by
  intro r hr
  have h := rootState_SetGraphicsRootSignature S r
  by_cases hs : r.m_RootSignature = S
  · rw [if_pos hs] at h
    exact rootCurrent_of_eq h hr
  · rw [if_neg hs] at h
    exact rootCurrent_of_rootState _ _ _ _ h

@[simp]
theorem keepsRoot_SetComputeRootSignature (S : Option Nat) :
    Recorder.KeepsRootCurrent (Recorder.SetComputeRootSignature S) := by
  intro r hr
  have h := rootState_SetComputeRootSignature S r
  by_cases hs : r.m_RootSignature = S
  · rw [if_pos hs] at h
    exact rootCurrent_of_eq h hr
  · rw [if_neg hs] at h
    exact rootCurrent_of_rootState _ _ _ _ h

@[simp]
theorem rootState_GenerateMips_UAV_pass (env : Env) (pso : PSO) (texture : Texture)
    (resourceDesc : D3D12_RESOURCE_DESC) (isSRGB : Bool) (srcMip mipCount : Nat)
    (r : Recorder) :
    (r.GenerateMips_UAV_pass env pso texture resourceDesc isSRGB srcMip mipCount).rootState =
      r.rootState := by
  unfold Recorder.GenerateMips_UAV_pass
  simp only [rootState_UAVBarrier, rootState_Dispatch]
  have hf := rootState_foldl
    (fun r mip => Recorder.SetUnorderedAccessView env env.GenerateMips_OutMip mip
      texture.GetD3D12Resource D3D12_RESOURCE_STATE_UNORDERED_ACCESS
      (u32 (srcMip + mip + 1)) 1
      (Descriptor.UAV texture.GetD3D12Resource (some resourceDesc.Format)
        (some (u32 (srcMip + mip + 1)))) r)
    (fun r mip => rootState_SetUnorderedAccessView _ _ _ _ _ _ _ _ r) (List.range mipCount)
  split <;> simp [hf, Recorder.SetCompute32BitConstants_Mips]

@[simp]
theorem rootState_PanoToCubemap_pass (env : Env) (pso : PSO)
    (cubemapDesc : D3D12_RESOURCE_DESC) (stagingTexture panoTexture : Texture)
    (mipSlice numMips : Nat) (r : Recorder) :
    (r.PanoToCubemap_pass env pso cubemapDesc stagingTexture panoTexture mipSlice
      numMips).rootState = r.rootState := by
  unfold Recorder.PanoToCubemap_pass
  simp only [rootState_Dispatch]
  have hf := rootState_foldl
    (fun r mip => Recorder.SetUnorderedAccessView env env.PanoToCubemapRS_DstMips mip
      stagingTexture.GetD3D12Resource D3D12_RESOURCE_STATE_UNORDERED_ACCESS 0 0
      (Descriptor.UAV stagingTexture.GetD3D12Resource
        (some (env.GetUAVCompatableFormat cubemapDesc.Format))
        (some (u32 (mipSlice + mip)))) r)
    (fun r mip => rootState_SetUnorderedAccessView _ _ _ _ _ _ _ _ r) (List.range numMips)
  split <;> simp [hf, Recorder.SetCompute32BitConstants_Pano]

@[simp]
theorem rootState_PanoToCubemap_loop (env : Env) (pso : PSO)
    (cubemapDesc : D3D12_RESOURCE_DESC) (stagingTexture panoTexture : Texture)
    (fuel mipSlice : Nat) (r : Recorder) :
    (r.PanoToCubemap_loop env pso cubemapDesc stagingTexture panoTexture fuel
      mipSlice).rootState = r.rootState := by
  induction fuel generalizing mipSlice r with
  | zero => rfl
  | succ fuel ih =>
    simp only [Recorder.PanoToCubemap_loop]
    split
    · rw [ih, rootState_PanoToCubemap_pass]
    · rfl

theorem rootState_bindColorTarget (env : Env) (l : List Texture) (r : Recorder)
    (ds : List Descriptor) :
    (l.foldl (Recorder.bindColorTarget env) (r, ds)).1.rootState = r.rootState := by
  induction l generalizing r ds with
  | nil => rfl
  | cons t l ih =>
    rw [List.foldl_cons]
    unfold Recorder.bindColorTarget
    split
    · refine (ih _ _).trans ?_
      simp
    · exact ih r ds

@[simp]
theorem rootState_SetRenderTarget (env : Env) (renderTarget : Recorder.RenderTarget)
    (r : Recorder) : (r.SetRenderTarget env renderTarget).rootState = r.rootState := by
  have h := rootState_bindColorTarget env (renderTarget.color.take 8) r []
  unfold Recorder.SetRenderTarget
  generalize (renderTarget.color.take 8).foldl (Recorder.bindColorTarget env) (r, []) = acc at h
  obtain ⟨r1, ds⟩ := acc
  simp only at h ⊢
  split <;> simp [h]

@[simp]
theorem rootState_Close (r : Recorder) : r.Close.rootState = r.rootState := by
  simp [Recorder.Close]

theorem rootState_Close_pending (r pendingCommandList : Recorder) (w : World) :
    (r.Close_pending pendingCommandList w).recorder.rootState = r.rootState := by
  simp [Recorder.Close_pending]

@[simp]
theorem rootState_BindDescriptorHeaps (r : Recorder) :
    r.BindDescriptorHeaps.rootState = r.rootState := by
  simp [Recorder.BindDescriptorHeaps]

@[simp]
theorem rootState_SetDescriptorHeap (heapType : Nat) (heap : Option Nat) (r : Recorder) :
    (r.SetDescriptorHeap heapType heap).rootState = r.rootState := by
  unfold Recorder.SetDescriptorHeap
  split
  · rw [rootState_BindDescriptorHeaps]
    rfl
  · rfl

@[simp]
theorem keepsRoot_TransitionBarrier (resource : Option D3D12Resource)
    (stateAfter subresource : Nat) (flushBarriers : Bool) :
    Recorder.KeepsRootCurrent
      (Recorder.TransitionBarrier resource stateAfter subresource flushBarriers) :=
  keepsRoot_same _ (rootState_TransitionBarrier _ _ _ _)

@[simp]
theorem keepsRoot_UAVBarrier (resource : Option D3D12Resource) (flushBarriers : Bool) :
    Recorder.KeepsRootCurrent (Recorder.UAVBarrier resource flushBarriers) :=
  keepsRoot_same _ (rootState_UAVBarrier _ _)

@[simp]
theorem keepsRoot_AliasingBarrier (a b : Option D3D12Resource) (flushBarriers : Bool) :
    Recorder.KeepsRootCurrent (Recorder.AliasingBarrier a b flushBarriers) :=
  keepsRoot_same _ (rootState_AliasingBarrier _ _ _)

@[simp]
theorem keepsRoot_FlushResourceBarriers :
    Recorder.KeepsRootCurrent Recorder.FlushResourceBarriers :=
  keepsRoot_same _ rootState_FlushResourceBarriers

@[simp]
theorem keepsRoot_record (c : Command) (h : (Event.Command c).isRootCall = false) :
    Recorder.KeepsRootCurrent (Recorder.record c) :=
  keepsRoot_same _ (fun r => rootState_record c r h)

@[simp]
theorem keepsRoot_tracker_TransitionResource (env : Env)
    (resource : Option D3D12Resource) (stateAfter : Nat) :
    Recorder.KeepsRootCurrent (Recorder.tracker_TransitionResource env resource stateAfter) :=
  keepsRoot_same _ (rootState_tracker_TransitionResource env resource stateAfter)

@[simp]
theorem keepsRoot_TrackResource (object : Option D3D12Object) :
    Recorder.KeepsRootCurrent (Recorder.TrackResource object) :=
  keepsRoot_same _ (rootState_TrackResource object)

@[simp]
theorem keepsRoot_TrackResource_res (resource : Option D3D12Resource) :
    Recorder.KeepsRootCurrent (Recorder.TrackResource_res resource) :=
  keepsRoot_same _ (rootState_TrackResource_res resource)

@[simp]
theorem keepsRoot_CopyResource (env : Env) (dstRes srcRes : Option D3D12Resource) :
    Recorder.KeepsRootCurrent (Recorder.CopyResource env dstRes srcRes) :=
  keepsRoot_same _ (rootState_CopyResource env dstRes srcRes)

@[simp]
theorem keepsRoot_GenerateMips_UAV_pass (env : Env) (pso : PSO) (texture : Texture)
    (resourceDesc : D3D12_RESOURCE_DESC) (isSRGB : Bool) (srcMip mipCount : Nat) :
    Recorder.KeepsRootCurrent
      (Recorder.GenerateMips_UAV_pass env pso texture resourceDesc isSRGB srcMip mipCount) :=
  keepsRoot_same _ (rootState_GenerateMips_UAV_pass env pso texture resourceDesc isSRGB srcMip
    mipCount)

@[simp]
theorem keepsRoot_PanoToCubemap_loop (env : Env) (pso : PSO)
    (cubemapDesc : D3D12_RESOURCE_DESC) (stagingTexture panoTexture : Texture)
    (fuel mipSlice : Nat) :
    Recorder.KeepsRootCurrent
      (Recorder.PanoToCubemap_loop env pso cubemapDesc stagingTexture panoTexture fuel
        mipSlice) :=
  keepsRoot_same _ (rootState_PanoToCubemap_loop env pso cubemapDesc stagingTexture panoTexture
    fuel mipSlice)

theorem opKeepsRoot_pure {α : Type} (a : α) : Op.KeepsRootCurrent (Op.pure a) :=
  fun _ h => h

theorem opKeepsRoot_raise {α : Type} (e : Err) : Op.KeepsRootCurrent (Op.raise e : Op α) :=
  fun _ h => h

theorem opKeepsRoot_onCl (f : Recorder → Recorder) (h : Recorder.KeepsRootCurrent f) :
    Op.KeepsRootCurrent (Op.onCl f) := fun s => h s.cl

theorem opKeepsRoot_bind {α β : Type} (x : Op α) (f : α → Op β) (hx : Op.KeepsRootCurrent x)
    (hf : ∀ a, Op.KeepsRootCurrent (f a)) : Op.KeepsRootCurrent (Op.bind x f) := by
  intro s hs
  unfold Op.bind
  have h1 := hx s hs
  generalize x s = res at h1
  obtain ⟨o, s1⟩ := res
  cases o with
  | ok a => exact hf a s1 h1
  | error e => exact h1

theorem opKeepsRoot_discard {α : Type} (x : Op α) (hx : Op.KeepsRootCurrent x) :
    Op.KeepsRootCurrent x.discard := by
  intro s hs
  unfold Op.discard
  have h1 := hx s hs
  generalize x s = res at h1
  obtain ⟨o, s1⟩ := res
  cases o <;> exact h1

theorem opKeepsRoot_same {α : Type} (x : Op α)
    (h : ∀ s : St, (x s).2.cl.rootState = s.cl.rootState) : Op.KeepsRootCurrent x :=
  fun s hs => rootCurrent_of_eq (h s) hs

theorem opKeepsRoot_AddGlobalResourceState (resource : Option D3D12Resource) (state : Nat) :
    Op.KeepsRootCurrent (Op.AddGlobalResourceState resource state) :=
  opKeepsRoot_same _ (fun s => by simp [Op.AddGlobalResourceState])

theorem opKeepsRoot_CreateCommittedResource (env : Env) (heapType : Nat)
    (desc : D3D12_RESOURCE_DESC) (initialState : Nat) :
    Op.KeepsRootCurrent (Op.CreateCommittedResource env heapType desc initialState) := by
  refine opKeepsRoot_same _ (fun s => ?_)
  unfold Op.CreateCommittedResource
  by_cases h : env.succeeded s.world.deviceCalls <;> simp [h]

theorem opKeepsRoot_CreateCommittedResource_GetDesc (env : Env) (heapType : Nat)
    (desc created : D3D12_RESOURCE_DESC) (initialState : Nat) :
    Op.KeepsRootCurrent
      (Op.CreateCommittedResource_GetDesc env heapType desc created initialState) := by
  refine opKeepsRoot_same _ (fun s => ?_)
  unfold Op.CreateCommittedResource_GetDesc
  by_cases h : env.succeeded s.world.deviceCalls <;> simp [h]

theorem opKeepsRoot_CreateHeap (env : Env) : Op.KeepsRootCurrent (Op.CreateHeap env) := by
  refine opKeepsRoot_same _ (fun s => ?_)
  unfold Op.CreateHeap
  by_cases h : env.succeeded s.world.deviceCalls <;> simp [h]

theorem opKeepsRoot_CreatePlacedResource (env : Env) (heap : Nat)
    (desc : D3D12_RESOURCE_DESC) (initialState : Nat) :
    Op.KeepsRootCurrent (Op.CreatePlacedResource env heap desc initialState) := by
  refine opKeepsRoot_same _ (fun s => ?_)
  unfold Op.CreatePlacedResource
  by_cases h : env.succeeded s.world.deviceCalls <;> simp [h]

theorem opKeepsRoot_CheckFeatureSupport (env : Env) (resource : Option D3D12Resource) :
    Op.KeepsRootCurrent (Op.CheckFeatureSupport env resource) := by
  refine opKeepsRoot_same _ (fun s => ?_)
  unfold Op.CheckFeatureSupport
  cases resource with
  | none => rfl
  | some res => by_cases h : env.succeeded s.world.deviceCalls <;> simp [h]

theorem opKeepsRoot_CreateTexture (env : Env) (resource : Option D3D12Resource)
    (textureUsage : Nat) : Op.KeepsRootCurrent (Op.CreateTexture env resource textureUsage) := by
  intro s hs
  unfold Op.CreateTexture
  have h := opKeepsRoot_CheckFeatureSupport env resource s hs
  generalize Op.CheckFeatureSupport env resource s = res at h
  obtain ⟨o, s1⟩ := res
  cases o <;> exact h

theorem opKeepsRoot_ensureGenerateMipsPSO (env : Env) :
    Op.KeepsRootCurrent (ensureGenerateMipsPSO env) := by
  refine opKeepsRoot_same _ (fun s => ?_)
  unfold ensureGenerateMipsPSO
  cases s.cl.m_GenerateMipsPSO with
  | none => exact rootState_emit Event.CreateGenerateMipsPSO s.cl rfl
  | some pso => rfl

theorem opKeepsRoot_ensurePanoToCubemapPSO (env : Env) :
    Op.KeepsRootCurrent (ensurePanoToCubemapPSO env) := by
  refine opKeepsRoot_same _ (fun s => ?_)
  unfold ensurePanoToCubemapPSO
  cases s.cl.m_PanoToCubemapPSO with
  | none => exact rootState_emit Event.CreatePanoToCubemapPSO s.cl rfl
  | some pso => rfl

theorem opKeepsRoot_GenerateMips_UAV_loop (env : Env) (pso : PSO) (texture : Texture)
    (resourceDesc : D3D12_RESOURCE_DESC) (isSRGB : Bool) (fuel srcMip : Nat) :
    Op.KeepsRootCurrent (GenerateMips_UAV_loop env pso texture resourceDesc isSRGB fuel srcMip) := by
  induction fuel generalizing srcMip with
  | zero =>
    simp only [GenerateMips_UAV_loop]
    split
    · exact opKeepsRoot_raise _
    · exact opKeepsRoot_pure _
  | succ fuel ih =>
    simp only [GenerateMips_UAV_loop]
    split
    · split
      · exact opKeepsRoot_raise _
      · exact opKeepsRoot_bind _ _ (opKeepsRoot_onCl _ (by simp)) (fun _ => ih _)
    · exact opKeepsRoot_pure _

theorem opKeepsRoot_GenerateMips_UAV (env : Env) (texture : Texture) (isSRGB : Bool) :
    Op.KeepsRootCurrent (GenerateMips_UAV env texture isSRGB) := by
  unfold GenerateMips_UAV
  refine opKeepsRoot_bind _ _ (opKeepsRoot_ensureGenerateMipsPSO env) (fun pso => ?_)
  refine opKeepsRoot_bind _ _ (opKeepsRoot_onCl _ (by simp)) (fun _ => ?_)
  refine opKeepsRoot_bind _ _ (opKeepsRoot_onCl _ (by simp)) (fun _ => ?_)
  cases texture.GetD3D12Resource with
  | none => exact opKeepsRoot_raise _
  | some resource => exact opKeepsRoot_GenerateMips_UAV_loop _ _ _ _ _ _ _

theorem opKeepsRoot_GenerateMips_stage (env : Env) (resource : D3D12Resource) :
    Op.KeepsRootCurrent (GenerateMips_stage env resource) := by
  unfold GenerateMips_stage
  refine opKeepsRoot_bind _ _ (opKeepsRoot_CreateHeap env) (fun heap => ?_)
  refine opKeepsRoot_bind _ _ (opKeepsRoot_onCl _ (by simp)) (fun _ => ?_)
  refine opKeepsRoot_bind _ _ (opKeepsRoot_CreatePlacedResource _ _ _ _) (fun a => ?_)
  refine opKeepsRoot_bind _ _ (opKeepsRoot_AddGlobalResourceState _ _) (fun _ => ?_)
  refine opKeepsRoot_bind _ _ (opKeepsRoot_onCl _ (by simp)) (fun _ => ?_)
  refine opKeepsRoot_bind _ _ (opKeepsRoot_CreatePlacedResource _ _ _ _) (fun u => ?_)
  refine opKeepsRoot_bind _ _ (opKeepsRoot_AddGlobalResourceState _ _) (fun _ => ?_)
  refine opKeepsRoot_bind _ _ (opKeepsRoot_onCl _ (by simp)) (fun _ => ?_)
  refine opKeepsRoot_bind _ _ (opKeepsRoot_onCl _ (by simp)) (fun _ => ?_)
  refine opKeepsRoot_bind _ _ (opKeepsRoot_onCl _ (by simp)) (fun _ => ?_)
  refine opKeepsRoot_bind _ _ (opKeepsRoot_onCl _ (by simp)) (fun _ => ?_)
  exact opKeepsRoot_pure _

theorem opKeepsRoot_GenerateMips_body (env : Env) (texture : Texture) :
    Op.KeepsRootCurrent (GenerateMips_body env texture) := by
  unfold GenerateMips_body
  cases texture.GetD3D12Resource with
  | none => exact opKeepsRoot_pure _
  | some resource =>
    simp only
    split
    · exact opKeepsRoot_pure _
    · split
      · exact opKeepsRoot_raise _
      · refine opKeepsRoot_bind _ _ ?_ (fun p => ?_)
        · split
          · refine opKeepsRoot_bind _ _ (opKeepsRoot_GenerateMips_stage env resource)
              (fun q => ?_)
            exact opKeepsRoot_pure _
          · exact opKeepsRoot_pure _
        · obtain ⟨uavResource, aliasResource⟩ := p
          refine opKeepsRoot_bind _ _ (opKeepsRoot_CreateTexture _ _ _) (fun t => ?_)
          refine opKeepsRoot_bind _ _ (opKeepsRoot_GenerateMips_UAV _ _ _) (fun _ => ?_)
          cases aliasResource with
          | none => exact opKeepsRoot_pure _
          | some aliasRes =>
            refine opKeepsRoot_bind _ _ (opKeepsRoot_onCl _ (by simp)) (fun _ => ?_)
            exact opKeepsRoot_onCl _ (by simp)

theorem opKeepsRoot_PanoToCubemap_stage (env : Env) (cubemapResource : D3D12Resource) :
    Op.KeepsRootCurrent (PanoToCubemap_stage env cubemapResource) := by
  unfold PanoToCubemap_stage
  refine opKeepsRoot_bind _ _ (opKeepsRoot_CreateCommittedResource _ _ _ _) (fun r => ?_)
  refine opKeepsRoot_bind _ _ (opKeepsRoot_AddGlobalResourceState _ _) (fun _ => ?_)
  refine opKeepsRoot_bind _ _ (opKeepsRoot_CheckFeatureSupport _ _) (fun _ => ?_)
  refine opKeepsRoot_bind _ _ (opKeepsRoot_onCl _ (by simp)) (fun _ => ?_)
  exact opKeepsRoot_pure _

theorem opKeepsRoot_PanoToCubemap_body (env : Env) (cubemapTexture panoTexture : Texture) :
    Op.KeepsRootCurrent (PanoToCubemap_body env cubemapTexture panoTexture) := by
  unfold PanoToCubemap_body
  refine opKeepsRoot_bind _ _ (opKeepsRoot_ensurePanoToCubemapPSO env) (fun pso => ?_)
  cases cubemapTexture.GetD3D12Resource with
  | none => exact opKeepsRoot_pure _
  | some cubemapResource =>
    simp only
    refine opKeepsRoot_bind _ _ (opKeepsRoot_CreateTexture _ _ _) (fun t0 => ?_)
    refine opKeepsRoot_bind _ _ ?_ (fun stagingResource => ?_)
    · split
      · exact opKeepsRoot_PanoToCubemap_stage env cubemapResource
      · exact opKeepsRoot_pure _
    · refine opKeepsRoot_bind _ _ (opKeepsRoot_onCl _ (by simp)) (fun _ => ?_)
      refine opKeepsRoot_bind _ _ (opKeepsRoot_onCl _ (by simp)) (fun _ => ?_)
      refine opKeepsRoot_bind _ _ (opKeepsRoot_onCl _ (by simp)) (fun _ => ?_)
      refine opKeepsRoot_bind _ _ (opKeepsRoot_onCl _ (by simp)) (fun _ => ?_)
      split
      · exact opKeepsRoot_onCl _ (by simp)
      · exact opKeepsRoot_pure _

theorem opKeepsRoot_CopyBuffer (env : Env) (numElements elementSize : Nat)
    (bufferData : Option Nat) (flags : Nat) :
    Op.KeepsRootCurrent (CopyBuffer env numElements elementSize bufferData flags) := by
  unfold CopyBuffer
  simp only
  split
  · refine opKeepsRoot_bind _ _ (opKeepsRoot_CheckFeatureSupport _ _) (fun _ => ?_)
    exact opKeepsRoot_pure _
  · refine opKeepsRoot_bind _ _ (opKeepsRoot_CreateCommittedResource _ _ _ _) (fun d => ?_)
    refine opKeepsRoot_bind _ _ (opKeepsRoot_AddGlobalResourceState _ _) (fun _ => ?_)
    split
    · refine opKeepsRoot_bind _ _ (opKeepsRoot_CreateCommittedResource _ _ _ _)
        (fun u => ?_)
      refine opKeepsRoot_bind _ _ (opKeepsRoot_onCl _ (by simp)) (fun _ => ?_)
      refine opKeepsRoot_bind _ _ (opKeepsRoot_onCl _ (by simp)) (fun _ => ?_)
      refine opKeepsRoot_bind _ _ (opKeepsRoot_onCl _ (by simp)) (fun _ => ?_)
      refine opKeepsRoot_bind _ _ (opKeepsRoot_onCl _ (by simp)) (fun _ => ?_)
      refine opKeepsRoot_bind _ _ (opKeepsRoot_onCl _ (by simp)) (fun _ => ?_)
      refine opKeepsRoot_bind _ _ (opKeepsRoot_CheckFeatureSupport _ _) (fun _ => ?_)
      exact opKeepsRoot_pure _
    · refine opKeepsRoot_bind _ _ (opKeepsRoot_pure _) (fun _ => ?_)
      refine opKeepsRoot_bind _ _ (opKeepsRoot_onCl _ (by simp)) (fun _ => ?_)
      refine opKeepsRoot_bind _ _ (opKeepsRoot_CheckFeatureSupport _ _) (fun _ => ?_)
      exact opKeepsRoot_pure _

theorem opKeepsRoot_CopyTextureSubresource (env : Env) (requiredSize : Nat)
    (texture : Texture) (firstSubresource numSubresources : Nat) :
    Op.KeepsRootCurrent
      (CopyTextureSubresource env requiredSize texture firstSubresource numSubresources) := by
  unfold CopyTextureSubresource
  cases texture.GetD3D12Resource with
  | none => exact opKeepsRoot_pure _
  | some dst =>
    simp only
    refine opKeepsRoot_bind _ _ (opKeepsRoot_onCl _ (by simp)) (fun _ => ?_)
    refine opKeepsRoot_bind _ _ (opKeepsRoot_onCl _ (by simp)) (fun _ => ?_)
    refine opKeepsRoot_bind _ _ (opKeepsRoot_CreateCommittedResource _ _ _ _) (fun i => ?_)
    refine opKeepsRoot_bind _ _ (opKeepsRoot_onCl _ (by simp)) (fun _ => ?_)
    refine opKeepsRoot_bind _ _ (opKeepsRoot_onCl _ (by simp)) (fun _ => ?_)
    exact opKeepsRoot_onCl _ (by simp)

theorem opKeepsRoot_LoadSceneFromFile (aiScene : Bool) (errorMessage : String) :
    Op.KeepsRootCurrent (LoadSceneFromFile aiScene errorMessage) := by
  unfold LoadSceneFromFile
  split
  · exact opKeepsRoot_pure _
  · exact opKeepsRoot_raise _

theorem keepsRootOf_refl (c : CommandList) : c.KeepsRoot c := fun h => h

theorem keepsRootOf_trans {a b c : CommandList} (h1 : a.KeepsRoot b) (h2 : b.KeepsRoot c) :
    a.KeepsRoot c := fun h => h2 (h1 h)

theorem keepsRootOf_recorder (c : CommandList) (r : Recorder)
    (h : c.recorder.RootCurrent → r.RootCurrent) :
    c.KeepsRoot { c with recorder := r } := h

theorem keepsRootOf_onRecorder (f : Recorder → Recorder) (hf : Recorder.KeepsRootCurrent f)
    (w : World) (c : CommandList) : c.KeepsRoot (c.onRecorder f w).2.2 :=
  keepsRootOf_recorder c _ (hf c.recorder)

theorem keepsRootOf_onOwn (op : Op Unit) (hop : Op.KeepsRootCurrent op) (w : World)
    (c : CommandList) : c.KeepsRoot (c.onOwn op w).2.2 := by
  unfold CommandList.onOwn
  exact keepsRootOf_recorder c _ (hop { world := w, cl := c.recorder })

theorem keepsRootOf_forward (env : Env) (op : Op Unit) (w : World) (c : CommandList) :
    c.KeepsRoot (c.forward env op w).2.2 := by
  unfold CommandList.forward CommandList.ensureComputeCommandList
  cases c.m_ComputeCommandList <;> exact fun h => h

theorem keepsRootOf_GenerateMips (env : Env) (texture : Texture) (w : World) (c : CommandList) :
    c.KeepsRoot (c.GenerateMips env texture w).2.2 := by
  unfold CommandList.GenerateMips
  split
  · exact keepsRootOf_forward env _ w c
  · exact keepsRootOf_onOwn _ (opKeepsRoot_GenerateMips_body env texture) w c

theorem keepsRootOf_PanoToCubemap (env : Env) (cubemapTexture panoTexture : Texture) (w : World)
    (c : CommandList) : c.KeepsRoot (c.PanoToCubemap env cubemapTexture panoTexture w).2.2 := by
  unfold CommandList.PanoToCubemap
  split
  · exact keepsRootOf_forward env _ w c
  · exact keepsRootOf_onOwn _ (opKeepsRoot_PanoToCubemap_body env _ _) w c

theorem keepsRootOf_bindTexture (env : Env) (textureUsage : Nat) (resource : D3D12Resource)
    (s : LoadState) : s.commandList.KeepsRoot (s.bindTexture env textureUsage resource).2.commandList := by
  unfold LoadState.bindTexture
  simp only
  split
  · exact keepsRootOf_refl _
  · have h := keepsRootOf_onOwn (Op.CheckFeatureSupport env (some resource))
      (opKeepsRoot_CheckFeatureSupport env _) s.world s.commandList
    generalize s.commandList.onOwn (Op.CheckFeatureSupport env (some resource)) s.world = res at h
    obtain ⟨o, w, c⟩ := res
    cases o <;> exact h

theorem keepsRootOf_loadNew (env : Env) (files : TextureFiles) (fileName : String)
    (textureUsage : Nat) (image : LoadedImage) (s : LoadState) :
    s.commandList.KeepsRoot (s.loadNew env files fileName textureUsage image).2.commandList := by
  unfold LoadState.loadNew
  simp only
  split
  · exact keepsRootOf_refl _
  · rename_i desc0 hdesc
    have h1 := opKeepsRoot_CreateCommittedResource_GetDesc env D3D12_HEAP_TYPE_DEFAULT desc0
      { desc0 with MipLevels := files.GetDesc_MipLevels desc0 } D3D12_RESOURCE_STATE_COMMON
      (St.mk s.world s.commandList.recorder)
    generalize Op.CreateCommittedResource_GetDesc env D3D12_HEAP_TYPE_DEFAULT desc0
      { desc0 with MipLevels := files.GetDesc_MipLevels desc0 } D3D12_RESOURCE_STATE_COMMON
      (St.mk s.world s.commandList.recorder) = res1 at h1
    obtain ⟨o1, s1⟩ := res1
    have e1 : s.commandList.KeepsRoot { s.commandList with recorder := s1.cl } :=
      keepsRootOf_recorder _ _ h1
    cases o1 with
    | error e => exact e1
    | ok textureResource =>
      simp only
      generalize hs2 : ({ s with
        world := s1.world, commandList := { s.commandList with recorder := s1.cl } } :
          LoadState) = s2
      have e1a : s.commandList.KeepsRoot s2.commandList := by
        rw [← hs2]
        exact e1
      have h2 := keepsRootOf_bindTexture env textureUsage textureResource s2
      generalize s2.bindTexture env textureUsage textureResource = res2 at h2
      obtain ⟨o2, s3⟩ := res2
      have e2 := keepsRootOf_trans e1a h2
      cases o2 with
      | error e => exact e2
      | ok u =>
        simp only
        have h3 := keepsRootOf_onOwn
          (do
            Op.AddGlobalResourceState (some textureResource) D3D12_RESOURCE_STATE_COMMON
            CopyTextureSubresource env
              (files.GetRequiredIntermediateSize textureResource 0 (u32 image.imageCount))
              s3.texture 0 (u32 image.imageCount))
          (opKeepsRoot_bind _ _ (opKeepsRoot_AddGlobalResourceState _ _)
            (fun _ => opKeepsRoot_CopyTextureSubresource _ _ _ _ _)) s3.world s3.commandList
        generalize s3.commandList.onOwn
          (do
            Op.AddGlobalResourceState (some textureResource) D3D12_RESOURCE_STATE_COMMON
            CopyTextureSubresource env
              (files.GetRequiredIntermediateSize textureResource 0 (u32 image.imageCount))
              s3.texture 0 (u32 image.imageCount)) s3.world = res3 at h3
        obtain ⟨o3, w3, c3⟩ := res3
        have e3 := keepsRootOf_trans e2 h3
        cases o3 with
        | error e => exact e3
        | ok u3 =>
          simp only
          have h4 : c3.KeepsRoot
              (if image.imageCount < textureResource.desc.MipLevels then
                c3.GenerateMips env s3.texture w3
              else (Except.ok (), w3, c3)).2.2 := by
            split
            · exact keepsRootOf_GenerateMips env _ _ _
            · exact keepsRootOf_refl _
          generalize (if image.imageCount < textureResource.desc.MipLevels then
                c3.GenerateMips env s3.texture w3
              else (Except.ok (), w3, c3)) = res4 at h4
          obtain ⟨o4, w4, c4⟩ := res4
          cases o4 <;> exact keepsRootOf_trans e3 h4

theorem keepsRootOf_LoadTextureFromFile (env : Env) (files : TextureFiles) (fileName : String)
    (textureUsage : Nat) (s : LoadState) :
    s.commandList.KeepsRoot
      (s.LoadTextureFromFile env files fileName textureUsage).2.commandList := by
  unfold LoadState.LoadTextureFromFile
  split
  · exact keepsRootOf_refl _
  · split
    · exact keepsRootOf_bindTexture _ _ _ _
    · split
      · exact keepsRootOf_refl _
      · exact keepsRootOf_loadNew _ _ _ _ _ _

theorem keepsRootOf_perform (env : Env) (op : Operation) (w : World) (c : CommandList) :
    c.KeepsRoot (c.perform env op w).2.2 := by
  cases op with
  | LoadTextureFromFile files fileName textureUsage texture clearValue cache =>
    exact keepsRootOf_LoadTextureFromFile env files fileName textureUsage
      (LoadState.mk texture clearValue cache w c)
  | GenerateMips texture => exact keepsRootOf_GenerateMips env texture w c
  | PanoToCubemap a b => exact keepsRootOf_PanoToCubemap env a b w c
  | GenerateMips_UAV texture isSRGB =>
    exact keepsRootOf_onOwn _ (opKeepsRoot_GenerateMips_UAV env texture isSRGB) w c
  | CopyBuffer a b d f =>
    exact keepsRootOf_onOwn _ (opKeepsRoot_discard _ (opKeepsRoot_CopyBuffer env a b d f)) w c
  | CopyVertexBuffer a b d =>
    exact keepsRootOf_onOwn _ (opKeepsRoot_discard _ (opKeepsRoot_CopyBuffer env _ _ _ _)) w c
  | CopyIndexBuffer a b d =>
    exact keepsRootOf_onOwn _ (opKeepsRoot_discard _ (opKeepsRoot_CopyBuffer env _ _ _ _)) w c
  | CopyByteAddressBuffer a d =>
    exact keepsRootOf_onOwn _ (opKeepsRoot_discard _ (opKeepsRoot_CopyBuffer env _ _ _ _)) w c
  | CopyStructuredBuffer a b d =>
    exact keepsRootOf_onOwn _ (opKeepsRoot_discard _ (opKeepsRoot_CopyBuffer env _ _ _ _)) w c
  | LoadSceneFromFile a m => exact keepsRootOf_onOwn _ (opKeepsRoot_LoadSceneFromFile a m) w c
  | CopyTextureSubresource q t a b =>
    exact keepsRootOf_onOwn _ (opKeepsRoot_CopyTextureSubresource env q t a b) w c
  | Close_pending pendingCommandList =>
    exact keepsRootOf_recorder c _
      (fun h => rootCurrent_of_eq (rootState_Close_pending _ _ _) h)
  | _ =>
    first
      | exact keepsRootOf_onRecorder _ (by simp) w c
      | exact keepsRootOf_onRecorder _ (keepsRoot_same _ (fun r => by
          simp [Recorder.SetPrimitiveTopology, Recorder.SetGraphicsDynamicConstantBuffer,
            Recorder.SetGraphics32BitConstants, Recorder.SetCompute32BitConstants,
            Recorder.SetDynamicVertexBuffer, Recorder.SetDynamicIndexBuffer,
            Recorder.SetGraphicsDynamicStructuredBuffer, Recorder.SetViewports,
            Recorder.SetViewport, Recorder.SetScissorRects, Recorder.SetScissorRect])) w c

theorem keepsRootOf_performAll (env : Env) (ops : List Operation) (w : World) (c : CommandList) :
    c.KeepsRoot (CommandList.performAll env ops w c).2 := by
  induction ops generalizing w c with
  | nil => exact keepsRootOf_refl c
  | cons op rest ih =>
    exact keepsRootOf_trans (keepsRootOf_perform env op w c) (ih _ _)

theorem rootCurrent_Reset (c : CommandList) :
    (c.Reset true true).2.recorder.RootCurrent := by
  unfold Recorder.RootCurrent
  have h1 : (c.Reset true true).2.recorder.m_RootSignature = none := rfl
  have h2 : rootSignatureCalls (c.Reset true true).2.recorder.log = [] := by
    simp [CommandList.Reset, Recorder.ReleaseTrackedObjects, Recorder.resetDescriptorHeaps,
      Recorder.emit, Recorder.record, List.range, List.range.loop,
      D3D12_DESCRIPTOR_HEAP_TYPE_NUM_TYPES, rootSignatureCalls, rootCallStep,
      List.foldl_append]
  rw [h1, h2]
  rfl

theorem rootCurrent_last (r : Recorder) (S : Nat) (hr : r.RootCurrent)
    (hs : r.m_RootSignature = some S) :
    ∃ b, (rootSignatureCalls r.log).getLast? = some (b, some S) := by
  unfold Recorder.RootCurrent at hr
  rw [hs] at hr
  cases hl : (rootSignatureCalls r.log).getLast? with
  | none => rw [hl] at hr; cases hr
  | some p =>
    rw [hl] at hr
    obtain ⟨b, T⟩ := p
    simp only [Option.map_some', Option.getD_some] at hr
    exact ⟨b, by rw [← hr]⟩

/-- C25, amended.  After a `Reset` that returned and any sequence of
operations, the current root signature of the recorder is the one last set on
the underlying list since that `Reset`, on either bind point.  So when
`SetComputeRootSignature(S)` or `SetGraphicsRootSignature(S)` returns, for a
non-null `S`, the root signature last set on the underlying list since the
`Reset` is `S`, on one of the two bind points; it is set on the bind point of
the setter when `S` was not the current root signature at the call, and
whenever `S` has not been set on the other bind point since the `Reset`; and
when `S` was the current root signature the call changes nothing. -/
theorem C25_root_signature_last_set (env : Env) (c : CommandList)
    (allocatorReset commandListReset : Bool)
    (h : (c.Reset allocatorReset commandListReset).1 = Except.ok ())
    (ops : List Operation) (w : World) (S : Nat) :
    let r := (CommandList.performAll env ops w
      (c.Reset allocatorReset commandListReset).2).2.recorder
    r.RootCurrent ∧
    (∃ b, (rootSignatureCalls (r.SetComputeRootSignature (some S)).log).getLast? =
      some (b, some S)) ∧
    (∃ b, (rootSignatureCalls (r.SetGraphicsRootSignature (some S)).log).getLast? =
      some (b, some S)) ∧
    (r.m_RootSignature ≠ some S →
      (rootSignatureCalls (r.SetComputeRootSignature (some S)).log).getLast? =
        some (RootBindPoint.compute, some S) ∧
      (rootSignatureCalls (r.SetGraphicsRootSignature (some S)).log).getLast? =
        some (RootBindPoint.graphics, some S)) ∧
    ((RootBindPoint.graphics, some S) ∉ rootSignatureCalls r.log →
      (RootBindPoint.compute, some S) ∈
        rootSignatureCalls (r.SetComputeRootSignature (some S)).log) ∧
    ((RootBindPoint.compute, some S) ∉ rootSignatureCalls r.log →
      (RootBindPoint.graphics, some S) ∈
        rootSignatureCalls (r.SetGraphicsRootSignature (some S)).log) ∧
    (r.m_RootSignature = some S →
      r.SetComputeRootSignature (some S) = r ∧ r.SetGraphicsRootSignature (some S) = r) := by
  intro r
  have hab : allocatorReset = true ∧ commandListReset = true := by
    cases allocatorReset <;> cases commandListReset <;> simp [CommandList.Reset] at h ⊢
  have hr : r.RootCurrent := by
    show (CommandList.performAll env ops w
      (c.Reset allocatorReset commandListReset).2).2.recorder.RootCurrent
    rw [hab.1, hab.2]
    exact keepsRootOf_performAll env ops w _ (rootCurrent_Reset c)
  have hc := rootState_SetComputeRootSignature (some S) r
  have hg := rootState_SetGraphicsRootSignature (some S) r
  simp only [Recorder.rootState] at hc hg
  by_cases hs : r.m_RootSignature = some S
  · rw [if_pos hs] at hc hg
    simp only [Prod.mk.injEq] at hc hg
    obtain ⟨b, hb⟩ := rootCurrent_last r S hr hs
    have hmem : (b, some S) ∈ rootSignatureCalls r.log := List.mem_of_getLast?_eq_some hb
    refine ⟨hr, ⟨b, by rw [hc.2]; exact hb⟩, ⟨b, by rw [hg.2]; exact hb⟩,
      fun hne => absurd hs hne, fun hno => ?_, fun hno => ?_, fun _ => ?_⟩
    · rw [hc.2]
      cases b with
      | graphics => exact absurd hmem hno
      | compute => exact hmem
    · rw [hg.2]
      cases b with
      | graphics => exact hmem
      | compute => exact absurd hmem hno
    · simp [Recorder.SetComputeRootSignature, Recorder.SetGraphicsRootSignature, hs]
  · rw [if_neg hs] at hc hg
    simp only [Prod.mk.injEq] at hc hg
    refine ⟨hr, ⟨RootBindPoint.compute, by rw [hc.2]; simp⟩,
      ⟨RootBindPoint.graphics, by rw [hg.2]; simp⟩,
      fun _ => ⟨by rw [hc.2]; simp, by rw [hg.2]; simp⟩, fun _ => ?_, fun _ => ?_,
      fun he => absurd he hs⟩
    · rw [hc.2]; simp
    · rw [hg.2]; simp

/-- Claim C25 as stated fails: after a `Reset` and
`SetGraphicsRootSignature(7)`, the call `SetComputeRootSignature(7)` returns
having recorded nothing, and the underlying list has had no compute root
signature set. -/
theorem C25_counterexample :
    (sampleDirectList.Reset true true).1 = Except.ok () ∧
    ((CommandList.performAll sampleEnv [Operation.SetGraphicsRootSignature (some 7)]
        sampleSt.world (sampleDirectList.Reset true true).2).2.recorder.SetComputeRootSignature
          (some 7)) =
      (CommandList.performAll sampleEnv [Operation.SetGraphicsRootSignature (some 7)]
        sampleSt.world (sampleDirectList.Reset true true).2).2.recorder ∧
    Event.Command (Command.SetComputeRootSignature (some 7)) ∉
      ((CommandList.performAll sampleEnv [Operation.SetGraphicsRootSignature (some 7)]
        sampleSt.world (sampleDirectList.Reset true true).2).2.recorder.SetComputeRootSignature
          (some 7)).log ∧
    rootSignatureCalls
      ((CommandList.performAll sampleEnv [Operation.SetGraphicsRootSignature (some 7)]
        sampleSt.world (sampleDirectList.Reset true true).2).2.recorder.SetComputeRootSignature
          (some 7)).log = [(RootBindPoint.graphics, some 7)] := by
  refine ⟨rfl, rfl, ?_, rfl⟩
  decide

/-- The amended claim C25 at the sequence of the counterexample: the root
signature last set is 7, on the graphics bind point. -/
theorem C25_root_signature_last_set_witness :
    (sampleDirectList.Reset true true).1 = Except.ok () ∧
    ∃ b, (rootSignatureCalls
      ((CommandList.performAll sampleEnv [Operation.SetGraphicsRootSignature (some 7)]
        sampleSt.world (sampleDirectList.Reset true true).2).2.recorder.SetComputeRootSignature
          (some 7)).log).getLast? = some (b, some 7) :=
  ⟨rfl, (C25_root_signature_last_set sampleEnv sampleDirectList true true rfl
    [Operation.SetGraphicsRootSignature (some 7)] sampleSt.world 7).2.1⟩

theorem GetMultisampleQualityLevels_loop_spec (support : Nat → Bool × Nat) (numSamples : Nat)
    (hn : numSamples < 4294967296)
    (h0 : 2147483648 ≤ numSamples → (∀ i, i ≤ 31 → multisampleSupported support (2 ^ i)) →
      ¬ multisampleSupported support 0)
    (fuel k : Nat) (hk : k ≤ 32) (hf : 32 - k < fuel) (d : DXGI_SAMPLE_DESC)
    (hprev : ∀ i, i < k → 2 ^ i ≤ numSamples ∧ multisampleSupported support (2 ^ i)) :
    (¬ (2 ^ k ≤ numSamples ∧ multisampleSupported support (2 ^ k)) ∧
      Device.GetMultisampleQualityLevels_loop support numSamples fuel (u32 (2 ^ k)) d =
        some d) ∨
    (∃ k1, k ≤ k1 ∧ k1 ≤ 31 ∧
      (∀ i, k ≤ i → i ≤ k1 → 2 ^ i ≤ numSamples ∧ multisampleSupported support (2 ^ i)) ∧
      ¬ (2 ^ (k1 + 1) ≤ numSamples ∧ multisampleSupported support (2 ^ (k1 + 1))) ∧
      Device.GetMultisampleQualityLevels_loop support numSamples fuel (u32 (2 ^ k)) d =
        some { Count := 2 ^ k1, Quality := u32 (support (2 ^ k1)).2 - 1 }) := by
  induction fuel generalizing k d with
  | zero => omega
  | succ fuel ih =>
    by_cases h32 : k = 32
    · subst h32
      left
      have hz : u32 (2 ^ 32) = 0 := by decide
      refine ⟨fun h => ?_, ?_⟩
      · have : (2:Nat) ^ 32 = 4294967296 := by norm_num
        omega
      · rw [hz]
        simp only [Device.GetMultisampleQualityLevels_loop]
        have h31 := (hprev 31 (by omega)).1
        have hp : (2:Nat) ^ 31 = 2147483648 := by norm_num
        have hc : ¬ (0 ≤ numSamples ∧ (support 0).1 = true ∧ u32 (support 0).2 > 0) :=
          fun h => h0 (by omega) (fun i hi => (hprev i (by omega)).2) h.2
        rw [if_neg hc]
    · have hk31 : k ≤ 31 := by omega
      have hlt : 2 ^ k < 4294967296 := by
        have : (2:Nat) ^ k ≤ 2 ^ 31 := Nat.pow_le_pow_right (by norm_num) hk31
        have : (2:Nat) ^ 31 = 2147483648 := by norm_num
        omega
      have hu : u32 (2 ^ k) = 2 ^ k := u32_of_lt hlt
      rw [hu]
      simp only [Device.GetMultisampleQualityLevels_loop]
      by_cases hc : 2 ^ k ≤ numSamples ∧ (support (2 ^ k)).1 = true ∧
          u32 (support (2 ^ k)).2 > 0
      · rw [if_pos hc]
        have hd : 2 ^ k * 2 = 2 ^ (k + 1) := by rw [Nat.pow_succ]
        rw [hd]
        have hsup : multisampleSupported support (2 ^ k) := hc.2
        have hnext : ∀ i, i < k + 1 →
            2 ^ i ≤ numSamples ∧ multisampleSupported support (2 ^ i) := by
          intro i hi
          by_cases hik : i = k
          · subst hik
            exact ⟨hc.1, hsup⟩
          · exact hprev i (by omega)
        rcases ih (k + 1) (by omega) (by omega)
          { Count := 2 ^ k, Quality := u32 (support (2 ^ k)).2 - 1 } hnext with
          ⟨hstop, hres⟩ | h
        · right
          refine ⟨k, Nat.le_refl k, hk31, fun i hi1 hi2 => ?_, hstop, hres⟩
          have : i = k := by omega
          subst this
          exact ⟨hc.1, hsup⟩
        · obtain ⟨k1, hk1, hk2, hall, hstop, hres⟩ := h
          right
          refine ⟨k1, by omega, hk2, fun i hi1 hi2 => ?_, hstop, hres⟩
          by_cases hik : i = k
          · subst hik
            exact ⟨hc.1, hsup⟩
          · exact hall i (by omega) hi2
      · rw [if_neg hc]
        left
        exact ⟨hc, rfl⟩

/-- C29: `Device::GetMultisampleQualityLevels`, for a `UINT` `numSamples`,
returns (the loop ends within 33 tests of its condition); where the doubling
of the `UINT` sample count wraps to 0, which takes `numSamples` of `2 ^ 31` or
more and a device that supports every power of two up to `2 ^ 31`, the device
is taken not to support a sample count of 0.  It returns `{1, 0}` when
`numSamples` is 0
or the sample count 1 is not supported with at least one quality level;
otherwise `Count` is a power of two `2 ^ k` at most `numSamples` such that
every power of two from 1 to `2 ^ k` is supported with at least one quality
level, `k` is the largest such exponent, and `Quality` is the number of
quality levels reported for `2 ^ k`, less one. -/
theorem C29_GetMultisampleQualityLevels (CheckFeatureSupport : Nat → Nat → Nat → Bool × Nat)
    (format numSamples flags fuel : Nat) (hn : numSamples < 4294967296)
    (h0 : 2147483648 ≤ numSamples →
      (∀ i, i ≤ 31 → multisampleSupported (CheckFeatureSupport format flags) (2 ^ i)) →
      ¬ multisampleSupported (CheckFeatureSupport format flags) 0)
    (hf : 33 ≤ fuel) :
    ∃ d, Device.GetMultisampleQualityLevels CheckFeatureSupport format numSamples flags fuel =
        some d ∧
      ((numSamples = 0 ∨ ¬ multisampleSupported (CheckFeatureSupport format flags) 1) →
        d = { Count := 1, Quality := 0 }) ∧
      (numSamples ≠ 0 → multisampleSupported (CheckFeatureSupport format flags) 1 →
        ∃ k, d.Count = 2 ^ k ∧ 2 ^ k ≤ numSamples ∧
          (∀ i, i ≤ k → multisampleSupported (CheckFeatureSupport format flags) (2 ^ i)) ∧
          (∀ j, 2 ^ j ≤ numSamples →
            (∀ i, i ≤ j → multisampleSupported (CheckFeatureSupport format flags) (2 ^ i)) →
            j ≤ k) ∧
          d.Quality = u32 (CheckFeatureSupport format flags (2 ^ k)).2 - 1) := by
  have h := GetMultisampleQualityLevels_loop_spec (CheckFeatureSupport format flags) numSamples
    hn h0 fuel 0 (by omega) (by omega) { Count := 1, Quality := 0 }
    (fun i hi => absurd hi (Nat.not_lt_zero i))
  have hu : u32 (2 ^ 0) = 1 := by decide
  rw [hu] at h
  unfold Device.GetMultisampleQualityLevels
  rcases h with ⟨hstop, hres⟩ | ⟨k1, _, hk2, hall, hstop, hres⟩
  · refine ⟨_, hres, fun _ => rfl, fun hne hsup => ?_⟩
    exact absurd ⟨by simp only [Nat.pow_zero]; omega, hsup⟩ hstop
  · refine ⟨_, hres, fun hor => ?_, fun _ _ => ?_⟩
    · have h1 := hall 0 (Nat.le_refl 0) (Nat.zero_le _)
      simp only [Nat.pow_zero] at h1
      rcases hor with hz | hns
      · omega
      · exact absurd h1.2 hns
    · refine ⟨k1, rfl, (hall k1 (Nat.zero_le _) (Nat.le_refl _)).1,
        fun i hi => (hall i (Nat.zero_le _) hi).2, fun j hj hsj => ?_, rfl⟩
      by_contra hlt
      have hle : k1 + 1 ≤ j := by omega
      have hp : 2 ^ (k1 + 1) ≤ 2 ^ j := Nat.pow_le_pow_right (by norm_num) hle
      exact hstop ⟨by omega, hsj (k1 + 1) hle⟩

/-- Claim C29 at the sample device, which supports the sample counts 1, 2, 4
and 8 with 3 quality levels, for 32 samples asked: the result is `{8, 2}`. -/
theorem C29_GetMultisampleQualityLevels_witness :
    Device.GetMultisampleQualityLevels sampleMultisample 28 32 0 33 =
      some { Count := 8, Quality := 2 } ∧
    ∃ d, Device.GetMultisampleQualityLevels sampleMultisample 28 32 0 33 = some d ∧
      ((32 = 0 ∨ ¬ multisampleSupported (sampleMultisample 28 0) 1) →
        d = { Count := 1, Quality := 0 }) ∧
      ((32 : Nat) ≠ 0 → multisampleSupported (sampleMultisample 28 0) 1 →
        ∃ k, d.Count = 2 ^ k ∧ 2 ^ k ≤ 32 ∧
          (∀ i, i ≤ k → multisampleSupported (sampleMultisample 28 0) (2 ^ i)) ∧
          (∀ j, 2 ^ j ≤ 32 →
            (∀ i, i ≤ j → multisampleSupported (sampleMultisample 28 0) (2 ^ i)) →
            j ≤ k) ∧
          d.Quality = u32 (sampleMultisample 28 0 (2 ^ k)).2 - 1) :=
  ⟨by decide, C29_GetMultisampleQualityLevels sampleMultisample 28 32 0 33 (by decide)
    (fun h => absurd h (by decide)) (by decide)⟩

theorem WaitForFenceValue_spec (fenceValue completed : Nat) (setEventOk : Bool) (reached : Nat)
    (a : App) :
    (a.WaitForFenceValue fenceValue completed setEventOk reached).1 =
      (if completed < fenceValue ∧ setEventOk = false then Except.error Err.ThrowIfFailed
       else Except.ok ()) ∧
    (a.WaitForFenceValue fenceValue completed setEventOk reached).2 =
      { a with log := a.log ++
        ([AppEvent.GetCompletedValue (u32 (1 <<< a.activeNodeIndex)) completed] ++
         (if completed < fenceValue then
            [AppEvent.SetEventOnCompletion fenceValue setEventOk] ++
              (if setEventOk then [AppEvent.WaitForSingleObject reached] else [])
          else [])) } := by
  by_cases h : completed < fenceValue <;> cases setEventOk <;>
    simp [App.WaitForFenceValue, App.emit, h]

theorem recordFrame_log (sw : Nat → Nat) (input : RenderInput) (a : App) :
    ∃ rest, (a.recordFrame sw input).2.log =
        a.log ++ AppEvent.CommandAllocatorReset a.g_FrameIndex input.allocatorResetOk :: rest ∧
      (input.allocatorResetOk = true →
        ∃ rest1, rest =
          AppEvent.CommandListReset a.g_FrameIndex input.commandListResetOk :: rest1) := by
  obtain ⟨b, c, e, r, ar, cr, ⟨i, p, s⟩⟩ := input
  by_cases h0 : sw a.activeNodeIndex = 0 <;>
    cases ar <;> cases cr <;> cases p <;> cases s <;>
    simp [App.recordFrame, App.emit, App.Present, App.Signal, h0]

theorem Render_after_wait (sw : Nat → Nat) (input : RenderInput) (a : App)
    (res : Except Err Unit × App)
    (hres : res = a.WaitForFenceValue (a.g_FenceValues.getD input.backBufferIndex 0)
      input.completed input.setEventOk input.reached) :
    (res.1 ≠ Except.ok () → (a.Render sw input).2.log = res.2.log) ∧
    (res.1 = Except.ok () → a.Render sw input = res.2.recordFrame sw input) := by
  unfold App.Render
  rw [← hres]
  obtain ⟨o, a1⟩ := res
  cases o with
  | error e => exact ⟨fun _ => rfl, fun h => by cases h⟩
  | ok u => exact ⟨fun h => absurd rfl h, fun _ => rfl⟩

/-- C21: `WaitForFenceValue` reads the completed value of the fence and, when
it is below the requested value, sets the event on completion and (that call
succeeding) blocks in `WaitForSingleObject`; otherwise it returns at once.  In
`Render` these calls, made for the fence value stored for the current back
buffer, come first, none of them is a reset, and the reset of the frame's
command allocator, followed by that of the command list, is the next call
when the wait returns; when the wait throws nothing follows.  With an event
that is signalled once the fence has reached the requested value, the
completed value last reported before the allocator is reset is at least the
stored fence value. -/
theorem C21_wait_before_reset (SwitchToNextNode : Nat → Nat) (input : RenderInput) (a : App)
    (hidx : input.backBufferIndex < a.g_FenceValues.length)
    (hwake : input.completed < a.g_FenceValues.getD input.backBufferIndex 0 →
      a.g_FenceValues.getD input.backBufferIndex 0 ≤ input.reached) :
    let stored := a.g_FenceValues.getD input.backBufferIndex 0
    let waited := a.WaitForFenceValue stored input.completed input.setEventOk input.reached
    let waitCalls := waited.2.log.drop a.log.length
    a.g_FenceValues[input.backBufferIndex]? = some stored ∧
    (AppEvent.WaitForSingleObject input.reached ∈ waitCalls ↔
      input.completed < stored ∧ input.setEventOk = true) ∧
    ((∃ ok, AppEvent.SetEventOnCompletion stored ok ∈ waitCalls) ↔ input.completed < stored) ∧
    (waited.1 = Except.ok () ↔ ¬ (input.completed < stored ∧ input.setEventOk = false)) ∧
    waited.2.log = a.log ++ waitCalls ∧
    (∀ e, e ∈ waitCalls → e.isReset = false) ∧
    (waited.1 ≠ Except.ok () → (a.Render SwitchToNextNode input).2.log = waited.2.log) ∧
    (waited.1 = Except.ok () →
      ∃ rest, (a.Render SwitchToNextNode input).2.log =
        waited.2.log ++
          AppEvent.CommandAllocatorReset a.g_FrameIndex input.allocatorResetOk :: rest ∧
        (input.allocatorResetOk = true →
          ∃ rest1, rest =
            AppEvent.CommandListReset a.g_FrameIndex input.commandListResetOk :: rest1)) ∧
    (waited.1 = Except.ok () →
      ∃ v, completedValueSeen waitCalls = some v ∧ stored ≤ v) := by
  intro stored waited waitCalls
  obtain ⟨w1, w2⟩ := WaitForFenceValue_spec stored input.completed input.setEventOk
    input.reached a
  have hcalls : waitCalls =
      [AppEvent.GetCompletedValue (u32 (1 <<< a.activeNodeIndex)) input.completed] ++
         (if input.completed < stored then
            [AppEvent.SetEventOnCompletion stored input.setEventOk] ++
              (if input.setEventOk then [AppEvent.WaitForSingleObject input.reached] else [])
          else []) := by
    show waited.2.log.drop a.log.length = _
    rw [w2]
    simp
  have hlog : waited.2.log = a.log ++ waitCalls := by
    rw [hcalls, w2]
  have hstored : a.g_FenceValues[input.backBufferIndex]? = some stored := by
    show _ = some (a.g_FenceValues.getD input.backBufferIndex 0)
    rw [List.getD_eq_getElem?_getD, List.getElem?_eq_getElem hidx]
    rfl
  refine ⟨hstored, ?_, ?_, ?_, hlog, ?_, ?_, ?_, ?_⟩
  · rw [hcalls]
    by_cases h : input.completed < stored <;> cases hs : input.setEventOk <;> simp [h]
  · rw [hcalls]
    by_cases h : input.completed < stored <;> simp [h]
  · rw [w1]
    by_cases h : input.completed < stored <;> cases hs : input.setEventOk <;> simp [h]
  · rw [hcalls]
    by_cases h : input.completed < stored <;> cases hs : input.setEventOk <;>
      simp [h, AppEvent.isReset]
  · intro hne
    exact (Render_after_wait SwitchToNextNode input a waited rfl).1 hne
  · intro hok
    rw [(Render_after_wait SwitchToNextNode input a waited rfl).2 hok]
    have hf : waited.2.g_FrameIndex = a.g_FrameIndex := by rw [w2]
    have h := recordFrame_log SwitchToNextNode input waited.2
    rw [hf] at h
    exact h
  · intro hok
    rw [w1] at hok
    rw [hcalls]
    by_cases h : input.completed < stored
    · cases hs : input.setEventOk with
      | false => simp [h, hs] at hok
      | true =>
        refine ⟨input.reached, ?_, hwake h⟩
        simp [completedValueSeen, AppEvent.completedValue, h]
    · refine ⟨input.completed, ?_, by omega⟩
      simp [completedValueSeen, AppEvent.completedValue, h]

/-- Claim C21 at the sample call of `Render`: the fence has completed 3, below
the 5 stored for back buffer 1, so the call blocks, and the wait returns with
the fence at 5 before the allocator is reset. -/
theorem C21_wait_before_reset_witness :
    sampleRender.backBufferIndex < sampleApp.g_FenceValues.length ∧
    (sampleRender.completed < sampleApp.g_FenceValues.getD sampleRender.backBufferIndex 0 →
      sampleApp.g_FenceValues.getD sampleRender.backBufferIndex 0 ≤ sampleRender.reached) ∧
    (AppEvent.WaitForSingleObject 5 ∈
      (sampleApp.WaitForFenceValue 5 3 true 5).2.log.drop sampleApp.log.length ↔
        3 < 5 ∧ true = true) ∧
    ∃ v, completedValueSeen
        ((sampleApp.WaitForFenceValue 5 3 true 5).2.log.drop sampleApp.log.length) = some v ∧
      5 ≤ v :=
  ⟨by decide, by decide,
    (C21_wait_before_reset switchOfTwo sampleRender sampleApp (by decide) (by decide)).2.1,
    (C21_wait_before_reset switchOfTwo sampleRender sampleApp (by decide)
      (by decide)).2.2.2.2.2.2.2.2 rfl⟩

end DX12Lib
